import Mathlib

/-!
# MacFUSE ticket engine (`core/10.5/fusefs/fuse_ipc.c`)

A shallow embedding of the ticket allocator, the two transport queues, the
reply body validator, the wait for an answer and the dispatcher of
`fuse_ipc.c`, and of the directory reading, the strategy routine, the callback
of the handshake and the creation of an entry of
`core/10.4/fusefs/fuse_internal.c`, followed by the properties proved about
them.

Conventions of the embedding.

* A `struct fuse_ticket *` is a natural number (the address); `0` is `NULL`.
  The live ticket objects are the entries of `World.heap`.
* The four `STAILQ`/`TAILQ` lists of `struct fuse_data` are lists of addresses,
  head first.
* The session, the ticket heap, the answers the environment will give
  (allocator, `fuse_msleep`) and the log of wake-ups form a `World`; every
  function maps a `World` to an `Outcome`: it returns, it panics, or it
  dereferences a pointer that is not a live ticket.
* Locks are not represented: the functions are embedded as they run when no
  other thread interleaves.  The diagnostic counters `fuse_iov_current` and
  `fuse_tickets_current`, and `selwakeup` (compiled only under
  `M_MACFUSE_ENABLE_DSELECT`), are left out.
* `fuse_ipc.h`, `fuse_kernel.h` and `fuse_sysctl.h` are not among the sources:
  the constants, tunables, structure sizes and field accessors they declare are
  the fields of `Config`.
-/

namespace Fuse

/-! ## Constants of the platform -/

/-- Darwin errno `ENOMEM`. -/
def ENOMEM : Nat := 12
/-- Darwin errno `EINVAL`. -/
def EINVAL : Nat := 22
/-- Darwin errno `ENOTCONN`. -/
def ENOTCONN : Nat := 57
/-- Darwin errno `EAGAIN` (the same as `EWOULDBLOCK`). -/
def EAGAIN : Nat := 35
/-- Darwin errno `EINTR`. -/
def EINTR : Nat := 4
/-- Darwin errno `ENXIO`. -/
def ENXIO : Nat := 6
/-- Mach return code `KERN_SUCCESS`. -/
def KERN_SUCCESS : Nat := 0
/-- Mach return code `KERN_FAILURE`. -/
def KERN_FAILURE : Nat := 5
/-- Alert response `kKUNCDefaultResponse`. -/
def kKUNCDefaultResponse : Nat := 0
/-- Alert response `kKUNCAlternateResponse`. -/
def kKUNCAlternateResponse : Nat := 1
/-- Alert response `kKUNCOtherResponse`. -/
def kKUNCOtherResponse : Nat := 2
/-- Alert response `kKUNCCancelResponse`. -/
def kKUNCCancelResponse : Nat := 3

/-- Modelled from the spec: `enum fuse_opcode` of `fuse_kernel.h`, which is not
among the sources.  One constructor for each case label of the switch in
`fuse_body_audit`; `other n` is an opcode value `n` that is none of them. -/
inductive fuse_opcode where
  | FUSE_LOOKUP | FUSE_FORGET | FUSE_GETATTR | FUSE_SETATTR | FUSE_GETXTIMES
  | FUSE_READLINK | FUSE_SYMLINK | FUSE_MKNOD | FUSE_MKDIR | FUSE_UNLINK
  | FUSE_RMDIR | FUSE_RENAME | FUSE_LINK | FUSE_OPEN | FUSE_READ | FUSE_WRITE
  | FUSE_STATFS | FUSE_RELEASE | FUSE_FSYNC | FUSE_SETXATTR | FUSE_GETXATTR
  | FUSE_LISTXATTR | FUSE_REMOVEXATTR | FUSE_FLUSH | FUSE_INIT | FUSE_OPENDIR
  | FUSE_READDIR | FUSE_RELEASEDIR | FUSE_FSYNCDIR | FUSE_GETLK | FUSE_SETLK
  | FUSE_SETLKW | FUSE_ACCESS | FUSE_CREATE | FUSE_INTERRUPT | FUSE_BMAP
  | FUSE_DESTROY | FUSE_EXCHANGE | FUSE_SETVOLNAME
  | other (n : Nat)
deriving DecidableEq, Repr

/-- The fields `fuse_setup_ihead` writes into a `struct fuse_in_header`. -/
structure fuse_in_header where
  len : Nat
  opcode : fuse_opcode
  unique : Nat
  nodeid : Nat
  uid : Nat
  gid : Nat
  pid : Nat
deriving DecidableEq, Repr

/-- Modelled from the spec: the fields of `struct fuse_dirent` of
`fuse_kernel.h`, which is not among the sources, that precede the name of a
directory record of the protocol. -/
structure fuse_dirent where
  ino : Nat
  off : Nat
  namelen : Nat
  type : Nat
deriving DecidableEq, Repr

/-- The fields of the `struct dirent` of the kernel that precede the name. -/
structure dirent where
  d_fileno : Nat
  d_reclen : Nat
  d_type : Nat
  d_namlen : Nat
deriving DecidableEq, Repr

/-- Modelled from the spec: what `fuse_ipc.c` and `fuse_internal.c` take from
`fuse_ipc.h`, `fuse_kernel.h`, `fuse_sysctl.h`, `fuse_internal.h` and the
machine, none of which is among the sources: flag bits, tunables, structure
sizes, and the access to the fields of the wire structures inside a byte
buffer. -/
structure Config where
  /-- Width in bits of a kernel address. -/
  word_bits : Nat
  /-- Ticket flag: the request has been answered. -/
  FT_ANSW : Nat
  /-- Ticket flag: the ticket is invalidated. -/
  FT_INVAL : Nat
  /-- Ticket flag: the ticket has been used. -/
  FT_DIRTY : Nat
  /-- Ticket flag: the ticket is to be destroyed when dropped. -/
  FT_KILLL : Nat
  /-- Session flag: the session is dead. -/
  FSESS_DEAD : Nat
  /-- Session flag: the handshake has completed. -/
  FSESS_INITED : Nat
  /-- Session flag: the session has been kicked. -/
  FSESS_KICK : Nat
  /-- Session flag: no alert is shown when the daemon times out. -/
  FSESS_NO_ALERTS : Nat
  /-- Mount state of a session that is not mounted. -/
  FM_NOTMOUNTED : Nat
  /-- Timeout status: no timeout is being handled. -/
  FUSE_DAEMON_TIMEOUT_NONE : Nat
  /-- Timeout status: a timeout is being handled. -/
  FUSE_DAEMON_TIMEOUT_PROCESSING : Nat
  /-- Timeout status: the daemon has been given up. -/
  FUSE_DAEMON_TIMEOUT_DEAD : Nat
  /-- Tunable `fuse_max_tickets`, as the unsigned 64-bit value it is compared as. -/
  fuse_max_tickets : Nat
  /-- Tunable `fuse_max_freetickets`. -/
  fuse_max_freetickets : Int
  /-- Tunable `fuse_iov_credit`. -/
  fuse_iov_credit : Int
  /-- Tunable `fuse_iov_permanent_bufsize`. -/
  fuse_iov_permanent_bufsize : Int
  /-- The macro `FU_AT_LEAST`. -/
  FU_AT_LEAST : Nat → Nat
  PAGE_SIZE : Nat
  FUSE_COMPAT_STATFS_SIZE : Nat
  sizeof_fuse_in_header : Nat
  sizeof_fuse_entry_out : Nat
  sizeof_fuse_attr_out : Nat
  sizeof_fuse_getxtimes_out : Nat
  sizeof_fuse_open_out : Nat
  sizeof_fuse_write_out : Nat
  sizeof_fuse_statfs_out : Nat
  sizeof_fuse_init_out : Nat
  /-- Reading the `struct fuse_in_header` that starts a buffer. -/
  ihead_load : List Nat → fuse_in_header
  /-- Writing the seven fields of a `struct fuse_in_header` at the start of a
  buffer. -/
  ihead_store : fuse_in_header → List Nat → List Nat
  /-- Reading the field `size` of the `struct fuse_read_in` that starts a
  buffer. -/
  read_in_size : List Nat → Nat
  /-- Build option `M_MACFUSE_ENABLE_KUNC`: a timeout is reported to the user
  through an alert panel. -/
  M_MACFUSE_ENABLE_KUNC : Bool
  /-- Build option `M_MACFUSE_ENABLE_INTERRUPT`: an interrupted wait sends a
  `FUSE_INTERRUPT` request. -/
  M_MACFUSE_ENABLE_INTERRUPT : Bool
  sizeof_fuse_interrupt_in : Nat
  /-- Writing the field `unique` of the `struct fuse_interrupt_in` that starts
  a buffer. -/
  interrupt_in_store : Nat → List Nat → List Nat
  /-- Build option `DONT_TRY_HARD_PREVENT_IO_IN_VAIN`: when it is defined
  `fdisp_wait_answ` leaves the handler of an interrupted request in place. -/
  DONT_TRY_HARD_PREVENT_IO_IN_VAIN : Bool
  /-- The macro `FUSE_NAME_OFFSET`: the offset of the name in a directory
  record of the protocol. -/
  FUSE_NAME_OFFSET : Nat
  /-- The macro `FUSE_DIRENT_SIZE`: the size of the directory record of the
  protocol whose name has the given length. -/
  FUSE_DIRENT_SIZE : Nat → Nat
  /-- Reading the fields of the `struct fuse_dirent` that starts a buffer. -/
  fuse_dirent_load : List Nat → fuse_dirent
  /-- Writing the four fields of a `struct dirent` at the start of a buffer. -/
  dirent_store : dirent → List Nat → List Nat
  /-- Function `fuse_skip_apple_special_mp` of `fuse_internal.h`, for the flags
  of the session and a name. -/
  fuse_skip_apple_special_mp : Nat → List Nat → Bool
  sizeof_fuse_read_in : Nat
  /-- Writing the fields `fh`, `offset` and `size` of the `struct fuse_read_in`
  that starts a buffer. -/
  read_in_store : Nat → Nat → Nat → List Nat → List Nat
  sizeof_fuse_write_in : Nat
  /-- Writing the fields `fh`, `offset` and `size` of the `struct fuse_write_in`
  that starts a buffer. -/
  write_in_store : Nat → Nat → Nat → List Nat → List Nat
  /-- Reading the field `size` of the `struct fuse_write_out` that starts a
  buffer. -/
  write_out_size : List Nat → Nat
  /-- Whether that field `size` has an unsigned 32-bit type, the `__u32` the
  protocol gives it, so that C subtracts it from an `int` in unsigned
  arithmetic. -/
  write_out_size_unsigned : Bool
  /-- Reading the field `major` of the `struct fuse_init_out` that starts a
  buffer. -/
  init_out_major : List Nat → Nat
  /-- Reading the field `minor` of the `struct fuse_init_out` that starts a
  buffer. -/
  init_out_minor : List Nat → Nat
  /-- Reading the field `max_write` of the `struct fuse_init_out` that starts a
  buffer. -/
  init_out_max_write : List Nat → Nat
  /-- Reading the field `nodeid` of the `struct fuse_entry_out` that starts a
  buffer. -/
  entry_out_nodeid : List Nat → Nat
  sizeof_fuse_forget_in : Nat
  /-- Writing the field `nlookup` of the `struct fuse_forget_in` that starts a
  buffer. -/
  forget_in_store : Nat → List Nat → List Nat

/-! ## Data model -/

/-- The `struct fuse_iov`: `base` is the content of the backing allocation. -/
structure fuse_iov where
  base : List Nat
  len : Nat
  allocated_size : Nat
  credit : Int
deriving DecidableEq, Repr

/-- The `struct fuse_out_header`. -/
structure fuse_out_header where
  len : Nat
  error : Int
  unique : Nat
deriving DecidableEq, Repr

/-- The anonymous enum of `tk_ms_type`. -/
inductive ms_type where
  | FT_M_FIOV | FT_M_BUF
deriving DecidableEq, Repr

/-- The anonymous enum of `tk_aw_type`. -/
inductive aw_type where
  | FT_A_FIOV | FT_A_BUF
deriving DecidableEq, Repr

/-- The `struct fuse_ticket`, without its list links (the lists of the session
hold them) and its mutex.  `tk_aw_handler` is a code address, `0` for `NULL`. -/
structure fuse_ticket where
  tk_unique : Nat
  tk_flag : Nat
  tk_age : Nat
  tk_ms_fiov : fuse_iov
  tk_ms_bufdata : Nat
  tk_ms_bufsize : Nat
  tk_ms_type : ms_type
  tk_aw_fiov : fuse_iov
  tk_aw_bufdata : Nat
  tk_aw_bufsize : Nat
  tk_aw_type : aw_type
  tk_aw_ohead : fuse_out_header
  tk_aw_errno : Int
  tk_aw_handler : Nat
deriving DecidableEq, Repr

/-- The `struct fuse_data`, without its locks and credentials. -/
structure fuse_data where
  mount_state : Nat
  daemonpid : Nat
  dataflags : Nat
  mountaltflags : Nat
  noimplflags : Nat
  ms_head : List Nat
  aw_head : List Nat
  freetickets_head : List Nat
  alltickets_head : List Nat
  freeticket_counter : Nat
  deadticket_counter : Nat
  ticketer : Nat
  timeout_status : Nat
  daemon_timeout_p : Nat
  fuse_libabi_major : Nat
  fuse_libabi_minor : Nat
  max_write : Nat
  iosize : Nat
  blocksize : Nat
deriving DecidableEq, Repr

/-- The sleep/wake-up channels `fuse_ipc.c` uses. -/
inductive Chan where
  /-- The session, `(caddr_t)data`: the channel has data. -/
  | data
  /-- The bootstrap gate, `&data->ticketer`. -/
  | ticketer
  /-- A ticket, by address. -/
  | ticket (p : Nat)
deriving DecidableEq, Repr

/-- What a function asks of the scheduler and of the VFS layer. -/
inductive Event where
  | wakeup_one (c : Chan)
  | wakeup (c : Chan)
  | msleep (c : Chan)
  | vfs_event_signal_dead
deriving DecidableEq, Repr

/-- The session with its tickets.  `mallocs`, `blocks` and `sleeps` are the
answers the environment gives, in order, to the next allocations of a structure
(the address; `0`, or no answer left, is a failed allocation), to the next
allocations of a buffer (`none`, or no answer left, is a failed allocation;
`some m` a block whose uninitialised bytes are `m`, zero beyond), and to the
next calls of `fuse_msleep` (its return value; `0` when no answer is left). -/
structure World where
  data : fuse_data
  heap : List (Nat × fuse_ticket)
  trace : List Event
  mallocs : List Nat
  blocks : List (Option (List Nat))
  sleeps : List Nat
deriving DecidableEq, Repr

/-- The panics of `fuse_ipc.c`, by message. -/
inductive Panic where
  /-- Message "MacFUSE: OSMalloc failed in fiov_init" -/
  | fiov_init_oom
  /-- Message "MacFUSE: realloc failed" -/
  | realloc_failed
  /-- Message "MacFUSE: OSMalloc failed in fticket_alloc" -/
  | fticket_alloc_oom
  /-- Message "MacFUSE: OSMalloc failed in fdata_alloc" -/
  | fdata_alloc_oom
  /-- Message "MacFUSE: ticket count mismatch!" -/
  | ticket_count_mismatch
  /-- Message "MacFUSE: ticket allocation failed" -/
  | ticket_allocation_failed
  /-- Message "MacFUSE: no free ticket despite the counter's value" -/
  | no_free_ticket
  /-- Message "MacFUSE: ticket reused without being refreshed" -/
  | ticket_reused
  /-- Message "MacFUSE: a handler has been intalled for FUSE_FORGET" -/
  | forget_handler
  /-- Message "MacFUSE: no response body format check for FUSE_GETLK" -/
  | no_check_getlk
  /-- Message "MacFUSE: no response body format check for FUSE_SETLK" -/
  | no_check_setlk
  /-- Message "MacFUSE: no response body format check for FUSE_SETLKW" -/
  | no_check_setlkw
  /-- Message "MacFUSE: opcodes out of sync (%d)" -/
  | opcodes_out_of_sync (op : fuse_opcode)
  /-- Message "MacFUSE: fuse_ticket_fetch() failed" -/
  | fetch_failed
deriving DecidableEq, Repr

/-- How a call ends: it returns `v` leaving the world `w`; it panics in the
world `w`; or it dereferences a ticket pointer that is not live. -/
inductive Outcome (α : Type) where
  | ret (v : α) (w : World)
  | panic (msg : Panic) (w : World)
  | fault
deriving DecidableEq, Repr

/-- The ticket object at address `p`, if `p` is live. -/
def World.tick (w : World) (p : Nat) : Option fuse_ticket :=
  w.heap.lookup p

/-- Storing `t` into the live ticket at address `p`. -/
def World.setTick (w : World) (p : Nat) (t : fuse_ticket) : World :=
  { w with heap := w.heap.map (fun e => if e.1 = p then (p, t) else e) }

/-- The addresses of the live tickets. -/
def World.live (w : World) : List Nat :=
  w.heap.map Prod.fst

/-- Logging an event. -/
def World.emit (w : World) (e : Event) : World :=
  { w with trace := w.trace ++ [e] }

/-- Function `FUSE_OSMalloc` of a structure: the address, `0` on failure. -/
def FUSE_OSMalloc (w : World) : Nat × World :=
  match w.mallocs with
  | [] => (0, w)
  | p :: rest => (p, { w with mallocs := rest })

/-- Function `FUSE_OSMalloc` of a buffer of `n` bytes: its initial content, `none` on
failure. -/
def FUSE_OSMalloc_buf (w : World) (n : Nat) : Option (List Nat) × World :=
  match w.blocks with
  | [] => (none, w)
  | none :: rest => (none, { w with blocks := rest })
  | some m :: rest =>
    (some ((List.range n).map (fun i => m.getD i 0)), { w with blocks := rest })

/-- Function `fuse_msleep`: logs the sleep and gives the environment's return value. -/
def fuse_msleep (w : World) (c : Chan) : Nat × World :=
  match w.sleeps with
  | [] => (0, w.emit (.msleep c))
  | e :: rest => (e, { w.emit (.msleep c) with sleeps := rest })

/-- `bzero(base, n)`. -/
def bzero (base : List Nat) (n : Nat) : List Nat :=
  List.replicate (min n base.length) 0 ++ base.drop n

/-! ## Buffers -/

/-- Function `fiov_init`. -/
def fiov_init (K : Config) (w : World) (size : Nat) : Outcome fuse_iov :=
  let msize := K.FU_AT_LEAST size
  match FUSE_OSMalloc_buf w msize with
  | (none, w1) => .panic .fiov_init_oom w1
  | (some m, w1) =>
    .ret { base := bzero m msize, len := 0, allocated_size := msize,
           credit := K.fuse_iov_credit } w1

/-- Function `fiov_teardown`. -/
def fiov_teardown (fiov : fuse_iov) : fuse_iov :=
  { fiov with base := [], allocated_size := 0 }

/-- The reallocating branch of `fiov_adjust`. -/
def fiov_realloc (K : Config) (w : World) (fiov : fuse_iov) (size : Nat) :
    Outcome fuse_iov :=
  match FUSE_OSMalloc_buf w (K.FU_AT_LEAST size) with
  | (none, w1) => .panic .realloc_failed w1
  | (some m, w1) =>
    .ret { fiov with base := m, len := size, allocated_size := K.FU_AT_LEAST size,
                     credit := K.fuse_iov_credit } w1

/-- Function `fiov_adjust`. -/
def fiov_adjust (K : Config) (w : World) (fiov : fuse_iov) (size : Nat) :
    Outcome fuse_iov :=
  if fiov.allocated_size < size then
    fiov_realloc K w fiov size
  else if 0 ≤ K.fuse_iov_permanent_bufsize ∧
      K.fuse_iov_permanent_bufsize < (fiov.allocated_size : Int) - (size : Int) then
    let fiov1 := { fiov with credit := fiov.credit - 1 }
    if fiov1.credit < 0 then
      fiov_realloc K w fiov1 size
    else
      .ret { fiov1 with len := size } w
  else
    .ret { fiov with len := size } w

/-- The reallocating branch of `fiov_adjust_canfail`: the error, and the buffer. -/
def fiov_realloc_canfail (K : Config) (w : World) (fiov : fuse_iov) (size : Nat) :
    Outcome (Nat × fuse_iov) :=
  match FUSE_OSMalloc_buf w (K.FU_AT_LEAST size) with
  | (none, w1) => .ret (ENOMEM, fiov) w1
  | (some m, w1) =>
    .ret (0, { fiov with base := m, len := size,
                         allocated_size := K.FU_AT_LEAST size,
                         credit := K.fuse_iov_credit }) w1

/-- Function `fiov_adjust_canfail`: the error, and the buffer. -/
def fiov_adjust_canfail (K : Config) (w : World) (fiov : fuse_iov) (size : Nat) :
    Outcome (Nat × fuse_iov) :=
  if fiov.allocated_size < size then
    fiov_realloc_canfail K w fiov size
  else if 0 ≤ K.fuse_iov_permanent_bufsize ∧
      K.fuse_iov_permanent_bufsize < (fiov.allocated_size : Int) - (size : Int) then
    let fiov1 := { fiov with credit := fiov.credit - 1 }
    if fiov1.credit < 0 then
      fiov_realloc_canfail K w fiov1 size
    else
      .ret (0, { fiov1 with len := size }) w
  else
    .ret (0, { fiov with len := size }) w

/-- Function `fiov_refresh`. -/
def fiov_refresh (K : Config) (w : World) (fiov : fuse_iov) : Outcome fuse_iov :=
  fiov_adjust K w { fiov with base := bzero fiov.base fiov.len } 0

/-! ## Tickets -/

/-- Function `fticket_alloc`: the address of the new ticket. -/
def fticket_alloc (K : Config) (w : World) : Outcome Nat :=
  let r := FUSE_OSMalloc w
  let ftick := r.1
  let w1 := r.2
  if ftick = 0 then
    .panic .fticket_alloc_oom w1
  else
    let unique := w1.data.ticketer
    let w2 := { w1 with data := { w1.data with ticketer := (w1.data.ticketer + 1) % 2 ^ 64 } }
    match fiov_init K w2 K.sizeof_fuse_in_header with
    | .panic m w3 => .panic m w3
    | .fault => .fault
    | .ret ms w3 =>
      match fiov_init K w3 0 with
      | .panic m w4 => .panic m w4
      | .fault => .fault
      | .ret aw w4 =>
        .ret ftick { w4 with heap := (ftick,
          { tk_unique := unique, tk_flag := 0, tk_age := 0,
            tk_ms_fiov := ms, tk_ms_bufdata := 0, tk_ms_bufsize := 0,
            tk_ms_type := .FT_M_FIOV,
            tk_aw_fiov := aw, tk_aw_bufdata := 0, tk_aw_bufsize := 0,
            tk_aw_type := .FT_A_FIOV,
            tk_aw_ohead := { len := 0, error := 0, unique := 0 },
            tk_aw_errno := 0, tk_aw_handler := 0 }) :: w4.heap }

/-- Function `fticket_refresh`. -/
def fticket_refresh (K : Config) (w : World) (ftick : Nat) : Outcome Unit :=
  match w.tick ftick with
  | none => .fault
  | some t =>
    match fiov_refresh K w t.tk_ms_fiov with
    | .panic m w1 => .panic m w1
    | .fault => .fault
    | .ret ms w1 =>
      let t1 := { t with tk_ms_fiov := ms, tk_ms_bufdata := 0, tk_ms_bufsize := 0,
                         tk_ms_type := .FT_M_FIOV,
                         tk_aw_ohead := { len := 0, error := 0, unique := 0 } }
      let w2 := w1.setTick ftick t1
      match fiov_refresh K w2 t1.tk_aw_fiov with
      | .panic m w3 => .panic m w3
      | .fault => .fault
      | .ret aw w3 =>
        .ret () (w3.setTick ftick
          { t1 with tk_aw_fiov := aw, tk_aw_errno := 0, tk_aw_bufdata := 0,
                    tk_aw_bufsize := 0, tk_aw_type := .FT_A_FIOV,
                    tk_flag := 0, tk_age := (t1.tk_age + 1) % 2 ^ 32 })

/-- Function `fticket_destroy`: both buffers are torn down and the ticket is freed. -/
def fticket_destroy (w : World) (ftick : Nat) : World :=
  { w with heap := w.heap.filter (fun e => e.1 ≠ ftick) }

/-! ## The session -/

/-- Function `fdata_alloc`, for the daemon process `pid`. -/
def fdata_alloc (K : Config) (w : World) (pid : Nat) : Outcome Unit :=
  let r := FUSE_OSMalloc w
  if r.1 = 0 then
    .panic .fdata_alloc_oom r.2
  else
    .ret () { r.2 with data :=
      { mount_state := K.FM_NOTMOUNTED, daemonpid := pid, dataflags := 0,
        mountaltflags := 0, noimplflags := 0,
        ms_head := [], aw_head := [], freetickets_head := [],
        alltickets_head := [],
        freeticket_counter := 0, deadticket_counter := 0, ticketer := 0,
        timeout_status := K.FUSE_DAEMON_TIMEOUT_NONE, daemon_timeout_p := 0,
        fuse_libabi_major := 0, fuse_libabi_minor := 0,
        max_write := 0, iosize := 0, blocksize := 0 } }

/-- Function `fdata_dead_get`. -/
def fdata_dead_get (K : Config) (data : fuse_data) : Nat :=
  data.dataflags &&& K.FSESS_DEAD

/-- Function `fdata_set_dead`. -/
def fdata_set_dead (K : Config) (w : World) : World :=
  if fdata_dead_get K w.data ≠ 0 then
    w
  else
    let w1 := { w with data := { w.data with dataflags := w.data.dataflags ||| K.FSESS_DEAD } }
    ((w1.emit (.wakeup_one .data)).emit (.wakeup .ticketer)).emit .vfs_event_signal_dead

/-- Function `fuse_push_freeticks`. -/
def fuse_push_freeticks (w : World) (ftick : Nat) : World :=
  { w with data := { w.data with
      freetickets_head := w.data.freetickets_head ++ [ftick],
      freeticket_counter := (w.data.freeticket_counter + 1) % 2 ^ 32 } }

/-- Function `fuse_pop_freeticks`: the ticket taken, `0` when the list is empty. -/
def fuse_pop_freeticks (w : World) : Outcome Nat :=
  let r : Nat × World :=
    match w.data.freetickets_head with
    | [] => (0, w)
    | ftick :: rest =>
      (ftick, { w with data := { w.data with
          freetickets_head := rest,
          freeticket_counter := (w.data.freeticket_counter + 2 ^ 32 - 1) % 2 ^ 32 } })
  if r.2.data.freetickets_head = [] ∧ r.2.data.freeticket_counter ≠ 0 then
    .panic .ticket_count_mismatch r.2
  else
    .ret r.1 r.2

/-- Function `fuse_push_allticks`. -/
def fuse_push_allticks (w : World) (ftick : Nat) : World :=
  { w with data := { w.data with alltickets_head := w.data.alltickets_head ++ [ftick] } }

/-- Function `fuse_remove_allticks`. -/
def fuse_remove_allticks (w : World) (ftick : Nat) : World :=
  { w with data := { w.data with
      deadticket_counter := (w.data.deadticket_counter + 1) % 2 ^ 32,
      alltickets_head := w.data.alltickets_head.erase ftick } }

/-- The tail of `fuse_ticket_fetch`, from the bootstrap gate on, for the
ticket `ftick` obtained. -/
def fuse_ticket_fetch_gate (K : Config) (w : World) (ftick : Nat) : Outcome Nat :=
  let r : Nat × World :=
    if w.data.dataflags &&& K.FSESS_INITED = 0 ∧ 1 < w.data.ticketer then
      fuse_msleep w .ticketer
    else if K.fuse_max_tickets ≠ 0 ∧
        K.fuse_max_tickets <
          (w.data.ticketer + 2 ^ 64 - w.data.deadticket_counter) % 2 ^ 64 then
      (1, w)
    else
      (0, w)
  if r.1 ≠ 0 then
    .ret ftick (fdata_set_dead K r.2)
  else
    .ret ftick r.2

/-- Function `fuse_ticket_fetch`: the address of the ticket granted. -/
def fuse_ticket_fetch (K : Config) (w : World) : Outcome Nat :=
  if w.data.freeticket_counter = 0 then
    match fticket_alloc K w with
    | .panic m w1 => .panic m w1
    | .fault => .fault
    | .ret ftick w1 =>
      if ftick = 0 then
        .panic .ticket_allocation_failed w1
      else
        fuse_ticket_fetch_gate K (fuse_push_allticks w1 ftick) ftick
  else
    match fuse_pop_freeticks w with
    | .panic m w1 => .panic m w1
    | .fault => .fault
    | .ret ftick w1 =>
      if ftick = 0 then
        .panic .no_free_ticket w1
      else
        fuse_ticket_fetch_gate K w1 ftick

/-- Function `fuse_ticket_drop`. -/
def fuse_ticket_drop (K : Config) (w : World) (ftick : Nat) : Outcome Unit :=
  match w.tick ftick with
  | none => .fault
  | some t =>
    if (0 ≤ K.fuse_max_freetickets ∧
        K.fuse_max_freetickets ≤ (w.data.freeticket_counter : Int)) ∨
        t.tk_flag &&& K.FT_KILLL ≠ 0 then
      .ret () (fticket_destroy (fuse_remove_allticks w ftick) ftick)
    else
      match fticket_refresh K w ftick with
      | .panic m w1 => .panic m w1
      | .fault => .fault
      | .ret _ w1 => .ret () (fuse_push_freeticks w1 ftick)

/-- Function `fuse_ticket_kill`. -/
def fuse_ticket_kill (w : World) (ftick : Nat) : Outcome Unit :=
  match w.tick ftick with
  | none => .fault
  | some _ => .ret () (fticket_destroy (fuse_remove_allticks w ftick) ftick)

/-- Function `fuse_ticket_drop_invalid`. -/
def fuse_ticket_drop_invalid (K : Config) (w : World) (ftick : Nat) : Outcome Unit :=
  match w.tick ftick with
  | none => .fault
  | some t =>
    if t.tk_flag &&& K.FT_INVAL ≠ 0 then fuse_ticket_drop K w ftick else .ret () w

/-! ## The transport queues -/

/-- Modelled from the spec: `fuse_aw_push` of `fuse_ipc.h`, which is not among
the sources: the ticket is appended to the awaiting-answer list. -/
def fuse_aw_push (w : World) (ftick : Nat) : World :=
  { w with data := { w.data with aw_head := w.data.aw_head ++ [ftick] } }

/-- Modelled from the spec: `fuse_ms_push` of `fuse_ipc.h`, which is not among
the sources: the ticket is appended to the pending-send queue. -/
def fuse_ms_push (w : World) (ftick : Nat) : World :=
  { w with data := { w.data with ms_head := w.data.ms_head ++ [ftick] } }

/-- Modelled from the spec: `fuse_ms_push_head` of `fuse_ipc.h`, which is not
among the sources: the head-insertion variant, the ticket goes in front of the
pending-send queue. -/
def fuse_ms_push_head (w : World) (ftick : Nat) : World :=
  { w with data := { w.data with ms_head := ftick :: w.data.ms_head } }

/-- Modelled from the spec: `fuse_ms_pop` of `fuse_ipc.h`, which is not among
the sources: the reader takes the head of the pending-send queue (`0` when it
is empty). -/
def fuse_ms_pop (w : World) : Nat × World :=
  match w.data.ms_head with
  | [] => (0, w)
  | ftick :: rest => (ftick, { w with data := { w.data with ms_head := rest } })

/-- Function `fuse_insert_callback`. -/
def fuse_insert_callback (K : Config) (w : World) (ftick : Nat) (handler : Nat) :
    Outcome Unit :=
  match w.tick ftick with
  | none => .fault
  | some t =>
    if fdata_dead_get K w.data ≠ 0 then
      .ret () w
    else
      .ret () (fuse_aw_push (w.setTick ftick { t with tk_aw_handler := handler }) ftick)

/-- Function `fuse_insert_message`. -/
def fuse_insert_message (K : Config) (w : World) (ftick : Nat) : Outcome Unit :=
  match w.tick ftick with
  | none => .fault
  | some t =>
    if t.tk_flag &&& K.FT_DIRTY ≠ 0 then
      .panic .ticket_reused w
    else
      let w1 := w.setTick ftick { t with tk_flag := t.tk_flag ||| K.FT_DIRTY }
      if fdata_dead_get K w1.data ≠ 0 then
        .ret () w1
      else
        .ret () ((fuse_ms_push w1 ftick).emit (.wakeup_one .data))

/-- Function `fuse_insert_message_head`. -/
def fuse_insert_message_head (K : Config) (w : World) (ftick : Nat) : Outcome Unit :=
  match w.tick ftick with
  | none => .fault
  | some t =>
    if t.tk_flag &&& K.FT_DIRTY ≠ 0 then
      .panic .ticket_reused w
    else
      let w1 := w.setTick ftick { t with tk_flag := t.tk_flag ||| K.FT_DIRTY }
      if fdata_dead_get K w1.data ≠ 0 then
        .ret () w1
      else
        .ret () ((fuse_ms_push_head w1 ftick).emit (.wakeup_one .data))

/-! ## Reply body validation -/

/-- Modelled from the spec: the macro `fticket_opcode` of `fuse_ipc.h`, which is
not among the sources: the opcode field of the request header that starts the
send buffer of the ticket. -/
def fticket_opcode (K : Config) (t : fuse_ticket) : fuse_opcode :=
  (K.ihead_load t.tk_ms_fiov.base).opcode

/-- Modelled from the spec: the macro `fuse_libabi_geq` of `fuse_ipc.h`, which
is not among the sources: the protocol version the daemon announced in the
handshake is at least `abi_maj.abi_min`. -/
def fuse_libabi_geq (data : fuse_data) (abi_maj abi_min : Nat) : Bool :=
  decide (abi_maj < data.fuse_libabi_major) ||
    (decide (data.fuse_libabi_major = abi_maj) && decide (abi_min ≤ data.fuse_libabi_minor))

/-- The `size` field of the `struct fuse_read_in` that follows the request
header in the send buffer of the ticket. -/
def fticket_read_in_size (K : Config) (t : fuse_ticket) : Nat :=
  K.read_in_size (t.tk_ms_fiov.base.drop K.sizeof_fuse_in_header)

/-- The switch of `fuse_body_audit`: the status `err`, or the panic taken. -/
def fuse_body_audit_switch (K : Config) (data : fuse_data) (t : fuse_ticket)
    (blen : Nat) : Panic ⊕ Nat :=
  match fticket_opcode K t with
  | .FUSE_LOOKUP => .inr (if blen = K.sizeof_fuse_entry_out then 0 else EINVAL)
  | .FUSE_FORGET => .inl .forget_handler
  | .FUSE_GETATTR => .inr (if blen = K.sizeof_fuse_attr_out then 0 else EINVAL)
  | .FUSE_SETATTR => .inr (if blen = K.sizeof_fuse_attr_out then 0 else EINVAL)
  | .FUSE_GETXTIMES => .inr (if blen = K.sizeof_fuse_getxtimes_out then 0 else EINVAL)
  | .FUSE_READLINK => .inr (if blen ≤ K.PAGE_SIZE then 0 else EINVAL)
  | .FUSE_SYMLINK => .inr (if blen = K.sizeof_fuse_entry_out then 0 else EINVAL)
  | .FUSE_MKNOD => .inr (if blen = K.sizeof_fuse_entry_out then 0 else EINVAL)
  | .FUSE_MKDIR => .inr (if blen = K.sizeof_fuse_entry_out then 0 else EINVAL)
  | .FUSE_UNLINK => .inr (if blen = 0 then 0 else EINVAL)
  | .FUSE_RMDIR => .inr (if blen = 0 then 0 else EINVAL)
  | .FUSE_RENAME => .inr (if blen = 0 then 0 else EINVAL)
  | .FUSE_LINK => .inr (if blen = K.sizeof_fuse_entry_out then 0 else EINVAL)
  | .FUSE_OPEN => .inr (if blen = K.sizeof_fuse_open_out then 0 else EINVAL)
  | .FUSE_READ => .inr (if blen ≤ fticket_read_in_size K t then 0 else EINVAL)
  | .FUSE_WRITE => .inr (if blen = K.sizeof_fuse_write_out then 0 else EINVAL)
  | .FUSE_STATFS =>
    if fuse_libabi_geq data 7 4 then
      .inr (if blen = K.sizeof_fuse_statfs_out then 0 else EINVAL)
    else
      .inr (if blen = K.FUSE_COMPAT_STATFS_SIZE then 0 else EINVAL)
  | .FUSE_RELEASE => .inr (if blen = 0 then 0 else EINVAL)
  | .FUSE_FSYNC => .inr (if blen = 0 then 0 else EINVAL)
  | .FUSE_SETXATTR => .inr 0
  | .FUSE_GETXATTR => .inr 0
  | .FUSE_LISTXATTR => .inr 0
  | .FUSE_REMOVEXATTR => .inr 0
  | .FUSE_FLUSH => .inr (if blen = 0 then 0 else EINVAL)
  | .FUSE_INIT =>
    if blen = K.sizeof_fuse_init_out ∨ blen = 8 then .inr 0 else .inr EINVAL
  | .FUSE_OPENDIR => .inr (if blen = K.sizeof_fuse_open_out then 0 else EINVAL)
  | .FUSE_READDIR => .inr (if blen ≤ fticket_read_in_size K t then 0 else EINVAL)
  | .FUSE_RELEASEDIR => .inr (if blen = 0 then 0 else EINVAL)
  | .FUSE_FSYNCDIR => .inr (if blen = 0 then 0 else EINVAL)
  | .FUSE_GETLK => .inl .no_check_getlk
  | .FUSE_SETLK => .inl .no_check_setlk
  | .FUSE_SETLKW => .inl .no_check_setlkw
  | .FUSE_ACCESS => .inr (if blen = 0 then 0 else EINVAL)
  | .FUSE_CREATE =>
    .inr (if blen = K.sizeof_fuse_entry_out + K.sizeof_fuse_open_out then 0 else EINVAL)
  | .FUSE_INTERRUPT => .inr 0
  | .FUSE_BMAP => .inr 0
  | .FUSE_DESTROY => .inr (if blen = 0 then 0 else EINVAL)
  | .FUSE_EXCHANGE => .inr (if blen = 0 then 0 else EINVAL)
  | .FUSE_SETVOLNAME => .inr (if blen = 0 then 0 else EINVAL)
  | .other n => .inl (.opcodes_out_of_sync (.other n))

/-- Function `fuse_body_audit`: the status it returns. -/
def fuse_body_audit (K : Config) (w : World) (ftick : Nat) (blen : Nat) : Outcome Nat :=
  match w.tick ftick with
  | none => .fault
  | some t =>
    if fdata_dead_get K w.data ≠ 0 then
      .ret ENOTCONN w
    else
      match fuse_body_audit_switch K w.data t blen with
      | .inl msg => .panic msg w
      | .inr err => .ret err w

/-! ## The dispatcher -/

/-- The identity of a requester: what `vfs_context_pid` and the credential of a
context give, or `current_proc` and `kauth_cred_get`. -/
structure Identity where
  pid : Nat
  uid : Nat
  gid : Nat
deriving DecidableEq, Repr

/-- The `struct fuse_dispatcher`.  `finh` and `indata` point into the send
buffer of the ticket and `answ` into its reply buffer: they are byte offsets
from the `base` of that buffer. -/
structure fuse_dispatcher where
  iosize : Nat
  indata : Nat
  finh : Nat
  tick : Nat
  answ : Nat
  answ_stat : Int
deriving DecidableEq, Repr

/-- Function `fuse_setup_ihead`, on the header at the start of the send buffer
of the ticket; `cur` is the identity of the current process. -/
def fuse_setup_ihead (K : Config) (t : fuse_ticket) (nid : Nat) (op : fuse_opcode)
    (blen : Nat) (context : Option Identity) (cur : Identity) : fuse_ticket :=
  let who : Identity :=
    (match context with
     | some c => c
     | none => cur)
  let ihead : fuse_in_header :=
    { len := (K.sizeof_fuse_in_header + blen) % 2 ^ 32,
      unique := t.tk_unique, nodeid := nid, opcode := op,
      pid := who.pid, uid := who.uid, gid := who.gid }
  { t with tk_ms_fiov :=
      { t.tk_ms_fiov with base := K.ihead_store ihead t.tk_ms_fiov.base } }

/-- The ticket `fdisp_make` and `fdisp_make_canfail` work on: the one of the
dispatcher, refreshed, or a ticket fetched. -/
def fdisp_ticket (K : Config) (w : World) (fdip : fuse_dispatcher) : Outcome Nat :=
  let r : Outcome Nat :=
    if fdip.tick ≠ 0 then
      match fticket_refresh K w fdip.tick with
      | .panic m w1 => .panic m w1
      | .fault => .fault
      | .ret _ w1 => .ret fdip.tick w1
    else
      fuse_ticket_fetch K w
  match r with
  | .panic m w1 => .panic m w1
  | .fault => .fault
  | .ret tick w1 => if tick = 0 then .panic .fetch_failed w1 else .ret tick w1

/-- Function `fdisp_make`.  The macro `FUSE_DIMALLOC` of `fuse_ipc.h` is not
among the sources; it is taken to do what `fdisp_make_canfail` spells out, with
`fiov_adjust`. -/
def fdisp_make (K : Config) (w : World) (fdip : fuse_dispatcher) (op : fuse_opcode)
    (nid : Nat) (context : Option Identity) (cur : Identity) : Outcome fuse_dispatcher :=
  match fdisp_ticket K w fdip with
  | .panic m w1 => .panic m w1
  | .fault => .fault
  | .ret tick w1 =>
    match w1.tick tick with
    | none => .fault
    | some t =>
      match fiov_adjust K w1 t.tk_ms_fiov
          ((K.sizeof_fuse_in_header + fdip.iosize) % 2 ^ K.word_bits) with
      | .panic m w2 => .panic m w2
      | .fault => .fault
      | .ret ms w2 =>
        .ret { fdip with tick := tick, finh := 0, indata := K.sizeof_fuse_in_header }
          (w2.setTick tick
            (fuse_setup_ihead K { t with tk_ms_fiov := ms } nid op fdip.iosize context cur))

/-- Function `fdisp_make_canfail`: the error it returns, and the dispatcher. -/
def fdisp_make_canfail (K : Config) (w : World) (fdip : fuse_dispatcher)
    (op : fuse_opcode) (nid : Nat) (context : Option Identity) (cur : Identity) :
    Outcome (Nat × fuse_dispatcher) :=
  match fdisp_ticket K w fdip with
  | .panic m w1 => .panic m w1
  | .fault => .fault
  | .ret tick w1 =>
    match w1.tick tick with
    | none => .fault
    | some t =>
      match fiov_adjust_canfail K w1 t.tk_ms_fiov
          ((K.sizeof_fuse_in_header + fdip.iosize) % 2 ^ K.word_bits) with
      | .panic m w2 => .panic m w2
      | .fault => .fault
      | .ret (failed, ms) w2 =>
        let w3 := w2.setTick tick { t with tk_ms_fiov := ms }
        if failed ≠ 0 then
          match fuse_ticket_kill w3 tick with
          | .panic m w4 => .panic m w4
          | .fault => .fault
          | .ret _ w4 => .ret (failed, { fdip with tick := tick }) w4
        else
          .ret (0, { fdip with tick := tick, finh := 0,
                               indata := K.sizeof_fuse_in_header })
            (w3.setTick tick
              (fuse_setup_ihead K { t with tk_ms_fiov := ms } nid op fdip.iosize
                context cur))

/-! ## Runs of a session -/

/-- The caller holds the ticket `p`: it is in the all-tickets registry and not
on the free list. -/
def Held (w : World) (p : Nat) : Prop :=
  p ∈ w.data.alltickets_head ∧ p ∉ w.data.freetickets_head

/-- What the allocator guarantees of the address `p` of a new ticket: no live
ticket is at `p`, and `p` is an address of the machine. -/
def Fresh (K : Config) (w : World) (p : Nat) : Prop :=
  p ∉ w.live ∧ p < 2 ^ K.word_bits

/-- One call on the session that returns, made the way the callers in the
driver make it: a ticket is dropped or killed by the caller that holds it, and
is put on a queue it is not on already. -/
inductive Step (K : Config) : World → World → Prop
  | fetch (w w' : World) (p : Nat) :
      fuse_ticket_fetch K w = .ret p w' →
      (w.data.freeticket_counter = 0 → Fresh K w p) → Step K w w'
  | drop (w w' : World) (p : Nat) :
      Held w p → fuse_ticket_drop K w p = .ret () w' → Step K w w'
  | kill (w w' : World) (p : Nat) :
      Held w p → fuse_ticket_kill w p = .ret () w' → Step K w w'
  | insert_callback (w w' : World) (p handler : Nat) :
      p ∉ w.data.aw_head →
      fuse_insert_callback K w p handler = .ret () w' → Step K w w'
  | insert_message (w w' : World) (p : Nat) :
      p ∉ w.data.ms_head → fuse_insert_message K w p = .ret () w' → Step K w w'
  | insert_message_head (w w' : World) (p : Nat) :
      p ∉ w.data.ms_head → fuse_insert_message_head K w p = .ret () w' → Step K w w'
  | set_dead (w : World) : Step K w (fdata_set_dead K w)
  | disp_make (w w' : World) (fdip fdip' : fuse_dispatcher) (op : fuse_opcode)
      (nid : Nat) (context : Option Identity) (cur : Identity) :
      fdisp_make K w fdip op nid context cur = .ret fdip' w' →
      (fdip.tick = 0 → w.data.freeticket_counter = 0 → Fresh K w fdip'.tick) →
      Step K w w'
  | disp_make_canfail (w w' : World) (fdip fdip' : fuse_dispatcher) (op : fuse_opcode)
      (nid : Nat) (context : Option Identity) (cur : Identity) (err : Nat) :
      fdisp_make_canfail K w fdip op nid context cur = .ret (err, fdip') w' →
      (fdip.tick ≠ 0 → Held w fdip.tick) →
      (fdip.tick = 0 → w.data.freeticket_counter = 0 → Fresh K w fdip'.tick) →
      Step K w w'

/-- The session states reached from `fdata_alloc` by calls each of which
satisfies the side condition `G` (on the states before and after it). -/
inductive Reachable (K : Config) (G : World → World → Prop) : World → Prop
  | init (w0 w : World) (pid : Nat) :
      w0.heap = [] → fdata_alloc K w0 pid = .ret () w → Reachable K G w
  | step (w w' : World) :
      Reachable K G w → Step K w w' → G w w' → Reachable K G w'

/-- No side condition on the calls. -/
def Always (_ _ : World) : Prop := True

/-- The call does not make the 64-bit `ticketer` wrap around. -/
def NoWrap (w w' : World) : Prop := w.data.ticketer ≤ w'.data.ticketer

/-! ## A configuration to evaluate on -/

/-- Little-endian value of the `n` bytes at offset `off` of a buffer. -/
def le_load (b : List Nat) (off n : Nat) : Nat :=
  ((b.drop off).take n).foldr (fun x acc => x % 256 + 256 * acc) 0

/-- The `n` little-endian bytes of `v`. -/
def le_bytes : Nat → Nat → List Nat
  | 0, _ => []
  | n + 1, v => v % 256 :: le_bytes n (v / 256)

/-- Overwriting the bytes of a buffer from offset `off` on with `bs`, inside the buffer. -/
def poke (b : List Nat) (off : Nat) (bs : List Nat) : List Nat :=
  b.take off ++ (bs.take (b.length - off)) ++ b.drop (off + bs.length)

/-- Numbering of the opcodes for `sample`. -/
def sample_opcode_num : fuse_opcode → Nat
  | .FUSE_LOOKUP => 1 | .FUSE_FORGET => 2 | .FUSE_GETATTR => 3 | .FUSE_SETATTR => 4
  | .FUSE_READLINK => 5 | .FUSE_SYMLINK => 6 | .FUSE_MKNOD => 8 | .FUSE_MKDIR => 9
  | .FUSE_UNLINK => 10 | .FUSE_RMDIR => 11 | .FUSE_RENAME => 12 | .FUSE_LINK => 13
  | .FUSE_OPEN => 14 | .FUSE_READ => 15 | .FUSE_WRITE => 16 | .FUSE_STATFS => 17
  | .FUSE_RELEASE => 18 | .FUSE_FSYNC => 20 | .FUSE_SETXATTR => 21
  | .FUSE_GETXATTR => 22 | .FUSE_LISTXATTR => 23 | .FUSE_REMOVEXATTR => 24
  | .FUSE_FLUSH => 25 | .FUSE_INIT => 26 | .FUSE_OPENDIR => 27 | .FUSE_READDIR => 28
  | .FUSE_RELEASEDIR => 29 | .FUSE_FSYNCDIR => 30 | .FUSE_GETLK => 31
  | .FUSE_SETLK => 32 | .FUSE_SETLKW => 33 | .FUSE_ACCESS => 34 | .FUSE_CREATE => 35
  | .FUSE_INTERRUPT => 36 | .FUSE_BMAP => 37 | .FUSE_DESTROY => 38
  | .FUSE_SETVOLNAME => 61 | .FUSE_GETXTIMES => 62 | .FUSE_EXCHANGE => 63
  | .other n => n

/-- The opcode a number stands for in `sample`. -/
def sample_opcode_of (n : Nat) : fuse_opcode :=
  match [fuse_opcode.FUSE_LOOKUP, .FUSE_FORGET, .FUSE_GETATTR, .FUSE_SETATTR,
      .FUSE_READLINK, .FUSE_SYMLINK, .FUSE_MKNOD, .FUSE_MKDIR, .FUSE_UNLINK,
      .FUSE_RMDIR, .FUSE_RENAME, .FUSE_LINK, .FUSE_OPEN, .FUSE_READ, .FUSE_WRITE,
      .FUSE_STATFS, .FUSE_RELEASE, .FUSE_FSYNC, .FUSE_SETXATTR, .FUSE_GETXATTR,
      .FUSE_LISTXATTR, .FUSE_REMOVEXATTR, .FUSE_FLUSH, .FUSE_INIT, .FUSE_OPENDIR,
      .FUSE_READDIR, .FUSE_RELEASEDIR, .FUSE_FSYNCDIR, .FUSE_GETLK, .FUSE_SETLK,
      .FUSE_SETLKW, .FUSE_ACCESS, .FUSE_CREATE, .FUSE_INTERRUPT, .FUSE_BMAP,
      .FUSE_DESTROY, .FUSE_SETVOLNAME, .FUSE_GETXTIMES, .FUSE_EXCHANGE].find?
      (fun o => sample_opcode_num o = n) with
  | some o => o
  | none => .other n

/-- A configuration of a 32-bit little-endian kernel, to evaluate the functions
on concrete sessions. -/
def sample : Config where
  word_bits := 32
  FT_ANSW := 1
  FT_INVAL := 2
  FT_DIRTY := 4
  FT_KILLL := 8
  FSESS_DEAD := 1
  FSESS_INITED := 2
  FSESS_KICK := 4
  FSESS_NO_ALERTS := 8
  FM_NOTMOUNTED := 0
  FUSE_DAEMON_TIMEOUT_NONE := 0
  FUSE_DAEMON_TIMEOUT_PROCESSING := 1
  FUSE_DAEMON_TIMEOUT_DEAD := 2
  fuse_max_tickets := 0
  fuse_max_freetickets := 1024
  fuse_iov_credit := 16
  fuse_iov_permanent_bufsize := 524288
  FU_AT_LEAST := fun n => max n 160
  PAGE_SIZE := 4096
  FUSE_COMPAT_STATFS_SIZE := 48
  sizeof_fuse_in_header := 40
  sizeof_fuse_entry_out := 144
  sizeof_fuse_attr_out := 120
  sizeof_fuse_getxtimes_out := 32
  sizeof_fuse_open_out := 16
  sizeof_fuse_write_out := 8
  sizeof_fuse_statfs_out := 96
  sizeof_fuse_init_out := 24
  ihead_load := fun b =>
    { len := le_load b 0 4, opcode := sample_opcode_of (le_load b 4 4),
      unique := le_load b 8 8, nodeid := le_load b 16 8,
      uid := le_load b 24 4, gid := le_load b 28 4, pid := le_load b 32 4 }
  ihead_store := fun h b =>
    poke b 0 (le_bytes 4 h.len ++ le_bytes 4 (sample_opcode_num h.opcode) ++
      le_bytes 8 h.unique ++ le_bytes 8 h.nodeid ++ le_bytes 4 h.uid ++
      le_bytes 4 h.gid ++ le_bytes 4 h.pid)
  read_in_size := fun b => le_load b 16 4
  M_MACFUSE_ENABLE_KUNC := true
  M_MACFUSE_ENABLE_INTERRUPT := true
  sizeof_fuse_interrupt_in := 8
  interrupt_in_store := fun u b => poke b 0 (le_bytes 8 u)
  DONT_TRY_HARD_PREVENT_IO_IN_VAIN := false
  FUSE_NAME_OFFSET := 24
  FUSE_DIRENT_SIZE := fun namelen => (24 + namelen + 7) / 8 * 8
  fuse_dirent_load := fun b =>
    { ino := le_load b 0 8, off := le_load b 8 8, namelen := le_load b 16 4,
      type := le_load b 20 4 }
  dirent_store := fun d b =>
    poke b 0 (le_bytes 4 d.d_fileno ++ le_bytes 2 d.d_reclen ++ le_bytes 1 d.d_type ++
      le_bytes 1 d.d_namlen)
  fuse_skip_apple_special_mp := fun _ _ => false
  sizeof_fuse_read_in := 24
  read_in_store := fun fh offset size b =>
    poke b 0 (le_bytes 8 fh ++ le_bytes 8 offset ++ le_bytes 4 size)
  sizeof_fuse_write_in := 24
  write_in_store := fun fh offset size b =>
    poke b 0 (le_bytes 8 fh ++ le_bytes 8 offset ++ le_bytes 4 size)
  write_out_size := fun b => le_load b 0 4
  write_out_size_unsigned := true
  init_out_major := fun b => le_load b 0 4
  init_out_minor := fun b => le_load b 4 4
  init_out_max_write := fun b => le_load b 20 4
  entry_out_nodeid := fun b => le_load b 0 8
  sizeof_fuse_forget_in := 8
  forget_in_store := fun n b => poke b 0 (le_bytes 8 n)

/-! ## Invariants, and sessions to evaluate on -/

/-- The ticket `fticket_refresh` leaves, given the two refreshed buffers. -/
def refreshed (t : fuse_ticket) (ms aw : fuse_iov) : fuse_ticket :=
  { t with tk_ms_fiov := ms, tk_ms_bufdata := 0, tk_ms_bufsize := 0,
           tk_ms_type := .FT_M_FIOV,
           tk_aw_ohead := { len := 0, error := 0, unique := 0 },
           tk_aw_fiov := aw, tk_aw_errno := 0, tk_aw_bufdata := 0,
           tk_aw_bufsize := 0, tk_aw_type := .FT_A_FIOV,
           tk_flag := 0, tk_age := (t.tk_age + 1) % 2 ^ 32 }

/-- The accounting of the free pool: the counter is the length of the free
list, no ticket is twice on it, the tickets on it are live, and live tickets
are at non-null addresses of the machine. -/
structure FreeInv (K : Config) (w : World) : Prop where
  count : w.data.freeticket_counter = w.data.freetickets_head.length
  nodup : w.data.freetickets_head.Nodup
  free_live : ∀ p ∈ w.data.freetickets_head, ∃ t, w.tick p = some t
  live_addr : ∀ p t, w.tick p = some t → 0 < p ∧ p < 2 ^ K.word_bits

/-- The world an outcome leaves, `dflt` after a fault. -/
def Outcome.after {α : Type} (o : Outcome α) (dflt : World) : World :=
  match o with
  | .ret _ w => w
  | .panic _ w => w
  | .fault => dflt

/-- A machine before any session: nothing allocated, and an environment that
will grant four structures and any buffer. -/
def demo0 : World :=
  { data :=
      { mount_state := 0, daemonpid := 0, dataflags := 0,
        mountaltflags := 0, noimplflags := 0,
        ms_head := [], aw_head := [], freetickets_head := [],
        alltickets_head := [],
        freeticket_counter := 0, deadticket_counter := 0, ticketer := 0,
        timeout_status := 0, daemon_timeout_p := 0,
        fuse_libabi_major := 0, fuse_libabi_minor := 0,
        max_write := 0, iosize := 0, blocksize := 0 },
    heap := [], trace := [],
    mallocs := [4096, 8192, 12288, 16384],
    blocks := [some [], some [], some [], some [], some [], some [], some [], some []],
    sleeps := [] }

/-- The session `fdata_alloc` creates on `demo0` for the daemon 77. -/
def demo1 : World := (fdata_alloc sample demo0 77).after demo0

/-- The session after a first `fuse_ticket_fetch`. -/
def demo2 : World := (fuse_ticket_fetch sample demo1).after demo1

/-- The session after that ticket has been dropped. -/
def demo3 : World := (fuse_ticket_drop sample demo2 8192).after demo2

/-- The correlation ids of the live tickets: `ticketer` has not wrapped, every
live ticket has an id below it, and no two live tickets share an id. -/
structure UniqInv (w : World) : Prop where
  bound : w.data.ticketer < 2 ^ 64
  below : ∀ q t, w.tick q = some t → t.tk_unique < w.data.ticketer
  inj : ∀ q q' t t', w.tick q = some t → w.tick q' = some t' →
    t.tk_unique = t'.tk_unique → q = q'

/-- The call allocates no ticket and changes no `tk_unique`. -/
def Keeps (w w' : World) : Prop :=
  w'.data.ticketer = w.data.ticketer ∧
  ∀ q t', w'.tick q = some t' → ∃ t, w.tick q = some t ∧ t.tk_unique = t'.tk_unique

/-- The call allocates one ticket, which takes the value of `ticketer` as its
`tk_unique`, and changes no other `tk_unique`. -/
def Allocs (w w' : World) : Prop :=
  w'.data.ticketer = (w.data.ticketer + 1) % 2 ^ 64 ∧
  ∃ p, ∀ q t', w'.tick q = some t' →
    (q = p ∧ t'.tk_unique = w.data.ticketer) ∨
    ∃ t, w.tick q = some t ∧ t.tk_unique = t'.tk_unique

/-- The ticket at address `p`, a zeroed ticket if `p` is not live. -/
def World.tickD (w : World) (p : Nat) : fuse_ticket :=
  (w.tick p).getD
    { tk_unique := 0, tk_flag := 0, tk_age := 0,
      tk_ms_fiov := { base := [], len := 0, allocated_size := 0, credit := 0 },
      tk_ms_bufdata := 0, tk_ms_bufsize := 0, tk_ms_type := .FT_M_FIOV,
      tk_aw_fiov := { base := [], len := 0, allocated_size := 0, credit := 0 },
      tk_aw_bufdata := 0, tk_aw_bufsize := 0, tk_aw_type := .FT_A_FIOV,
      tk_aw_ohead := { len := 0, error := 0, unique := 0 },
      tk_aw_errno := 0, tk_aw_handler := 0 }

/-- The session `demo2` after a second `fuse_ticket_fetch`. -/
def demo4 : World := (fuse_ticket_fetch sample demo2).after demo2

/-- The session `demo4` with its first ticket awaiting an answer. -/
def demo5 : World := (fuse_insert_callback sample demo4 8192 1).after demo4

/-- The session `demo5` with its second ticket awaiting an answer too. -/
def demo6 : World := (fuse_insert_callback sample demo5 12288 1).after demo5

/-- The reply sizes of the body-size validation table, as the specification
states it: for each opcode with a fixed reply layout the one size its reply
must have, `none` for the other opcodes. -/
def expected_reply_size (K : Config) (data : fuse_data) : fuse_opcode → Option Nat
  | .FUSE_LOOKUP => some K.sizeof_fuse_entry_out
  | .FUSE_GETATTR => some K.sizeof_fuse_attr_out
  | .FUSE_SETATTR => some K.sizeof_fuse_attr_out
  | .FUSE_GETXTIMES => some K.sizeof_fuse_getxtimes_out
  | .FUSE_SYMLINK => some K.sizeof_fuse_entry_out
  | .FUSE_MKNOD => some K.sizeof_fuse_entry_out
  | .FUSE_MKDIR => some K.sizeof_fuse_entry_out
  | .FUSE_UNLINK => some 0
  | .FUSE_RMDIR => some 0
  | .FUSE_RENAME => some 0
  | .FUSE_LINK => some K.sizeof_fuse_entry_out
  | .FUSE_OPEN => some K.sizeof_fuse_open_out
  | .FUSE_WRITE => some K.sizeof_fuse_write_out
  | .FUSE_STATFS =>
    some (if fuse_libabi_geq data 7 4 then K.sizeof_fuse_statfs_out
          else K.FUSE_COMPAT_STATFS_SIZE)
  | .FUSE_RELEASE => some 0
  | .FUSE_FSYNC => some 0
  | .FUSE_FLUSH => some 0
  | .FUSE_INIT => some K.sizeof_fuse_init_out
  | .FUSE_OPENDIR => some K.sizeof_fuse_open_out
  | .FUSE_RELEASEDIR => some 0
  | .FUSE_FSYNCDIR => some 0
  | .FUSE_ACCESS => some 0
  | .FUSE_CREATE => some (K.sizeof_fuse_entry_out + K.sizeof_fuse_open_out)
  | .FUSE_DESTROY => some 0
  | .FUSE_EXCHANGE => some 0
  | .FUSE_SETVOLNAME => some 0
  | _ => none

/-- A dispatcher with no ticket, for a request body of `n` bytes (what
`fdisp_init` sets up). -/
def demo_fdi (n : Nat) : fuse_dispatcher :=
  { iosize := n, indata := 0, finh := 0, tick := 0, answ := 0, answ_stat := 0 }

/-- The session `demo1` after `fdisp_make` of a `FUSE_INIT` request. -/
def demo_init : World :=
  (fdisp_make sample demo1 (demo_fdi 16) .FUSE_INIT 0 none ⟨1, 0, 0⟩).after demo1

/-- The session `demo1` after `fdisp_make` of a `FUSE_LISTXATTR` request that
asks for no bytes (the request body is left zeroed). -/
def demo_listxattr : World :=
  (fdisp_make sample demo1 (demo_fdi 8) .FUSE_LISTXATTR 5 none ⟨1, 0, 0⟩).after demo1

/-- The session `demo1` after `fdisp_make` of a request with the opcode 999. -/
def demo_other : World :=
  (fdisp_make sample demo1 (demo_fdi 8) (.other 999) 5 none ⟨1, 0, 0⟩).after demo1

/-- The session `demo1` after `fdisp_make` of a `FUSE_READ` request. -/
def demo_read : World :=
  (fdisp_make sample demo1 (demo_fdi 24) .FUSE_READ 5 none ⟨1, 0, 0⟩).after demo1

/-- The session `demo2` once its ticket has been submitted. -/
def demo_sent : World := (fuse_insert_message sample demo2 8192).after demo2

/-- The session `demo2` marked dead. -/
def demo_dead : World := fdata_set_dead sample demo2

/-- Submitting the tickets `ps` one after the other, in this order, through
`fuse_insert_message`. -/
def insert_messages (K : Config) : World → List Nat → Outcome Unit
  | w, [] => .ret () w
  | w, p :: ps =>
    match fuse_insert_message K w p with
    | .ret _ w1 => insert_messages K w1 ps
    | .panic m w1 => .panic m w1
    | .fault => .fault

/-- What the reader gets by taking a ticket from the pending-send queue `n`
times with `fuse_ms_pop`. -/
def ms_pop_n : World → Nat → List Nat × World
  | w, 0 => ([], w)
  | w, n + 1 =>
    let r := fuse_ms_pop w
    let rest := ms_pop_n r.2 n
    (r.1 :: rest.1, rest.2)

/-- The session `demo4` (two clean tickets) once both have been submitted. -/
def demo_queued : World := (insert_messages sample demo4 [8192, 12288]).after demo4

/-- The configuration `sample` with at most one outstanding ticket allowed. -/
def sample_max1 : Config := { sample with fuse_max_tickets := 1 }

/-- The session `demo1` once the handshake has completed (`FSESS_INITED` set),
with one ticket fetched. -/
def demo_inited : World :=
  (fuse_ticket_fetch sample_max1
    { demo1 with data := { demo1.data with dataflags := sample.FSESS_INITED } }).after demo1

/-- The second and third tests of the condition of `fiov_adjust`: the tunable
`fuse_iov_permanent_bufsize` is not negative and the slack
`allocated_size - size` exceeds it. -/
def fiov_slack_over (K : Config) (fiov : fuse_iov) (size : Nat) : Prop :=
  0 ≤ K.fuse_iov_permanent_bufsize ∧
    K.fuse_iov_permanent_bufsize < (fiov.allocated_size : Int) - (size : Int)

instance (K : Config) (fiov : fuse_iov) (size : Nat) :
    Decidable (fiov_slack_over K fiov size) := by
  unfold fiov_slack_over
  infer_instance

/-- The condition under which `fiov_adjust` and `fiov_adjust_canfail`
reallocate: the buffer is too small, or the slack is over the watermark and the
credit, decremented, is exhausted. -/
def fiov_reallocs (K : Config) (fiov : fuse_iov) (size : Nat) : Prop :=
  fiov.allocated_size < size ∨ (fiov_slack_over K fiov size ∧ fiov.credit - 1 < 0)

instance (K : Config) (fiov : fuse_iov) (size : Nat) :
    Decidable (fiov_reallocs K fiov size) := by
  unfold fiov_reallocs
  infer_instance

/-- A session whose allocator will fail. -/
def demo_oom : World := { demo2 with blocks := [none] }

/-- The send buffer `fticket_alloc` built in `demo2`: 160 zero bytes, none used. -/
def demo_iov : fuse_iov := (demo2.tickD 8192).tk_ms_fiov

/-- Successive calls of `fiov_adjust` on one buffer, to the sizes of a list in
order. -/
def fiov_adjusts (K : Config) : World → fuse_iov → List Nat → Outcome fuse_iov
  | w, fiov, [] => .ret fiov w
  | w, fiov, s :: ss =>
    match fiov_adjust K w fiov s with
    | .ret f1 w1 => fiov_adjusts K w1 f1 ss
    | .panic m w1 => .panic m w1
    | .fault => .fault

/-- The value an outcome returns, `dflt` when it does not return. -/
def Outcome.valueD {α : Type} (o : Outcome α) (dflt : α) : α :=
  match o with
  | .ret v _ => v
  | .panic _ _ => dflt
  | .fault => dflt

/-- The configuration `sample` with the watermark `fuse_iov_permanent_bufsize`
at 0: any slack is over it. -/
def sample_wm0 : Config := { sample with fuse_iov_permanent_bufsize := 0 }

/-- The buffer `demo_iov` after one adjustment to 100 bytes under `sample_wm0`:
the shrink has been deferred and has cost one credit. -/
def demo_iov15 : fuse_iov := (fiov_adjust sample_wm0 demo2 demo_iov 100).valueD demo_iov

/-- The test of `fuse_ticket_drop` that sets `die`, for the ticket content `t`. -/
def drop_dies (K : Config) (w : World) (t : fuse_ticket) : Prop :=
  (0 ≤ K.fuse_max_freetickets ∧
    K.fuse_max_freetickets ≤ (w.data.freeticket_counter : Int)) ∨
  t.tk_flag &&& K.FT_KILLL ≠ 0

instance (K : Config) (w : World) (t : fuse_ticket) : Decidable (drop_dies K w t) := by
  unfold drop_dies
  infer_instance

/-- The session `demo2` with the flag `FT_KILLL` set on its ticket. -/
def demo_killed : World :=
  demo2.setTick 8192 { demo2.tickD 8192 with tk_flag := sample.FT_KILLL }

/-- The all-tickets registry: no ticket is twice in it, and the tickets in it
are live. -/
structure RegInv (w : World) : Prop where
  all_nodup : w.data.alltickets_head.Nodup
  all_live : ∀ p ∈ w.data.alltickets_head, ∃ t, w.tick p = some t

/-- The machine `demo0` with an allocator that grants two buffers and refuses
the third. -/
def demo_tight0 : World := { demo0 with blocks := [some [], some [], none] }

/-- The session `fdata_alloc` creates on `demo_tight0`. -/
def demo_tight1 : World := (fdata_alloc sample demo_tight0 77).after demo_tight0

/-- The session `demo_tight1` after a first `fuse_ticket_fetch`: the allocator
refuses the next buffer. -/
def demo_tight2 : World := (fuse_ticket_fetch sample demo_tight1).after demo_tight1

/-- The dispatcher of a request of 200 bytes that reuses the ticket at 8192. -/
def demo_fdi_held : fuse_dispatcher := { demo_fdi 200 with tick := 8192 }

/-- The session `demo_tight2` after the `fdisp_make_canfail` of `demo_fdi_held`. -/
def demo_tight3 : World :=
  (fdisp_make_canfail sample demo_tight2 demo_fdi_held .FUSE_WRITE 1 none ⟨1, 0, 0⟩).after
    demo_tight2

/-- The session `demo_tight2` after `fuse_insert_message` of its ticket, which
the daemon has not read. -/
def demo_tight2q : World := (fuse_insert_message sample demo_tight2 8192).after demo_tight2

/-- The session `demo_tight2q` after the `fdisp_make_canfail` of `demo_fdi_held`. -/
def demo_tight3q : World :=
  (fdisp_make_canfail sample demo_tight2q demo_fdi_held .FUSE_WRITE 1 none ⟨1, 0, 0⟩).after
    demo_tight2q

/-- Modelled from the spec: `fticket_answered` of `fuse_ipc.h`, which is not
among the sources: the answered flag `FT_ANSW` of the ticket is set. -/
def fticket_answered (K : Config) (t : fuse_ticket) : Bool :=
  decide (t.tk_flag &&& K.FT_ANSW ≠ 0)

/-- Modelled from the spec: `fticket_set_answered` of `fuse_ipc.h`, which is
not among the sources: it sets the answered flag `FT_ANSW` of the ticket. -/
def fticket_set_answered (K : Config) (t : fuse_ticket) : fuse_ticket :=
  { t with tk_flag := t.tk_flag ||| K.FT_ANSW }

/-- Modelled from the spec: `fticket_invalidate` of `fuse_ipc.h`, which is not
among the sources: it sets the invalidated flag `FT_INVAL` of the ticket. -/
def fticket_invalidate (K : Config) (t : fuse_ticket) : fuse_ticket :=
  { t with tk_flag := t.tk_flag ||| K.FT_INVAL }

/-- Modelled from the spec: `fdisp_init` of `fuse_ipc.h`, which is not among
the sources: it records the body size and leaves the dispatcher without a
ticket. -/
def fdisp_init (fdip : fuse_dispatcher) (iosize : Nat) : fuse_dispatcher :=
  { fdip with iosize := iosize, tick := 0 }

/-- Function `fuse_internal_interrupt_send` of `fuse_internal.c`, for the
current process `cur`.  The fields of the dispatcher on its stack that it does
not set start at 0. -/
def fuse_internal_interrupt_send (K : Config) (w : World) (ftick : Nat) (cur : Identity) :
    Outcome Unit :=
  match w.tick ftick with
  | none => .fault
  | some _ =>
    let fdi := fdisp_init
      { iosize := 0, indata := 0, finh := 0, tick := ftick, answ := 0, answ_stat := 0 }
      K.sizeof_fuse_interrupt_in
    match fdisp_make K w fdi .FUSE_INTERRUPT 0 none cur with
    | .panic m w1 => .panic m w1
    | .fault => .fault
    | .ret fdi1 w1 =>
      match w1.tick ftick, w1.tick fdi1.tick with
      | some t, some tn =>
        let body := K.interrupt_in_store t.tk_unique (tn.tk_ms_fiov.base.drop fdi1.indata)
        let tn1 := { tn with tk_ms_fiov :=
          { tn.tk_ms_fiov with base := tn.tk_ms_fiov.base.take fdi1.indata ++ body } }
        fuse_insert_message K (w1.setTick fdi1.tick (fticket_invalidate K tn1)) fdi1.tick
      | _, _ => .fault

/-- What the other threads do to the session and its tickets while the caller
sleeps: `during` gives the state they leave; the log and the answers of the
environment are those of the caller. -/
def others (during : World → World) (w : World) : World :=
  { w with data := (during w).data, heap := (during w).heap }

/-- The label `out` of `fticket_wait_answer`, reached with the status `err`. -/
def fticket_wait_answer_out (K : Config) (w : World) (ftick : Nat) (err : Nat) :
    Outcome Nat :=
  match w.tick ftick with
  | none => .fault
  | some t =>
    if ¬ (err ≠ 0 ∨ fticket_answered K t = true) then
      .ret ENXIO w
    else
      .ret err w

/-- The label `alreadydead` of `fticket_wait_answer`. -/
def fticket_wait_answer_alreadydead (K : Config) (w : World) (ftick : Nat) : Outcome Nat :=
  let w1 := if fdata_dead_get K w.data = 0 then fdata_set_dead K w else w
  match w1.tick ftick with
  | none => .fault
  | some t =>
    fticket_wait_answer_out K (w1.setTick ftick (fticket_set_answered K t)) ftick ENOTCONN

/-- Where `fticket_wait_answer` goes from the sleep at its label `again`:
back to `again`, on to the alert panel (the `break` out of the first
`switch`), to `alreadydead`, to the interrupt plumbing, or to `out` with the
status of the sleep. -/
inductive wait_label where
  | again (w : World) (alerts : List (Nat × Nat))
  | alert (w : World) (alerts : List (Nat × Nat))
  | alreadydead (w : World)
  | interrupt (w : World) (err : Nat)
  | out (w : World) (err : Nat)

/-- Where `fticket_wait_answer` goes from the alert panel: back to `again` or
to `alreadydead`. -/
inductive alert_label where
  | again (w : World) (alerts : List (Nat × Nat))
  | alreadydead (w : World)

/-- The label `again` of `fticket_wait_answer`: the sleep, and the first
`switch` when the sleep has timed out. -/
def fticket_wait_answer_sleep (K : Config) (during : World → World) (ftick : Nat)
    (w : World) (alerts : List (Nat × Nat)) : wait_label :=
  let r := fuse_msleep w (.ticket ftick)
  let err := r.1
  let w1 := others during r.2
  if err = EAGAIN then
    if w1.data.dataflags &&& K.FSESS_NO_ALERTS ≠ 0 then
      .alreadydead
        { w1 with data := { w1.data with timeout_status := K.FUSE_DAEMON_TIMEOUT_DEAD } }
    else if w1.data.timeout_status = K.FUSE_DAEMON_TIMEOUT_NONE then
      .alert
        { w1 with data := { w1.data with timeout_status := K.FUSE_DAEMON_TIMEOUT_PROCESSING } }
        alerts
    else if w1.data.timeout_status = K.FUSE_DAEMON_TIMEOUT_PROCESSING then
      .again w1 alerts
    else if w1.data.timeout_status = K.FUSE_DAEMON_TIMEOUT_DEAD then
      .alreadydead w1
    else
      .again w1 alerts
  else if K.M_MACFUSE_ENABLE_INTERRUPT = true ∧ err = EINTR then
    .interrupt w1 err
  else
    .out w1 err

/-- The alert panel of `fticket_wait_answer` and the `switch` on its response.
`alerts` are the answers `(kr, rf)` of the panel to the next alerts (no answer
left: the alert could not be shown). -/
def fticket_wait_answer_alert (K : Config) (w : World) (alerts : List (Nat × Nat)) :
    alert_label :=
  let shown : (Nat × Nat) × List (Nat × Nat) :=
    if K.M_MACFUSE_ENABLE_KUNC = true then
      (match alerts with
       | [] => ((KERN_FAILURE, 0), [])
       | a :: rest => (a, rest))
    else
      ((KERN_FAILURE, 0), alerts)
  let kr := shown.1.1
  let rf := if kr ≠ KERN_SUCCESS then kKUNCOtherResponse else shown.1.2
  if rf = kKUNCOtherResponse then
    .alreadydead
      { w with data := { w.data with timeout_status := K.FUSE_DAEMON_TIMEOUT_DEAD } }
  else if rf = kKUNCDefaultResponse ∨ rf = kKUNCAlternateResponse ∨
      rf = kKUNCCancelResponse then
    .again
      { w with data :=
        { w.data with
          timeout_status := K.FUSE_DAEMON_TIMEOUT_NONE,
          daemon_timeout_p :=
            if rf = kKUNCAlternateResponse then 0 else w.data.daemon_timeout_p } }
      shown.2
  else
    .alreadydead
      { w with data := { w.data with timeout_status := K.FUSE_DAEMON_TIMEOUT_DEAD } }

/-- The loop of `fticket_wait_answer` from its label `again`.  Every jump back
to `again` takes one unit of `fuel`; a jump follows a sleep that has consumed
an answer of the environment, so that `w.sleeps.length + 1` units are never
used up. -/
def fticket_wait_answer_again (K : Config) (during : World → World) (cur : Identity)
    (ftick : Nat) : Nat → World → List (Nat × Nat) → Outcome Nat
  | 0, _, _ => .fault
  | fuel + 1, w, alerts =>
    match fticket_wait_answer_sleep K during ftick w alerts with
    | .again w1 al => fticket_wait_answer_again K during cur ftick fuel w1 al
    | .alert w2 al =>
      (match fticket_wait_answer_alert K w2 al with
       | .again w3 al3 => fticket_wait_answer_again K during cur ftick fuel w3 al3
       | .alreadydead w3 => fticket_wait_answer_alreadydead K w3 ftick)
    | .alreadydead w1 => fticket_wait_answer_alreadydead K w1 ftick
    | .interrupt w1 err =>
      (match fuse_internal_interrupt_send K w1 ftick cur with
       | .panic m w2 => .panic m w2
       | .fault => .fault
       | .ret _ w2 => fticket_wait_answer_out K w2 ftick err)
    | .out w1 err => fticket_wait_answer_out K w1 ftick err

/-- Function `fticket_wait_answer`: the status it returns. -/
def fticket_wait_answer (K : Config) (during : World → World) (cur : Identity)
    (alerts : List (Nat × Nat)) (w : World) (ftick : Nat) : Outcome Nat :=
  match w.tick ftick with
  | none => .fault
  | some t =>
    if fticket_answered K t = true then
      fticket_wait_answer_out K w ftick 0
    else if fdata_dead_get K w.data ≠ 0 then
      fticket_wait_answer_out K (w.setTick ftick (fticket_set_answered K t)) ftick ENOTCONN
    else
      fticket_wait_answer_again K during cur ftick (w.sleeps.length + 1) w alerts
/-- The session `demo2` with its ticket marked answered. -/
def demo_answered : World :=
  demo2.setTick 8192 (fticket_set_answered sample (demo2.tickD 8192))

/-- The moves of `timeout_status` the specification allows: idle to
processing, and processing to idle or to dead. -/
def timeout_edge (K : Config) (a b : Nat) : Prop :=
  (a = K.FUSE_DAEMON_TIMEOUT_NONE ∧ b = K.FUSE_DAEMON_TIMEOUT_PROCESSING) ∨
  (a = K.FUSE_DAEMON_TIMEOUT_PROCESSING ∧ b = K.FUSE_DAEMON_TIMEOUT_NONE) ∨
  (a = K.FUSE_DAEMON_TIMEOUT_PROCESSING ∧ b = K.FUSE_DAEMON_TIMEOUT_DEAD)

/-- The world a label of `wait_label` carries. -/
def wait_label.world : wait_label → World
  | .again w _ => w
  | .alert w _ => w
  | .alreadydead w => w
  | .interrupt w _ => w
  | .out w _ => w

/-- The world a label of `alert_label` carries. -/
def alert_label.world : alert_label → World
  | .again w _ => w
  | .alreadydead w => w

/-- The session `demo2` whose next sleep times out. -/
def demo_timeout : World := { demo2 with sleeps := [EAGAIN] }

/-- The session `demo_timeout` mounted without alerts. -/
def demo_noalerts : World :=
  { demo_timeout with data := { demo_timeout.data with dataflags := sample.FSESS_NO_ALERTS } }

/-- Darwin errno `EIO`. -/
def EIO : Nat := 5

/-- Darwin errno `EFAULT`. -/
def EFAULT : Nat := 14

/-- Darwin errno `ENOTSUP`. -/
def ENOTSUP : Nat := 45

/-- The field `uio_rw` of a `uio`: `UIO_READ` moves bytes from the kernel to the
`uio`, `UIO_WRITE` from the `uio` to the kernel. -/
inductive uio_rw where
  | UIO_READ | UIO_WRITE
deriving DecidableEq, Repr

/-- A `uio` of the kernel: `resid` bytes are still to be moved, `offset` is its
file offset, and `data` holds the bytes themselves: those not yet taken from it
(`UIO_WRITE`) or those moved into it so far (`UIO_READ`).  `fault` is what
`uiomove` returns on it: `0` when its memory can be accessed. -/
structure uio where
  rw : uio_rw
  resid : Nat
  offset : Nat
  data : List Nat
  fault : Nat
deriving DecidableEq, Repr

/-- Function `uiomove(cp, n, uio)` of the kernel: the status, the bytes at `cp`
and the `uio` afterwards.  At most `resid` bytes are moved; nothing is moved
when the memory of the `uio` cannot be accessed. -/
def uiomove (cp : List Nat) (n : Nat) (u : uio) : Nat × List Nat × uio :=
  if u.fault ≠ 0 then
    (u.fault, cp, u)
  else
    let k := min n u.resid
    match u.rw with
    | .UIO_WRITE =>
      (0, poke cp 0 ((List.range k).map (fun i => u.data.getD i 0)),
        { u with resid := u.resid - k, offset := u.offset + k, data := u.data.drop k })
    | .UIO_READ =>
      (0, cp,
        { u with resid := u.resid - k, offset := u.offset + k,
                 data := u.data ++ (List.range k).map (fun i => cp.getD i 0) })

/-- Modelled from the spec: `fticket_set_killl` of `fuse_ipc.h`, which is not
among the sources: it sets the flag `FT_KILLL` of the ticket. -/
def fticket_set_killl (K : Config) (t : fuse_ticket) : fuse_ticket :=
  { t with tk_flag := t.tk_flag ||| K.FT_KILLL }

/-- Function `fticket_aw_pull_uio`: the status, and the `uio` afterwards.  The
macro `fticket_resp` of `fuse_ipc.h` is not among the sources; it is taken to
be the reply buffer `tk_aw_fiov` of the ticket.  The memory `tk_aw_bufdata`
points to is outside the session: the bytes moved there are not tracked.  The
type of `tk_aw_type` has the two values of the `switch`. -/
def fticket_aw_pull_uio (K : Config) (w : World) (ftick : Nat) (u : uio) :
    Outcome (Nat × uio) :=
  match w.tick ftick with
  | none => .fault
  | some t =>
    let len := u.resid
    if len ≠ 0 then
      match t.tk_aw_type with
      | .FT_A_FIOV =>
        (match fiov_adjust_canfail K w t.tk_aw_fiov len with
         | .panic m w1 => .panic m w1
         | .fault => .fault
         | .ret (err, f) w1 =>
           if err ≠ 0 then
             .ret (err, u) (w1.setTick ftick (fticket_set_killl K { t with tk_aw_fiov := f }))
           else
             let r := uiomove f.base len u
             .ret (r.1, r.2.2)
               (w1.setTick ftick { t with tk_aw_fiov := { f with base := r.2.1 } }))
      | .FT_A_BUF =>
        let r := uiomove [] len u
        .ret (r.1, r.2.2) (w.setTick ftick { t with tk_aw_bufsize := len })
    else
      .ret (0, u) w

/-- Function `fticket_pull`: the status, and the `uio` afterwards. -/
def fticket_pull (K : Config) (w : World) (ftick : Nat) (u : uio) : Outcome (Nat × uio) :=
  match w.tick ftick with
  | none => .fault
  | some t =>
    if t.tk_aw_ohead.error ≠ 0 then
      .ret (0, u) w
    else
      match fuse_body_audit K w ftick u.resid with
      | .panic m w1 => .panic m w1
      | .fault => .fault
      | .ret err w1 =>
        if err = 0 then fticket_aw_pull_uio K w1 ftick u else .ret (err, u) w1

/-- Function `fuse_standard_handler`: the status, and the `uio` afterwards. -/
def fuse_standard_handler (K : Config) (w : World) (ftick : Nat) (u : uio) :
    Outcome (Nat × uio) :=
  match fticket_pull K w ftick u with
  | .panic m w1 => .panic m w1
  | .fault => .fault
  | .ret (err, u1) w1 =>
    match w1.tick ftick with
    | none => .fault
    | some t =>
      if fticket_answered K t = true then
        match fuse_ticket_drop K w1 ftick with
        | .panic m w2 => .panic m w2
        | .fault => .fault
        | .ret _ w2 => .ret (err, u1) w2
      else
        .ret (err, u1)
          ((w1.setTick ftick { fticket_set_answered K t with tk_aw_errno := (err : Int) }).emit
            (.wakeup (.ticket ftick)))

/-- What a returning pull leaves of the ticket: the session data and the log
are untouched, and the ticket keeps its `tk_aw_errno`, its age and its
handler; its flags gain at most `FT_KILLL`. -/
def PullKeeps (K : Config) (w w' : World) (p : Nat) : Prop :=
  w'.trace = w.trace ∧ w'.data = w.data ∧ w'.sleeps = w.sleeps ∧
  ∀ t, w.tick p = some t → ∃ t1, w'.tick p = some t1 ∧
    t1.tk_aw_errno = t.tk_aw_errno ∧ t1.tk_age = t.tk_age ∧
    t1.tk_aw_handler = t.tk_aw_handler ∧ t1.tk_aw_ohead = t.tk_aw_ohead ∧
    (t1.tk_flag = t.tk_flag ∨ t1.tk_flag = t.tk_flag ||| K.FT_KILLL)

/-- A reply of 24 bytes the daemon writes to the device. -/
def demo_uio : uio :=
  { rw := .UIO_WRITE, resid := 24, offset := 0, data := List.replicate 24 7, fault := 0 }

/-- The session `demo_init` with the ticket of the `FUSE_INIT` request marked
answered. -/
def demo_init_answered : World :=
  demo_init.setTick 8192 (fticket_set_answered sample (demo_init.tickD 8192))

/-- The session `demo_init` after `fticket_pull` of the reply `demo_uio`. -/
def demo_pulled : World := (fticket_pull sample demo_init 8192 demo_uio).after demo_init

/-- The session `demo_init_answered` after `fticket_pull` of the reply
`demo_uio`. -/
def demo_pulled_answered : World :=
  (fticket_pull sample demo_init_answered 8192 demo_uio).after demo_init_answered

/-- Modelled from the spec: the macro `fticket_resp` of `fuse_ipc.h`, which is
not among the sources: the reply buffer of the ticket. -/
def fticket_resp (t : fuse_ticket) : fuse_iov := t.tk_aw_fiov

/-- The code address of `fuse_standard_handler`, as a value of `tk_aw_handler`:
any address but `NULL`. -/
def fuse_standard_handler_addr : Nat := 1

/-- The label `out` of `fdisp_wait_answ`: the ticket is dropped and `err`
returned. -/
def fdisp_wait_answ_out (K : Config) (w : World) (fdip : fuse_dispatcher) (err : Int) :
    Outcome (Int × fuse_dispatcher) :=
  match fuse_ticket_drop K w fdip.tick with
  | .panic m w1 => .panic m w1
  | .fault => .fault
  | .ret _ w1 => .ret (err, fdip) w1

/-- The part of `fdisp_wait_answ` that follows `fticket_wait_answer`, which has
returned `err`.  No other thread runs between the reading of `tk_age` and its
test. -/
def fdisp_wait_answ_tail (K : Config) (w : World) (fdip : fuse_dispatcher) (err : Nat) :
    Outcome (Int × fuse_dispatcher) :=
  match w.tick fdip.tick with
  | none => .fault
  | some t =>
    if err ≠ 0 then
      if fticket_answered K t = true then
        fdisp_wait_answ_out K w fdip (err : Int)
      else
        let age := t.tk_age
        let t1 := fticket_set_answered K t
        let t2 :=
          if K.DONT_TRY_HARD_PREVENT_IO_IN_VAIN = false ∧ fdip.tick ∈ w.data.aw_head ∧
              t1.tk_age = age then
            { t1 with tk_aw_handler := 0 }
          else
            t1
        .ret ((err : Int), fdip) (w.setTick fdip.tick t2)
    else if t.tk_aw_errno ≠ 0 then
      fdisp_wait_answ_out K w fdip ( EIO : Int)
    else if t.tk_aw_ohead.error ≠ 0 then
      fdisp_wait_answ_out K w { fdip with answ_stat := t.tk_aw_ohead.error }
        t.tk_aw_ohead.error
    else
      .ret (0, { fdip with answ := 0, iosize := (fticket_resp t).len }) w

/-- Function `fdisp_wait_answ`: the status it returns, and the dispatcher. -/
def fdisp_wait_answ (K : Config) (during : World → World) (cur : Identity)
    (alerts : List (Nat × Nat)) (w : World) (fdip : fuse_dispatcher) :
    Outcome (Int × fuse_dispatcher) :=
  let fdip1 := { fdip with answ_stat := 0 }
  match fuse_insert_callback K w fdip.tick fuse_standard_handler_addr with
  | .panic m w1 => .panic m w1
  | .fault => .fault
  | .ret _ w1 =>
    match fuse_insert_message K w1 fdip.tick with
    | .panic m w2 => .panic m w2
    | .fault => .fault
    | .ret _ w2 =>
      match fticket_wait_answer K during cur alerts w2 fdip.tick with
      | .panic m w3 => .panic m w3
      | .fault => .fault
      | .ret err w3 => fdisp_wait_answ_tail K w3 fdip1 err

/-- The dispatcher of the `FUSE_INIT` request of `demo_init`. -/
def demo_fdi_init : fuse_dispatcher := { demo_fdi 16 with tick := 8192, indata := 40 }

/-- A daemon, and the device that delivers its reply, at work while the caller
sleeps: the ticket at 8192 is taken off both queues and answered with the
header error `e` and an empty body. -/
def demo_daemon (e : Int) (w : World) : World :=
  { w.setTick 8192
      { fticket_set_answered sample (w.tickD 8192) with
        tk_aw_ohead := { len := 16, error := e, unique := (w.tickD 8192).tk_unique } } with
    data := { w.data with ms_head := [], aw_head := [] } }

/-- The session `demo_init` after the `fuse_insert_callback` of
`fdisp_wait_answ`. -/
def demo_wait1 : World :=
  (fuse_insert_callback sample demo_init 8192 fuse_standard_handler_addr).after demo_init

/-- The session `demo_wait1` after the `fuse_insert_message` of
`fdisp_wait_answ`. -/
def demo_wait2 : World := (fuse_insert_message sample demo_wait1 8192).after demo_wait1

/-- The session `demo_wait2` after `fticket_wait_answer`, the daemon answering
with the header error `e`. -/
def demo_wait3 (e : Int) : World :=
  (fticket_wait_answer sample (demo_daemon e) ⟨1, 0, 0⟩ [] demo_wait2 8192).after demo_wait2

/-- Other threads that take the ticket at 8192 off the awaiting-answer list
and leave it unanswered. -/
def demo_unlisted (w : World) : World :=
  { w with data := { w.data with aw_head := [] } }

/-! ## Directory reading (`fuse_internal.c`) -/

/-- Darwin `MAXNAMLEN` of `sys/dirent.h`. -/
def MAXNAMLEN : Nat := 255

/-- Size of the `struct dirent` of `sys/dirent.h`: a 4-byte `d_fileno`, a
2-byte `d_reclen`, `d_type`, `d_namlen` and `MAXNAMLEN + 1` bytes of name. -/
def sizeof_dirent : Nat := 264

/-- Darwin file type `DT_WHT`. -/
def DT_WHT : Nat := 14

/-- The macro `GENERIC_DIRSIZ` of `fuse_internal_readdir_processdata`, for a
32-bit `d_namlen`. -/
def GENERIC_DIRSIZ (d_namlen : Nat) : Nat :=
  (sizeof_dirent - (MAXNAMLEN + 1)) + (((d_namlen + 1 + 3) % 2 ^ 32) &&& 4294967292)

/-- The fields `fuse_internal_readdir_processdata` gives the `struct dirent` it
cooks from the record `fudge` of the protocol, for the session flags
`dataflags`. -/
def processdata_dirent (K : Config) (dataflags : Nat) (fudge : fuse_dirent)
    (bytesavail : Nat) (name : List Nat) : dirent :=
  if K.fuse_skip_apple_special_mp dataflags name = true then
    { d_fileno := 0, d_reclen := bytesavail % 2 ^ 16, d_type := DT_WHT,
      d_namlen := fudge.namelen % 2 ^ 8 }
  else
    { d_fileno := fudge.ino % 2 ^ 32, d_reclen := bytesavail % 2 ^ 16,
      d_type := fudge.type % 2 ^ 8, d_namlen := fudge.namelen % 2 ^ 8 }

/-- The loop of `fuse_internal_readdir_processdata`: the status, the `uio` and
the cooked buffer it leaves.  `buf` holds the bytes from the cursor on and
`cou` counts the records looked at.  A byte written outside the allocation of
the cooked buffer is a fault.  Every iteration that continues has moved a
record into the `uio`, so that `u.resid + 1` units of fuel are never used up. -/
def fuse_internal_readdir_processdata_loop (K : Config) :
    Nat → World → uio → List Nat → Nat → fuse_iov → Nat → Outcome (Int × uio × fuse_iov)
  | 0, _, _, _, _, _, _ => .fault
  | fuel + 1, w, u, buf, bufsize, cookediov, cou =>
    if bufsize < K.FUSE_NAME_OFFSET then
      .ret (-1, u, cookediov) w
    else
      let fudge := K.fuse_dirent_load buf
      let freclen := K.FUSE_DIRENT_SIZE fudge.namelen
      let cou1 := cou + 1
      if bufsize < freclen then
        .ret ((if cou1 = 1 then -1 else 0), u, cookediov) w
      else if fudge.namelen = 0 then
        .ret ((EINVAL : Int), u, cookediov) w
      else if MAXNAMLEN < fudge.namelen then
        .ret (( EIO : Int), u, cookediov) w
      else
        let bytesavail := GENERIC_DIRSIZ fudge.namelen
        if u.resid < bytesavail then
          .ret (-1, u, cookediov) w
        else
          match fiov_refresh K w cookediov with
          | .panic m w1 => .panic m w1
          | .fault => .fault
          | .ret c1 w1 =>
            match fiov_adjust K w1 c1 bytesavail with
            | .panic m w2 => .panic m w2
            | .fault => .fault
            | .ret c2 w2 =>
              let name := (List.range fudge.namelen).map
                (fun i => buf.getD (K.FUSE_NAME_OFFSET + i) 0)
              let de := processdata_dirent K w2.data.dataflags fudge bytesavail name
              let base1 := poke (K.dirent_store de c2.base)
                (sizeof_dirent - MAXNAMLEN - 1) name
              if bytesavail < base1.length then
                let c3 := { c2 with base := base1.set bytesavail 0 }
                let r := uiomove c3.base c3.len u
                if r.1 ≠ 0 then
                  .ret ((r.1 : Int), r.2.2, c3) w2
                else
                  fuse_internal_readdir_processdata_loop K fuel w2
                    { r.2.2 with offset := fudge.off } (buf.drop freclen) (bufsize - freclen)
                    c3 cou1
              else
                .fault

/-- Function `fuse_internal_readdir_processdata`, for the reply of `bufsize`
bytes in `buf`. -/
def fuse_internal_readdir_processdata (K : Config) (w : World) (u : uio) (buf : List Nat)
    (bufsize : Nat) (cookediov : fuse_iov) : Outcome (Int × uio × fuse_iov) :=
  if bufsize < K.FUSE_NAME_OFFSET then
    .ret (-1, u, cookediov) w
  else
    fuse_internal_readdir_processdata_loop K (u.resid + 1) w u buf bufsize cookediov 0

/-- The stores into the fields `fh`, `offset` and `size` of the
`struct fuse_read_in` at `indata` in the send buffer of a ticket. -/
def fuse_read_in_fill (K : Config) (t : fuse_ticket) (indata fh offset size : Nat) :
    fuse_ticket :=
  { t with tk_ms_fiov :=
    { t.tk_ms_fiov with
      base := t.tk_ms_fiov.base.take indata ++
        K.read_in_store fh offset size (t.tk_ms_fiov.base.drop indata) } }

/-- The end of `fuse_internal_readdir` from its label `done`: the ticket is
dropped, and the status `-1` of the transcoding is returned as 0. -/
def fuse_internal_readdir_done (K : Config) (w : World) (fdi : fuse_dispatcher) (err : Int)
    (u : uio) (cookediov : fuse_iov) : Outcome (Int × uio × fuse_iov) :=
  match fuse_ticket_drop K w fdi.tick with
  | .panic m w1 => .panic m w1
  | .fault => .fault
  | .ret _ w1 => .ret ((if err = -1 then 0 else err), u, cookediov) w1

/-- The loop of `fuse_internal_readdir`, for the directory `nid` open as
`fh_id`.  `fdisp_make_vp` is `fdisp_make` for the node id of the vnode.  The
alert panel answers each request from the same list.  An iteration that
continues has moved a record into the `uio`: `u.resid + 1` units of fuel are
never used up. -/
def fuse_internal_readdir_loop (K : Config) (during : World → World) (cur : Identity)
    (alerts : List (Nat × Nat)) (nid fh_id : Nat) (context : Option Identity) :
    Nat → World → uio → fuse_dispatcher → fuse_iov → Outcome (Int × uio × fuse_iov)
  | 0, _, _, _, _ => .fault
  | fuel + 1, w, u, fdi, cookediov =>
    if 0 < u.resid then
      match fdisp_make K w { fdi with iosize := K.sizeof_fuse_read_in } .FUSE_READDIR nid
          context cur with
      | .panic m w1 => .panic m w1
      | .fault => .fault
      | .ret fdi1 w1 =>
        match w1.tick fdi1.tick with
        | none => .fault
        | some t =>
          let t1 := fuse_read_in_fill K t fdi1.indata fh_id u.offset
            (min u.resid w1.data.iosize)
          match fdisp_wait_answ K during cur alerts (w1.setTick fdi1.tick t1) fdi1 with
          | .panic m w3 => .panic m w3
          | .fault => .fault
          | .ret (err, fdi2) w3 =>
            if err ≠ 0 then
              .ret ((if err = -1 then 0 else err), u, cookediov) w3
            else
              match w3.tick fdi2.tick with
              | none => .fault
              | some t3 =>
                match fuse_internal_readdir_processdata K w3 u
                    ((fticket_resp t3).base.drop fdi2.answ) fdi2.iosize cookediov with
                | .panic m w4 => .panic m w4
                | .fault => .fault
                | .ret (e, u1, c1) w4 =>
                  if e ≠ 0 then
                    fuse_internal_readdir_done K w4 fdi2 e u1 c1
                  else
                    fuse_internal_readdir_loop K during cur alerts nid fh_id context fuel w4
                      u1 fdi2 c1
    else
      fuse_internal_readdir_done K w fdi 0 u cookediov

/-- Function `fuse_internal_readdir`.  The fields of the dispatcher on its
stack that `fdisp_init` does not set start at 0. -/
def fuse_internal_readdir (K : Config) (during : World → World) (cur : Identity)
    (alerts : List (Nat × Nat)) (nid fh_id : Nat) (context : Option Identity) (w : World)
    (u : uio) (cookediov : fuse_iov) : Outcome (Int × uio × fuse_iov) :=
  if u.resid = 0 then
    .ret (0, u, cookediov) w
  else
    fuse_internal_readdir_loop K during cur alerts nid fh_id context (u.resid + 1) w u
      (fdisp_init { iosize := 0, indata := 0, finh := 0, tick := 0, answ := 0, answ_stat := 0 } 0)
      cookediov

/-- What `uiomove` leaves of a readable `uio` that `n` bytes fit in. -/
def uio_moved (u : uio) (cp : List Nat) (n : Nat) : uio :=
  { u with resid := u.resid - n, offset := u.offset + n,
           data := u.data ++ (List.range n).map (fun i => cp.getD i 0) }

/-- The cursor and the remaining length of a reply after its first `k`
records. -/
def wire_rest (K : Config) : Nat → List Nat → Nat → List Nat × Nat
  | 0, buf, bufsize => (buf, bufsize)
  | k + 1, buf, bufsize =>
    wire_rest K k (buf.drop (K.FUSE_DIRENT_SIZE (K.fuse_dirent_load buf).namelen))
      (bufsize - K.FUSE_DIRENT_SIZE (K.fuse_dirent_load buf).namelen)

/-- The reply `buf` of `bufsize` bytes starts with `k` well-formed directory
records: each lies in the reply with its name, and the length of its name is
at least 1 and at most `MAXNAMLEN`. -/
def wire_wellformed (K : Config) : Nat → List Nat → Nat → Prop
  | 0, _, _ => True
  | k + 1, buf, bufsize =>
    K.FUSE_NAME_OFFSET ≤ bufsize ∧
    K.FUSE_DIRENT_SIZE (K.fuse_dirent_load buf).namelen ≤ bufsize ∧
    1 ≤ (K.fuse_dirent_load buf).namelen ∧ (K.fuse_dirent_load buf).namelen ≤ MAXNAMLEN ∧
    wire_wellformed K k (buf.drop (K.FUSE_DIRENT_SIZE (K.fuse_dirent_load buf).namelen))
      (bufsize - K.FUSE_DIRENT_SIZE (K.fuse_dirent_load buf).namelen)

/-- The number of bytes of the host records cooked from the first `k` records
of a reply. -/
def host_bytes (K : Config) : Nat → List Nat → Nat
  | 0, _ => 0
  | k + 1, buf =>
    GENERIC_DIRSIZ (K.fuse_dirent_load buf).namelen +
      host_bytes K k (buf.drop (K.FUSE_DIRENT_SIZE (K.fuse_dirent_load buf).namelen))

/-- The `off` field of the `k`-th record of a reply, `o` when `k` is 0. -/
def last_off (K : Config) : Nat → List Nat → Nat → Nat
  | 0, _, o => o
  | k + 1, buf, _ =>
    last_off K k (buf.drop (K.FUSE_DIRENT_SIZE (K.fuse_dirent_load buf).namelen))
      (K.fuse_dirent_load buf).off

/-- A cooked buffer that no record makes `fiov_adjust` reallocate: its
allocation holds the largest host record and the byte after it, and its slack
never exceeds the watermark. -/
def cooked_roomy (K : Config) (c : fuse_iov) : Prop :=
  c.base.length = c.allocated_size ∧ 264 < c.allocated_size ∧
  (K.fuse_iov_permanent_bufsize < 0 ∨ (c.allocated_size : Int) ≤ K.fuse_iov_permanent_bufsize)

/-- A directory record of the protocol in the layout of `sample`. -/
def demo_wire_record (ino off type : Nat) (name : List Nat) : List Nat :=
  le_bytes 8 ino ++ le_bytes 8 off ++ le_bytes 4 name.length ++ le_bytes 4 type ++ name ++
    List.replicate ((24 + name.length + 7) / 8 * 8 - (24 + name.length)) 0

/-- A reply of 94 bytes: two records, named "ab" and "cde", and the first 30
bytes of a third. -/
def demo_reply2 : List Nat :=
  demo_wire_record 10 1 8 [97, 98] ++ demo_wire_record 11 2 8 [99, 100, 101] ++
    (demo_wire_record 12 3 8 [102, 103, 104, 105, 106, 107, 108, 109, 110]).take 30

/-- A cooked buffer of 512 bytes. -/
def demo_cooked : fuse_iov :=
  { base := List.replicate 512 0, len := 0, allocated_size := 512, credit := 16 }

/-- A `uio` for a read of at most `n` bytes at offset 0. -/
def demo_uio_read (n : Nat) : uio :=
  { rw := .UIO_READ, resid := n, offset := 0, data := [], fault := 0 }

/-- A daemon, and the device that delivers its reply, at work while the caller
sleeps: the ticket at 8192 is taken off both queues and answered, without
error, with the body `bytes`. -/
def demo_dir_daemon (bytes : List Nat) (w : World) : World :=
  { w.setTick 8192
      { fticket_set_answered sample (w.tickD 8192) with
        tk_aw_ohead := { len := 16 + bytes.length, error := 0,
                         unique := (w.tickD 8192).tk_unique },
        tk_aw_fiov :=
          { (w.tickD 8192).tk_aw_fiov with
            base := poke (w.tickD 8192).tk_aw_fiov.base 0 bytes, len := bytes.length } } with
    data := { w.data with ms_head := [], aw_head := [] } }

/-- A reply of 96 bytes: the records "ab" and "cde", and a record the name of
which has length 0. -/
def demo_reply_bad : List Nat :=
  demo_wire_record 10 1 8 [97, 98] ++ demo_wire_record 11 2 8 [99, 100, 101] ++
    demo_wire_record 12 3 8 []

/-- The dispatcher `fuse_internal_readdir` starts with. -/
def demo_rd_fdi0 : fuse_dispatcher :=
  fdisp_init { iosize := 0, indata := 0, finh := 0, tick := 0, answ := 0, answ_stat := 0 } 0

/-- The dispatcher after the `fdisp_make` of the first `FUSE_READDIR` request
on `demo1`. -/
def demo_rd_fdi1 : fuse_dispatcher :=
  (fdisp_make sample demo1 { demo_rd_fdi0 with iosize := sample.sizeof_fuse_read_in }
    .FUSE_READDIR 5 none ⟨1, 0, 0⟩).valueD demo_rd_fdi0

/-- The session `demo1` after that `fdisp_make`. -/
def demo_rd_w1 : World :=
  (fdisp_make sample demo1 { demo_rd_fdi0 with iosize := sample.sizeof_fuse_read_in }
    .FUSE_READDIR 5 none ⟨1, 0, 0⟩).after demo1

/-- The session `demo_rd_w1` with the request filled in for a `uio` with room
for `n` bytes. -/
def demo_rd_w2 (n : Nat) : World :=
  demo_rd_w1.setTick 8192 (fuse_read_in_fill sample (demo_rd_w1.tickD 8192) 40 1 0
    (min n demo_rd_w1.data.iosize))

/-- The session after `fdisp_wait_answ`, the daemon answering with
`demo_reply2`. -/
def demo_rd_w3 (n : Nat) : World :=
  (fdisp_wait_answ sample (demo_dir_daemon demo_reply2) ⟨1, 0, 0⟩ [] (demo_rd_w2 n)
    demo_rd_fdi1).after (demo_rd_w2 n)

/-! ## The strategy routine (`fuse_internal.c`) -/

/-- The values of `enum vtype` that `fuse_internal_strategy` tells apart:
`VOTHER` is any type but `VREG` and `VDIR`. -/
inductive vtype where
  | VREG | VDIR | VOTHER
deriving DecidableEq, Repr

/-- The `fufh_type_t` of `fuse_file.h`, without `FUFH_INVALID` and
`FUFH_MAXTYPE`: the indices of the table of file handles of a vnode. -/
inductive fufh_type where
  | FUFH_RDONLY | FUFH_WRONLY | FUFH_RDWR
deriving DecidableEq, Repr

/-- Flag `FUFH_VALID` of `fuse_file.h`. -/
def FUFH_VALID : Nat := 1

/-- Flag `FUFH_STRATEGY` of `fuse_file.h`. -/
def FUFH_STRATEGY : Nat := 4

/-- The fields of the `struct fuse_filehandle` of `fuse_file.h` that
`fuse_internal_strategy` uses. -/
structure fuse_filehandle where
  fh_id : Nat
  fufh_flags : Nat
deriving DecidableEq, Repr

/-- A vnode of the file system, as `fuse_internal_strategy` sees it: its type,
its node id (`VTOI`), and of its `struct fuse_vnode_data` the cached file size
and the table `fufh` of file handles. -/
structure vnode where
  v_type : vtype
  nodeid : Nat
  filesize : Int
  fufh_rdonly : fuse_filehandle
  fufh_wronly : fuse_filehandle
  fufh_rdwr : fuse_filehandle
deriving DecidableEq, Repr

/-- The entry `fvdat->fufh[ty]`. -/
def vnode.fufh (vn : vnode) : fufh_type → fuse_filehandle
  | .FUFH_RDONLY => vn.fufh_rdonly
  | .FUFH_WRONLY => vn.fufh_wronly
  | .FUFH_RDWR => vn.fufh_rdwr

/-- Assignment to the entry `fvdat->fufh[ty]`. -/
def vnode.setFufh (vn : vnode) (ty : fufh_type) (h : fuse_filehandle) : vnode :=
  match ty with
  | .FUFH_RDONLY => { vn with fufh_rdonly := h }
  | .FUFH_WRONLY => { vn with fufh_wronly := h }
  | .FUFH_RDWR => { vn with fufh_rdwr := h }

/-- A `buf` of the kernel, as its accessors show it: `buf_flags`, `buf_count`,
`buf_resid`, `buf_blkno` and the error `buf_seterror` sets.  `b_datap` is the
memory `buf_map` maps, `map_status` what `buf_map` returns on it, `mapped`
whether it is mapped, and `done` whether `buf_biodone` has been called. -/
structure buf where
  b_flags : Nat
  b_bcount : Nat
  b_resid : Nat
  b_blkno : Int
  b_error : Int
  b_datap : List Nat
  map_status : Nat
  mapped : Bool
  done : Bool
deriving DecidableEq, Repr

/-- Flag `B_READ` of the kernel. -/
def B_READ : Nat := 1

/-- The value of a C integer expression as an `unsigned int`. -/
def u32 (x : Int) : Nat := (x % 2 ^ 32).toNat

/-- The value of a C integer expression as an unsigned 64-bit integer. -/
def u64 (x : Int) : Nat := (x % 2 ^ 64).toNat

/-- The value an `int` holds that is assigned an unsigned value. -/
def int32 (n : Nat) : Int :=
  if n % 2 ^ 32 < 2 ^ 31 then (n % 2 ^ 32 : Nat) else ((n % 2 ^ 32 : Nat) : Int) - 2 ^ 32

/-- `buf_setresid` of the kernel: the residual is a `uint32_t`. -/
def buf_setresid (bp : buf) (resid : Int) : buf :=
  { bp with b_resid := u32 resid }

/-- `buf_setcount` of the kernel: the count is a `uint32_t`. -/
def buf_setcount (bp : buf) (bcount : Int) : buf :=
  { bp with b_bcount := u32 bcount }

/-- `buf_seterror` of the kernel. -/
def buf_seterror (bp : buf) (err : Int) : buf :=
  { bp with b_error := err }

/-- `buf_biodone` of the kernel. -/
def buf_biodone (bp : buf) : buf :=
  { bp with done := true }

/-- `buf_unmap` of the kernel. -/
def buf_unmap (bp : buf) : buf :=
  { bp with mapped := false }

/-- What a loop of `fuse_internal_strategy` carries from one iteration to the
next: the dispatcher, the buffer, the position `bufdat` in its mapped memory and
the file offset; `left` is used by the write loop only. -/
structure strategy_state where
  fdi : fuse_dispatcher
  bp : buf
  bufdat : Nat
  offset : Int
  left : Int
deriving DecidableEq, Repr

/-- Where an iteration of a loop of `fuse_internal_strategy` goes: back to the
test of the loop, behind the loop (a `break`) with the error `err`, or to the
label `out`. -/
inductive strategy_label where
  | again (s : strategy_state)
  | leave (err : Int) (s : strategy_state)
  | out (err : Int) (s : strategy_state)
deriving DecidableEq, Repr

/-- The label `out` of `fuse_internal_strategy`; the buffer is mapped wherever
the label is jumped to. -/
def fuse_internal_strategy_out (err : Int) (bp : buf) : Int × buf :=
  let bp1 := if err ≠ 0 then buf_seterror bp err else bp
  let bp2 := if bp1.mapped = true then buf_unmap bp1 else bp1
  (err, buf_biodone bp2)

/-- The end of `fuse_internal_strategy` behind its loops: the ticket of the
dispatcher, if there is one, is dropped, and the label `out` follows. -/
def fuse_internal_strategy_leave (K : Config) (w : World) (err : Int) (s : strategy_state) :
    Outcome (Int × buf) :=
  if s.fdi.tick ≠ 0 then
    match fuse_ticket_drop K w s.fdi.tick with
    | .panic m w1 => .panic m w1
    | .fault => .fault
    | .ret _ w1 => .ret (fuse_internal_strategy_out err s.bp) w1
  else
    .ret (fuse_internal_strategy_out err s.bp) w

/-- The request of an iteration of the read loop of `fuse_internal_strategy`,
from `fdisp_make_vp` to the assignment to `tk_aw_bufdata`, for the file handle
`fh_id` and the chunk size already computed.  The context passed is `NULL`. -/
def fuse_internal_strategy_read_request (K : Config) (cur : Identity) (vn : vnode)
    (fh_id : Nat) (w : World) (s : strategy_state) (chunksize : Int) :
    Outcome fuse_dispatcher :=
  match fdisp_make K w { s.fdi with iosize := K.sizeof_fuse_read_in }
      (if vn.v_type = .VDIR then .FUSE_READDIR else .FUSE_READ) vn.nodeid none cur with
  | .panic m w1 => .panic m w1
  | .fault => .fault
  | .ret fdi1 w1 =>
    match w1.tick fdi1.tick with
    | none => .fault
    | some t =>
      .ret fdi1 (w1.setTick fdi1.tick
        { fuse_read_in_fill K t fdi1.indata fh_id (u64 s.offset) (u32 chunksize) with
          tk_aw_type := .FT_A_BUF, tk_aw_bufdata := s.bufdat })

/-- The part of an iteration of the read loop of `fuse_internal_strategy` that
follows `fdisp_wait_answ`, whose outcome is `r`.  The bytes of the reply go
where `tk_aw_bufdata` points when the reply is delivered: they are not followed
here, the zero padding is. -/
def fuse_internal_strategy_read_reply (s : strategy_state)
    (r : Outcome (Int × fuse_dispatcher)) : Outcome strategy_label :=
  match r with
  | .panic m w2 => .panic m w2
  | .fault => .fault
  | .ret (err, fdi2) w2 =>
    if err ≠ 0 then
      .ret (.out err { s with fdi := fdi2 }) w2
    else
      match w2.tick fdi2.tick with
      | none => .fault
      | some t =>
        let respsize : Int := int32 t.tk_aw_bufsize
        if respsize < 0 then
          .ret (.out EIO { s with fdi := fdi2 }) w2
        else
          let bp1 := buf_setresid s.bp (s.bp.b_resid - respsize)
          let bufdat1 := s.bufdat + respsize.toNat
          let offset1 := s.offset + respsize
          if respsize = 0 ∧ 0 < bp1.b_resid then
            .ret (.leave 0
              { s with
                fdi := fdi2,
                bp := buf_setresid
                  { bp1 with
                    b_datap := bp1.b_datap.take bufdat1 ++
                      bzero (bp1.b_datap.drop bufdat1) bp1.b_resid } 0,
                bufdat := bufdat1, offset := offset1 }) w2
          else
            .ret (.again { s with fdi := fdi2, bp := bp1, bufdat := bufdat1,
                                  offset := offset1 }) w2

/-- One iteration of the read loop of `fuse_internal_strategy`. -/
def fuse_internal_strategy_read_step (K : Config) (during : World → World) (cur : Identity)
    (alerts : List (Nat × Nat)) (vn : vnode) (fh_id : Nat) (w : World) (s : strategy_state) :
    Outcome strategy_label :=
  let chunksize : Int := int32 (min s.bp.b_resid (w.data.iosize % 2 ^ 32))
  match fuse_internal_strategy_read_request K cur vn fh_id w s chunksize with
  | .panic m w1 => .panic m w1
  | .fault => .fault
  | .ret fdi1 w1 =>
    fuse_internal_strategy_read_reply s (fdisp_wait_answ K during cur alerts w1 fdi1)

/-- The read loop of `fuse_internal_strategy`, with fuel: a daemon that keeps
answering with more bytes than are asked for keeps it going. -/
def fuse_internal_strategy_read_loop (K : Config) (during : World → World) (cur : Identity)
    (alerts : List (Nat × Nat)) (vn : vnode) (fh_id : Nat) :
    Nat → World → strategy_state → Outcome (Int × buf)
  | 0, _, _ => .fault
  | fuel + 1, w, s =>
    if 0 < s.bp.b_resid then
      match fuse_internal_strategy_read_step K during cur alerts vn fh_id w s with
      | .panic m w1 => .panic m w1
      | .fault => .fault
      | .ret (.again s1) w1 =>
        fuse_internal_strategy_read_loop K during cur alerts vn fh_id fuel w1 s1
      | .ret (.leave err s1) w1 => fuse_internal_strategy_leave K w1 err s1
      | .ret (.out err s1) w1 => .ret (fuse_internal_strategy_out err s1.bp) w1
    else
      fuse_internal_strategy_leave K w 0 s

/-- The read branch of `fuse_internal_strategy`, `biosize` being the block
size. -/
def fuse_internal_strategy_read (K : Config) (during : World → World) (cur : Identity)
    (alerts : List (Nat × Nat)) (vn : vnode) (fh_id : Nat) (fuel : Nat) (w : World)
    (fdi : fuse_dispatcher) (bp : buf) (biosize : Int) : Outcome (Int × buf) :=
  let bp1 := buf_setresid bp bp.b_bcount
  let offset : Int := bp1.b_blkno * biosize
  if offset ≥ vn.filesize then
    .ret (0, buf_biodone (if offset ≠ vn.filesize then buf_seterror bp1 EINVAL else bp1)) w
  else
    let bp2 :=
      if offset + bp1.b_bcount > vn.filesize then buf_setcount bp1 (vn.filesize - offset)
      else bp1
    if bp2.map_status ≠ 0 then
      .ret (EFAULT, bp2) w
    else
      fuse_internal_strategy_read_loop K during cur alerts vn fh_id fuel w
        { fdi := fdi, bp := { bp2 with mapped := true }, bufdat := 0, offset := offset,
          left := 0 }

/-- The C expression `chunksize - fwo->size` of the write loop, as the `off_t`
it is stored to: an `int` minus an unsigned 32-bit field is an unsigned 32-bit
difference. -/
def strategy_write_diff (K : Config) (chunksize : Int) (size : Nat) : Int :=
  if K.write_out_size_unsigned = true then (chunksize - (size : Int)) % 2 ^ 32
  else chunksize - (size : Int)

/-- The fields of the `struct fuse_write_in` at `indata` of the send buffer of
a ticket being filled in. -/
def fuse_write_in_fill (K : Config) (t : fuse_ticket) (indata fh offset size : Nat) :
    fuse_ticket :=
  { t with tk_ms_fiov :=
    { t.tk_ms_fiov with
      base := t.tk_ms_fiov.base.take indata ++
        K.write_in_store fh offset size (t.tk_ms_fiov.base.drop indata) } }

/-- The chunk size of an iteration of the write loop, `min(left, data->iosize)`
stored to an `int`; `min` of the kernel compares two `unsigned int`. -/
def strategy_write_chunksize (w : World) (left : Int) : Int :=
  int32 (min (u32 left) (w.data.iosize % 2 ^ 32))

/-- The request of an iteration of the write loop of `fuse_internal_strategy`,
from `fdisp_make_vp` to the assignment to `tk_ms_bufsize`. -/
def fuse_internal_strategy_write_request (K : Config) (cur : Identity) (vn : vnode)
    (fh_id : Nat) (w : World) (s : strategy_state) : Outcome fuse_dispatcher :=
  match fdisp_make K w { s.fdi with iosize := K.sizeof_fuse_write_in } .FUSE_WRITE vn.nodeid
      none cur with
  | .panic m w1 => .panic m w1
  | .fault => .fault
  | .ret fdi1 w1 =>
    match w1.tick fdi1.tick with
    | none => .fault
    | some t =>
      let chunksize := strategy_write_chunksize w1 s.left
      .ret fdi1 (w1.setTick fdi1.tick
        { fuse_write_in_fill K t fdi1.indata fh_id (u64 s.offset) (u32 chunksize) with
          tk_ms_type := .FT_M_BUF, tk_ms_bufdata := s.bufdat,
          tk_ms_bufsize := (chunksize % 2 ^ K.word_bits).toNat })

/-- The part of an iteration of the write loop of `fuse_internal_strategy`
that follows `fdisp_wait_answ`, whose outcome is `r`. -/
def fuse_internal_strategy_write_reply (K : Config) (s : strategy_state) (chunksize : Int)
    (r : Outcome (Int × fuse_dispatcher)) : Outcome strategy_label :=
  match r with
  | .panic m w2 => .panic m w2
  | .fault => .fault
  | .ret (err, fdi2) w2 =>
    if err ≠ 0 then
      .ret (.out err { s with fdi := fdi2 }) w2
    else
      match w2.tick fdi2.tick with
      | none => .fault
      | some t =>
        let size := K.write_out_size ((fticket_resp t).base.drop fdi2.answ)
        let diff := strategy_write_diff K chunksize size
        if diff < 0 then
          .ret (.leave EINVAL { s with fdi := fdi2 }) w2
        else
          .ret (.again
            { fdi := fdi2,
              bp := buf_setresid s.bp ((s.bp.b_resid : Int) - (size : Int)),
              bufdat := s.bufdat + size,
              offset := s.offset + size,
              left := s.left - size }) w2

/-- One iteration of the write loop of `fuse_internal_strategy`. -/
def fuse_internal_strategy_write_step (K : Config) (during : World → World) (cur : Identity)
    (alerts : List (Nat × Nat)) (vn : vnode) (fh_id : Nat) (w : World) (s : strategy_state) :
    Outcome strategy_label :=
  match fuse_internal_strategy_write_request K cur vn fh_id w s with
  | .panic m w1 => .panic m w1
  | .fault => .fault
  | .ret fdi1 w1 =>
    fuse_internal_strategy_write_reply K s (strategy_write_chunksize w1 s.left)
      (fdisp_wait_answ K during cur alerts w1 fdi1)

/-- The write loop of `fuse_internal_strategy`, with fuel: a daemon that keeps
accepting no byte keeps it going. -/
def fuse_internal_strategy_write_loop (K : Config) (during : World → World) (cur : Identity)
    (alerts : List (Nat × Nat)) (vn : vnode) (fh_id : Nat) :
    Nat → World → strategy_state → Outcome (Int × buf)
  | 0, _, _ => .fault
  | fuel + 1, w, s =>
    if s.left ≠ 0 then
      match fuse_internal_strategy_write_step K during cur alerts vn fh_id w s with
      | .panic m w1 => .panic m w1
      | .fault => .fault
      | .ret (.again s1) w1 =>
        fuse_internal_strategy_write_loop K during cur alerts vn fh_id fuel w1 s1
      | .ret (.leave err s1) w1 => fuse_internal_strategy_leave K w1 err s1
      | .ret (.out err s1) w1 => .ret (fuse_internal_strategy_out err s1.bp) w1
    else
      fuse_internal_strategy_leave K w 0 s

/-- The write branch of `fuse_internal_strategy`. -/
def fuse_internal_strategy_write (K : Config) (during : World → World) (cur : Identity)
    (alerts : List (Nat × Nat)) (vn : vnode) (fh_id : Nat) (fuel : Nat) (w : World)
    (fdi : fuse_dispatcher) (bp : buf) (biosize : Int) : Outcome (Int × buf) :=
  if bp.map_status ≠ 0 then
    .ret (EFAULT, bp) w
  else
    let bp1 := buf_setresid { bp with mapped := true } bp.b_bcount
    fuse_internal_strategy_write_loop K during cur alerts vn fh_id fuel w
      { fdi := fdi, bp := bp1, bufdat := 0, offset := bp1.b_blkno * biosize,
        left := bp1.b_bcount }

/-- The choice of a file handle at the start of `fuse_internal_strategy`: the
status `err`, the type chosen and the vnode.  `fuse_filehandle_get` of
`fuse_file.c`, which is not among the sources, is the argument `fh_get`: it
returns a status and changes the session and the vnode.  The count of reused
file handles, a statistic, is left out. -/
def fuse_internal_strategy_fufh (fh_get : World → vnode → fufh_type → Outcome (Int × vnode))
    (w : World) (vn : vnode) (bflags : Nat) : Outcome (Int × fufh_type × vnode) :=
  let first : fufh_type := if bflags &&& B_READ ≠ 0 then .FUFH_RDONLY else .FUFH_WRONLY
  if (vn.fufh first).fufh_flags &&& FUFH_VALID ≠ 0 then
    .ret (0, first, vn) w
  else if (vn.fufh .FUFH_RDWR).fufh_flags &&& FUFH_VALID ≠ 0 then
    .ret (0, .FUFH_RDWR, vn) w
  else
    let ty : fufh_type := if bflags &&& B_READ ≠ 0 then .FUFH_RDONLY else .FUFH_RDWR
    match fh_get w vn ty with
    | .panic m w1 => .panic m w1
    | .fault => .fault
    | .ret (err, vn1) w1 =>
      if err = 0 then
        .ret (0, ty, vn1.setFufh ty
          { vn1.fufh ty with fufh_flags := (vn1.fufh ty).fufh_flags ||| FUFH_STRATEGY }) w1
      else
        .ret (err, ty, vn1) w1

/-- Function `fuse_internal_strategy`: the status it returns, the buffer and
the vnode.  The blocks under `M_MACFUSE_EXPERIMENTAL_JUNK` are left out: they
use a variable `didnewfh` that the function does not declare and a field
`useco` that `struct fuse_filehandle` does not have.  The fields of the
dispatcher on its stack that `fdisp_init` does not set start at 0. -/
def fuse_internal_strategy (K : Config) (during : World → World) (cur : Identity)
    (alerts : List (Nat × Nat))
    (fh_get : World → vnode → fufh_type → Outcome (Int × vnode)) (fuel : Nat) (w : World)
    (vn : vnode) (bp : buf) : Outcome (Int × buf × vnode) :=
  let biosize : Int := int32 w.data.blocksize
  if ¬ (vn.v_type = .VREG ∨ vn.v_type = .VDIR) then
    .ret (ENOTSUP, bp, vn) w
  else
    match fuse_internal_strategy_fufh fh_get w vn bp.b_flags with
    | .panic m w1 => .panic m w1
    | .fault => .fault
    | .ret (err, ty, vn1) w1 =>
      if err ≠ 0 then
        .ret ( EIO, buf_biodone (buf_seterror bp EIO), vn1) w1
      else if bp.b_bcount = 0 then
        .ret (0, bp, vn1) w1
      else
        let fdi := fdisp_init
          { iosize := 0, indata := 0, finh := 0, tick := 0, answ := 0, answ_stat := 0 } 0
        let r :=
          if bp.b_flags &&& B_READ ≠ 0 then
            fuse_internal_strategy_read K during cur alerts vn1 (vn1.fufh ty).fh_id fuel w1
              fdi bp biosize
          else
            fuse_internal_strategy_write K during cur alerts vn1 (vn1.fufh ty).fh_id fuel w1
              fdi bp biosize
        match r with
        | .panic m w2 => .panic m w2
        | .fault => .fault
        | .ret (e, bp1) w2 => .ret (e, bp1, vn1) w2

/-- The session `demo1` on a mount whose blocks have 512 bytes and whose
requests carry at most 4096 bytes. -/
def demo_st : World :=
  { demo1 with data := { demo1.data with iosize := 4096, blocksize := 512 } }

/-- A regular file of the given cached size, open for reading as the file
handle 1 and for writing as the file handle 2. -/
def demo_vn (filesize : Int) : vnode :=
  { v_type := .VREG, nodeid := 5, filesize := filesize,
    fufh_rdonly := { fh_id := 1, fufh_flags := FUFH_VALID },
    fufh_wronly := { fh_id := 2, fufh_flags := FUFH_VALID },
    fufh_rdwr := { fh_id := 0, fufh_flags := 0 } }

/-- A buffer of `count` bytes, each of them 7, for the block `blkno`. -/
def demo_bp (flags count : Nat) (blkno : Int) : buf :=
  { b_flags := flags, b_bcount := count, b_resid := 0, b_blkno := blkno, b_error := 0,
    b_datap := List.replicate count 7, map_status := 0, mapped := false, done := false }

/-- The device at work while the caller sleeps: the daemon has read the request
of the ticket at 8192 and writes a reply without error whose body is
`body w`; the ticket is taken off the queues, its reply header is set and its
handler, `fuse_standard_handler`, is called on the body. -/
def demo_device (body : World → List Nat) (w : World) : World :=
  let w1 : World :=
    { w.setTick 8192
        { w.tickD 8192 with
          tk_aw_ohead := { len := 16 + (body w).length, error := 0,
                           unique := (w.tickD 8192).tk_unique } } with
      data := { w.data with ms_head := [], aw_head := [] } }
  (fuse_standard_handler sample w1 8192
    { rw := .UIO_WRITE, resid := (body w).length, offset := 0, data := body w,
      fault := 0 }).after w1

/-- The daemon of `demo_device` answering a read with `n` bytes. -/
def demo_read_daemon (n : Nat) : World → World :=
  demo_device (fun _ => List.replicate n 9)

/-- A `fuse_filehandle_get` that fails. -/
def demo_fh_get (w : World) (vn : vnode) (_ : fufh_type) : Outcome (Int × vnode) :=
  .ret (ENOTCONN, vn) w

/-- The state the read loop of `fuse_internal_strategy` starts in. -/
def strategy_read_start (vn : vnode) (fdi : fuse_dispatcher) (bp : buf) (biosize : Int) :
    strategy_state :=
  { fdi := fdi,
    bp := { bp with
            b_bcount :=
              if bp.b_blkno * biosize + bp.b_bcount > vn.filesize then
                (vn.filesize - bp.b_blkno * biosize).toNat
              else bp.b_bcount,
            b_resid := bp.b_bcount, mapped := true },
    bufdat := 0, offset := bp.b_blkno * biosize, left := 0 }

/-- The daemon of `demo_device` answering a read with at most 40 bytes, and no
more than the request asks for. -/
def demo_short_daemon : World → World :=
  demo_device (fun w => List.replicate (min 40 (fticket_read_in_size sample (w.tickD 8192))) 9)

/-- The state in which the read loop starts on a buffer of 100 bytes for
block 0 of a file of 1000 bytes. -/
def demo_sr_s0 : strategy_state :=
  strategy_read_start (demo_vn 1000) demo_rd_fdi0 (demo_bp B_READ 100 0) 512

/-- The dispatcher after the first request of the read loop on `demo_st`. -/
def demo_sr_fdi1 : fuse_dispatcher :=
  (fuse_internal_strategy_read_request sample ⟨1, 0, 0⟩ (demo_vn 1000) 1 demo_st demo_sr_s0
    100).valueD demo_rd_fdi0

/-- The session `demo_st` after that request. -/
def demo_sr_w1 : World :=
  (fuse_internal_strategy_read_request sample ⟨1, 0, 0⟩ (demo_vn 1000) 1 demo_st demo_sr_s0
    100).after demo_st

/-- The session after `fdisp_wait_answ` on that request, the daemon answering
with `n` bytes. -/
def demo_sr_w2 (n : Nat) : World :=
  (fdisp_wait_answ sample (demo_read_daemon n) ⟨1, 0, 0⟩ [] demo_sr_w1 demo_sr_fdi1).after
    demo_sr_w1

/-- The daemon of `demo_device` answering a write with the count `a` of bytes
accepted. -/
def demo_write_daemon (a : Nat) : World → World :=
  demo_device (fun _ => le_bytes 4 a ++ [0, 0, 0, 0])

/-- The state in which the write loop starts on a buffer of 100 bytes for
block 0. -/
def demo_sw_s0 : strategy_state :=
  { fdi := demo_rd_fdi0,
    bp := buf_setresid { demo_bp 0 100 0 with mapped := true } 100,
    bufdat := 0, offset := 0, left := 100 }

/-- The dispatcher after the first request of the write loop on `demo_st`. -/
def demo_sw_fdi1 : fuse_dispatcher :=
  (fuse_internal_strategy_write_request sample ⟨1, 0, 0⟩ (demo_vn 1000) 2 demo_st
    demo_sw_s0).valueD demo_rd_fdi0

/-- The session `demo_st` after that request. -/
def demo_sw_w1 : World :=
  (fuse_internal_strategy_write_request sample ⟨1, 0, 0⟩ (demo_vn 1000) 2 demo_st
    demo_sw_s0).after demo_st

/-- The session after `fdisp_wait_answ` on that request, the daemon accepting
`a` bytes. -/
def demo_sw_w2 (a : Nat) : World :=
  (fdisp_wait_answ sample (demo_write_daemon a) ⟨1, 0, 0⟩ [] demo_sw_w1 demo_sw_fdi1).after
    demo_sw_w1

/-! ## Further sessions to evaluate on -/

/-- A cooked buffer whose allocation has 16 bytes. -/
def demo_cooked16 : fuse_iov :=
  { base := List.replicate 16 0, len := 0, allocated_size := 16, credit := 16 }

/-- A reply of 224 bytes: one record whose name has 200 bytes. -/
def demo_reply_long : List Nat :=
  demo_wire_record 10 1 8 (List.replicate 200 97)

/-- The session `demo_init` in which the next sleep is interrupted. -/
def demo_init_eintr : World := { demo_init with sleeps := [EINTR] }

/-- The device delivering a reply of 10 bytes, which no `FUSE_INIT` request
accepts. -/
def demo_bad_reply : World → World :=
  demo_device (fun _ => List.replicate 10 7)

/-- The session `demo_wait2` after `fticket_wait_answer`, the device delivering
the reply `demo_bad_reply` during the sleep. -/
def demo_bad3 : World :=
  (fticket_wait_answer sample demo_bad_reply ⟨1, 0, 0⟩ [] demo_wait2 8192).after demo_wait2

/-- The same, the sleep being interrupted. -/
def demo_bad3_eintr : World :=
  (fticket_wait_answer sample demo_bad_reply ⟨1, 0, 0⟩ [] { demo_wait2 with sleeps := [EINTR] }
    8192).after demo_wait2

/-- The count of the all-tickets registry: with `dead` the number of tickets
removed from it so far, the registry and the removed tickets together are the
tickets `ticketer` has counted, `deadticket_counter` is `dead` as a 32-bit
counter, and the tickets on the free list are in the registry. -/
structure CountInv (w : World) : Prop where
  count : ∃ dead : Nat, w.data.alltickets_head.length + dead = w.data.ticketer ∧
    w.data.deadticket_counter = dead % 2 ^ 32
  free_all : ∀ p ∈ w.data.freetickets_head, p ∈ w.data.alltickets_head

/-- The session `demo2` after its ticket has been killed. -/
def demo_kill2 : World := (fuse_ticket_kill demo2 8192).after demo2

/-! ## The callback of the handshake (`fuse_internal.c`) -/

/-- Darwin errno `EPROTONOSUPPORT`. -/
def EPROTONOSUPPORT : Nat := 43

/-- Modelled from the spec: `fdata_kick_set` of `fuse_ipc.h`, which is not among
the sources: it sets the flag `FSESS_KICK` of the session. -/
def fdata_kick_set (K : Config) (w : World) : World :=
  { w with data := { w.data with dataflags := w.data.dataflags ||| K.FSESS_KICK } }

/-- The part of `fuse_internal_init_callback` before its label `out`: the
status `err` it reaches the label with, and the `uio`. -/
def fuse_internal_init_callback_status (K : Config) (w : World) (ftick : Nat) (u : uio) :
    Outcome (Int × uio) :=
  match w.tick ftick with
  | none => .fault
  | some t =>
    if t.tk_aw_ohead.error ≠ 0 then
      .ret (t.tk_aw_ohead.error, u) w
    else
      match fticket_pull K w ftick u with
      | .panic m w1 => .panic m w1
      | .fault => .fault
      | .ret (err, u1) w1 =>
        if err ≠ 0 then
          .ret ((err : Int), u1) w1
        else
          match w1.tick ftick with
          | none => .fault
          | some t1 =>
            let fiio := (fticket_resp t1).base
            if K.init_out_major fiio < 7 then
              .ret ((EPROTONOSUPPORT : Int), u1) w1
            else
              let w2 : World :=
                { w1 with data := { w1.data with
                    fuse_libabi_major := K.init_out_major fiio,
                    fuse_libabi_minor := K.init_out_minor fiio } }
              if fuse_libabi_geq w2.data 7 5 = true then
                if (fticket_resp t1).len = K.sizeof_fuse_init_out then
                  .ret (0, u1)
                    { w2 with data := { w2.data with max_write := K.init_out_max_write fiio } }
                else
                  .ret ((EINVAL : Int), u1) w2
              else
                .ret (0, u1) { w2 with data := { w2.data with max_write := 4096 } }

/-- The part of `fuse_internal_init_callback` from its label `out`, reached with
the status `err`.  The cancelling of the callout of the handshake, compiled
under `M_MACFUSE_ENABLE_INIT_TIMEOUT`, acts on the callout only and is left
out. -/
def fuse_internal_init_callback_out (K : Config) (w : World) (ftick : Nat) (err : Int) :
    Outcome Unit :=
  match fuse_ticket_drop K w ftick with
  | .panic m w1 => .panic m w1
  | .fault => .fault
  | .ret _ w1 =>
    let w2 := if err ≠ 0 then fdata_kick_set K w1 else w1
    .ret ()
      (({ w2 with data := { w2.data with
            dataflags := w2.data.dataflags ||| K.FSESS_INITED } } : World).emit
        (.wakeup .ticketer))

/-- Function `fuse_internal_init_callback`: the status it returns, and the
`uio`. -/
def fuse_internal_init_callback (K : Config) (w : World) (ftick : Nat) (u : uio) :
    Outcome (Nat × uio) :=
  match fuse_internal_init_callback_status K w ftick u with
  | .panic m w1 => .panic m w1
  | .fault => .fault
  | .ret (err, u1) w1 =>
    match fuse_internal_init_callback_out K w1 ftick err with
    | .panic m w2 => .panic m w2
    | .fault => .fault
    | .ret _ w2 => .ret (0, u1) w2

/-- A reply to the `FUSE_INIT` request: the 24 bytes of a `struct fuse_init_out`
with the given version and `max_write`. -/
def demo_init_reply (major minor max_write : Nat) : uio :=
  { rw := .UIO_WRITE, resid := 24, offset := 0,
    data := le_bytes 4 major ++ le_bytes 4 minor ++ List.replicate 12 0 ++
      le_bytes 4 max_write,
    fault := 0 }

/-- The session `demo_init` after a second ticket has been fetched, while the
handshake is under way. -/
def demo_init_two : World := (fuse_ticket_fetch sample demo_init).after demo_init

/-- The session `demo_init_two` after the callback of the handshake, the daemon
having answered with the version 6.0. -/
def demo_kicked : World :=
  (fuse_internal_init_callback sample demo_init_two 8192 (demo_init_reply 6 0 65536)).after
    demo_init_two

/-! ## The creation of an entry (`fuse_internal.c`) -/

/-- The block that `fuse_internal_newentry_makerequest` runs: the size of the
body is recorded, `fdisp_make` prepares the request, and the fixed body `buf`,
the name and a NUL are copied behind the header.  A byte copied outside the
allocation of the send buffer is a fault. -/
def fuse_internal_newentry_makerequest_block (K : Config) (w : World) (dnid : Nat)
    (name : List Nat) (op : fuse_opcode) (buf : List Nat) (fdip : fuse_dispatcher)
    (context : Option Identity) (cur : Identity) : Outcome fuse_dispatcher :=
  let fdip1 := { fdip with iosize := (buf.length + name.length + 1) % 2 ^ K.word_bits }
  match fdisp_make K w fdip1 op dnid context cur with
  | .panic m w1 => .panic m w1
  | .fault => .fault
  | .ret fdi w1 =>
    match w1.tick fdi.tick with
    | none => .fault
    | some t =>
      if fdi.indata + buf.length + name.length < t.tk_ms_fiov.base.length then
        .ret fdi (w1.setTick fdi.tick
          { t with tk_ms_fiov :=
            { t.tk_ms_fiov with
              base := poke t.tk_ms_fiov.base fdi.indata (buf ++ name ++ [0]) } })
      else
        .fault

/-- Function `fuse_internal_newentry_makerequest`: its block, twice. -/
def fuse_internal_newentry_makerequest (K : Config) (w : World) (dnid : Nat)
    (name : List Nat) (op : fuse_opcode) (buf : List Nat) (fdip : fuse_dispatcher)
    (context : Option Identity) (cur : Identity) : Outcome fuse_dispatcher :=
  match fuse_internal_newentry_makerequest_block K w dnid name op buf fdip context cur with
  | .panic m w1 => .panic m w1
  | .fault => .fault
  | .ret fdi1 w1 =>
    fuse_internal_newentry_makerequest_block K w1 dnid name op buf fdi1 context cur

/-- The session `demo1` with an allocator whose third block holds the bytes
170. -/
def demo_dirty : World :=
  { demo1 with blocks := [some [], some [], some (List.replicate 400 170), some [], some []] }

/-- The dispatcher after one run of the block of
`fuse_internal_newentry_makerequest` on `demo_dirty`: a `FUSE_MKDIR` request
with a fixed body of 8 bytes and a name of 200 bytes. -/
def demo_ne_fdi1 : fuse_dispatcher :=
  (fuse_internal_newentry_makerequest_block sample demo_dirty 1 (List.replicate 200 97)
    .FUSE_MKDIR [1, 2, 3, 4, 5, 6, 7, 8] (demo_fdi 0) none ⟨1, 0, 0⟩).valueD (demo_fdi 0)

/-- The session `demo_dirty` after that run. -/
def demo_ne_w1 : World :=
  (fuse_internal_newentry_makerequest_block sample demo_dirty 1 (List.replicate 200 97)
    .FUSE_MKDIR [1, 2, 3, 4, 5, 6, 7, 8] (demo_fdi 0) none ⟨1, 0, 0⟩).after demo_dirty

/-- The session `demo_dirty` after `fuse_internal_newentry_makerequest`, which
runs the block twice. -/
def demo_ne_w2 : World :=
  (fuse_internal_newentry_makerequest sample demo_dirty 1 (List.replicate 200 97)
    .FUSE_MKDIR [1, 2, 3, 4, 5, 6, 7, 8] (demo_fdi 0) none ⟨1, 0, 0⟩).after demo_dirty

/-- The label `out` of `fuse_internal_newentry_core`: the ticket is dropped and
`err` returned. -/
def fuse_internal_newentry_core_out (K : Config) (w : World) (fdip : fuse_dispatcher)
    (err : Int) : Outcome (Int × fuse_dispatcher) :=
  match fuse_ticket_drop K w fdip.tick with
  | .panic m w1 => .panic m w1
  | .fault => .fault
  | .ret _ w1 => .ret (err, fdip) w1

/-- Function `fuse_internal_forget_send`.  The layout of `struct
fuse_forget_in` is the parameter `K.forget_in_store`, which stores `nlookup`
into the bytes of the send buffer from `indata` on. -/
def fuse_internal_forget_send (K : Config) (w : World) (context : Option Identity)
    (cur : Identity) (nodeid nlookup : Nat) (fdip : fuse_dispatcher) :
    Outcome fuse_dispatcher :=
  match fdisp_make K w (fdisp_init fdip K.sizeof_fuse_forget_in) .FUSE_FORGET nodeid context
      cur with
  | .panic m w1 => .panic m w1
  | .fault => .fault
  | .ret fdi w1 =>
    match w1.tick fdi.tick with
    | none => .fault
    | some t =>
      let t1 : fuse_ticket :=
        { t with tk_ms_fiov :=
          { t.tk_ms_fiov with
            base := t.tk_ms_fiov.base.take fdi.indata ++
              K.forget_in_store nlookup (t.tk_ms_fiov.base.drop fdi.indata) } }
      match fuse_insert_message K (w1.setTick fdi.tick (fticket_invalidate K t1)) fdi.tick with
      | .panic m w2 => .panic m w2
      | .fault => .fault
      | .ret _ w2 => .ret fdi w2

/-- Function `fuse_internal_newentry_core`: the status it returns, and the
dispatcher.  `fuse_internal_checkentry` and `fuse_vget_i` are not among the
sources: they are the arguments `checkentry`, on the bytes of the reply and the
type asked for, and `vget`, on the session and the node id of the reply, whose
result is its status.  `cache_attrs` acts on the vnode only and is left out. -/
def fuse_internal_newentry_core (K : Config) (during : World → World) (cur : Identity)
    (alerts : List (Nat × Nat)) (checkentry : List Nat → vtype → Int)
    (vget : World → Nat → Outcome Int) (w : World) (vtyp : vtype) (fdip : fuse_dispatcher)
    (context : Option Identity) : Outcome (Int × fuse_dispatcher) :=
  match fdisp_wait_answ K during cur alerts w fdip with
  | .panic m w1 => .panic m w1
  | .fault => .fault
  | .ret (err, fdi1) w1 =>
    if err ≠ 0 then
      .ret (err, fdi1) w1
    else
      match w1.tick fdi1.tick with
      | none => .fault
      | some t =>
        if checkentry ((fticket_resp t).base.drop fdi1.answ) vtyp ≠ 0 then
          fuse_internal_newentry_core_out K w1 fdi1
            (checkentry ((fticket_resp t).base.drop fdi1.answ) vtyp)
        else
          match vget w1 (K.entry_out_nodeid ((fticket_resp t).base.drop fdi1.answ)) with
          | .panic m w2 => .panic m w2
          | .fault => .fault
          | .ret err2 w2 =>
            if err2 ≠ 0 then
              match w2.tick fdi1.tick with
              | none => .fault
              | some t2 =>
                match fuse_internal_forget_send K w2 context cur
                    (K.entry_out_nodeid ((fticket_resp t2).base.drop fdi1.answ)) 1 fdi1 with
                | .panic m w3 => .panic m w3
                | .fault => .fault
                | .ret fdi2 w3 => .ret (err2, fdi2) w3
            else
              fuse_internal_newentry_core_out K w2 fdi1 err2

/-- The device answering the request of ticket 8192 with a `struct
fuse_entry_out` of 144 bytes whose node id is 9. -/
def demo_entry_daemon : World → World :=
  demo_device (fun _ => le_bytes 8 9 ++ List.replicate 136 0)

/-- The session `demo_ne_w2` after `fuse_internal_newentry_core` on the
`FUSE_MKDIR` request of `demo_ne_fdi1`, `fuse_internal_checkentry` rejecting
the reply with `EINVAL`. -/
def demo_ne_rejected : World :=
  (fuse_internal_newentry_core sample demo_entry_daemon ⟨1, 0, 0⟩ []
    (fun _ _ => (EINVAL : Int)) (fun w _ => .ret 0 w) demo_ne_w2 .VDIR demo_ne_fdi1
    none).after demo_ne_w2

/-- The session `demo_ne_w2` after `fdisp_wait_answ` on the request of
`demo_ne_fdi1`, answered by `demo_entry_daemon`. -/
def demo_ne_w3 : World :=
  (fdisp_wait_answ sample demo_entry_daemon ⟨1, 0, 0⟩ [] demo_ne_w2 demo_ne_fdi1).after
    demo_ne_w2

/-- The session `demo_ne_w2` after `fuse_internal_newentry_core`, the reply
passing `fuse_internal_checkentry` and `fuse_vget_i` failing with 5. -/
def demo_ne_vget_failed : World :=
  (fuse_internal_newentry_core sample demo_entry_daemon ⟨1, 0, 0⟩ []
    (fun _ _ => 0) (fun w _ => .ret 5 w) demo_ne_w2 .VDIR demo_ne_fdi1 none).after demo_ne_w2

/-! ## The run of the write loop -/

/-- A machine before any session whose allocator grants the session structure
and then `N` times a ticket at the address 8192 with its two buffers. -/
def demo_rounds0 (N : Nat) : World :=
  { demo0 with mallocs := 4096 :: List.replicate N 8192,
               blocks := List.replicate (2 * N) (some []) }

/-- The state of the session of `demo_rounds0 N` after `n` rounds of a fetch
and the kill of the ticket fetched: no ticket is live, the registry and the
free list are empty, `ticketer` has counted the `n` tickets and the 32-bit
`deadticket_counter` the `n` kills. -/
structure RoundInv (N n : Nat) (w : World) : Prop where
  heap : w.heap = []
  all : w.data.alltickets_head = []
  free : w.data.freetickets_head = []
  freecount : w.data.freeticket_counter = 0
  ticketer : w.data.ticketer = n
  dead : w.data.deadticket_counter = n % 2 ^ 32
  mallocs : w.mallocs = List.replicate (N - n) 8192
  blocks : w.blocks = List.replicate (2 * (N - n)) (some [])

set_option maxRecDepth 65536

/-! ## Lemmas: the heap -/

theorem lookup_cons_eq (q a : Nat) (b : fuse_ticket) (h : List (Nat × fuse_ticket)) :
    List.lookup q ((a, b) :: h) = if q = a then some b else List.lookup q h := by
  by_cases hq : q = a
  · subst hq; simp [List.lookup_cons]
  · have h1 : (q == a) = false := by simpa using hq
    simp [List.lookup_cons, h1, hq]

theorem lookup_map_set (h : List (Nat × fuse_ticket)) (p q : Nat) (t : fuse_ticket) :
    (h.map (fun e => if e.1 = p then (p, t) else e)).lookup q =
      if q = p then (h.lookup p).map (fun _ => t) else h.lookup q := by
  induction h with
  | nil => simp
  | cons e h ih =>
    obtain ⟨a, b⟩ := e
    rw [List.map_cons]
    by_cases hap : a = p
    · subst hap
      simp only [if_true, lookup_cons_eq, ih]
      by_cases hq : q = a <;> simp [hq]
    · simp only [hap, if_false, lookup_cons_eq, ih]
      by_cases hq : q = a
      · subst hq; simp [hap]
      · by_cases hqp : q = p
        · subst hqp; simp [hq, Ne.symm hap]
        · simp [hq, hqp]

theorem tick_setTick (w : World) (p q : Nat) (t : fuse_ticket) :
    (w.setTick p t).tick q = if q = p then (w.tick p).map (fun _ => t) else w.tick q := by
  simp [World.tick, World.setTick, lookup_map_set]

theorem lookup_filter_ne (h : List (Nat × fuse_ticket)) (p q : Nat) :
    (h.filter (fun e => decide (e.1 ≠ p))).lookup q = if q = p then none else h.lookup q := by
  induction h with
  | nil => simp
  | cons e h ih =>
    obtain ⟨a, b⟩ := e
    by_cases hap : a = p
    · subst hap
      rw [List.filter_cons_of_neg (by simp), ih, lookup_cons_eq]
      by_cases hq : q = a <;> simp [hq]
    · rw [List.filter_cons_of_pos (by simpa using hap), lookup_cons_eq, ih, lookup_cons_eq]
      by_cases hq : q = a
      · subst hq; simp [hap]
      · simp [hq]

theorem tick_destroy (w : World) (p q : Nat) :
    (fticket_destroy w p).tick q = if q = p then none else w.tick q := by
  simp only [World.tick, fticket_destroy]
  exact lookup_filter_ne w.heap p q

theorem mem_live_iff (w : World) (p : Nat) : p ∈ w.live ↔ ∃ t, w.tick p = some t := by
  simp only [World.live, World.tick]
  induction w.heap with
  | nil => simp
  | cons e h ih =>
    obtain ⟨a, b⟩ := e
    rw [List.map_cons, List.mem_cons, lookup_cons_eq, ih]
    by_cases hq : p = a <;> simp [hq]

theorem setTick_setTick (w : World) (p : Nat) (t1 t2 : fuse_ticket) :
    (w.setTick p t1).setTick p t2 = w.setTick p t2 := by
  simp only [World.setTick, List.map_map]
  congr 1
  apply List.map_congr_left
  intro e _
  by_cases h : e.1 = p <;> simp [h]

/-! ## Lemmas: what the buffer functions leave alone -/

theorem FUSE_OSMalloc_buf_world (w : World) (n : Nat) :
    ∃ b, (FUSE_OSMalloc_buf w n).2 = { w with blocks := b } := by
  unfold FUSE_OSMalloc_buf
  rcases hb : w.blocks with _ | ⟨_ | m, rest⟩
  · refine ⟨[], ?_⟩
    cases w
    simp_all
  · exact ⟨rest, rfl⟩
  · exact ⟨rest, rfl⟩

theorem fiov_init_ret {K : Config} {w w' : World} {n : Nat} {f : fuse_iov}
    (h : fiov_init K w n = .ret f w') : ∃ b, w' = { w with blocks := b } := by
  unfold fiov_init at h
  obtain ⟨b, hb⟩ := FUSE_OSMalloc_buf_world w (K.FU_AT_LEAST n)
  rcases hr : FUSE_OSMalloc_buf w (K.FU_AT_LEAST n) with ⟨_ | m, w1⟩
  · simp [hr] at h
  · simp only [hr, Outcome.ret.injEq] at h
    rw [hr] at hb
    exact ⟨b, h.2 ▸ hb⟩

theorem fiov_realloc_ret {K : Config} {w w' : World} {n : Nat} {f f' : fuse_iov}
    (h : fiov_realloc K w f n = .ret f' w') : ∃ b, w' = { w with blocks := b } := by
  unfold fiov_realloc at h
  obtain ⟨b, hb⟩ := FUSE_OSMalloc_buf_world w (K.FU_AT_LEAST n)
  rcases hr : FUSE_OSMalloc_buf w (K.FU_AT_LEAST n) with ⟨_ | m, w1⟩
  · simp [hr] at h
  · simp only [hr, Outcome.ret.injEq] at h
    rw [hr] at hb
    exact ⟨b, h.2 ▸ hb⟩

theorem fiov_adjust_ret {K : Config} {w w' : World} {n : Nat} {f f' : fuse_iov}
    (h : fiov_adjust K w f n = .ret f' w') : ∃ b, w' = { w with blocks := b } := by
  unfold fiov_adjust at h
  split at h
  · exact fiov_realloc_ret h
  · split at h
    · simp only at h
      split at h
      · exact fiov_realloc_ret h
      · simp only [Outcome.ret.injEq] at h
        exact ⟨w.blocks, h.2 ▸ rfl⟩
    · simp only [Outcome.ret.injEq] at h
      exact ⟨w.blocks, h.2 ▸ rfl⟩

theorem fiov_refresh_ret {K : Config} {w w' : World} {f f' : fuse_iov}
    (h : fiov_refresh K w f = .ret f' w') : ∃ b, w' = { w with blocks := b } :=
  fiov_adjust_ret h

theorem fiov_realloc_canfail_ret {K : Config} {w w' : World} {n : Nat} {f : fuse_iov}
    {r : Nat × fuse_iov}
    (h : fiov_realloc_canfail K w f n = .ret r w') : ∃ b, w' = { w with blocks := b } := by
  unfold fiov_realloc_canfail at h
  obtain ⟨b, hb⟩ := FUSE_OSMalloc_buf_world w (K.FU_AT_LEAST n)
  rcases hr : FUSE_OSMalloc_buf w (K.FU_AT_LEAST n) with ⟨_ | m, w1⟩
  · simp only [hr, Outcome.ret.injEq] at h
    rw [hr] at hb
    exact ⟨b, h.2 ▸ hb⟩
  · simp only [hr, Outcome.ret.injEq] at h
    rw [hr] at hb
    exact ⟨b, h.2 ▸ hb⟩

theorem fiov_adjust_canfail_ret {K : Config} {w w' : World} {n : Nat} {f : fuse_iov}
    {r : Nat × fuse_iov}
    (h : fiov_adjust_canfail K w f n = .ret r w') : ∃ b, w' = { w with blocks := b } := by
  unfold fiov_adjust_canfail at h
  split at h
  · exact fiov_realloc_canfail_ret h
  · split at h
    · simp only at h
      split at h
      · exact fiov_realloc_canfail_ret h
      · simp only [Outcome.ret.injEq] at h
        exact ⟨w.blocks, h.2 ▸ rfl⟩
    · simp only [Outcome.ret.injEq] at h
      exact ⟨w.blocks, h.2 ▸ rfl⟩

/-! ## Lemmas: what a call that returns has done -/

theorem fticket_alloc_ret {K : Config} {w w' : World} {p : Nat}
    (h : fticket_alloc K w = .ret p w') :
    p ≠ 0 ∧ w.mallocs.head? = some p ∧ ∃ t b,
      t.tk_unique = w.data.ticketer ∧ t.tk_flag = 0 ∧
      w' = { w with
        data := { w.data with ticketer := (w.data.ticketer + 1) % 2 ^ 64 },
        heap := (p, t) :: w.heap, mallocs := w.mallocs.tail, blocks := b } := by
  unfold fticket_alloc FUSE_OSMalloc at h
  rcases hmm : w.mallocs with _ | ⟨a, rest⟩
  · simp [hmm] at h
  · simp only [hmm] at h
    split at h
    · simp at h
    · rename_i hp
      split at h
      · simp at h
      · simp at h
      · rename_i ms w3 h3
        split at h
        · simp at h
        · simp at h
        · rename_i aw w4 h4
          obtain ⟨b3, rfl⟩ := fiov_init_ret h3
          obtain ⟨b4, rfl⟩ := fiov_init_ret h4
          simp only [Outcome.ret.injEq] at h
          obtain ⟨rfl, rfl⟩ := h
          refine ⟨hp, rfl, _, _, ?_, ?_, rfl⟩ <;> rfl

theorem fiov_realloc_len {K : Config} {w w' : World} {n : Nat} {f f' : fuse_iov}
    (h : fiov_realloc K w f n = .ret f' w') : f'.len = n := by
  unfold fiov_realloc at h
  split at h
  · simp at h
  · simp only [Outcome.ret.injEq] at h
    rw [← h.1]

theorem fiov_adjust_len {K : Config} {w w' : World} {n : Nat} {f f' : fuse_iov}
    (h : fiov_adjust K w f n = .ret f' w') : f'.len = n := by
  unfold fiov_adjust at h
  split at h
  · exact fiov_realloc_len h
  · split at h
    · simp only at h
      split at h
      · exact fiov_realloc_len h
      · simp only [Outcome.ret.injEq] at h
        rw [← h.1]
    · simp only [Outcome.ret.injEq] at h
      rw [← h.1]

theorem fticket_refresh_ret {K : Config} {w w' : World} {p : Nat} {u : Unit}
    (h : fticket_refresh K w p = .ret u w') :
    ∃ t ms aw b, w.tick p = some t ∧ ms.len = 0 ∧ aw.len = 0 ∧
      w' = ({ w with blocks := b } : World).setTick p (refreshed t ms aw) := by
  unfold fticket_refresh at h
  split at h
  · simp at h
  · rename_i t ht
    split at h
    · simp at h
    · simp at h
    · rename_i ms w1 h1
      simp only at h
      split at h
      · simp at h
      · simp at h
      · rename_i aw w3 h3
        have l1 : ms.len = 0 := fiov_adjust_len h1
        have l3 : aw.len = 0 := fiov_adjust_len h3
        obtain ⟨b1, rfl⟩ := fiov_refresh_ret h1
        obtain ⟨b3, rfl⟩ := fiov_refresh_ret h3
        simp only [Outcome.ret.injEq, true_and] at h
        subst h
        refine ⟨t, ms, aw, b3, ht, l1, l3, ?_⟩
        simp only [World.setTick, List.map_map, refreshed]
        congr 1
        apply List.map_congr_left
        intro e _
        by_cases he : e.1 = p <;> simp [he]

theorem fuse_msleep_world (w : World) (c : Chan) :
    ∃ sl, (fuse_msleep w c).2 = { w with trace := w.trace ++ [.msleep c], sleeps := sl } := by
  unfold fuse_msleep
  rcases hs : w.sleeps with _ | ⟨e, rest⟩
  · refine ⟨[], ?_⟩
    cases w
    simp_all [World.emit]
  · exact ⟨rest, rfl⟩

theorem fdata_set_dead_world (K : Config) (w : World) :
    ∃ fl tr, fdata_set_dead K w =
      { w with data := { w.data with dataflags := fl }, trace := tr } := by
  unfold fdata_set_dead
  split
  · exact ⟨w.data.dataflags, w.trace, rfl⟩
  · exact ⟨_, _, rfl⟩

theorem fuse_ticket_fetch_gate_ret {K : Config} {w w' : World} {p q : Nat}
    (h : fuse_ticket_fetch_gate K w p = .ret q w') :
    q = p ∧ ∃ fl tr sl, w' =
      { w with data := { w.data with dataflags := fl }, trace := tr, sleeps := sl } := by
  unfold fuse_ticket_fetch_gate at h
  simp only at h
  have key : ∀ r : Nat × World,
      (∃ tr sl, r.2 = { w with trace := tr, sleeps := sl }) →
      (if r.1 ≠ 0 then Outcome.ret p (fdata_set_dead K r.2) else Outcome.ret p r.2) = .ret q w' →
      q = p ∧ ∃ fl tr sl, w' =
        { w with data := { w.data with dataflags := fl }, trace := tr, sleeps := sl } := by
    rintro ⟨e, w1⟩ ⟨tr, sl, hw1⟩ hr
    simp only at hw1
    subst hw1
    split at hr
    · simp only [Outcome.ret.injEq] at hr
      obtain ⟨fl, tr', hd⟩ := fdata_set_dead_world K
        { w with trace := tr, sleeps := sl }
      refine ⟨hr.1.symm, fl, tr', sl, ?_⟩
      rw [← hr.2, hd]
    · simp only [Outcome.ret.injEq] at hr
      exact ⟨hr.1.symm, w.data.dataflags, tr, sl, hr.2 ▸ rfl⟩
  apply key _ _ h
  split
  · obtain ⟨sl, hs⟩ := fuse_msleep_world w .ticketer
    exact ⟨_, sl, hs⟩
  · split
    · exact ⟨w.trace, w.sleeps, rfl⟩
    · exact ⟨w.trace, w.sleeps, rfl⟩

theorem fuse_pop_freeticks_ret {w w' : World} {p : Nat}
    (h : fuse_pop_freeticks w = .ret p w') :
    (w.data.freetickets_head = [] ∧ p = 0 ∧ w' = w) ∨
    (∃ rest, w.data.freetickets_head = p :: rest ∧
      w' = { w with data := { w.data with
        freetickets_head := rest,
        freeticket_counter := (w.data.freeticket_counter + 2 ^ 32 - 1) % 2 ^ 32 } }) := by
  unfold fuse_pop_freeticks at h
  rcases hf : w.data.freetickets_head with _ | ⟨a, rest⟩
  · left
    simp only [hf] at h
    split at h
    · simp at h
    · simp only [Outcome.ret.injEq] at h
      exact ⟨rfl, h.1.symm, h.2.symm⟩
  · right
    simp only [hf] at h
    split at h
    · simp at h
    · simp only [Outcome.ret.injEq] at h
      obtain ⟨rfl, rfl⟩ := h
      exact ⟨rest, rfl, rfl⟩

theorem fuse_ticket_fetch_ret {K : Config} {w w' : World} {p : Nat}
    (h : fuse_ticket_fetch K w = .ret p w') :
    p ≠ 0 ∧
    ((w.data.freeticket_counter = 0 ∧ w.mallocs.head? = some p ∧
        ∃ t b fl tr sl, t.tk_unique = w.data.ticketer ∧ t.tk_flag = 0 ∧
          w' = { w with
            data := { w.data with
              ticketer := (w.data.ticketer + 1) % 2 ^ 64,
              alltickets_head := w.data.alltickets_head ++ [p],
              dataflags := fl },
            heap := (p, t) :: w.heap, mallocs := w.mallocs.tail, blocks := b,
            trace := tr, sleeps := sl }) ∨
     (w.data.freeticket_counter ≠ 0 ∧
        ∃ rest fl tr sl, w.data.freetickets_head = p :: rest ∧
          w' = { w with
            data := { w.data with
              freetickets_head := rest,
              freeticket_counter := (w.data.freeticket_counter + 2 ^ 32 - 1) % 2 ^ 32,
              dataflags := fl },
            trace := tr, sleeps := sl })) := by
  unfold fuse_ticket_fetch at h
  split at h
  · rename_i hc
    split at h
    · simp at h
    · simp at h
    · rename_i ftick w1 ha
      split at h
      · simp at h
      · rename_i hne
        obtain ⟨hq, fl, tr, sl, hw⟩ := fuse_ticket_fetch_gate_ret h
        subst hq
        obtain ⟨_, hm, t, b, ht, hfl, rfl⟩ := fticket_alloc_ret ha
        refine ⟨hne, Or.inl ⟨hc, hm, t, b, fl, tr, sl, ht, hfl, ?_⟩⟩
        rw [hw]
        rfl
  · rename_i hc
    split at h
    · simp at h
    · simp at h
    · rename_i ftick w1 ha
      split at h
      · simp at h
      · rename_i hne
        obtain ⟨hq, fl, tr, sl, hw⟩ := fuse_ticket_fetch_gate_ret h
        subst hq
        rcases fuse_pop_freeticks_ret ha with ⟨_, h0, _⟩ | ⟨rest, hf, rfl⟩
        · exact absurd h0 hne
        · refine ⟨hne, Or.inr ⟨hc, rest, fl, tr, sl, hf, ?_⟩⟩
          rw [hw]

theorem fuse_ticket_kill_ret {w w' : World} {p : Nat} {u : Unit}
    (h : fuse_ticket_kill w p = .ret u w') :
    (∃ t, w.tick p = some t) ∧ w' = fticket_destroy (fuse_remove_allticks w p) p := by
  unfold fuse_ticket_kill at h
  split at h
  · simp at h
  · rename_i t ht
    simp only [Outcome.ret.injEq, true_and] at h
    exact ⟨⟨t, ht⟩, h.symm⟩

theorem fuse_ticket_drop_ret {K : Config} {w w' : World} {p : Nat} {u : Unit}
    (h : fuse_ticket_drop K w p = .ret u w') :
    ∃ t, w.tick p = some t ∧
      ((((0 ≤ K.fuse_max_freetickets ∧
            K.fuse_max_freetickets ≤ (w.data.freeticket_counter : Int)) ∨
          t.tk_flag &&& K.FT_KILLL ≠ 0) ∧
        w' = fticket_destroy (fuse_remove_allticks w p) p) ∨
       (¬ ((0 ≤ K.fuse_max_freetickets ∧
            K.fuse_max_freetickets ≤ (w.data.freeticket_counter : Int)) ∨
          t.tk_flag &&& K.FT_KILLL ≠ 0) ∧
        ∃ ms aw b, ms.len = 0 ∧ aw.len = 0 ∧
          w' = fuse_push_freeticks
            (({ w with blocks := b } : World).setTick p (refreshed t ms aw)) p)) := by
  unfold fuse_ticket_drop at h
  split at h
  · simp at h
  · rename_i t ht
    refine ⟨t, ht, ?_⟩
    split at h
    · rename_i hc
      simp only [Outcome.ret.injEq, true_and] at h
      exact Or.inl ⟨hc, h.symm⟩
    · rename_i hc
      split at h
      · simp at h
      · simp at h
      · rename_i u1 w1 hr
        obtain ⟨t2, ms, aw, b, ht2, l1, l2, rfl⟩ := fticket_refresh_ret hr
        rw [ht] at ht2
        simp only [Option.some.injEq] at ht2
        subst ht2
        simp only [Outcome.ret.injEq, true_and] at h
        exact Or.inr ⟨hc, ms, aw, b, l1, l2, h.symm⟩

theorem fuse_insert_callback_ret {K : Config} {w w' : World} {p handler : Nat} {u : Unit}
    (h : fuse_insert_callback K w p handler = .ret u w') :
    ∃ t, w.tick p = some t ∧
      (w' = w ∨
        w' = fuse_aw_push (w.setTick p { t with tk_aw_handler := handler }) p) := by
  unfold fuse_insert_callback at h
  split at h
  · simp at h
  · rename_i t ht
    refine ⟨t, ht, ?_⟩
    split at h
    · simp only [Outcome.ret.injEq, true_and] at h
      exact Or.inl h.symm
    · simp only [Outcome.ret.injEq, true_and] at h
      exact Or.inr h.symm

theorem fuse_insert_message_ret {K : Config} {w w' : World} {p : Nat} {u : Unit}
    (h : fuse_insert_message K w p = .ret u w') :
    ∃ t, w.tick p = some t ∧ t.tk_flag &&& K.FT_DIRTY = 0 ∧
      (w' = w.setTick p { t with tk_flag := t.tk_flag ||| K.FT_DIRTY } ∨
        w' = (fuse_ms_push (w.setTick p { t with tk_flag := t.tk_flag ||| K.FT_DIRTY }) p).emit
          (.wakeup_one .data)) := by
  unfold fuse_insert_message at h
  split at h
  · simp at h
  · rename_i t ht
    split at h
    · simp at h
    · rename_i hd
      refine ⟨t, ht, by simpa using hd, ?_⟩
      simp only at h
      split at h
      · simp only [Outcome.ret.injEq, true_and] at h
        exact Or.inl h.symm
      · simp only [Outcome.ret.injEq, true_and] at h
        exact Or.inr h.symm

theorem fuse_insert_message_head_ret {K : Config} {w w' : World} {p : Nat} {u : Unit}
    (h : fuse_insert_message_head K w p = .ret u w') :
    ∃ t, w.tick p = some t ∧ t.tk_flag &&& K.FT_DIRTY = 0 ∧
      (w' = w.setTick p { t with tk_flag := t.tk_flag ||| K.FT_DIRTY } ∨
        w' = (fuse_ms_push_head
          (w.setTick p { t with tk_flag := t.tk_flag ||| K.FT_DIRTY }) p).emit
          (.wakeup_one .data)) := by
  unfold fuse_insert_message_head at h
  split at h
  · simp at h
  · rename_i t ht
    split at h
    · simp at h
    · rename_i hd
      refine ⟨t, ht, by simpa using hd, ?_⟩
      simp only at h
      split at h
      · simp only [Outcome.ret.injEq, true_and] at h
        exact Or.inl h.symm
      · simp only [Outcome.ret.injEq, true_and] at h
        exact Or.inr h.symm

theorem fdisp_ticket_ret {K : Config} {w w' : World} {fdip : fuse_dispatcher} {q : Nat}
    (h : fdisp_ticket K w fdip = .ret q w') :
    q ≠ 0 ∧
    ((fdip.tick ≠ 0 ∧ q = fdip.tick ∧ fticket_refresh K w fdip.tick = .ret () w') ∨
     (fdip.tick = 0 ∧ fuse_ticket_fetch K w = .ret q w')) := by
  unfold fdisp_ticket at h
  simp only at h
  split at h
  · simp at h
  · simp at h
  · rename_i tick w1 hr
    split at h
    · simp at h
    · rename_i hne
      simp only [Outcome.ret.injEq] at h
      obtain ⟨rfl, rfl⟩ := h
      refine ⟨hne, ?_⟩
      split at hr
      · rename_i hk
        split at hr
        · simp at hr
        · simp at hr
        · rename_i u1 w2 hrr
          simp only [Outcome.ret.injEq] at hr
          obtain ⟨rfl, rfl⟩ := hr
          exact Or.inl ⟨hk, rfl, hrr⟩
      · rename_i hk
        exact Or.inr ⟨by simpa using hk, hr⟩

theorem fuse_setup_ihead_unique (K : Config) (t : fuse_ticket) (nid : Nat)
    (op : fuse_opcode) (blen : Nat) (context : Option Identity) (cur : Identity) :
    (fuse_setup_ihead K t nid op blen context cur).tk_unique = t.tk_unique := rfl

theorem fdisp_make_ret {K : Config} {w w' : World} {fdip fdip' : fuse_dispatcher}
    {op : fuse_opcode} {nid : Nat} {context : Option Identity} {cur : Identity}
    (h : fdisp_make K w fdip op nid context cur = .ret fdip' w') :
    ∃ q w1 t t' b, fdisp_ticket K w fdip = .ret q w1 ∧ w1.tick q = some t ∧
      t'.tk_unique = t.tk_unique ∧ fdip'.tick = q ∧
      w' = ({ w1 with blocks := b } : World).setTick q t' := by
  unfold fdisp_make at h
  split at h
  · simp at h
  · simp at h
  · rename_i q w1 hq
    split at h
    · simp at h
    · rename_i t ht
      split at h
      · simp at h
      · simp at h
      · rename_i ms w2 ha
        obtain ⟨b, rfl⟩ := fiov_adjust_ret ha
        simp only [Outcome.ret.injEq] at h
        obtain ⟨rfl, rfl⟩ := h
        exact ⟨q, w1, t, fuse_setup_ihead K { t with tk_ms_fiov := ms } nid op fdip.iosize
          context cur, b, hq, ht, rfl, rfl, rfl⟩

theorem fdisp_make_canfail_ret {K : Config} {w w' : World} {fdip fdip' : fuse_dispatcher}
    {op : fuse_opcode} {nid : Nat} {context : Option Identity} {cur : Identity}
    {err : Nat}
    (h : fdisp_make_canfail K w fdip op nid context cur = .ret (err, fdip') w') :
    ∃ q w1 t t' b, fdisp_ticket K w fdip = .ret q w1 ∧ w1.tick q = some t ∧
      t'.tk_unique = t.tk_unique ∧ fdip'.tick = q ∧
      (w' = ({ w1 with blocks := b } : World).setTick q t' ∨
       w' = fticket_destroy (fuse_remove_allticks
              (({ w1 with blocks := b } : World).setTick q t') q) q) := by
  unfold fdisp_make_canfail at h
  split at h
  · simp at h
  · simp at h
  · rename_i q w1 hq
    split at h
    · simp at h
    · rename_i t ht
      split at h
      · simp at h
      · simp at h
      · rename_i failed ms w2 ha
        obtain ⟨b, rfl⟩ := fiov_adjust_canfail_ret ha
        simp only at h
        split at h
        · split at h
          · simp at h
          · simp at h
          · rename_i u4 w4 hk
            obtain ⟨_, rfl⟩ := fuse_ticket_kill_ret hk
            simp only [Outcome.ret.injEq, Prod.mk.injEq] at h
            obtain ⟨⟨_, rfl⟩, rfl⟩ := h
            exact ⟨q, w1, t, { t with tk_ms_fiov := ms }, b, hq, ht, rfl, rfl, Or.inr rfl⟩
        · simp only [Outcome.ret.injEq, Prod.mk.injEq] at h
          obtain ⟨⟨_, rfl⟩, rfl⟩ := h
          refine ⟨q, w1, t, fuse_setup_ihead K { t with tk_ms_fiov := ms } nid op fdip.iosize
            context cur, b, hq, ht, rfl, rfl, Or.inl ?_⟩
          rw [setTick_setTick]

/-! ## Lemmas: the accounting of the free pool -/

@[simp] theorem setTick_data (w : World) (p : Nat) (t : fuse_ticket) :
    (w.setTick p t).data = w.data := rfl

@[simp] theorem destroy_data (w : World) (p : Nat) :
    (fticket_destroy w p).data = w.data := rfl

@[simp] theorem emit_data (w : World) (e : Event) : (w.emit e).data = w.data := rfl

@[simp] theorem emit_tick (w : World) (e : Event) (q : Nat) :
    (w.emit e).tick q = w.tick q := rfl

@[simp] theorem remove_allticks_tick (w : World) (p q : Nat) :
    (fuse_remove_allticks w p).tick q = w.tick q := rfl

@[simp] theorem push_freeticks_tick (w : World) (p q : Nat) :
    (fuse_push_freeticks w p).tick q = w.tick q := rfl

@[simp] theorem aw_push_tick (w : World) (p q : Nat) :
    (fuse_aw_push w p).tick q = w.tick q := rfl

@[simp] theorem ms_push_tick (w : World) (p q : Nat) :
    (fuse_ms_push w p).tick q = w.tick q := rfl

@[simp] theorem ms_push_head_tick (w : World) (p q : Nat) :
    (fuse_ms_push_head w p).tick q = w.tick q := rfl

theorem nodup_bounded_length {l : List Nat} {n : Nat} (hn : l.Nodup)
    (hb : ∀ p ∈ l, 0 < p ∧ p < n) : l.length + 1 ≤ n ∨ l = [] := by
  rcases l with _ | ⟨a, l⟩
  · exact Or.inr rfl
  · left
    have hsub : (a :: l).toFinset ⊆ Finset.Ico 1 n := by
      intro x hx
      rw [List.mem_toFinset] at hx
      rw [Finset.mem_Ico]
      exact hb x hx
    have hcard := Finset.card_le_card hsub
    rw [List.toFinset_card_of_nodup hn, Nat.card_Ico] at hcard
    have := (hb a (List.mem_cons_self a l)).2
    omega

theorem FreeInv.length_lt {K : Config} {w : World} (hb : K.word_bits ≤ 32)
    (h : FreeInv K w) : w.data.freetickets_head.length < 2 ^ 32 := by
  have hpow : 2 ^ K.word_bits ≤ 2 ^ 32 := Nat.pow_le_pow_right (by norm_num) hb
  have hbd : ∀ p ∈ w.data.freetickets_head, 0 < p ∧ p < 2 ^ 32 := by
    intro p hp
    obtain ⟨t, ht⟩ := h.free_live p hp
    have := h.live_addr p t ht
    exact ⟨this.1, lt_of_lt_of_le this.2 hpow⟩
  rcases nodup_bounded_length h.nodup hbd with h1 | h1
  · omega
  · rw [h1]; simp

theorem FreeInv.keep {K : Config} {w w' : World} (h : FreeInv K w)
    (hf : w'.data.freetickets_head = w.data.freetickets_head)
    (hc : w'.data.freeticket_counter = w.data.freeticket_counter)
    (hl : ∀ q t', w'.tick q = some t' →
      (0 < q ∧ q < 2 ^ K.word_bits) ∨ ∃ t, w.tick q = some t)
    (hfl : ∀ q ∈ w.data.freetickets_head, ∃ t', w'.tick q = some t') :
    FreeInv K w' where
  count := by rw [hc, hf, h.count]
  nodup := by rw [hf]; exact h.nodup
  free_live := by rw [hf]; exact hfl
  live_addr := by
    intro p t' ht'
    rcases hl p t' ht' with hb | ⟨t, ht⟩
    · exact hb
    · exact h.live_addr p t ht

theorem FreeInv.pop {K : Config} {w w' : World} {p : Nat} (hb : K.word_bits ≤ 32)
    (h : FreeInv K w)
    (hf : w.data.freetickets_head = p :: w'.data.freetickets_head)
    (hc : w'.data.freeticket_counter = (w.data.freeticket_counter + 2 ^ 32 - 1) % 2 ^ 32)
    (hl : ∀ q, w'.tick q = w.tick q) : FreeInv K w' where
  count := by
    have hlen := h.length_lt hb
    have hcnt := h.count
    rw [hf] at hlen hcnt
    simp only [List.length_cons] at hlen hcnt
    rw [hc, hcnt]
    omega
  nodup := by
    have := h.nodup
    rw [hf] at this
    exact (List.nodup_cons.mp this).2
  free_live := by
    intro q hq
    rw [hl]
    exact h.free_live q (by rw [hf]; exact List.mem_cons_of_mem _ hq)
  live_addr := by
    intro q t ht
    rw [hl] at ht
    exact h.live_addr q t ht

theorem FreeInv.push {K : Config} {w w' : World} {p : Nat} (hb : K.word_bits ≤ 32)
    (h : FreeInv K w) (hp : p ∉ w.data.freetickets_head)
    (hlp : ∃ t, w.tick p = some t)
    (hf : w'.data.freetickets_head = w.data.freetickets_head ++ [p])
    (hc : w'.data.freeticket_counter = (w.data.freeticket_counter + 1) % 2 ^ 32)
    (hl : ∀ q, (∃ t', w'.tick q = some t') ↔ ∃ t, w.tick q = some t) :
    FreeInv K w' := by
  have hnd : (w.data.freetickets_head ++ [p]).Nodup := by
    rw [List.nodup_append]
    refine ⟨h.nodup, List.nodup_singleton p, ?_⟩
    intro a ha hb'
    rw [List.mem_singleton] at hb'
    subst hb'
    exact hp ha
  have hfl : ∀ q ∈ w.data.freetickets_head ++ [p], ∃ t, w.tick q = some t := by
    intro q hq
    rw [List.mem_append, List.mem_singleton] at hq
    rcases hq with hq | rfl
    · exact h.free_live q hq
    · exact hlp
  have hpow : 2 ^ K.word_bits ≤ 2 ^ 32 := Nat.pow_le_pow_right (by norm_num) hb
  have hbd : ∀ q ∈ w.data.freetickets_head ++ [p], 0 < q ∧ q < 2 ^ 32 := by
    intro q hq
    obtain ⟨t, ht⟩ := hfl q hq
    have := h.live_addr q t ht
    exact ⟨this.1, lt_of_lt_of_le this.2 hpow⟩
  refine ⟨?_, by rw [hf]; exact hnd, ?_, ?_⟩
  · rw [hc, hf, h.count]
    rcases nodup_bounded_length hnd hbd with h1 | h1
    · simp only [List.length_append, List.length_singleton] at h1 ⊢
      omega
    · simp at h1
  · rw [hf]
    intro q hq
    exact (hl q).mpr (hfl q hq)
  · intro q t' ht'
    obtain ⟨t, ht⟩ := (hl q).mp ⟨t', ht'⟩
    exact h.live_addr q t ht

theorem tick_setTick_blocks (w : World) (b : List (Option (List Nat))) (p q : Nat)
    (t' : fuse_ticket) :
    (({ w with blocks := b } : World).setTick p t').tick q =
      if q = p then (w.tick p).map (fun _ => t') else w.tick q :=
  tick_setTick _ p q t'

theorem live_setTick_blocks (w : World) (b : List (Option (List Nat))) (p q : Nat)
    (t' : fuse_ticket) :
    (∃ t, (({ w with blocks := b } : World).setTick p t').tick q = some t) ↔
      ∃ t, w.tick q = some t := by
  rw [tick_setTick_blocks]
  by_cases hq : q = p
  · subst hq
    cases w.tick q <;> simp
  · simp [hq]

theorem FreeInv.free_setTick_blocks {K : Config} {w : World} (h : FreeInv K w)
    (b : List (Option (List Nat))) (p : Nat) (t' : fuse_ticket) :
    FreeInv K (({ w with blocks := b } : World).setTick p t') := by
  refine h.keep ?_ ?_ ?_ ?_
  · rfl
  · rfl
  · intro q t1 h1
    exact Or.inr ((live_setTick_blocks w b p q t').mp ⟨t1, h1⟩)
  · intro q hq
    exact (live_setTick_blocks w b p q t').mpr (h.free_live q hq)

theorem FreeInv.free_setTick {K : Config} {w : World} (h : FreeInv K w)
    (p : Nat) (t' : fuse_ticket) : FreeInv K (w.setTick p t') :=
  h.free_setTick_blocks w.blocks p t'

theorem FreeInv.free_destroy {K : Config} {w : World} (h : FreeInv K w) {p : Nat}
    (hp : p ∉ w.data.freetickets_head) :
    FreeInv K (fticket_destroy (fuse_remove_allticks w p) p) := by
  refine h.keep ?_ ?_ ?_ ?_
  · rfl
  · rfl
  · intro q t1 h1
    rw [tick_destroy] at h1
    split at h1
    · simp at h1
    · exact Or.inr ⟨t1, h1⟩
  · intro q hq
    rw [tick_destroy]
    have : q ≠ p := fun e => hp (e ▸ hq)
    simp only [this, if_false]
    exact h.free_live q hq

theorem fuse_ticket_fetch_freeInv {K : Config} {w w' : World} {p : Nat}
    (hb : K.word_bits ≤ 32) (h : FreeInv K w)
    (hr : fuse_ticket_fetch K w = .ret p w')
    (hfresh : w.data.freeticket_counter = 0 → Fresh K w p) :
    FreeInv K w' ∧ p ∉ w'.data.freetickets_head := by
  obtain ⟨hne, ⟨hc, _, t, b, fl, tr, sl, _, _, rfl⟩ | ⟨hc, rest, fl, tr, sl, hf, rfl⟩⟩ :=
    fuse_ticket_fetch_ret hr
  · have hnil : w.data.freetickets_head = [] := by
      have := h.count
      rw [hc] at this
      exact List.length_eq_zero.mp this.symm
    refine ⟨h.keep ?_ ?_ ?_ ?_, ?_⟩
    · rfl
    · rfl
    · intro q t1 h1
      simp only [World.tick, lookup_cons_eq] at h1
      split at h1
      · rename_i hq
        subst hq
        exact Or.inl ⟨Nat.pos_of_ne_zero hne, (hfresh hc).2⟩
      · exact Or.inr ⟨t1, h1⟩
    · intro q hq
      rw [hnil] at hq
      simp at hq
    · show p ∉ w.data.freetickets_head
      rw [hnil]
      simp
  · have hnd := h.nodup
    rw [hf] at hnd
    exact ⟨h.pop hb hf rfl (fun _ => rfl), (List.nodup_cons.mp hnd).1⟩

theorem fuse_ticket_drop_freeInv {K : Config} {w w' : World} {p : Nat} {u : Unit}
    (hb : K.word_bits ≤ 32) (h : FreeInv K w)
    (hr : fuse_ticket_drop K w p = .ret u w')
    (hp : p ∉ w.data.freetickets_head) : FreeInv K w' := by
  obtain ⟨t, ht, ⟨_, rfl⟩ | ⟨_, ms, aw, b, _, _, rfl⟩⟩ := fuse_ticket_drop_ret hr
  · exact h.free_destroy hp
  · refine (h.free_setTick_blocks b p (refreshed t ms aw)).push hb hp ?_ rfl rfl (fun _ => Iff.rfl)
    exact (live_setTick_blocks w b p p _).mpr ⟨t, ht⟩

theorem fticket_refresh_freeInv {K : Config} {w w' : World} {p : Nat} {u : Unit}
    (h : FreeInv K w) (hr : fticket_refresh K w p = .ret u w') :
    FreeInv K w' ∧ w'.data = w.data := by
  obtain ⟨t, ms, aw, b, _, _, _, rfl⟩ := fticket_refresh_ret hr
  exact ⟨h.free_setTick_blocks b p _, rfl⟩

theorem fdisp_ticket_freeInv {K : Config} {w w' : World} {fdip : fuse_dispatcher}
    {q : Nat} (hb : K.word_bits ≤ 32) (h : FreeInv K w)
    (hr : fdisp_ticket K w fdip = .ret q w')
    (hfresh : fdip.tick = 0 → w.data.freeticket_counter = 0 → Fresh K w q) :
    FreeInv K w' ∧ ((fdip.tick ≠ 0 → fdip.tick ∉ w.data.freetickets_head) →
      q ∉ w'.data.freetickets_head) := by
  obtain ⟨_, ⟨hk, rfl, hrr⟩ | ⟨hk, hrr⟩⟩ := fdisp_ticket_ret hr
  · obtain ⟨h1, h2⟩ := fticket_refresh_freeInv h hrr
    refine ⟨h1, fun hh => ?_⟩
    rw [h2]
    exact hh hk
  · obtain ⟨h1, h2⟩ := fuse_ticket_fetch_freeInv hb h hrr (hfresh hk)
    exact ⟨h1, fun _ => h2⟩

theorem step_freeInv {K : Config} {w w' : World} (hb : K.word_bits ≤ 32)
    (h : FreeInv K w) (hs : Step K w w') : FreeInv K w' := by
  cases hs with
  | fetch _ p hr hfresh => exact (fuse_ticket_fetch_freeInv hb h hr hfresh).1
  | drop _ p hheld hr => exact fuse_ticket_drop_freeInv hb h hr hheld.2
  | kill _ p hheld hr =>
    obtain ⟨_, rfl⟩ := fuse_ticket_kill_ret hr
    exact h.free_destroy hheld.2
  | insert_callback _ p handler _ hr =>
    obtain ⟨t, _, rfl | rfl⟩ := fuse_insert_callback_ret hr
    · exact h
    · exact (h.free_setTick p _).keep (by rfl) (by rfl) (fun q t1 h1 => Or.inr ⟨t1, h1⟩)
        (fun q hq => (h.free_setTick p _).free_live q hq)
  | insert_message _ p _ hr =>
    obtain ⟨t, _, _, rfl | rfl⟩ := fuse_insert_message_ret hr
    · exact h.free_setTick p _
    · exact (h.free_setTick p _).keep (by rfl) (by rfl) (fun q t1 h1 => Or.inr ⟨t1, h1⟩)
        (fun q hq => (h.free_setTick p _).free_live q hq)
  | insert_message_head _ p _ hr =>
    obtain ⟨t, _, _, rfl | rfl⟩ := fuse_insert_message_head_ret hr
    · exact h.free_setTick p _
    · exact (h.free_setTick p _).keep (by rfl) (by rfl) (fun q t1 h1 => Or.inr ⟨t1, h1⟩)
        (fun q hq => (h.free_setTick p _).free_live q hq)
  | set_dead =>
    obtain ⟨fl, tr, hd⟩ := fdata_set_dead_world K w
    rw [hd]
    exact h.keep (by rfl) (by rfl) (fun q t1 h1 => Or.inr ⟨t1, h1⟩) (fun q hq => h.free_live q hq)
  | disp_make _ fdip fdip' op nid context cur hr hfresh =>
    obtain ⟨q, w1, t, t', b, hq, _, _, hk, rfl⟩ := fdisp_make_ret hr
    exact (fdisp_ticket_freeInv hb h hq (hk ▸ hfresh)).1.free_setTick_blocks b q t'
  | disp_make_canfail _ fdip fdip' op nid context cur err hr hheld hfresh =>
    obtain ⟨q, w1, t, t', b, hq, _, _, hk, rfl | rfl⟩ := fdisp_make_canfail_ret hr
    · exact (fdisp_ticket_freeInv hb h hq (hk ▸ hfresh)).1.free_setTick_blocks b q t'
    · obtain ⟨h1, h2⟩ := fdisp_ticket_freeInv hb h hq (hk ▸ hfresh)
      exact (h1.free_setTick_blocks b q t').free_destroy (h2 (fun hne => (hheld hne).2))

theorem fdata_alloc_ret {K : Config} {w0 w : World} {pid : Nat} {u : Unit}
    (h : fdata_alloc K w0 pid = .ret u w) :
    w.heap = w0.heap ∧ w.data.freetickets_head = [] ∧ w.data.freeticket_counter = 0 ∧
      w.data.ticketer = 0 ∧ w.data.aw_head = [] ∧ w.data.ms_head = [] ∧
      w.data.alltickets_head = [] ∧ w.data.deadticket_counter = 0 ∧
      w.data.dataflags = 0 := by
  unfold fdata_alloc FUSE_OSMalloc at h
  rcases hm : w0.mallocs with _ | ⟨a, rest⟩
  · simp [hm] at h
  · simp only [hm] at h
    split at h
    · simp at h
    · simp only [Outcome.ret.injEq, true_and] at h
      subst h
      simp

theorem reachable_freeInv {K : Config} {G : World → World → Prop} {w : World}
    (hb : K.word_bits ≤ 32) (h : Reachable K G w) : FreeInv K w := by
  induction h with
  | init w0 w pid h0 hr =>
    obtain ⟨hh, hf, hc, _⟩ := fdata_alloc_ret hr
    refine ⟨by rw [hc, hf]; rfl, by rw [hf]; exact List.nodup_nil, ?_, ?_⟩
    · rw [hf]; simp
    · intro p t ht
      simp [World.tick, hh, h0] at ht
  | step w w' _ hs _ ih => exact step_freeInv hb ih hs

theorem fiov_init_panic {K : Config} {w w' : World} {n : Nat} {m : Panic}
    (h : fiov_init K w n = .panic m w') : m = .fiov_init_oom := by
  unfold fiov_init at h
  rcases hr : FUSE_OSMalloc_buf w (K.FU_AT_LEAST n) with ⟨_ | b, w1⟩
  · simp only [hr, Outcome.panic.injEq] at h
    exact h.1.symm
  · simp [hr] at h

theorem fticket_alloc_panic {K : Config} {w w' : World} {m : Panic}
    (h : fticket_alloc K w = .panic m w') :
    m = .fticket_alloc_oom ∨ m = .fiov_init_oom := by
  unfold fticket_alloc at h
  simp only at h
  split at h
  · simp only [Outcome.panic.injEq] at h
    exact Or.inl h.1.symm
  · split at h
    · rename_i m1 w3 h3
      simp only [Outcome.panic.injEq] at h
      exact Or.inr (h.1 ▸ fiov_init_panic h3)
    · simp at h
    · split at h
      · rename_i m1 w4 h4
        simp only [Outcome.panic.injEq] at h
        exact Or.inr (h.1 ▸ fiov_init_panic h4)
      · simp at h
      · simp at h

theorem fuse_ticket_fetch_gate_no_panic {K : Config} {w w' : World} {p : Nat} {m : Panic} :
    fuse_ticket_fetch_gate K w p ≠ .panic m w' := by
  intro h
  unfold fuse_ticket_fetch_gate at h
  simp only at h
  repeat' split at h
  all_goals simp at h

theorem FreeInv.pop_no_panic {K : Config} {w w' : World} {m : Panic}
    (hb : K.word_bits ≤ 32) (h : FreeInv K w) :
    fuse_pop_freeticks w ≠ .panic m w' := by
  have hlen := h.length_lt hb
  have hcnt := h.count
  intro hp
  unfold fuse_pop_freeticks at hp
  rcases hf : w.data.freetickets_head with _ | ⟨a, rest⟩
  · rw [hf] at hcnt
    simp only [hf] at hp
    split at hp
    · rename_i hc
      exact hc.2 (by simpa using hcnt)
    · simp at hp
  · rw [hf] at hcnt hlen
    simp only [List.length_cons] at hcnt hlen
    simp only [hf] at hp
    split at hp
    · rename_i hc
      obtain ⟨h1, h2⟩ := hc
      subst h1
      have h1 : w.data.freeticket_counter = 1 := by simpa using hcnt
      rw [h1] at h2
      exact absurd (by norm_num) h2
    · simp at hp

theorem FreeInv.fetch_panic {K : Config} {w w' : World} {m : Panic}
    (hb : K.word_bits ≤ 32) (h : FreeInv K w)
    (hp : fuse_ticket_fetch K w = .panic m w') :
    m = .fticket_alloc_oom ∨ m = .fiov_init_oom ∨ m = .ticket_allocation_failed := by
  unfold fuse_ticket_fetch at hp
  split at hp
  · split at hp
    · rename_i m1 w1 ha
      simp only [Outcome.panic.injEq] at hp
      rcases fticket_alloc_panic ha with h1 | h1
      · exact Or.inl (hp.1 ▸ h1)
      · exact Or.inr (Or.inl (hp.1 ▸ h1))
    · simp at hp
    · split at hp
      · simp only [Outcome.panic.injEq] at hp
        exact Or.inr (Or.inr hp.1.symm)
      · exact absurd hp fuse_ticket_fetch_gate_no_panic
  · rename_i hc
    split at hp
    · rename_i m1 w1 ha
      exact absurd ha (h.pop_no_panic hb)
    · simp at hp
    · rename_i ftick w1 ha
      split at hp
      · rename_i h0
        rcases fuse_pop_freeticks_ret ha with ⟨hnil, _, _⟩ | ⟨rest, hf, _⟩
        · have := h.count
          rw [hnil] at this
          exact absurd this hc
        · obtain ⟨t, ht⟩ := h.free_live ftick (by rw [hf]; exact List.mem_cons_self _ _)
          have := (h.live_addr ftick t ht).1
          omega
      · exact absurd hp fuse_ticket_fetch_gate_no_panic

/-- C1: in every session state reached from `fdata_alloc` by calls of
`fuse_ticket_fetch`, `fuse_ticket_drop` and `fuse_ticket_kill` (and of the other
functions of `Step`), on a kernel with addresses of at most 32 bits,
`freeticket_counter` is the number of tickets on `freetickets_head`; hence
`fuse_pop_freeticks` does not panic with "ticket count mismatch" there, and
`fuse_ticket_fetch` panics neither with "ticket count mismatch" nor with "no
free ticket despite the counter's value". -/
theorem free_pool_accounting (K : Config) (w : World) (hb : K.word_bits ≤ 32)
    (h : Reachable K Always w) :
    w.data.freeticket_counter = w.data.freetickets_head.length ∧
    (∀ m w', fuse_pop_freeticks w ≠ .panic m w') ∧
    (∀ m w', fuse_ticket_fetch K w = .panic m w' →
      m ≠ .ticket_count_mismatch ∧ m ≠ .no_free_ticket) := by
  have hinv := reachable_freeInv hb h
  refine ⟨hinv.count, fun m w' => hinv.pop_no_panic hb, ?_⟩
  intro m w' hp
  rcases hinv.fetch_panic hb hp with h1 | h1 | h1 <;> subst h1 <;> simp

theorem demo3_reachable : Reachable sample Always demo3 :=
  .step demo2 demo3
    (.step demo1 demo2 (.init demo0 demo1 77 rfl rfl)
      (.fetch demo1 demo2 8192 rfl (fun _ => ⟨by decide, by decide⟩)) trivial)
    (.drop demo2 demo3 8192 ⟨by decide, by decide⟩ rfl) trivial

/-- Witness of `free_pool_accounting`: the session after one fetch and one drop. -/
theorem free_pool_accounting_witness :
    demo3.data.freeticket_counter = demo3.data.freetickets_head.length ∧
    (∀ m w', fuse_pop_freeticks demo3 ≠ .panic m w') ∧
    (∀ m w', fuse_ticket_fetch sample demo3 = .panic m w' →
      m ≠ .ticket_count_mismatch ∧ m ≠ .no_free_ticket) :=
  free_pool_accounting sample demo3 (by decide) demo3_reachable

/-! ## Lemmas: the correlation ids -/

theorem Keeps.refl (w : World) : Keeps w w :=
  ⟨rfl, fun _ t' h => ⟨t', h, rfl⟩⟩

theorem Keeps.keeps_trans {w w1 w2 : World} (h1 : Keeps w w1) (h2 : Keeps w1 w2) : Keeps w w2 := by
  refine ⟨h2.1.trans h1.1, fun q t2 hq => ?_⟩
  obtain ⟨t1, ht1, hu1⟩ := h2.2 q t2 hq
  obtain ⟨t, ht, hu⟩ := h1.2 q t1 ht1
  exact ⟨t, ht, hu.trans hu1⟩

theorem Allocs.allocs_trans {w w1 w2 : World} (h1 : Allocs w w1) (h2 : Keeps w1 w2) : Allocs w w2 := by
  obtain ⟨ht, p, hp⟩ := h1
  refine ⟨h2.1.trans ht, p, fun q t2 hq => ?_⟩
  obtain ⟨t1, ht1, hu1⟩ := h2.2 q t2 hq
  rcases hp q t1 ht1 with ⟨rfl, hu⟩ | ⟨t, ht0, hu⟩
  · exact Or.inl ⟨rfl, hu1 ▸ hu⟩
  · exact Or.inr ⟨t, ht0, hu.trans hu1⟩

theorem keeps_or_allocs_trans {w w1 w2 : World} (h1 : Keeps w w1 ∨ Allocs w w1)
    (h2 : Keeps w1 w2) : Keeps w w2 ∨ Allocs w w2 :=
  h1.elim (fun h => Or.inl (h.keeps_trans h2)) (fun h => Or.inr (h.allocs_trans h2))

theorem Keeps.keeps_setTick_blocks {w : World} {p : Nat} {t : fuse_ticket} (t' : fuse_ticket)
    (b : List (Option (List Nat))) (ht : w.tick p = some t)
    (hu : t'.tk_unique = t.tk_unique) :
    Keeps w (({ w with blocks := b } : World).setTick p t') := by
  refine ⟨rfl, fun q t1 h1 => ?_⟩
  rw [tick_setTick_blocks] at h1
  split at h1
  · rename_i hq
    subst hq
    rw [ht] at h1
    simp only [Option.map_some', Option.some.injEq] at h1
    exact ⟨t, ht, h1 ▸ hu.symm⟩
  · exact ⟨t1, h1, rfl⟩

theorem Keeps.keeps_setTick {w : World} {p : Nat} {t : fuse_ticket} (t' : fuse_ticket)
    (ht : w.tick p = some t) (hu : t'.tk_unique = t.tk_unique) :
    Keeps w (w.setTick p t') :=
  Keeps.keeps_setTick_blocks t' w.blocks ht hu

theorem Keeps.keeps_destroy (w : World) (p : Nat) :
    Keeps w (fticket_destroy (fuse_remove_allticks w p) p) := by
  refine ⟨rfl, fun q t1 h1 => ?_⟩
  rw [tick_destroy] at h1
  split at h1
  · simp at h1
  · exact ⟨t1, h1, rfl⟩

theorem Keeps.of_tick {w w' : World} (hd : w'.data.ticketer = w.data.ticketer)
    (ht : ∀ q, w'.tick q = w.tick q) : Keeps w w' :=
  ⟨hd, fun q t' h => ⟨t', (ht q) ▸ h, rfl⟩⟩

theorem fuse_ticket_fetch_eff {K : Config} {w w' : World} {p : Nat}
    (hr : fuse_ticket_fetch K w = .ret p w') : Keeps w w' ∨ Allocs w w' := by
  obtain ⟨hne, ⟨hc, _, t, b, fl, tr, sl, hu, _, rfl⟩ | ⟨hc, rest, fl, tr, sl, hf, rfl⟩⟩ :=
    fuse_ticket_fetch_ret hr
  · refine Or.inr ⟨rfl, p, fun q t1 h1 => ?_⟩
    simp only [World.tick, lookup_cons_eq] at h1
    split at h1
    · rename_i hq
      simp only [Option.some.injEq] at h1
      exact Or.inl ⟨hq, h1 ▸ hu⟩
    · exact Or.inr ⟨t1, h1, rfl⟩
  · exact Or.inl (Keeps.of_tick rfl (fun _ => rfl))

theorem fticket_refresh_keeps {K : Config} {w w' : World} {p : Nat} {u : Unit}
    (hr : fticket_refresh K w p = .ret u w') : Keeps w w' := by
  obtain ⟨t, ms, aw, b, ht, _, _, rfl⟩ := fticket_refresh_ret hr
  exact Keeps.keeps_setTick_blocks (refreshed t ms aw) b ht rfl

theorem fdisp_ticket_eff {K : Config} {w w' : World} {fdip : fuse_dispatcher} {q : Nat}
    (hr : fdisp_ticket K w fdip = .ret q w') : Keeps w w' ∨ Allocs w w' := by
  obtain ⟨_, ⟨_, _, hrr⟩ | ⟨_, hrr⟩⟩ := fdisp_ticket_ret hr
  · exact Or.inl (fticket_refresh_keeps hrr)
  · exact fuse_ticket_fetch_eff hrr

theorem step_eff {K : Config} {w w' : World} (hs : Step K w w') :
    Keeps w w' ∨ Allocs w w' := by
  cases hs with
  | fetch _ p hr _ => exact fuse_ticket_fetch_eff hr
  | drop _ p _ hr =>
    obtain ⟨t, ht, ⟨_, rfl⟩ | ⟨_, ms, aw, b, _, _, rfl⟩⟩ := fuse_ticket_drop_ret hr
    · exact Or.inl (Keeps.keeps_destroy w p)
    · exact Or.inl ((Keeps.keeps_setTick_blocks (refreshed t ms aw) b ht rfl).keeps_trans
        (Keeps.of_tick rfl (fun _ => rfl)))
  | kill _ p _ hr =>
    obtain ⟨_, rfl⟩ := fuse_ticket_kill_ret hr
    exact Or.inl (Keeps.keeps_destroy w p)
  | insert_callback _ p handler _ hr =>
    obtain ⟨t, ht, rfl | rfl⟩ := fuse_insert_callback_ret hr
    · exact Or.inl (Keeps.refl _)
    · exact Or.inl ((Keeps.keeps_setTick { t with tk_aw_handler := handler } ht rfl).keeps_trans
        (Keeps.of_tick rfl (fun _ => rfl)))
  | insert_message _ p _ hr =>
    obtain ⟨t, ht, _, rfl | rfl⟩ := fuse_insert_message_ret hr
    · exact Or.inl (Keeps.keeps_setTick { t with tk_flag := t.tk_flag ||| K.FT_DIRTY } ht rfl)
    · exact Or.inl ((Keeps.keeps_setTick { t with tk_flag := t.tk_flag ||| K.FT_DIRTY } ht rfl).keeps_trans
        (Keeps.of_tick rfl (fun _ => rfl)))
  | insert_message_head _ p _ hr =>
    obtain ⟨t, ht, _, rfl | rfl⟩ := fuse_insert_message_head_ret hr
    · exact Or.inl (Keeps.keeps_setTick { t with tk_flag := t.tk_flag ||| K.FT_DIRTY } ht rfl)
    · exact Or.inl ((Keeps.keeps_setTick { t with tk_flag := t.tk_flag ||| K.FT_DIRTY } ht rfl).keeps_trans
        (Keeps.of_tick rfl (fun _ => rfl)))
  | set_dead =>
    obtain ⟨fl, tr, hd⟩ := fdata_set_dead_world K w
    rw [hd]
    exact Or.inl (Keeps.of_tick rfl (fun _ => rfl))
  | disp_make _ fdip fdip' op nid context cur hr _ =>
    obtain ⟨q, w1, t, t', b, hq, ht, hu, _, rfl⟩ := fdisp_make_ret hr
    exact keeps_or_allocs_trans (fdisp_ticket_eff hq) (Keeps.keeps_setTick_blocks t' b ht hu)
  | disp_make_canfail _ fdip fdip' op nid context cur err hr _ _ =>
    obtain ⟨q, w1, t, t', b, hq, ht, hu, _, rfl | rfl⟩ := fdisp_make_canfail_ret hr
    · exact keeps_or_allocs_trans (fdisp_ticket_eff hq) (Keeps.keeps_setTick_blocks t' b ht hu)
    · exact keeps_or_allocs_trans (fdisp_ticket_eff hq)
        ((Keeps.keeps_setTick_blocks t' b ht hu).keeps_trans (Keeps.keeps_destroy _ q))

theorem UniqInv.step {w w' : World} (h : UniqInv w) (he : Keeps w w' ∨ Allocs w w')
    (hm : w.data.ticketer ≤ w'.data.ticketer) : UniqInv w' := by
  rcases he with ⟨hd, hk⟩ | ⟨hd, p, hk⟩
  · refine ⟨hd ▸ h.bound, fun q t' ht' => ?_, fun q q' t1 t2 h1 h2 hu => ?_⟩
    · obtain ⟨t, ht, hu⟩ := hk q t' ht'
      rw [hd, ← hu]
      exact h.below q t ht
    · obtain ⟨s1, hs1, hu1⟩ := hk q t1 h1
      obtain ⟨s2, hs2, hu2⟩ := hk q' t2 h2
      exact h.inj q q' s1 s2 hs1 hs2 (by rw [hu1, hu2, hu])
  · have hb := h.bound
    have hd' : w'.data.ticketer = w.data.ticketer + 1 := by
      rw [hd] at hm ⊢
      have h64 : (2 : Nat) ^ 64 = 18446744073709551616 := by norm_num
      rw [h64] at hm hb ⊢
      omega
    refine ⟨?_, fun q t' ht' => ?_, fun q q' t1 t2 h1 h2 hu => ?_⟩
    · rw [hd]
      exact Nat.mod_lt _ (by norm_num)
    · rw [hd']
      rcases hk q t' ht' with ⟨_, hu⟩ | ⟨t, ht, hu⟩
      · omega
      · have := h.below q t ht
        omega
    · rcases hk q t1 h1 with ⟨hq1, hu1⟩ | ⟨s1, hs1, hu1⟩ <;>
        rcases hk q' t2 h2 with ⟨hq2, hu2⟩ | ⟨s2, hs2, hu2⟩
      · rw [hq1, hq2]
      · have := h.below q' s2 hs2
        omega
      · have := h.below q s1 hs1
        omega
      · exact h.inj q q' s1 s2 hs1 hs2 (by rw [hu1, hu2, hu])

theorem reachable_uniqInv {K : Config} {w : World} (h : Reachable K NoWrap w) :
    UniqInv w := by
  induction h with
  | init w0 w pid h0 hr =>
    obtain ⟨hh, _, _, ht, _⟩ := fdata_alloc_ret hr
    refine ⟨by rw [ht]; norm_num, ?_, ?_⟩
    · intro q t hq
      simp [World.tick, hh, h0] at hq
    · intro q q' t t' hq
      simp [World.tick, hh, h0] at hq
  | step w w' _ hs hg ih => exact ih.step (step_eff hs) hg

/-- C2: in every session state reached from `fdata_alloc` by calls of
`fuse_ticket_fetch`, `fuse_ticket_drop`, `fuse_ticket_kill`, `fuse_insert_callback`
and `fdisp_make` (and of the other functions of `Step`) none of which makes the
64-bit `ticketer` wrap around, two distinct tickets on the awaiting-answer list
have different `tk_unique` values. -/
theorem awaiting_answer_unique (K : Config) (w : World) (h : Reachable K NoWrap w)
    (p q : Nat) (tp tq : fuse_ticket)
    (_hp : p ∈ w.data.aw_head) (_hq : q ∈ w.data.aw_head) (hne : p ≠ q)
    (htp : w.tick p = some tp) (htq : w.tick q = some tq) :
    tp.tk_unique ≠ tq.tk_unique :=
  fun hu => hne ((reachable_uniqInv h).inj p q tp tq htp htq hu)

theorem demo6_reachable : Reachable sample NoWrap demo6 :=
  .step demo5 demo6
    (.step demo4 demo5
      (.step demo2 demo4
        (.step demo1 demo2 (.init demo0 demo1 77 rfl rfl)
          (.fetch demo1 demo2 8192 rfl (fun _ => ⟨by decide, by decide⟩))
          (by unfold NoWrap; decide))
        (.fetch demo2 demo4 12288 rfl (fun _ => ⟨by decide, by decide⟩))
        (by unfold NoWrap; decide))
      (.insert_callback demo4 demo5 8192 1 (by decide) rfl)
      (by unfold NoWrap; decide))
    (.insert_callback demo5 demo6 12288 1 (by decide) rfl)
    (by unfold NoWrap; decide)

/-- Witness of `awaiting_answer_unique`: two tickets fetched and registered on
the awaiting-answer list. -/
theorem awaiting_answer_unique_witness :
    (demo6.tickD 8192).tk_unique ≠ (demo6.tickD 12288).tk_unique :=
  awaiting_answer_unique sample demo6 demo6_reachable 8192 12288
    (demo6.tickD 8192) (demo6.tickD 12288)
    (by decide) (by decide) (by decide) rfl rfl

/-- C3 (as amended): on a live session, for every opcode with a fixed reply
layout, `fuse_body_audit` returns 0 when `blen` is the expected reply size of
the opcode (for `FUSE_STATFS` the size of the ABI the daemon announced), and
`EINVAL` for every other `blen`, except that for `FUSE_INIT` the length 8 is
accepted as well. -/
theorem body_audit_fixed_size (K : Config) (w : World) (p blen n : Nat) (t : fuse_ticket)
    (ht : w.tick p = some t) (hlive : fdata_dead_get K w.data = 0)
    (hn : expected_reply_size K w.data (fticket_opcode K t) = some n) :
    fuse_body_audit K w p blen =
      .ret (if blen = n ∨ (fticket_opcode K t = .FUSE_INIT ∧ blen = 8) then 0 else EINVAL) w := by
  unfold fuse_body_audit
  simp only [ht, hlive, ne_eq, not_true_eq_false, if_false]
  unfold fuse_body_audit_switch
  cases hop : fticket_opcode K t <;> simp only [hop, expected_reply_size] at hn ⊢ <;>
    first
    | (simp at hn; done)
    | (simp only [Option.some.injEq] at hn
       subst hn
       simp; done)
    | (simp only [Option.some.injEq] at hn
       subst hn
       by_cases h1 : fuse_libabi_geq w.data 7 4 = true <;> simp [h1]; done)
    | (simp only [Option.some.injEq] at hn
       subst hn
       by_cases h1 : blen = K.sizeof_fuse_init_out ∨ blen = 8 <;> simp [h1])

/-- C3, counterexample: for `FUSE_INIT`, whose reply structure has 24 bytes in
`sample`, a reply body of 8 bytes is not rejected with `EINVAL`:
`fuse_body_audit` returns 0. -/
theorem body_audit_init_accepts_8 :
    fdata_dead_get sample demo_init.data = 0 ∧
    fticket_opcode sample (demo_init.tickD 8192) = .FUSE_INIT ∧
    expected_reply_size sample demo_init.data .FUSE_INIT = some 24 ∧
    fuse_body_audit sample demo_init 8192 8 = .ret 0 demo_init := by
  exact ⟨rfl, rfl, rfl, rfl⟩

/-- Witness of `body_audit_fixed_size`: the `FUSE_INIT` request of `demo_init`
and a reply of 24 bytes. -/
theorem body_audit_fixed_size_witness :
    fuse_body_audit sample demo_init 8192 24 =
      .ret (if 24 = 24 ∨ (fticket_opcode sample (demo_init.tickD 8192) = .FUSE_INIT ∧
        24 = 8) then 0 else EINVAL) demo_init :=
  body_audit_fixed_size sample demo_init 8192 24 24 (demo_init.tickD 8192)
    rfl rfl rfl

/-- C4 (as amended): on a live session `fuse_body_audit` bound-checks the body
of `FUSE_READ` and `FUSE_READDIR` against the `size` field of the
`fuse_read_in` in the send buffer of the ticket and the body of `FUSE_READLINK`
against `PAGE_SIZE` (0 within the bound, `EINVAL` beyond it); for the
extended-attribute opcodes it makes no check and returns 0 for every `blen`. -/
theorem body_audit_variable_size (K : Config) (w : World) (p blen : Nat) (t : fuse_ticket)
    (ht : w.tick p = some t) (hlive : fdata_dead_get K w.data = 0) :
    ((fticket_opcode K t = .FUSE_READ ∨ fticket_opcode K t = .FUSE_READDIR) →
      fuse_body_audit K w p blen =
        .ret (if blen ≤ fticket_read_in_size K t then 0 else EINVAL) w) ∧
    (fticket_opcode K t = .FUSE_READLINK →
      fuse_body_audit K w p blen = .ret (if blen ≤ K.PAGE_SIZE then 0 else EINVAL) w) ∧
    ((fticket_opcode K t = .FUSE_SETXATTR ∨ fticket_opcode K t = .FUSE_GETXATTR ∨
        fticket_opcode K t = .FUSE_LISTXATTR ∨ fticket_opcode K t = .FUSE_REMOVEXATTR) →
      fuse_body_audit K w p blen = .ret 0 w) := by
  unfold fuse_body_audit
  simp only [ht, hlive, ne_eq, not_true_eq_false, if_false]
  unfold fuse_body_audit_switch
  refine ⟨?_, ?_, ?_⟩
  · rintro (hop | hop) <;> simp [hop]
  · intro hop
    simp [hop]
  · rintro (hop | hop | hop | hop) <;> simp [hop]

/-- C4, counterexample: a `FUSE_LISTXATTR` request whose body is all zero (it
asks for 0 bytes) and a reply body of 5000 bytes, more than a page: the body is
not rejected, `fuse_body_audit` returns 0. -/
theorem body_audit_listxattr_unchecked :
    fdata_dead_get sample demo_listxattr.data = 0 ∧
    fticket_opcode sample (demo_listxattr.tickD 8192) = .FUSE_LISTXATTR ∧
    ((demo_listxattr.tickD 8192).tk_ms_fiov.base.drop sample.sizeof_fuse_in_header).all
      (fun x => x == 0) = true ∧
    sample.PAGE_SIZE < 5000 ∧
    fuse_body_audit sample demo_listxattr 8192 5000 = .ret 0 demo_listxattr :=
  ⟨rfl, rfl, rfl, by decide, rfl⟩

/-- Witness of `body_audit_variable_size`: the `FUSE_READ` request of
`demo_read`. -/
theorem body_audit_variable_size_witness :
    ((fticket_opcode sample (demo_read.tickD 8192) = .FUSE_READ ∨
        fticket_opcode sample (demo_read.tickD 8192) = .FUSE_READDIR) →
      fuse_body_audit sample demo_read 8192 1 =
        .ret (if 1 ≤ fticket_read_in_size sample (demo_read.tickD 8192) then 0 else EINVAL)
          demo_read) ∧
    (fticket_opcode sample (demo_read.tickD 8192) = .FUSE_READLINK →
      fuse_body_audit sample demo_read 8192 1 =
        .ret (if 1 ≤ sample.PAGE_SIZE then 0 else EINVAL) demo_read) ∧
    ((fticket_opcode sample (demo_read.tickD 8192) = .FUSE_SETXATTR ∨
        fticket_opcode sample (demo_read.tickD 8192) = .FUSE_GETXATTR ∨
        fticket_opcode sample (demo_read.tickD 8192) = .FUSE_LISTXATTR ∨
        fticket_opcode sample (demo_read.tickD 8192) = .FUSE_REMOVEXATTR) →
      fuse_body_audit sample demo_read 8192 1 = .ret 0 demo_read) :=
  body_audit_variable_size sample demo_read 8192 1 (demo_read.tickD 8192) rfl rfl

/-- C5: on a live session, for every opcode value that is not a case of the
validation switch, `fuse_body_audit` returns no status: it panics ("opcodes out
of sync"), in the state it was called in. -/
theorem body_audit_unknown_opcode (K : Config) (w : World) (p blen n : Nat)
    (t : fuse_ticket) (ht : w.tick p = some t) (hlive : fdata_dead_get K w.data = 0)
    (hop : fticket_opcode K t = .other n) :
    fuse_body_audit K w p blen = .panic (.opcodes_out_of_sync (.other n)) w ∧
    ∀ err w', fuse_body_audit K w p blen ≠ .ret err w' := by
  have h : fuse_body_audit K w p blen = .panic (.opcodes_out_of_sync (.other n)) w := by
    unfold fuse_body_audit
    simp only [ht, hlive, ne_eq, not_true_eq_false, if_false]
    unfold fuse_body_audit_switch
    simp [hop]
  exact ⟨h, fun err w' h' => by rw [h] at h'; cases h'⟩

/-- Witness of `body_audit_unknown_opcode`: the request with opcode 999 of
`demo_other`. -/
theorem body_audit_unknown_opcode_witness :
    fuse_body_audit sample demo_other 8192 0 =
      .panic (.opcodes_out_of_sync (.other 999)) demo_other ∧
    ∀ err w', fuse_body_audit sample demo_other 8192 0 ≠ .ret err w' :=
  body_audit_unknown_opcode sample demo_other 8192 0 999 (demo_other.tickD 8192)
    rfl rfl rfl

/-- C6: `fuse_insert_message` and `fuse_insert_message_head` panic if and only if
the ticket already has `FT_DIRTY` set, and then nothing has changed, the
pending-send queue included; a ticket that `fticket_refresh` has just refreshed
is accepted by both. -/
theorem insert_message_dirty (K : Config) (w : World) (p : Nat) (t : fuse_ticket)
    (ht : w.tick p = some t) :
    ((∃ m w', fuse_insert_message K w p = .panic m w') ↔ t.tk_flag &&& K.FT_DIRTY ≠ 0) ∧
    ((∃ m w', fuse_insert_message_head K w p = .panic m w') ↔
      t.tk_flag &&& K.FT_DIRTY ≠ 0) ∧
    (∀ m w', fuse_insert_message K w p = .panic m w' →
      w' = w ∧ w'.data.ms_head = w.data.ms_head) ∧
    (∀ m w', fuse_insert_message_head K w p = .panic m w' →
      w' = w ∧ w'.data.ms_head = w.data.ms_head) ∧
    (∀ w0 u, fticket_refresh K w0 p = .ret u w →
      (∃ w', fuse_insert_message K w p = .ret () w') ∧
      (∃ w', fuse_insert_message_head K w p = .ret () w')) := by
  refine ⟨?_, ?_, ?_, ?_, ?_⟩
  · unfold fuse_insert_message
    simp only [ht]
    by_cases hd : t.tk_flag &&& K.FT_DIRTY ≠ 0
    · simp only [hd, if_true, ne_eq, not_false_eq_true, iff_true]
      exact ⟨_, _, rfl⟩
    · simp only [hd, if_false, iff_false]
      rintro ⟨m, w', h⟩
      split at h <;> simp at h
  · unfold fuse_insert_message_head
    simp only [ht]
    by_cases hd : t.tk_flag &&& K.FT_DIRTY ≠ 0
    · simp only [hd, if_true, ne_eq, not_false_eq_true, iff_true]
      exact ⟨_, _, rfl⟩
    · simp only [hd, if_false, iff_false]
      rintro ⟨m, w', h⟩
      split at h <;> simp at h
  · intro m w' h
    unfold fuse_insert_message at h
    simp only [ht] at h
    split at h
    · simp only [Outcome.panic.injEq] at h
      exact ⟨h.2.symm, by rw [h.2]⟩
    · split at h <;> simp at h
  · intro m w' h
    unfold fuse_insert_message_head at h
    simp only [ht] at h
    split at h
    · simp only [Outcome.panic.injEq] at h
      exact ⟨h.2.symm, by rw [h.2]⟩
    · split at h <;> simp at h
  · intro w0 u hr
    obtain ⟨t0, ms, aw, b, ht0, _, _, hw⟩ := fticket_refresh_ret hr
    have hflag : t.tk_flag = 0 := by
      have h1 : w.tick p = some (refreshed t0 ms aw) := by
        rw [hw, tick_setTick_blocks, ht0]
        simp
      rw [ht] at h1
      simp only [Option.some.injEq] at h1
      rw [h1]
      rfl
    constructor
    · unfold fuse_insert_message
      simp only [ht, hflag, Nat.zero_and, ne_eq, not_true_eq_false, if_false]
      split
      · exact ⟨_, rfl⟩
      · exact ⟨_, rfl⟩
    · unfold fuse_insert_message_head
      simp only [ht, hflag, Nat.zero_and, ne_eq, not_true_eq_false, if_false]
      split
      · exact ⟨_, rfl⟩
      · exact ⟨_, rfl⟩

/-- Witness of `insert_message_dirty`: the ticket of `demo_sent`, which is dirty. -/
theorem insert_message_dirty_witness :
    ((∃ m w', fuse_insert_message sample demo_sent 8192 = .panic m w') ↔
      (demo_sent.tickD 8192).tk_flag &&& sample.FT_DIRTY ≠ 0) ∧
    ((∃ m w', fuse_insert_message_head sample demo_sent 8192 = .panic m w') ↔
      (demo_sent.tickD 8192).tk_flag &&& sample.FT_DIRTY ≠ 0) ∧
    (∀ m w', fuse_insert_message sample demo_sent 8192 = .panic m w' →
      w' = demo_sent ∧ w'.data.ms_head = demo_sent.data.ms_head) ∧
    (∀ m w', fuse_insert_message_head sample demo_sent 8192 = .panic m w' →
      w' = demo_sent ∧ w'.data.ms_head = demo_sent.data.ms_head) ∧
    (∀ w0 u, fticket_refresh sample w0 8192 = .ret u demo_sent →
      (∃ w', fuse_insert_message sample demo_sent 8192 = .ret () w') ∧
      (∃ w', fuse_insert_message_head sample demo_sent 8192 = .ret () w')) :=
  insert_message_dirty sample demo_sent 8192 (demo_sent.tickD 8192) rfl

/-- C7 (as amended): on a clean ticket, `fuse_insert_message` sets `FT_DIRTY` in
`tk_flag` whether the session is dead or not.  When the session is dead that is
all it does: the session, the pending-send queue included, the log of wake-ups
and the other fields of the ticket are unchanged.  When the session is live it
also appends the ticket to the pending-send queue and wakes one reader. -/
theorem insert_message_effect (K : Config) (w : World) (p : Nat) (t : fuse_ticket)
    (ht : w.tick p = some t) (hclean : t.tk_flag &&& K.FT_DIRTY = 0) :
    (fdata_dead_get K w.data ≠ 0 →
      fuse_insert_message K w p =
        .ret () (w.setTick p { t with tk_flag := t.tk_flag ||| K.FT_DIRTY })) ∧
    (fdata_dead_get K w.data = 0 →
      ∃ w', fuse_insert_message K w p = .ret () w' ∧
        w'.tick p = some { t with tk_flag := t.tk_flag ||| K.FT_DIRTY } ∧
        (t.tk_flag ||| K.FT_DIRTY) &&& K.FT_DIRTY = K.FT_DIRTY ∧
        w'.data.ms_head = w.data.ms_head ++ [p] ∧
        w'.trace = w.trace ++ [.wakeup_one .data]) ∧
    (w.setTick p { t with tk_flag := t.tk_flag ||| K.FT_DIRTY }).data = w.data ∧
    (w.setTick p { t with tk_flag := t.tk_flag ||| K.FT_DIRTY }).trace = w.trace := by
  refine ⟨?_, ?_, rfl, rfl⟩
  · intro hdead
    unfold fuse_insert_message
    simp only [ht, hclean, ne_eq, not_true_eq_false, if_false]
    rw [if_pos]
    simpa using hdead
  · intro hlive
    refine ⟨(fuse_ms_push (w.setTick p { t with tk_flag := t.tk_flag ||| K.FT_DIRTY })
      p).emit (.wakeup_one .data), ?_, ?_, ?_, ?_, ?_⟩
    · unfold fuse_insert_message
      simp only [ht, hclean, ne_eq, not_true_eq_false, if_false]
      rw [if_neg]
      simpa using hlive
    · show (w.setTick p _).tick p = _
      rw [tick_setTick, ht]
      simp
    · apply Nat.eq_of_testBit_eq
      intro i
      simp only [Nat.testBit_and, Nat.testBit_or]
      cases t.tk_flag.testBit i <;> cases K.FT_DIRTY.testBit i <;> rfl
    · rfl
    · rfl

/-- C7, counterexample: on the dead session `demo_dead`, `fuse_insert_message`
on its clean ticket returns and leaves the pending-send queue alone, but the
ticket is not unchanged: its `tk_flag` went from 0 to `FT_DIRTY`. -/
theorem insert_message_dead_marks_dirty :
    fdata_dead_get sample demo_dead.data ≠ 0 ∧
    (demo_dead.tickD 8192).tk_flag = 0 ∧
    fuse_insert_message sample demo_dead 8192 =
      .ret () ((fuse_insert_message sample demo_dead 8192).after demo_dead) ∧
    (((fuse_insert_message sample demo_dead 8192).after demo_dead).tickD 8192).tk_flag = 4 ∧
    ((fuse_insert_message sample demo_dead 8192).after demo_dead).tickD 8192 ≠
      demo_dead.tickD 8192 :=
  ⟨by decide, rfl, rfl, rfl, by decide⟩

/-- Witness of `insert_message_effect`: the clean ticket of the live session
`demo2`. -/
theorem insert_message_effect_witness :
    (fdata_dead_get sample demo2.data ≠ 0 →
      fuse_insert_message sample demo2 8192 =
        .ret () (demo2.setTick 8192
          { demo2.tickD 8192 with
            tk_flag := (demo2.tickD 8192).tk_flag ||| sample.FT_DIRTY })) ∧
    (fdata_dead_get sample demo2.data = 0 →
      ∃ w', fuse_insert_message sample demo2 8192 = .ret () w' ∧
        w'.tick 8192 = some { demo2.tickD 8192 with
          tk_flag := (demo2.tickD 8192).tk_flag ||| sample.FT_DIRTY } ∧
        ((demo2.tickD 8192).tk_flag ||| sample.FT_DIRTY) &&& sample.FT_DIRTY =
          sample.FT_DIRTY ∧
        w'.data.ms_head = demo2.data.ms_head ++ [8192] ∧
        w'.trace = demo2.trace ++ [.wakeup_one .data]) ∧
    (demo2.setTick 8192 { demo2.tickD 8192 with
      tk_flag := (demo2.tickD 8192).tk_flag ||| sample.FT_DIRTY }).data = demo2.data ∧
    (demo2.setTick 8192 { demo2.tickD 8192 with
      tk_flag := (demo2.tickD 8192).tk_flag ||| sample.FT_DIRTY }).trace = demo2.trace :=
  insert_message_effect sample demo2 8192 (demo2.tickD 8192) rfl rfl

theorem ms_pop_n_all (l : List Nat) (w : World) (h : w.data.ms_head = l) :
    (ms_pop_n w l.length).1 = l := by
  induction l generalizing w with
  | nil => rfl
  | cons a l ih =>
    simp only [List.length_cons, ms_pop_n, fuse_ms_pop, h]
    rw [ih]
    rfl

theorem insert_message_live {K : Config} {w : World} {p : Nat} {t : fuse_ticket}
    (hlive : fdata_dead_get K w.data = 0) (ht : w.tick p = some t)
    (hclean : t.tk_flag &&& K.FT_DIRTY = 0) :
    fuse_insert_message K w p = .ret ()
      ((fuse_ms_push (w.setTick p { t with tk_flag := t.tk_flag ||| K.FT_DIRTY }) p).emit
        (.wakeup_one .data)) := by
  unfold fuse_insert_message
  simp only [ht, hclean, ne_eq, not_true_eq_false, if_false]
  rw [if_neg]
  simpa using hlive

theorem insert_message_head_live {K : Config} {w : World} {p : Nat} {t : fuse_ticket}
    (hlive : fdata_dead_get K w.data = 0) (ht : w.tick p = some t)
    (hclean : t.tk_flag &&& K.FT_DIRTY = 0) :
    fuse_insert_message_head K w p = .ret ()
      ((fuse_ms_push_head (w.setTick p { t with tk_flag := t.tk_flag ||| K.FT_DIRTY })
        p).emit (.wakeup_one .data)) := by
  unfold fuse_insert_message_head
  simp only [ht, hclean, ne_eq, not_true_eq_false, if_false]
  rw [if_neg]
  simpa using hlive

theorem insert_messages_live (K : Config) (ps : List Nat) :
    ∀ w : World, fdata_dead_get K w.data = 0 → ps.Nodup →
      (∀ p ∈ ps, ∃ t, w.tick p = some t ∧ t.tk_flag &&& K.FT_DIRTY = 0) →
      ∃ w', insert_messages K w ps = .ret () w' ∧
        w'.data.ms_head = w.data.ms_head ++ ps := by
  induction ps with
  | nil =>
    intro w _ _ _
    exact ⟨w, rfl, by simp⟩
  | cons p ps ih =>
    intro w hlive hnd hall
    obtain ⟨t, ht, hclean⟩ := hall p (List.mem_cons_self p ps)
    have hstep := insert_message_live hlive ht hclean
    obtain ⟨hp, hnd'⟩ := List.nodup_cons.mp hnd
    obtain ⟨w', hw', hq⟩ := ih
      ((fuse_ms_push (w.setTick p { t with tk_flag := t.tk_flag ||| K.FT_DIRTY }) p).emit
        (.wakeup_one .data)) hlive hnd' (by
        intro q hq
        obtain ⟨tq, htq, hcq⟩ := hall q (List.mem_cons_of_mem p hq)
        refine ⟨tq, ?_, hcq⟩
        have hne : q ≠ p := fun e => hp (e ▸ hq)
        show (w.setTick p _).tick q = some tq
        rw [tick_setTick, if_neg hne]
        exact htq)
    refine ⟨w', ?_, ?_⟩
    · simp only [insert_messages, hstep]
      exact hw'
    · rw [hq]
      show (w.data.ms_head ++ [p]) ++ ps = w.data.ms_head ++ p :: ps
      simp

/-- C8: on a live session `fuse_insert_message` puts a clean ticket at the tail
of the pending-send queue and `fuse_insert_message_head` puts it at the head,
the tickets already queued keeping their places relative to each other; hence
distinct clean tickets submitted through `fuse_insert_message` only are queued
behind those already there in the order of submission, and the reader takes
them from the head in that order. -/
theorem pending_send_order (K : Config) (w : World)
    (hlive : fdata_dead_get K w.data = 0) :
    (∀ p t, w.tick p = some t → t.tk_flag &&& K.FT_DIRTY = 0 →
      (∃ w', fuse_insert_message K w p = .ret () w' ∧
        w'.data.ms_head = w.data.ms_head ++ [p]) ∧
      (∃ w', fuse_insert_message_head K w p = .ret () w' ∧
        w'.data.ms_head = p :: w.data.ms_head)) ∧
    (∀ ps : List Nat, ps.Nodup →
      (∀ p ∈ ps, ∃ t, w.tick p = some t ∧ t.tk_flag &&& K.FT_DIRTY = 0) →
      ∃ w', insert_messages K w ps = .ret () w' ∧
        w'.data.ms_head = w.data.ms_head ++ ps ∧
        (ms_pop_n w' (w.data.ms_head.length + ps.length)).1 = w.data.ms_head ++ ps) := by
  refine ⟨fun p t ht hclean => ⟨⟨_, insert_message_live hlive ht hclean, rfl⟩,
    ⟨_, insert_message_head_live hlive ht hclean, rfl⟩⟩, fun ps hnd hall => ?_⟩
  obtain ⟨w', hw', hq⟩ := insert_messages_live K ps w hlive hnd hall
  refine ⟨w', hw', hq, ?_⟩
  have := ms_pop_n_all (w.data.ms_head ++ ps) w' hq
  rwa [List.length_append] at this

/-- Witness of `pending_send_order`: the live session `demo4` and its two clean
tickets. -/
theorem pending_send_order_witness :
    (∀ p t, demo4.tick p = some t → t.tk_flag &&& sample.FT_DIRTY = 0 →
      (∃ w', fuse_insert_message sample demo4 p = .ret () w' ∧
        w'.data.ms_head = demo4.data.ms_head ++ [p]) ∧
      (∃ w', fuse_insert_message_head sample demo4 p = .ret () w' ∧
        w'.data.ms_head = p :: demo4.data.ms_head)) ∧
    (∀ ps : List Nat, ps.Nodup →
      (∀ p ∈ ps, ∃ t, demo4.tick p = some t ∧ t.tk_flag &&& sample.FT_DIRTY = 0) →
      ∃ w', insert_messages sample demo4 ps = .ret () w' ∧
        w'.data.ms_head = demo4.data.ms_head ++ ps ∧
        (ms_pop_n w' (demo4.data.ms_head.length + ps.length)).1 =
          demo4.data.ms_head ++ ps) :=
  pending_send_order sample demo4 rfl

theorem demo_queued_order :
    insert_messages sample demo4 [8192, 12288] = .ret () demo_queued ∧
    (ms_pop_n demo_queued 2).1 = [8192, 12288] :=
  ⟨rfl, rfl⟩

theorem fuse_ticket_fetch_gate_total (K : Config) (w : World) (p : Nat) :
    ∃ w', fuse_ticket_fetch_gate K w p = .ret p w' := by
  have key : ∀ r : Nat × World, ∃ w',
      (if r.1 ≠ 0 then Outcome.ret p (fdata_set_dead K r.2) else Outcome.ret p r.2) =
        .ret p w' := by
    intro r
    split
    · exact ⟨_, rfl⟩
    · exact ⟨_, rfl⟩
  unfold fuse_ticket_fetch_gate
  exact key _

theorem fuse_pop_freeticks_no_fault (w : World) : fuse_pop_freeticks w ≠ .fault := by
  unfold fuse_pop_freeticks
  simp only
  split <;> simp

theorem FreeInv.fetch_pop {K : Config} {w : World} {p : Nat} {rest : List Nat}
    (hb : K.word_bits ≤ 32) (h : FreeInv K w)
    (hf : w.data.freetickets_head = p :: rest) :
    ∃ w', fuse_ticket_fetch K w = .ret p w' ∧ w'.data.freetickets_head = rest ∧
      w'.data.ticketer = w.data.ticketer ∧
      w'.data.alltickets_head = w.data.alltickets_head ∧ w'.heap = w.heap := by
  have hc : w.data.freeticket_counter ≠ 0 := by
    rw [h.count, hf]
    simp
  have hp0 : p ≠ 0 := by
    obtain ⟨t, ht⟩ := h.free_live p (by rw [hf]; exact List.mem_cons_self _ _)
    have := (h.live_addr p t ht).1
    omega
  cases hpop : fuse_pop_freeticks w with
  | panic m w1 => exact absurd hpop (h.pop_no_panic hb)
  | fault => exact absurd hpop (fuse_pop_freeticks_no_fault w)
  | ret q w1 =>
    rcases fuse_pop_freeticks_ret hpop with ⟨hnil, _, _⟩ | ⟨rest', hf', hw1⟩
    · rw [hnil] at hf
      cases hf
    · rw [hf] at hf'
      simp only [List.cons.injEq] at hf'
      obtain ⟨rfl, rfl⟩ := hf'
      obtain ⟨w', hg⟩ := fuse_ticket_fetch_gate_total K w1 p
      obtain ⟨_, fl, tr, sl, hw'⟩ := fuse_ticket_fetch_gate_ret hg
      refine ⟨w', ?_, ?_, ?_, ?_, ?_⟩
      · unfold fuse_ticket_fetch
        simp only [hc, if_false, hpop, hp0]
        exact hg
      · rw [hw', hw1]
      · rw [hw', hw1]
      · rw [hw', hw1]
      · rw [hw', hw1]

theorem fuse_ticket_fetch_alloc_total {K : Config} {w : World} {a : Nat} {ms : List Nat}
    {b1 b2 : List Nat} {bs : List (Option (List Nat))}
    (hc : w.data.freeticket_counter = 0) (hm : w.mallocs = a :: ms) (ha : a ≠ 0)
    (hbk : w.blocks = some b1 :: some b2 :: bs) :
    ∃ w', fuse_ticket_fetch K w = .ret a w' := by
  unfold fuse_ticket_fetch
  simp only [hc, if_true]
  have halloc : ∃ w1, fticket_alloc K w = .ret a w1 := by
    unfold fticket_alloc
    simp [FUSE_OSMalloc, hm, ha, fiov_init, FUSE_OSMalloc_buf, hbk]
  obtain ⟨w1, hw1⟩ := halloc
  simp only [hw1, ha, if_false]
  exact fuse_ticket_fetch_gate_total K _ a

/-- C9: in a state the session can be in (on a kernel with addresses of at most
32 bits), `fuse_ticket_fetch` returns the head of the free list when that list
is not empty, removing it and leaving `ticketer`, the all-tickets registry and
the tickets unchanged; when the free list is empty, every ticket it returns is
the one the allocator just handed out, with the previous value of `ticketer` as
its `tk_unique`, `ticketer` has been incremented by one (as a 64-bit counter)
and the ticket has been appended to the all-tickets registry, and it does
return such a ticket when the allocator grants the ticket and its two buffers. -/
theorem fetch_pop_or_alloc (K : Config) (w : World) (hb : K.word_bits ≤ 32)
    (h : Reachable K Always w) :
    (∀ p rest, w.data.freetickets_head = p :: rest →
      ∃ w', fuse_ticket_fetch K w = .ret p w' ∧ w'.data.freetickets_head = rest ∧
        w'.data.ticketer = w.data.ticketer ∧
        w'.data.alltickets_head = w.data.alltickets_head ∧ w'.heap = w.heap) ∧
    (w.data.freetickets_head = [] →
      (∀ p w', fuse_ticket_fetch K w = .ret p w' →
        w.mallocs.head? = some p ∧
        (∃ t, w'.tick p = some t ∧ t.tk_unique = w.data.ticketer) ∧
        w'.data.ticketer = (w.data.ticketer + 1) % 2 ^ 64 ∧
        w'.data.alltickets_head = w.data.alltickets_head ++ [p] ∧
        w'.data.freetickets_head = []) ∧
      (∀ a ms b1 b2 bs, w.mallocs = a :: ms → a ≠ 0 →
        w.blocks = some b1 :: some b2 :: bs →
        ∃ w', fuse_ticket_fetch K w = .ret a w')) := by
  have hinv := reachable_freeInv hb h
  refine ⟨fun p rest hf => hinv.fetch_pop hb hf, fun hnil => ?_⟩
  have hc : w.data.freeticket_counter = 0 := by
    rw [hinv.count, hnil]
    rfl
  refine ⟨fun p w' hr => ?_, fun a ms b1 b2 bs hm ha hbk =>
    fuse_ticket_fetch_alloc_total hc hm ha hbk⟩
  obtain ⟨_, ⟨_, hm, t, b, fl, tr, sl, hu, _, rfl⟩ | ⟨hc', _⟩⟩ := fuse_ticket_fetch_ret hr
  · refine ⟨hm, ⟨t, ?_, hu⟩, rfl, rfl, hnil⟩
    simp [World.tick, lookup_cons_eq]
  · exact absurd hc hc'

/-- Witness of `fetch_pop_or_alloc`: the session `demo3`, with one ticket on the
free list. -/
theorem fetch_pop_or_alloc_witness :
    (∀ p rest, demo3.data.freetickets_head = p :: rest →
      ∃ w', fuse_ticket_fetch sample demo3 = .ret p w' ∧
        w'.data.freetickets_head = rest ∧
        w'.data.ticketer = demo3.data.ticketer ∧
        w'.data.alltickets_head = demo3.data.alltickets_head ∧ w'.heap = demo3.heap) ∧
    (demo3.data.freetickets_head = [] →
      (∀ p w', fuse_ticket_fetch sample demo3 = .ret p w' →
        demo3.mallocs.head? = some p ∧
        (∃ t, w'.tick p = some t ∧ t.tk_unique = demo3.data.ticketer) ∧
        w'.data.ticketer = (demo3.data.ticketer + 1) % 2 ^ 64 ∧
        w'.data.alltickets_head = demo3.data.alltickets_head ++ [p] ∧
        w'.data.freetickets_head = []) ∧
      (∀ a ms b1 b2 bs, demo3.mallocs = a :: ms → a ≠ 0 →
        demo3.blocks = some b1 :: some b2 :: bs →
        ∃ w', fuse_ticket_fetch sample demo3 = .ret a w')) :=
  fetch_pop_or_alloc sample demo3 (by decide) demo3_reachable

theorem fdata_set_dead_dead (K : Config) (w : World) (hbit : K.FSESS_DEAD ≠ 0) :
    fdata_dead_get K (fdata_set_dead K w).data ≠ 0 := by
  unfold fdata_set_dead
  split
  · rename_i h
    exact h
  · show (w.data.dataflags ||| K.FSESS_DEAD) &&& K.FSESS_DEAD ≠ 0
    have : (w.data.dataflags ||| K.FSESS_DEAD) &&& K.FSESS_DEAD = K.FSESS_DEAD := by
      apply Nat.eq_of_testBit_eq
      intro i
      simp only [Nat.testBit_and, Nat.testBit_or]
      cases w.data.dataflags.testBit i <;> cases K.FSESS_DEAD.testBit i <;> rfl
    rw [this]
    exact hbit

theorem fuse_ticket_fetch_gate_over_max {K : Config} {w : World} (p : Nat)
    (hmax : K.fuse_max_tickets ≠ 0)
    (hover : K.fuse_max_tickets <
      (w.data.ticketer + 2 ^ 64 - w.data.deadticket_counter) % 2 ^ 64)
    (hgate : w.data.dataflags &&& K.FSESS_INITED ≠ 0 ∨ w.data.ticketer ≤ 1) :
    fuse_ticket_fetch_gate K w p = .ret p (fdata_set_dead K w) := by
  unfold fuse_ticket_fetch_gate
  have h1 : ¬ (w.data.dataflags &&& K.FSESS_INITED = 0 ∧ 1 < w.data.ticketer) := by
    rintro ⟨h0, h1⟩
    rcases hgate with hg | hg
    · exact hg h0
    · omega
  simp only [h1, if_false, hmax, ne_eq, not_false_eq_true, hover, and_self, if_true]
  simp

theorem fuse_ticket_fetch_to_gate {K : Config} {w w' : World} {p : Nat}
    (hr : fuse_ticket_fetch K w = .ret p w') :
    p ≠ 0 ∧ ∃ w1, fuse_ticket_fetch_gate K w1 p = .ret p w' ∧
      w1.data.dataflags = w.data.dataflags := by
  unfold fuse_ticket_fetch at hr
  split at hr
  · split at hr
    · simp at hr
    · simp at hr
    · rename_i ftick w1 ha
      split at hr
      · simp at hr
      · rename_i hne
        obtain ⟨hq, _⟩ := fuse_ticket_fetch_gate_ret hr
        subst hq
        obtain ⟨_, _, t, b, _, _, rfl⟩ := fticket_alloc_ret ha
        exact ⟨hne, _, hr, rfl⟩
  · split at hr
    · simp at hr
    · simp at hr
    · rename_i ftick w1 ha
      split at hr
      · simp at hr
      · rename_i hne
        obtain ⟨hq, _⟩ := fuse_ticket_fetch_gate_ret hr
        subst hq
        rcases fuse_pop_freeticks_ret ha with ⟨_, h0, _⟩ | ⟨rest, hf, rfl⟩
        · exact absurd h0 hne
        · exact ⟨hne, _, hr, rfl⟩

/-- C10 (as amended): when `fuse_max_tickets` is non-zero and, the ticket being
fetched counted, `ticketer - deadticket_counter` exceeds it, and the bootstrap
gate is not taken (`FSESS_INITED` is set, or `ticketer` is at most 1),
`fuse_ticket_fetch` marks the session dead; it still returns the ticket to the
caller. -/
theorem fetch_over_max_marks_dead (K : Config) (w w' : World) (p : Nat)
    (hbit : K.FSESS_DEAD ≠ 0)
    (hr : fuse_ticket_fetch K w = .ret p w')
    (hmax : K.fuse_max_tickets ≠ 0)
    (hover : K.fuse_max_tickets <
      (w'.data.ticketer + 2 ^ 64 - w'.data.deadticket_counter) % 2 ^ 64)
    (hgate : w.data.dataflags &&& K.FSESS_INITED ≠ 0 ∨ w'.data.ticketer ≤ 1) :
    fdata_dead_get K w'.data ≠ 0 ∧ p ≠ 0 := by
  obtain ⟨hne, w1, hg, hfl⟩ := fuse_ticket_fetch_to_gate hr
  refine ⟨?_, hne⟩
  obtain ⟨_, fl, tr, sl, hw'⟩ := fuse_ticket_fetch_gate_ret hg
  have ht : w'.data.ticketer = w1.data.ticketer := by rw [hw']
  have hd : w'.data.deadticket_counter = w1.data.deadticket_counter := by rw [hw']
  rw [ht, hd] at hover
  rw [ht, ← hfl] at hgate
  have h2 := fuse_ticket_fetch_gate_over_max p hmax hover hgate
  rw [h2] at hg
  simp only [Outcome.ret.injEq, true_and] at hg
  rw [← hg]
  exact fdata_set_dead_dead K w1 hbit

/-- C10, counterexample: with `fuse_max_tickets = 1`, on the initialised
session `demo_inited` that has one ticket out, fetching a second ticket makes
two outstanding tickets, more than allowed: `fuse_ticket_fetch` marks the
session dead and nevertheless returns the new ticket, live, at 12288. -/
theorem fetch_over_max_grants_ticket :
    sample_max1.fuse_max_tickets ≠ 0 ∧
    fdata_dead_get sample_max1 demo_inited.data = 0 ∧
    fuse_ticket_fetch sample_max1 demo_inited =
      .ret 12288 ((fuse_ticket_fetch sample_max1 demo_inited).after demo_inited) ∧
    sample_max1.fuse_max_tickets <
      ((fuse_ticket_fetch sample_max1 demo_inited).after demo_inited).data.ticketer -
        ((fuse_ticket_fetch sample_max1 demo_inited).after
          demo_inited).data.deadticket_counter ∧
    fdata_dead_get sample_max1
      ((fuse_ticket_fetch sample_max1 demo_inited).after demo_inited).data ≠ 0 ∧
    (((fuse_ticket_fetch sample_max1 demo_inited).after demo_inited).tick 12288).isSome =
      true :=
  ⟨by decide, rfl, rfl, by decide, by decide, rfl⟩

/-- Witness of `fetch_over_max_marks_dead`: the second fetch on `demo_inited`. -/
theorem fetch_over_max_marks_dead_witness :
    fdata_dead_get sample_max1
      ((fuse_ticket_fetch sample_max1 demo_inited).after demo_inited).data ≠ 0 ∧
    12288 ≠ 0 :=
  fetch_over_max_marks_dead sample_max1 demo_inited
    ((fuse_ticket_fetch sample_max1 demo_inited).after demo_inited) 12288
    (by decide) rfl (by decide) (by decide) (Or.inl (by decide))

/-! ## Lemmas: buffers -/

theorem FUSE_OSMalloc_buf_some (w : World) (n : Nat) (m : List Nat)
    (rest : List (Option (List Nat))) (hb : w.blocks = some m :: rest) :
    FUSE_OSMalloc_buf w n =
      (some ((List.range n).map (fun i => m.getD i 0)), { w with blocks := rest }) := by
  unfold FUSE_OSMalloc_buf
  rw [hb]

theorem bzero_full (m : List Nat) : bzero m m.length = List.replicate m.length 0 := by
  simp [bzero]

/-- C15: for every size, the buffer `fiov_init` yields has `len = 0`,
`allocated_size >= size` (it is `FU_AT_LEAST(size)`, which is at least `size`),
every one of its `allocated_size` bytes zero, and `credit` equal to
`fuse_iov_credit`; and `fiov_init` does yield a buffer when the allocator
grants the block (it panics otherwise). -/
theorem fiov_init_spec (K : Config) (w : World) (size : Nat)
    (hFU : size ≤ K.FU_AT_LEAST size) :
    (∀ f w', fiov_init K w size = .ret f w' →
      f.len = 0 ∧ size ≤ f.allocated_size ∧
      f.base = List.replicate f.allocated_size 0 ∧ f.credit = K.fuse_iov_credit) ∧
    (∀ m rest, w.blocks = some m :: rest →
      ∃ f, fiov_init K w size = .ret f { w with blocks := rest }) := by
  constructor
  · intro f w' h
    unfold fiov_init at h
    rcases hr : FUSE_OSMalloc_buf w (K.FU_AT_LEAST size) with ⟨_ | m, w1⟩
    · simp [hr] at h
    · simp only [hr, Outcome.ret.injEq] at h
      obtain ⟨rfl, _⟩ := h
      have hm : m.length = K.FU_AT_LEAST size := by
        unfold FUSE_OSMalloc_buf at hr
        rcases hb : w.blocks with _ | ⟨_ | m0, rest⟩
        · simp [hb] at hr
        · simp [hb] at hr
        · simp only [hb, Prod.mk.injEq, Option.some.injEq] at hr
          rw [← hr.1]
          simp
      refine ⟨rfl, hFU, ?_, rfl⟩
      show bzero m (K.FU_AT_LEAST size) = List.replicate (K.FU_AT_LEAST size) 0
      rw [← hm]
      exact bzero_full m
  · intro m rest hb
    unfold fiov_init
    simp only [FUSE_OSMalloc_buf_some w _ m rest hb]
    exact ⟨_, rfl⟩

/-- Witness of `fiov_init_spec`: a buffer of 40 bytes asked for on `demo0`. -/
theorem fiov_init_spec_witness :
    (∀ f w', fiov_init sample demo0 40 = .ret f w' →
      f.len = 0 ∧ 40 ≤ f.allocated_size ∧
      f.base = List.replicate f.allocated_size 0 ∧ f.credit = sample.fuse_iov_credit) ∧
    (∀ m rest, demo0.blocks = some m :: rest →
      ∃ f, fiov_init sample demo0 40 = .ret f { demo0 with blocks := rest }) :=
  fiov_init_spec sample demo0 40 (by decide)

theorem fiov_realloc_spec {K : Config} {w w' : World} {n : Nat} {f f' : fuse_iov}
    (h : fiov_realloc K w f n = .ret f' w') :
    f'.len = n ∧ f'.allocated_size = K.FU_AT_LEAST n ∧ f'.credit = K.fuse_iov_credit := by
  unfold fiov_realloc at h
  rcases hr : FUSE_OSMalloc_buf w (K.FU_AT_LEAST n) with ⟨_ | m, w1⟩
  · simp [hr] at h
  · simp only [hr, Outcome.ret.injEq] at h
    obtain ⟨rfl, _⟩ := h
    exact ⟨rfl, rfl, rfl⟩

theorem fiov_realloc_some {K : Config} {w : World} {n : Nat} {f : fuse_iov}
    {m : List Nat} {rest : List (Option (List Nat))} (hb : w.blocks = some m :: rest) :
    ∃ f', fiov_realloc K w f n = .ret f' { w with blocks := rest } := by
  unfold fiov_realloc
  simp only [FUSE_OSMalloc_buf_some w _ m rest hb]
  exact ⟨_, rfl⟩

theorem fiov_adjust_of_reallocs {K : Config} {w : World} {fiov : fuse_iov} {size : Nat}
    (h : fiov_reallocs K fiov size) :
    fiov_adjust K w fiov size = fiov_realloc K w fiov size ∨
    fiov_adjust K w fiov size =
      fiov_realloc K w { fiov with credit := fiov.credit - 1 } size := by
  unfold fiov_adjust
  by_cases h1 : fiov.allocated_size < size
  · left
    simp [h1]
  · right
    rcases h with h | ⟨h2, h3⟩
    · exact absurd h h1
    · unfold fiov_slack_over at h2
      simp only [h1, if_false, h2, and_self, if_true, h3]

theorem fiov_adjust_of_not_reallocs {K : Config} {w : World} {fiov : fuse_iov} {size : Nat}
    (h : ¬ fiov_reallocs K fiov size) :
    fiov_adjust K w fiov size =
      .ret { fiov with
        credit := if fiov_slack_over K fiov size then fiov.credit - 1 else fiov.credit,
        len := size } w := by
  unfold fiov_reallocs at h
  push_neg at h
  obtain ⟨h1, h2⟩ := h
  unfold fiov_adjust
  have h1' : ¬ fiov.allocated_size < size := by omega
  by_cases hs : fiov_slack_over K fiov size
  · have h3 : ¬ fiov.credit - 1 < 0 := by
      have := h2 hs
      omega
    have hs' := hs
    unfold fiov_slack_over at hs'
    simp only [h1', if_false, hs', and_self, if_true, h3]
    rw [if_pos hs]
  · have hs' := hs
    unfold fiov_slack_over at hs'
    simp only [h1', if_false, hs']
    rw [if_neg hs]

/-- C16: after `fiov_adjust` the buffer has `len = size` and
`allocated_size >= size`; when the previous `allocated_size` sufficed and no
shrink was triggered the call returns, without a word to the allocator, with
the backing allocation and `allocated_size` unchanged; when a reallocation
happens the new `allocated_size` is `FU_AT_LEAST(size)`, and the call returns
when the allocator grants the block (it panics otherwise). -/
theorem fiov_adjust_spec (K : Config) (w : World) (fiov : fuse_iov) (size : Nat)
    (hFU : size ≤ K.FU_AT_LEAST size) :
    (∀ f' w', fiov_adjust K w fiov size = .ret f' w' →
      f'.len = size ∧ size ≤ f'.allocated_size) ∧
    (¬ fiov_reallocs K fiov size →
      ∃ f', fiov_adjust K w fiov size = .ret f' w ∧ f'.base = fiov.base ∧
        f'.allocated_size = fiov.allocated_size ∧ f'.len = size) ∧
    (fiov_reallocs K fiov size →
      (∀ f' w', fiov_adjust K w fiov size = .ret f' w' →
        f'.allocated_size = K.FU_AT_LEAST size) ∧
      (∀ m rest, w.blocks = some m :: rest →
        ∃ f', fiov_adjust K w fiov size = .ret f' { w with blocks := rest })) := by
  refine ⟨fun f' w' h => ?_, fun hn => ?_, fun hr => ⟨fun f' w' h => ?_, fun m rest hb => ?_⟩⟩
  · by_cases hr : fiov_reallocs K fiov size
    · rcases fiov_adjust_of_reallocs (w := w) hr with e | e <;> rw [e] at h <;>
        obtain ⟨h1, h2, _⟩ := fiov_realloc_spec h <;> exact ⟨h1, h2 ▸ hFU⟩
    · rw [fiov_adjust_of_not_reallocs hr] at h
      simp only [Outcome.ret.injEq] at h
      obtain ⟨rfl, _⟩ := h
      refine ⟨rfl, ?_⟩
      unfold fiov_reallocs at hr
      push_neg at hr
      exact hr.1
  · exact ⟨_, fiov_adjust_of_not_reallocs hn, rfl, rfl, rfl⟩
  · rcases fiov_adjust_of_reallocs (w := w) hr with e | e <;> rw [e] at h <;>
      exact (fiov_realloc_spec h).2.1
  · rcases fiov_adjust_of_reallocs (w := w) hr with e | e <;> rw [e] <;>
      exact fiov_realloc_some hb

/-- Witness of `fiov_adjust_spec`: the send buffer of `demo2` adjusted to 200
bytes, more than it holds. -/
theorem fiov_adjust_spec_witness :
    (∀ f' w', fiov_adjust sample demo2 demo_iov 200 = .ret f' w' →
      f'.len = 200 ∧ 200 ≤ f'.allocated_size) ∧
    (¬ fiov_reallocs sample demo_iov 200 →
      ∃ f', fiov_adjust sample demo2 demo_iov 200 = .ret f' demo2 ∧
        f'.base = demo_iov.base ∧
        f'.allocated_size = demo_iov.allocated_size ∧ f'.len = 200) ∧
    (fiov_reallocs sample demo_iov 200 →
      (∀ f' w', fiov_adjust sample demo2 demo_iov 200 = .ret f' w' →
        f'.allocated_size = sample.FU_AT_LEAST 200) ∧
      (∀ m rest, demo2.blocks = some m :: rest →
        ∃ f', fiov_adjust sample demo2 demo_iov 200 =
          .ret f' { demo2 with blocks := rest })) :=
  fiov_adjust_spec sample demo2 demo_iov 200 (by decide)

theorem fiov_realloc_canfail_cases (K : Config) (w : World) (f : fuse_iov) (n : Nat) :
    ((FUSE_OSMalloc_buf w (K.FU_AT_LEAST n)).1 = none ∧
      fiov_realloc_canfail K w f n = .ret (ENOMEM, f) (FUSE_OSMalloc_buf w (K.FU_AT_LEAST n)).2) ∨
    (∃ m, (FUSE_OSMalloc_buf w (K.FU_AT_LEAST n)).1 = some m ∧
      fiov_realloc_canfail K w f n =
        .ret (0, { f with base := m, len := n, allocated_size := K.FU_AT_LEAST n,
                          credit := K.fuse_iov_credit })
          (FUSE_OSMalloc_buf w (K.FU_AT_LEAST n)).2) := by
  unfold fiov_realloc_canfail
  rcases hr : FUSE_OSMalloc_buf w (K.FU_AT_LEAST n) with ⟨_ | m, w1⟩
  · exact Or.inl ⟨rfl, rfl⟩
  · exact Or.inr ⟨m, rfl, rfl⟩

theorem fiov_adjust_canfail_of_reallocs {K : Config} {w : World} {fiov : fuse_iov}
    {size : Nat} (h : fiov_reallocs K fiov size) :
    fiov_adjust_canfail K w fiov size = fiov_realloc_canfail K w fiov size ∨
    fiov_adjust_canfail K w fiov size =
      fiov_realloc_canfail K w { fiov with credit := fiov.credit - 1 } size := by
  unfold fiov_adjust_canfail
  by_cases h1 : fiov.allocated_size < size
  · left
    simp [h1]
  · right
    rcases h with h | ⟨h2, h3⟩
    · exact absurd h h1
    · unfold fiov_slack_over at h2
      simp only [h1, if_false, h2, and_self, if_true, h3]

theorem fiov_adjust_canfail_of_not_reallocs {K : Config} {w : World} {fiov : fuse_iov}
    {size : Nat} (h : ¬ fiov_reallocs K fiov size) :
    fiov_adjust_canfail K w fiov size =
      .ret (0, { fiov with
        credit := if fiov_slack_over K fiov size then fiov.credit - 1 else fiov.credit,
        len := size }) w := by
  unfold fiov_reallocs at h
  push_neg at h
  obtain ⟨h1, h2⟩ := h
  unfold fiov_adjust_canfail
  have h1' : ¬ fiov.allocated_size < size := by omega
  by_cases hs : fiov_slack_over K fiov size
  · have h3 : ¬ fiov.credit - 1 < 0 := by
      have := h2 hs
      omega
    have hs' := hs
    unfold fiov_slack_over at hs'
    simp only [h1', if_false, hs', and_self, if_true, h3]
    rw [if_pos hs]
  · have hs' := hs
    unfold fiov_slack_over at hs'
    simp only [h1', if_false, hs']
    rw [if_neg hs]

/-- C18: `fiov_adjust_canfail` always returns; it returns `ENOMEM` exactly when
a reallocation is required and the allocator fails, and then `base`,
`allocated_size` and `len` of the buffer are unchanged; in every other case it
returns 0 with `len = size`. -/
theorem fiov_adjust_canfail_spec (K : Config) (w : World) (fiov : fuse_iov) (size : Nat) :
    ∃ err f' w', fiov_adjust_canfail K w fiov size = .ret (err, f') w' ∧
      (err = ENOMEM ↔
        (fiov_reallocs K fiov size ∧
          (FUSE_OSMalloc_buf w (K.FU_AT_LEAST size)).1 = none)) ∧
      (err = ENOMEM → f'.base = fiov.base ∧ f'.allocated_size = fiov.allocated_size ∧
        f'.len = fiov.len) ∧
      (err ≠ ENOMEM → err = 0 ∧ f'.len = size) := by
  by_cases hr : fiov_reallocs K fiov size
  · have key : ∀ f0 : fuse_iov, f0.base = fiov.base →
        f0.allocated_size = fiov.allocated_size → f0.len = fiov.len →
        fiov_adjust_canfail K w fiov size = fiov_realloc_canfail K w f0 size →
        ∃ err f' w', fiov_adjust_canfail K w fiov size = .ret (err, f') w' ∧
          (err = ENOMEM ↔
            (fiov_reallocs K fiov size ∧
              (FUSE_OSMalloc_buf w (K.FU_AT_LEAST size)).1 = none)) ∧
          (err = ENOMEM → f'.base = fiov.base ∧
            f'.allocated_size = fiov.allocated_size ∧ f'.len = fiov.len) ∧
          (err ≠ ENOMEM → err = 0 ∧ f'.len = size) := by
      intro f0 hb ha hl e
      rcases fiov_realloc_canfail_cases K w f0 size with ⟨hn, hc⟩ | ⟨m, hm, hc⟩
      · refine ⟨ENOMEM, f0, _, e.trans hc, ?_, fun _ => ⟨hb, ha, hl⟩, fun h => absurd rfl h⟩
        simp [hr, hn]
      · refine ⟨0, _, _, e.trans hc, ?_, ?_, fun _ => ⟨rfl, rfl⟩⟩
        · simp [ENOMEM, hm]
        · intro h
          simp [ENOMEM] at h
    rcases fiov_adjust_canfail_of_reallocs (w := w) hr with e | e
    · exact key fiov rfl rfl rfl e
    · exact key { fiov with credit := fiov.credit - 1 } rfl rfl rfl e
  · refine ⟨0, _, w, fiov_adjust_canfail_of_not_reallocs hr, ?_, ?_, fun _ => ⟨rfl, rfl⟩⟩
    · simp [ENOMEM, hr]
    · intro h
      simp [ENOMEM] at h

theorem fiov_adjust_canfail_oom :
    fiov_adjust_canfail sample demo_oom demo_iov 200 =
      .ret (ENOMEM, demo_iov) { demo_oom with blocks := [] } := by
  rfl

theorem fiov_adjusts_append (K : Config) (sizes : List Nat) (s : Nat) :
    ∀ (w : World) (fiov f1 : fuse_iov) (w1 : World),
      fiov_adjusts K w fiov sizes = .ret f1 w1 →
      fiov_adjusts K w fiov (sizes ++ [s]) = fiov_adjust K w1 f1 s := by
  induction sizes with
  | nil =>
    intro w fiov f1 w1 h
    simp only [fiov_adjusts, Outcome.ret.injEq] at h
    obtain ⟨rfl, rfl⟩ := h
    simp only [List.nil_append, fiov_adjusts]
    cases fiov_adjust K w fiov s <;> rfl
  | cons a sizes ih =>
    intro w fiov f1 w1 h
    simp only [fiov_adjusts] at h
    simp only [List.cons_append, fiov_adjusts]
    cases ha : fiov_adjust K w fiov a with
    | ret f2 w2 =>
      rw [ha] at h
      exact ih w2 f2 f1 w1 h
    | panic m w2 => rw [ha] at h; cases h
    | fault => rw [ha] at h; cases h

theorem fiov_adjusts_deferred (K : Config) (w : World)
    (hpb : 0 ≤ K.fuse_iov_permanent_bufsize) (sizes : List Nat) :
    ∀ fiov : fuse_iov, (sizes.length : Int) ≤ fiov.credit →
      (∀ s ∈ sizes,
        K.fuse_iov_permanent_bufsize < (fiov.allocated_size : Int) - (s : Int)) →
      ∃ f', fiov_adjusts K w fiov sizes = .ret f' w ∧
        f'.allocated_size = fiov.allocated_size ∧ f'.base = fiov.base ∧
        f'.credit = fiov.credit - (sizes.length : Int) := by
  induction sizes with
  | nil =>
    intro fiov _ _
    exact ⟨fiov, rfl, rfl, rfl, by simp⟩
  | cons a sizes ih =>
    intro fiov hlen hall
    have ha2 := hall a (List.mem_cons_self a sizes)
    have ha1 : a ≤ fiov.allocated_size := by omega
    have hso : fiov_slack_over K fiov a := ⟨hpb, ha2⟩
    simp only [List.length_cons, Nat.cast_add, Nat.cast_one] at hlen
    have hnr : ¬ fiov_reallocs K fiov a := by
      unfold fiov_reallocs
      push_neg
      refine ⟨ha1, fun _ => ?_⟩
      omega
    have hstep := fiov_adjust_of_not_reallocs (w := w) hnr
    rw [if_pos hso] at hstep
    obtain ⟨f', hf', h1, h2, h3⟩ := ih { fiov with credit := fiov.credit - 1, len := a }
      (by show (sizes.length : Int) ≤ fiov.credit - 1; omega)
      (fun s hs => hall s (List.mem_cons_of_mem a hs))
    refine ⟨f', ?_, h1, h2, ?_⟩
    · simp only [fiov_adjusts, hstep]
      exact hf'
    · rw [h3]
      simp only [List.length_cons, Nat.cast_add, Nat.cast_one]
      omega

/-- C17 (as amended): with `fuse_iov_permanent_bufsize >= 0` and a buffer whose
credit has just been reset to `c = fuse_iov_credit`, repeated
`fiov_adjust` calls to sizes whose slack `allocated_size - size` exceeds the
watermark leave `allocated_size` and the backing allocation unchanged for the first `c`
calls, each decrementing `credit` by one, and reallocate on call `c + 1` (when
the allocator grants the block), after which `credit` is `c` again; a call of
`fiov_adjust` or `fiov_adjust_canfail` that needs no growth and does not meet
the shrink condition does not change `credit`. -/
theorem fiov_credit_spec (K : Config) (w : World) (fiov : fuse_iov)
    (hpb : 0 ≤ K.fuse_iov_permanent_bufsize)
    (hc : fiov.credit = K.fuse_iov_credit) :
    (∀ sizes : List Nat, (sizes.length : Int) ≤ K.fuse_iov_credit →
      (∀ s ∈ sizes,
        K.fuse_iov_permanent_bufsize < (fiov.allocated_size : Int) - (s : Int)) →
      ∃ f', fiov_adjusts K w fiov sizes = .ret f' w ∧
        f'.allocated_size = fiov.allocated_size ∧ f'.base = fiov.base ∧
        f'.credit = K.fuse_iov_credit - (sizes.length : Int)) ∧
    (∀ (sizes : List Nat) (s : Nat), (sizes.length : Int) = K.fuse_iov_credit →
      (∀ x ∈ sizes ++ [s],
        K.fuse_iov_permanent_bufsize < (fiov.allocated_size : Int) - (x : Int)) →
      ∀ m rest, w.blocks = some m :: rest →
        ∃ f', fiov_adjusts K w fiov (sizes ++ [s]) = .ret f' { w with blocks := rest } ∧
          f'.allocated_size = K.FU_AT_LEAST s ∧ f'.credit = K.fuse_iov_credit) ∧
    (∀ (f : fuse_iov) (size : Nat), size ≤ f.allocated_size →
      ¬ fiov_slack_over K f size →
      (∃ f', fiov_adjust K w f size = .ret f' w ∧ f'.credit = f.credit) ∧
      (∃ f', fiov_adjust_canfail K w f size = .ret (0, f') w ∧ f'.credit = f.credit)) := by
  refine ⟨fun sizes hlen hall => ?_, fun sizes s hlen hall m rest hb => ?_,
    fun f size hfit hno => ?_⟩
  · obtain ⟨f', h1, h2, h3, h4⟩ := fiov_adjusts_deferred K w hpb sizes fiov (hc ▸ hlen) hall
    exact ⟨f', h1, h2, h3, hc ▸ h4⟩
  · obtain ⟨f1, h1, h2, h3, h4⟩ := fiov_adjusts_deferred K w hpb sizes fiov
      (by rw [hc, hlen]) (fun x hx => hall x (List.mem_append_left _ hx))
    rw [fiov_adjusts_append K sizes s w fiov f1 w h1]
    have hs2 := hall s (List.mem_append_right _ (List.mem_singleton_self s))
    have hs1 : s ≤ fiov.allocated_size := by omega
    have hnotsmall : ¬ f1.allocated_size < s := by rw [h2]; omega
    have hso : 0 ≤ K.fuse_iov_permanent_bufsize ∧
        K.fuse_iov_permanent_bufsize < (f1.allocated_size : Int) - (s : Int) :=
      ⟨hpb, by rw [h2]; exact hs2⟩
    have hcr : f1.credit - 1 < 0 := by rw [h4, hc, hlen]; omega
    have e : fiov_adjust K w f1 s =
        fiov_realloc K w { f1 with credit := f1.credit - 1 } s := by
      unfold fiov_adjust
      simp only [hnotsmall, if_false, hso, and_self, if_true, hcr]
    rw [e]
    obtain ⟨f', hf'⟩ := fiov_realloc_some (K := K) (n := s)
      (f := { f1 with credit := f1.credit - 1 }) hb
    exact ⟨f', hf', (fiov_realloc_spec hf').2.1, (fiov_realloc_spec hf').2.2⟩
  · have hnr : ¬ fiov_reallocs K f size := by
      unfold fiov_reallocs
      push_neg
      exact ⟨hfit, fun h => absurd h hno⟩
    constructor
    · refine ⟨_, fiov_adjust_of_not_reallocs hnr, ?_⟩
      show (if fiov_slack_over K f size then f.credit - 1 else f.credit) = f.credit
      rw [if_neg hno]
    · refine ⟨_, fiov_adjust_canfail_of_not_reallocs hnr, ?_⟩
      show (if fiov_slack_over K f size then f.credit - 1 else f.credit) = f.credit
      rw [if_neg hno]

/-- Witness of `fiov_credit_spec`: the send buffer of `demo2`, of 160 bytes and
16 credits, adjusted 17 times to 100 bytes under `sample_wm0`. -/
theorem fiov_credit_spec_witness :
    0 ≤ sample_wm0.fuse_iov_permanent_bufsize ∧
    demo_iov.credit = sample_wm0.fuse_iov_credit ∧
    (∃ f', fiov_adjusts sample_wm0 demo2 demo_iov (List.replicate 16 100) = .ret f' demo2 ∧
      f'.allocated_size = 160 ∧ f'.base = demo_iov.base ∧ f'.credit = 0) ∧
    (∃ f', fiov_adjusts sample_wm0 demo2 demo_iov (List.replicate 16 100 ++ [100]) =
        .ret f' { demo2 with blocks := demo2.blocks.tail } ∧
      f'.allocated_size = 160 ∧ f'.credit = 16) :=
  have hall : ∀ s : Nat, s ∈ List.replicate 16 100 ++ [100] →
      sample_wm0.fuse_iov_permanent_bufsize < (demo_iov.allocated_size : Int) - (s : Int) := by
    intro s hs
    have hs' : s = 100 := by
      rcases List.mem_append.1 hs with h | h
      · exact (List.mem_replicate.1 h).2
      · exact List.mem_singleton.1 h
    subst hs'
    decide
  ⟨by decide, rfl,
    (fiov_credit_spec sample_wm0 demo2 demo_iov (by decide) rfl).1 (List.replicate 16 100)
      (by decide) (fun s hs => hall s (List.mem_append_left _ hs)),
    (fiov_credit_spec sample_wm0 demo2 demo_iov (by decide) rfl).2.1 (List.replicate 16 100) 100
      rfl hall [] demo2.blocks.tail rfl⟩

/-- C17 counterexample: under `sample_wm0` the buffer `demo_iov15` holds 160
bytes and 15 credits; adjusting it to 200 bytes meets no shrink condition
(the buffer is too small, there is no slack), yet the call reallocates and
leaves `credit` at 16. -/
theorem fiov_growth_resets_credit :
    fiov_adjust sample_wm0 demo2 demo_iov 100 = .ret demo_iov15 demo2 ∧
    demo_iov15.allocated_size = 160 ∧ demo_iov15.credit = 15 ∧
    ¬ fiov_slack_over sample_wm0 demo_iov15 200 ∧
    ∃ f' w', fiov_adjust sample_wm0 demo2 demo_iov15 200 = .ret f' w' ∧
      f'.credit = 16 ∧ f'.credit ≠ demo_iov15.credit :=
  ⟨rfl, rfl, rfl, by decide, _, _, rfl, rfl, by decide⟩

/-- C19: with a non-zero `FSESS_DEAD` bit, `fdata_set_dead` on a session that
is already dead returns the state unchanged (no session field changes, no
event is issued), so `n >= 1` successive calls give exactly the state of one
call; on a live session that one call issues one wake-up on the channel, one
wake-all on the bootstrap gate and one dead-volume signal, in this order. -/
theorem fdata_set_dead_idempotent (K : Config) (w : World) (hbit : K.FSESS_DEAD ≠ 0) :
    (fdata_dead_get K w.data ≠ 0 → fdata_set_dead K w = w) ∧
    (∀ n, 1 ≤ n → (fdata_set_dead K)^[n] w = fdata_set_dead K w) ∧
    (fdata_dead_get K w.data = 0 →
      (fdata_set_dead K w).trace =
        w.trace ++ [.wakeup_one .data, .wakeup .ticketer, .vfs_event_signal_dead]) := by
  have hfix : ∀ v : World, fdata_dead_get K v.data ≠ 0 → fdata_set_dead K v = v := by
    intro v hv
    unfold fdata_set_dead
    rw [if_pos hv]
  refine ⟨hfix w, ?_, ?_⟩
  · intro n hn
    induction n with
    | zero => omega
    | succ k ih =>
      rcases Nat.eq_zero_or_pos k with hk | hk
      · subst hk
        rfl
      · rw [Function.iterate_succ_apply', ih hk]
        exact hfix _ (fdata_set_dead_dead K w hbit)
  · intro hlive
    unfold fdata_set_dead
    rw [if_neg (not_not.2 hlive)]
    simp [World.emit]

/-- Witness of `fdata_set_dead_idempotent`: three calls on `demo2`, and one on
the dead session `demo_dead`. -/
theorem fdata_set_dead_idempotent_witness :
    sample.FSESS_DEAD ≠ 0 ∧
    (fdata_set_dead sample)^[3] demo2 = fdata_set_dead sample demo2 ∧
    fdata_set_dead sample demo_dead = demo_dead ∧
    demo_dead.trace =
      demo2.trace ++ [.wakeup_one .data, .wakeup .ticketer, .vfs_event_signal_dead] :=
  ⟨by decide, (fdata_set_dead_idempotent sample demo2 (by decide)).2.1 3 (by decide),
    (fdata_set_dead_idempotent sample demo_dead (by decide)).1 (by decide),
    (fdata_set_dead_idempotent sample demo2 (by decide)).2.2 (by decide)⟩

theorem fiov_adjust_total {K : Config} {w : World} {f : fuse_iov} {n : Nat}
    {m : List Nat} {rest : List (Option (List Nat))} (hb : w.blocks = some m :: rest) :
    ∃ f', fiov_adjust K w f n = .ret f' w ∨
      fiov_adjust K w f n = .ret f' { w with blocks := rest } := by
  by_cases h : fiov_reallocs K f n
  · rcases fiov_adjust_of_reallocs (w := w) h with e | e
    · obtain ⟨f', hf'⟩ := fiov_realloc_some (K := K) (n := n) (f := f) hb
      exact ⟨f', Or.inr (e.trans hf')⟩
    · obtain ⟨f', hf'⟩ := fiov_realloc_some (K := K) (n := n)
        (f := { f with credit := f.credit - 1 }) hb
      exact ⟨f', Or.inr (e.trans hf')⟩
  · exact ⟨_, Or.inl (fiov_adjust_of_not_reallocs h)⟩

theorem fiov_refresh_total {K : Config} {w : World} {f : fuse_iov}
    {m : List Nat} {rest : List (Option (List Nat))} (hb : w.blocks = some m :: rest) :
    ∃ f', fiov_refresh K w f = .ret f' w ∨
      fiov_refresh K w f = .ret f' { w with blocks := rest } :=
  fiov_adjust_total hb

theorem fticket_refresh_total {K : Config} {w : World} {p : Nat} {t : fuse_ticket}
    {m1 m2 : List Nat} {rest : List (Option (List Nat))}
    (ht : w.tick p = some t) (hb : w.blocks = some m1 :: some m2 :: rest) :
    ∃ w', fticket_refresh K w p = .ret () w' := by
  unfold fticket_refresh
  simp only [ht]
  obtain ⟨ms, h1 | h1⟩ := fiov_refresh_total (K := K) (f := t.tk_ms_fiov) hb
  · simp only [h1]
    have hb2 : ∀ t1, (w.setTick p t1).blocks = some m1 :: some m2 :: rest := fun _ => hb
    obtain ⟨aw, h2⟩ := fiov_refresh_total (K := K) (f := t.tk_aw_fiov) (hb2 _)
    split
    · rename_i heq
      rcases h2 with h2 | h2 <;> exact absurd (h2.symm.trans heq) (by simp)
    · rename_i heq
      rcases h2 with h2 | h2 <;> exact absurd (h2.symm.trans heq) (by simp)
    · exact ⟨_, rfl⟩
  · simp only [h1]
    have hb2 : ∀ t1, (({ w with blocks := some m2 :: rest } : World).setTick p t1).blocks =
        some m2 :: rest := fun _ => rfl
    obtain ⟨aw, h2⟩ := fiov_refresh_total (K := K) (f := t.tk_aw_fiov) (hb2 _)
    split
    · rename_i heq
      rcases h2 with h2 | h2 <;> exact absurd (h2.symm.trans heq) (by simp)
    · rename_i heq
      rcases h2 with h2 | h2 <;> exact absurd (h2.symm.trans heq) (by simp)
    · exact ⟨_, rfl⟩
/-- C11: for a live ticket, `fuse_ticket_drop` destroys it exactly when
`fuse_max_freetickets >= 0` and `freeticket_counter >= fuse_max_freetickets`,
or the ticket has `FT_KILLL`: the call then returns with the ticket freed,
erased from the all-tickets registry, the dead-ticket counter one higher and
the free list as it was. Otherwise every returning call leaves the ticket
live with both buffers at length 0, `tk_flag = 0`, `tk_aw_errno = 0`, the
reply header zeroed, `tk_age` one higher (in 32 bits), and the ticket appended
to the free list, the registry unchanged; and the call returns whenever the
allocator grants the blocks it is asked for. -/
theorem fuse_ticket_drop_spec (K : Config) (w : World) (p : Nat) (t : fuse_ticket)
    (ht : w.tick p = some t) :
    (drop_dies K w t →
      ∃ w', fuse_ticket_drop K w p = .ret () w' ∧ w'.tick p = none ∧
        w'.data.alltickets_head = w.data.alltickets_head.erase p ∧
        w'.data.deadticket_counter = (w.data.deadticket_counter + 1) % 2 ^ 32 ∧
        w'.data.freetickets_head = w.data.freetickets_head ∧
        w'.data.freeticket_counter = w.data.freeticket_counter) ∧
    (¬ drop_dies K w t →
      (∀ w', fuse_ticket_drop K w p = .ret () w' →
        ∃ t', w'.tick p = some t' ∧
          t'.tk_ms_fiov.len = 0 ∧ t'.tk_aw_fiov.len = 0 ∧ t'.tk_flag = 0 ∧
          t'.tk_aw_errno = 0 ∧ t'.tk_aw_ohead = { len := 0, error := 0, unique := 0 } ∧
          t'.tk_age = (t.tk_age + 1) % 2 ^ 32 ∧
          w'.data.freetickets_head = w.data.freetickets_head ++ [p] ∧
          w'.data.freeticket_counter = (w.data.freeticket_counter + 1) % 2 ^ 32 ∧
          w'.data.alltickets_head = w.data.alltickets_head ∧
          w'.data.deadticket_counter = w.data.deadticket_counter) ∧
      (∀ m1 m2 rest, w.blocks = some m1 :: some m2 :: rest →
        ∃ w', fuse_ticket_drop K w p = .ret () w')) := by
  refine ⟨fun hd => ?_, fun hd => ⟨fun w' h => ?_, fun m1 m2 rest hb => ?_⟩⟩
  · refine ⟨fticket_destroy (fuse_remove_allticks w p) p, ?_,
      (tick_destroy _ p p).trans (if_pos rfl), rfl, rfl, rfl, rfl⟩
    unfold fuse_ticket_drop
    simp only [ht]
    exact if_pos hd
  · obtain ⟨t2, ht2, hcase⟩ := fuse_ticket_drop_ret h
    rw [ht] at ht2
    simp only [Option.some.injEq] at ht2
    subst ht2
    rcases hcase with ⟨hc, _⟩ | ⟨_, ms, aw, b, l1, l2, rfl⟩
    · exact absurd hc hd
    · refine ⟨refreshed t ms aw, ?_, l1, l2, rfl, rfl, rfl, rfl, rfl, rfl, rfl, rfl⟩
      have e : (fuse_push_freeticks (({ w with blocks := b } : World).setTick p
          (refreshed t ms aw)) p).tick p = some (refreshed t ms aw) := by
        show ((({ w with blocks := b } : World).setTick p (refreshed t ms aw))).tick p = _
        rw [tick_setTick_blocks, if_pos rfl, ht]
        rfl
      exact e
  · obtain ⟨w1, h1⟩ := fticket_refresh_total (K := K) ht hb
    refine ⟨fuse_push_freeticks w1 p, ?_⟩
    unfold fuse_ticket_drop
    simp only [ht]
    refine (if_neg hd).trans ?_
    simp only [h1]

/-- Witness of `fuse_ticket_drop_spec`: the ticket of `demo2` is recycled, the
one of `demo_killed` is destroyed. -/
theorem fuse_ticket_drop_spec_witness :
    demo2.tick 8192 = some (demo2.tickD 8192) ∧
    demo_killed.tick 8192 = some (demo_killed.tickD 8192) ∧
    ¬ drop_dies sample demo2 (demo2.tickD 8192) ∧
    drop_dies sample demo_killed (demo_killed.tickD 8192) ∧
    (∃ w', fuse_ticket_drop sample demo2 8192 = .ret () w') ∧
    (∃ w', fuse_ticket_drop sample demo_killed 8192 = .ret () w' ∧ w'.tick 8192 = none ∧
      w'.data.alltickets_head = [] ∧ w'.data.deadticket_counter = 1 ∧
      w'.data.freetickets_head = []) :=
  ⟨rfl, rfl, by decide, by decide,
    ((fuse_ticket_drop_spec sample demo2 8192 (demo2.tickD 8192) rfl).2 (by decide)).2
      [] [] demo2.blocks.tail.tail rfl,
    by
      obtain ⟨w', h1, h2, h3, h4, h5, _⟩ :=
        (fuse_ticket_drop_spec sample demo_killed 8192 (demo_killed.tickD 8192) rfl).1
          (by decide)
      exact ⟨w', h1, h2, h3, h4, h5⟩⟩

theorem fdata_set_dead_no_sleep (K : Config) (w : World) :
    (fdata_set_dead K w).data.ticketer = w.data.ticketer ∧
    (fdata_set_dead K w).sleeps = w.sleeps ∧
    ∃ new, (fdata_set_dead K w).trace = w.trace ++ new ∧ ∀ c, Event.msleep c ∉ new := by
  unfold fdata_set_dead
  split
  · exact ⟨rfl, rfl, [], by simp, by simp⟩
  · exact ⟨rfl, rfl, [.wakeup_one .data, .wakeup .ticketer, .vfs_event_signal_dead],
      by simp [World.emit], by simp⟩

theorem fuse_ticket_fetch_gate_blocks {K : Config} {w w' : World} {p q : Nat}
    (h : fuse_ticket_fetch_gate K w p = .ret q w') :
    w'.data.ticketer = w.data.ticketer ∧
    ∃ new, w'.trace = w.trace ++ new ∧
      (Event.msleep Chan.ticketer ∈ new ↔
        (w.data.dataflags &&& K.FSESS_INITED = 0 ∧ 1 < w.data.ticketer)) := by
  unfold fuse_ticket_fetch_gate at h
  simp only at h
  have key : ∀ r : Nat × World, ∀ pre : List Event,
      r.2.data.ticketer = w.data.ticketer → r.2.trace = w.trace ++ pre →
      (if r.1 ≠ 0 then Outcome.ret p (fdata_set_dead K r.2) else Outcome.ret p r.2) = .ret q w' →
      w'.data.ticketer = w.data.ticketer ∧
      ∃ new, w'.trace = w.trace ++ new ∧
        (Event.msleep Chan.ticketer ∈ new ↔ Event.msleep Chan.ticketer ∈ pre) := by
    rintro ⟨e, w1⟩ pre h1 h2 hr
    simp only at h1 h2
    split at hr
    · simp only [Outcome.ret.injEq] at hr
      obtain ⟨d1, _, new, d3, d4⟩ := fdata_set_dead_no_sleep K w1
      rw [← hr.2]
      refine ⟨d1.trans h1, pre ++ new, ?_, ?_⟩
      · rw [d3, h2, List.append_assoc]
      · simp [d4]
    · simp only [Outcome.ret.injEq] at hr
      rw [← hr.2]
      exact ⟨h1, pre, h2, Iff.rfl⟩
  by_cases hc : w.data.dataflags &&& K.FSESS_INITED = 0 ∧ 1 < w.data.ticketer
  · rw [if_pos hc] at h
    obtain ⟨sl, hs⟩ := fuse_msleep_world w .ticketer
    obtain ⟨k1, new, k2, k3⟩ := key _ [.msleep .ticketer] (by rw [hs]) (by rw [hs]) h
    exact ⟨k1, new, k2, by simp [k3, hc]⟩
  · rw [if_neg hc] at h
    have h' : (if (if K.fuse_max_tickets ≠ 0 ∧ K.fuse_max_tickets <
          (w.data.ticketer + 2 ^ 64 - w.data.deadticket_counter) % 2 ^ 64
          then ((1 : Nat), w) else (0, w)).1 ≠ 0
        then Outcome.ret p (fdata_set_dead K (if K.fuse_max_tickets ≠ 0 ∧ K.fuse_max_tickets <
          (w.data.ticketer + 2 ^ 64 - w.data.deadticket_counter) % 2 ^ 64
          then ((1 : Nat), w) else (0, w)).2)
        else Outcome.ret p (if K.fuse_max_tickets ≠ 0 ∧ K.fuse_max_tickets <
          (w.data.ticketer + 2 ^ 64 - w.data.deadticket_counter) % 2 ^ 64
          then ((1 : Nat), w) else (0, w)).2) = .ret q w' := h
    have h2 : (if K.fuse_max_tickets ≠ 0 ∧ K.fuse_max_tickets <
          (w.data.ticketer + 2 ^ 64 - w.data.deadticket_counter) % 2 ^ 64
          then ((1 : Nat), w) else (0, w)).2 = w := by split <;> rfl
    obtain ⟨k1, new, k2, k3⟩ := key _ [] (by rw [h2]) (by rw [h2]; simp) h'
    exact ⟨k1, new, k2, by simp [k3, hc]⟩

theorem fuse_ticket_fetch_pre_gate {K : Config} {w w' : World} {p : Nat}
    (hr : fuse_ticket_fetch K w = .ret p w') :
    ∃ w1, fuse_ticket_fetch_gate K w1 p = .ret p w' ∧
      w1.data.dataflags = w.data.dataflags ∧ w1.trace = w.trace ∧
      w1.data.ticketer = if w.data.freeticket_counter = 0
        then (w.data.ticketer + 1) % 2 ^ 64 else w.data.ticketer := by
  unfold fuse_ticket_fetch at hr
  split at hr
  · rename_i hz
    split at hr
    · simp at hr
    · simp at hr
    · rename_i ftick w1 ha
      split at hr
      · simp at hr
      · obtain ⟨hq, _⟩ := fuse_ticket_fetch_gate_ret hr
        subst hq
        obtain ⟨_, _, t, b, _, _, rfl⟩ := fticket_alloc_ret ha
        exact ⟨_, hr, rfl, rfl, by rw [if_pos hz]; rfl⟩
  · rename_i hz
    split at hr
    · simp at hr
    · simp at hr
    · rename_i ftick w1 ha
      split at hr
      · simp at hr
      · rename_i hne
        obtain ⟨hq, _⟩ := fuse_ticket_fetch_gate_ret hr
        subst hq
        rcases fuse_pop_freeticks_ret ha with ⟨_, h0, _⟩ | ⟨rest, hf, rfl⟩
        · exact absurd h0 hne
        · exact ⟨_, hr, rfl, rfl, by rw [if_neg hz]⟩

/-- C12 (as amended): on a session whose handshake has not completed
(`FSESS_INITED` clear), a returning `fuse_ticket_fetch` has blocked on the
bootstrap gate exactly when, the ticket it may have allocated counted,
`ticketer` exceeds 1: the fetches that allocate the first ticket or reuse it
from the free list do not block, every fetch made once a second ticket has
been allocated does. The counter `ticketer` moves (by one, in 64 bits) only
when the fetch allocates. -/
theorem fetch_blocks_iff (K : Config) (w w' : World) (p : Nat)
    (hinit : w.data.dataflags &&& K.FSESS_INITED = 0)
    (hr : fuse_ticket_fetch K w = .ret p w') :
    (w'.data.ticketer = if w.data.freeticket_counter = 0
      then (w.data.ticketer + 1) % 2 ^ 64 else w.data.ticketer) ∧
    ∃ new, w'.trace = w.trace ++ new ∧
      (Event.msleep Chan.ticketer ∈ new ↔ 1 < w'.data.ticketer) := by
  obtain ⟨w1, hg, hfl, htr, htk⟩ := fuse_ticket_fetch_pre_gate hr
  obtain ⟨g1, new, g2, g3⟩ := fuse_ticket_fetch_gate_blocks hg
  refine ⟨g1.trans htk, new, by rw [g2, htr], ?_⟩
  rw [g3, g1, hfl]
  exact ⟨fun h => h.2, fun h => ⟨hinit, h⟩⟩

/-- Witness of `fetch_blocks_iff`: the second fetch of a session, which
allocates a second ticket and sleeps on the gate. -/
theorem fetch_blocks_iff_witness :
    demo2.data.dataflags &&& sample.FSESS_INITED = 0 ∧
    fuse_ticket_fetch sample demo2 = .ret 12288 demo4 ∧
    demo4.data.ticketer = 2 ∧
    ∃ new, demo4.trace = demo2.trace ++ new ∧
      (Event.msleep Chan.ticketer ∈ new ↔ 1 < demo4.data.ticketer) :=
  ⟨rfl, rfl, rfl, (fetch_blocks_iff sample demo2 demo4 12288 rfl rfl).2⟩

/-- C12 counterexample: the session `demo3` has not completed its handshake,
and has been through a first `fuse_ticket_fetch` and the drop of that ticket;
the fetch that follows reuses the ticket from the free list and returns with
no sleep on any channel. -/
theorem fetch_reuse_does_not_block :
    fuse_ticket_fetch sample demo1 = .ret 8192 demo2 ∧
    fuse_ticket_drop sample demo2 8192 = .ret () demo3 ∧
    demo3.data.dataflags &&& sample.FSESS_INITED = 0 ∧
    ∃ w', fuse_ticket_fetch sample demo3 = .ret 8192 w' ∧
      w'.trace = demo3.trace ∧ w'.sleeps = demo3.sleeps ∧ w'.data.ticketer = 1 :=
  ⟨rfl, rfl, rfl, _, rfl, rfl, rfl, rfl⟩

theorem fuse_setup_ihead_post (K : Config) (w : World) (q : Nat) (t0 t : fuse_ticket)
    (nid : Nat) (op : fuse_opcode) (n size : Nat) (context : Option Identity)
    (cur : Identity) (h0 : w.tick q = some t0) (hlen : t.tk_ms_fiov.len = size) :
    ∃ t' h b0, (w.setTick q (fuse_setup_ihead K t nid op n context cur)).tick q = some t' ∧
      t'.tk_ms_fiov.len = size ∧
      t'.tk_ms_fiov.base = K.ihead_store h b0 ∧
      h.len = (K.sizeof_fuse_in_header + n) % 2 ^ 32 ∧
      h.unique = t'.tk_unique ∧ h.nodeid = nid ∧ h.opcode = op := by
  refine ⟨fuse_setup_ihead K t nid op n context cur, _, t.tk_ms_fiov.base, ?_, hlen, rfl,
    rfl, rfl, rfl, rfl⟩
  rw [tick_setTick, if_pos rfl, h0]
  rfl

theorem fiov_realloc_canfail_len {K : Config} {w w' : World} {n : Nat} {f f' : fuse_iov}
    (h : fiov_realloc_canfail K w f n = .ret (0, f') w') : f'.len = n := by
  rcases fiov_realloc_canfail_cases K w f n with ⟨_, e⟩ | ⟨m, _, e⟩
  · rw [e] at h
    simp only [Outcome.ret.injEq, Prod.mk.injEq] at h
    exact absurd h.1.1 (by decide)
  · rw [e] at h
    simp only [Outcome.ret.injEq, Prod.mk.injEq] at h
    rw [← h.1.2]

theorem fiov_adjust_canfail_len {K : Config} {w w' : World} {n : Nat} {f f' : fuse_iov}
    (h : fiov_adjust_canfail K w f n = .ret (0, f') w') : f'.len = n := by
  by_cases hr : fiov_reallocs K f n
  · rcases fiov_adjust_canfail_of_reallocs (w := w) hr with e | e
    · exact fiov_realloc_canfail_len (e ▸ h)
    · exact fiov_realloc_canfail_len (e ▸ h)
  · rw [fiov_adjust_canfail_of_not_reallocs hr] at h
    simp only [Outcome.ret.injEq, Prod.mk.injEq] at h
    rw [← h.1.2]

/-- C13: when `sizeof(fuse_in_header) + n` fits a `size_t`, after `fdisp_make`,
or after `fdisp_make_canfail` returning 0, with opcode `op`, node id `nid` and
body size `n` (the `iosize` of the dispatcher), the send buffer of the ticket
of the dispatcher has length `sizeof(fuse_in_header) + n`, the header stored
at its start has `len = (sizeof(fuse_in_header) + n) mod 2^32`, `unique` equal
to the ticket's `tk_unique`, `nodeid = nid` and `opcode = op`, the header
pointer is the start of the buffer and the body pointer is
`sizeof(fuse_in_header)` bytes into it. -/
theorem fdisp_make_spec (K : Config) (w : World) (fdip : fuse_dispatcher) (op : fuse_opcode)
    (nid : Nat) (context : Option Identity) (cur : Identity)
    (hfit : K.sizeof_fuse_in_header + fdip.iosize < 2 ^ K.word_bits) :
    (∀ fdip' w', fdisp_make K w fdip op nid context cur = .ret fdip' w' →
      fdip'.finh = 0 ∧ fdip'.indata = K.sizeof_fuse_in_header ∧
      ∃ t' h b0, w'.tick fdip'.tick = some t' ∧
        t'.tk_ms_fiov.len = K.sizeof_fuse_in_header + fdip.iosize ∧
        t'.tk_ms_fiov.base = K.ihead_store h b0 ∧
        h.len = (K.sizeof_fuse_in_header + fdip.iosize) % 2 ^ 32 ∧
        h.unique = t'.tk_unique ∧ h.nodeid = nid ∧ h.opcode = op) ∧
    (∀ fdip' w', fdisp_make_canfail K w fdip op nid context cur = .ret (0, fdip') w' →
      fdip'.finh = 0 ∧ fdip'.indata = K.sizeof_fuse_in_header ∧
      ∃ t' h b0, w'.tick fdip'.tick = some t' ∧
        t'.tk_ms_fiov.len = K.sizeof_fuse_in_header + fdip.iosize ∧
        t'.tk_ms_fiov.base = K.ihead_store h b0 ∧
        h.len = (K.sizeof_fuse_in_header + fdip.iosize) % 2 ^ 32 ∧
        h.unique = t'.tk_unique ∧ h.nodeid = nid ∧ h.opcode = op) := by
  have hmod : (K.sizeof_fuse_in_header + fdip.iosize) % 2 ^ K.word_bits =
      K.sizeof_fuse_in_header + fdip.iosize := Nat.mod_eq_of_lt hfit
  constructor
  · intro fdip' w' h
    unfold fdisp_make at h
    split at h
    · simp at h
    · simp at h
    · rename_i q w1 hq
      split at h
      · simp at h
      · rename_i t ht
        split at h
        · simp at h
        · simp at h
        · rename_i ms w2 ha
          obtain ⟨b, rfl⟩ := fiov_adjust_ret ha
          have hl := fiov_adjust_len ha
          rw [hmod] at hl
          simp only [Outcome.ret.injEq] at h
          obtain ⟨rfl, rfl⟩ := h
          exact ⟨rfl, rfl, fuse_setup_ihead_post K _ q t _ nid op fdip.iosize _ context cur
            ht hl⟩
  · intro fdip' w' h
    unfold fdisp_make_canfail at h
    split at h
    · simp at h
    · simp at h
    · rename_i q w1 hq
      split at h
      · simp at h
      · rename_i t ht
        split at h
        · simp at h
        · simp at h
        · rename_i failed ms w2 ha
          obtain ⟨b, rfl⟩ := fiov_adjust_canfail_ret ha
          simp only at h
          split at h
          · rename_i hf
            split at h
            · simp at h
            · simp at h
            · simp only [Outcome.ret.injEq, Prod.mk.injEq] at h
              exact absurd h.1.1 hf
          · rename_i hf
            have hf0 : failed = 0 := not_not.1 hf
            subst hf0
            have hl := fiov_adjust_canfail_len ha
            rw [hmod] at hl
            simp only [Outcome.ret.injEq, Prod.mk.injEq, true_and] at h
            obtain ⟨rfl, rfl⟩ := h
            rw [setTick_setTick]
            exact ⟨rfl, rfl, fuse_setup_ihead_post K _ q t _ nid op fdip.iosize _ context cur
              ht hl⟩

/-- Witness of `fdisp_make_spec`: the `FUSE_INIT` request of `demo_init`, whose
header fields are read back from the bytes of the send buffer. -/
theorem fdisp_make_spec_witness :
    sample.sizeof_fuse_in_header + (demo_fdi 16).iosize < 2 ^ sample.word_bits ∧
    fdisp_make sample demo1 (demo_fdi 16) .FUSE_INIT 0 none ⟨1, 0, 0⟩ =
      .ret { demo_fdi 16 with tick := 8192, indata := 40 } demo_init ∧
    (∃ t' h b0, demo_init.tick 8192 = some t' ∧
      t'.tk_ms_fiov.len = sample.sizeof_fuse_in_header + 16 ∧
      t'.tk_ms_fiov.base = sample.ihead_store h b0 ∧
      h.len = (sample.sizeof_fuse_in_header + 16) % 2 ^ 32 ∧
      h.unique = t'.tk_unique ∧ h.nodeid = 0 ∧ h.opcode = .FUSE_INIT) ∧
    (demo_init.tickD 8192).tk_ms_fiov.len = 56 ∧
    (sample.ihead_load (demo_init.tickD 8192).tk_ms_fiov.base).len = 56 ∧
    (sample.ihead_load (demo_init.tickD 8192).tk_ms_fiov.base).unique =
      (demo_init.tickD 8192).tk_unique ∧
    (sample.ihead_load (demo_init.tickD 8192).tk_ms_fiov.base).opcode = .FUSE_INIT :=
  ⟨by decide, rfl,
    ((fdisp_make_spec sample demo1 (demo_fdi 16) .FUSE_INIT 0 none ⟨1, 0, 0⟩ (by decide)).1
      { demo_fdi 16 with tick := 8192, indata := 40 } demo_init rfl).2.2,
    rfl, rfl, rfl, rfl⟩

theorem RegInv.reg_keep {w w' : World} (h : RegInv w)
    (ha : w'.data.alltickets_head = w.data.alltickets_head)
    (hl : ∀ q, (∃ t, w.tick q = some t) → ∃ t', w'.tick q = some t') : RegInv w' where
  all_nodup := by rw [ha]; exact h.all_nodup
  all_live := by
    rw [ha]
    exact fun p hp => hl p (h.all_live p hp)

theorem RegInv.reg_setTick_blocks {w : World} (h : RegInv w)
    (b : List (Option (List Nat))) (p : Nat) (t' : fuse_ticket) :
    RegInv (({ w with blocks := b } : World).setTick p t') :=
  h.reg_keep rfl (fun q hq => (live_setTick_blocks w b p q t').mpr hq)

theorem RegInv.reg_setTick {w : World} (h : RegInv w) (p : Nat) (t' : fuse_ticket) :
    RegInv (w.setTick p t') :=
  h.reg_setTick_blocks w.blocks p t'

theorem RegInv.reg_destroy {w : World} (h : RegInv w) (p : Nat) :
    RegInv (fticket_destroy (fuse_remove_allticks w p) p) ∧
    p ∉ (fticket_destroy (fuse_remove_allticks w p) p).data.alltickets_head := by
  have hmem : ∀ q, q ∈ w.data.alltickets_head.erase p ↔ q ≠ p ∧ q ∈ w.data.alltickets_head :=
    fun q => h.all_nodup.mem_erase_iff
  refine ⟨⟨h.all_nodup.erase p, fun q hq => ?_⟩, fun hp => ?_⟩
  · obtain ⟨hne, hq'⟩ := (hmem q).1 hq
    rw [tick_destroy, if_neg hne]
    exact h.all_live q hq'
  · exact ((hmem p).1 hp).1 rfl

theorem fuse_ticket_fetch_regInv {K : Config} {w w' : World} {p : Nat}
    (h : RegInv w) (hr : fuse_ticket_fetch K w = .ret p w')
    (hfresh : w.data.freeticket_counter = 0 → Fresh K w p) : RegInv w' := by
  obtain ⟨hne, ⟨hc, _, t, b, fl, tr, sl, _, _, rfl⟩ | ⟨hc, rest, fl, tr, sl, hf, rfl⟩⟩ :=
    fuse_ticket_fetch_ret hr
  · have hnl : ¬ ∃ t, w.tick p = some t := fun hl =>
      (hfresh hc).1 ((mem_live_iff w p).2 hl)
    constructor
    · show (w.data.alltickets_head ++ [p]).Nodup
      rw [List.nodup_append]
      refine ⟨h.all_nodup, List.nodup_singleton p, ?_⟩
      intro a ha hb'
      rw [List.mem_singleton] at hb'
      subst hb'
      exact hnl (h.all_live a ha)
    · intro q hq
      have hq' : q ∈ w.data.alltickets_head ++ [p] := hq
      simp only [World.tick, lookup_cons_eq]
      by_cases hqp : q = p
      · simp [hqp]
      · rw [if_neg hqp]
        rcases List.mem_append.1 hq' with h1 | h1
        · exact h.all_live q h1
        · exact absurd (List.mem_singleton.1 h1) hqp
  · exact h.reg_keep rfl (fun q hq => hq)

theorem fticket_refresh_regInv {K : Config} {w w' : World} {p : Nat} {u : Unit}
    (h : RegInv w) (hr : fticket_refresh K w p = .ret u w') : RegInv w' := by
  obtain ⟨t, ms, aw, b, _, _, _, rfl⟩ := fticket_refresh_ret hr
  exact h.reg_setTick_blocks b p _

theorem fdisp_ticket_regInv {K : Config} {w w' : World} {fdip : fuse_dispatcher}
    {q : Nat} (h : RegInv w) (hr : fdisp_ticket K w fdip = .ret q w')
    (hfresh : fdip.tick = 0 → w.data.freeticket_counter = 0 → Fresh K w q) :
    RegInv w' := by
  obtain ⟨_, ⟨hk, rfl, hrr⟩ | ⟨hk, hrr⟩⟩ := fdisp_ticket_ret hr
  · exact fticket_refresh_regInv h hrr
  · exact fuse_ticket_fetch_regInv h hrr (hfresh hk)

theorem step_regInv {K : Config} {w w' : World} (h : RegInv w) (hs : Step K w w') :
    RegInv w' := by
  cases hs with
  | fetch _ p hr hfresh => exact fuse_ticket_fetch_regInv h hr hfresh
  | drop _ p hheld hr =>
    obtain ⟨t, ht, ⟨_, rfl⟩ | ⟨_, ms, aw, b, _, _, rfl⟩⟩ := fuse_ticket_drop_ret hr
    · exact (h.reg_destroy p).1
    · exact (h.reg_setTick_blocks b p _).reg_keep rfl (fun q hq => hq)
  | kill _ p hheld hr =>
    obtain ⟨_, rfl⟩ := fuse_ticket_kill_ret hr
    exact (h.reg_destroy p).1
  | insert_callback _ p handler _ hr =>
    obtain ⟨t, _, rfl | rfl⟩ := fuse_insert_callback_ret hr
    · exact h
    · exact (h.reg_setTick p _).reg_keep rfl (fun q hq => hq)
  | insert_message _ p _ hr =>
    obtain ⟨t, _, _, rfl | rfl⟩ := fuse_insert_message_ret hr
    · exact h.reg_setTick p _
    · exact (h.reg_setTick p _).reg_keep rfl (fun q hq => hq)
  | insert_message_head _ p _ hr =>
    obtain ⟨t, _, _, rfl | rfl⟩ := fuse_insert_message_head_ret hr
    · exact h.reg_setTick p _
    · exact (h.reg_setTick p _).reg_keep rfl (fun q hq => hq)
  | set_dead =>
    obtain ⟨fl, tr, hd⟩ := fdata_set_dead_world K w
    rw [hd]
    exact h.reg_keep rfl (fun q hq => hq)
  | disp_make _ fdip fdip' op nid context cur hr hfresh =>
    obtain ⟨q, w1, t, t', b, hq, _, _, hk, rfl⟩ := fdisp_make_ret hr
    exact (fdisp_ticket_regInv h hq (hk ▸ hfresh)).reg_setTick_blocks b q t'
  | disp_make_canfail _ fdip fdip' op nid context cur err hr hheld hfresh =>
    obtain ⟨q, w1, t, t', b, hq, _, _, hk, rfl | rfl⟩ := fdisp_make_canfail_ret hr
    · exact (fdisp_ticket_regInv h hq (hk ▸ hfresh)).reg_setTick_blocks b q t'
    · exact (((fdisp_ticket_regInv h hq (hk ▸ hfresh)).reg_setTick_blocks b q t').reg_destroy
        q).1

theorem reachable_regInv {K : Config} {G : World → World → Prop} {w : World}
    (h : Reachable K G w) : RegInv w := by
  induction h with
  | init w0 w pid h0 hr =>
    obtain ⟨hh, _, _, _, _, _, ha, _⟩ := fdata_alloc_ret hr
    refine ⟨by rw [ha]; exact List.nodup_nil, ?_⟩
    rw [ha]
    simp
  | step w w' _ hs _ ih => exact step_regInv ih hs

theorem fiov_adjust_canfail_err {K : Config} {w w' : World} {n e : Nat} {f f' : fuse_iov}
    (h : fiov_adjust_canfail K w f n = .ret (e, f') w') : e = 0 ∨ e = ENOMEM := by
  have key : ∀ f0 : fuse_iov, fiov_realloc_canfail K w f0 n = .ret (e, f') w' →
      e = 0 ∨ e = ENOMEM := by
    intro f0 h0
    rcases fiov_realloc_canfail_cases K w f0 n with ⟨_, e1⟩ | ⟨m, _, e1⟩
    · rw [e1] at h0
      simp only [Outcome.ret.injEq, Prod.mk.injEq] at h0
      exact Or.inr h0.1.1.symm
    · rw [e1] at h0
      simp only [Outcome.ret.injEq, Prod.mk.injEq] at h0
      exact Or.inl h0.1.1.symm
  by_cases hr : fiov_reallocs K f n
  · rcases fiov_adjust_canfail_of_reallocs (w := w) hr with e1 | e1
    · exact key _ (e1 ▸ h)
    · exact key _ (e1 ▸ h)
  · rw [fiov_adjust_canfail_of_not_reallocs hr] at h
    simp only [Outcome.ret.injEq, Prod.mk.injEq] at h
    exact Or.inl h.1.1.symm

theorem fdisp_ticket_data {K : Config} {w w' : World} {fdip : fuse_dispatcher} {q : Nat}
    (hr : fdisp_ticket K w fdip = .ret q w') :
    w'.data.deadticket_counter = w.data.deadticket_counter ∧
    w'.data.ms_head = w.data.ms_head ∧ w'.data.aw_head = w.data.aw_head := by
  obtain ⟨_, ⟨hk, rfl, hrr⟩ | ⟨hk, hrr⟩⟩ := fdisp_ticket_ret hr
  · obtain ⟨t, ms, aw, b, _, _, _, rfl⟩ := fticket_refresh_ret hrr
    exact ⟨rfl, rfl, rfl⟩
  · obtain ⟨hne, ⟨hc, _, t, b, fl, tr, sl, _, _, rfl⟩ | ⟨hc, rest, fl, tr, sl, hf, rfl⟩⟩ :=
      fuse_ticket_fetch_ret hrr
    · exact ⟨rfl, rfl, rfl⟩
    · exact ⟨rfl, rfl, rfl⟩

/-- C14 (as amended): in a session state reached from `fdata_alloc` (on a
machine of at most 32 bits), when `fdisp_make_canfail`, called by a caller that
holds the ticket of the dispatcher if there is one, returns a non-zero error,
the error is `ENOMEM`, and the ticket the call worked on is freed, is no longer
in the all-tickets registry, is not on the free list, and `deadticket_counter`
is one higher (in 32 bits): no live ticket is reachable from the dispatcher,
whose `tick` field still holds the address of the freed ticket.  The two
queues are as they were before the call: the ticket is on a queue after the
call exactly when it was on it before. -/
theorem fdisp_make_canfail_enomem (K : Config) (G : World → World → Prop) (w w' : World)
    (fdip fdip' : fuse_dispatcher) (op : fuse_opcode) (nid : Nat)
    (context : Option Identity) (cur : Identity) (err : Nat)
    (hb : K.word_bits ≤ 32) (hreach : Reachable K G w)
    (hheld : fdip.tick ≠ 0 → Held w fdip.tick)
    (hfresh : fdip.tick = 0 → w.data.freeticket_counter = 0 → Fresh K w fdip'.tick)
    (hr : fdisp_make_canfail K w fdip op nid context cur = .ret (err, fdip') w')
    (herr : err ≠ 0) :
    err = ENOMEM ∧ fdip'.tick ≠ 0 ∧ w'.tick fdip'.tick = none ∧
    fdip'.tick ∉ w'.data.alltickets_head ∧
    fdip'.tick ∉ w'.data.freetickets_head ∧
    w'.data.ms_head = w.data.ms_head ∧ w'.data.aw_head = w.data.aw_head ∧
    (fdip'.tick ∈ w'.data.ms_head ↔ fdip'.tick ∈ w.data.ms_head) ∧
    (fdip'.tick ∈ w'.data.aw_head ↔ fdip'.tick ∈ w.data.aw_head) ∧
    w'.data.deadticket_counter = (w.data.deadticket_counter + 1) % 2 ^ 32 := by
  have hfree := reachable_freeInv hb hreach
  have hreg := reachable_regInv hreach
  unfold fdisp_make_canfail at hr
  split at hr
  · simp at hr
  · simp at hr
  · rename_i q w1 hq
    split at hr
    · simp at hr
    · rename_i t ht
      split at hr
      · simp at hr
      · simp at hr
      · rename_i failed ms w2 ha
        obtain ⟨b, rfl⟩ := fiov_adjust_canfail_ret ha
        simp only at hr
        split at hr
        · split at hr
          · simp at hr
          · simp at hr
          · rename_i u w4 hkill
            simp only [Outcome.ret.injEq, Prod.mk.injEq] at hr
            obtain ⟨⟨rfl, rfl⟩, rfl⟩ := hr
            obtain ⟨_, rfl⟩ := fuse_ticket_kill_ret hkill
            obtain ⟨d1, d2, d3⟩ := fdisp_ticket_data hq
            obtain ⟨f1, f2⟩ := fdisp_ticket_freeInv hb hfree hq hfresh
            have r1 := fdisp_ticket_regInv hreg hq hfresh
            have r2 := (r1.reg_setTick_blocks b q { t with tk_ms_fiov := ms }).reg_destroy q
            refine ⟨?_, (fdisp_ticket_ret hq).1, (tick_destroy _ q q).trans (if_pos rfl),
              r2.2, f2 (fun hne => (hheld hne).2), ?_, ?_, ?_, ?_, ?_⟩
            · rcases fiov_adjust_canfail_err ha with e0 | e0
              · exact absurd e0 herr
              · exact e0
            · show w1.data.ms_head = _
              exact d2
            · show w1.data.aw_head = _
              exact d3
            · show q ∈ w1.data.ms_head ↔ _
              rw [d2]
            · show q ∈ w1.data.aw_head ↔ _
              rw [d3]
            · show (w1.data.deadticket_counter + 1) % 2 ^ 32 = _
              rw [d1]
        · rename_i hf
          simp only [Outcome.ret.injEq, Prod.mk.injEq] at hr
          exact absurd hr.1.1.symm herr

theorem demo_tight2_reachable : Reachable sample Always demo_tight2 :=
  .step demo_tight1 demo_tight2 (.init demo_tight0 demo_tight1 77 rfl rfl)
    (.fetch demo_tight1 demo_tight2 8192 rfl (fun _ => ⟨by decide, by decide⟩)) trivial

/-- Witness of `fdisp_make_canfail_enomem`: a request of 200 bytes on the ticket
of `demo_tight2`, whose buffer of 160 bytes the allocator refuses to grow. -/
theorem fdisp_make_canfail_enomem_witness :
    Held demo_tight2 8192 ∧
    fdisp_make_canfail sample demo_tight2 demo_fdi_held .FUSE_WRITE 1 none ⟨1, 0, 0⟩ =
      .ret (ENOMEM, demo_fdi_held) demo_tight3 ∧
    (ENOMEM = ENOMEM ∧ demo_fdi_held.tick ≠ 0 ∧ demo_tight3.tick demo_fdi_held.tick = none ∧
      demo_fdi_held.tick ∉ demo_tight3.data.alltickets_head ∧
      demo_fdi_held.tick ∉ demo_tight3.data.freetickets_head ∧
      demo_tight3.data.ms_head = demo_tight2.data.ms_head ∧
      demo_tight3.data.aw_head = demo_tight2.data.aw_head ∧
      (demo_fdi_held.tick ∈ demo_tight3.data.ms_head ↔
        demo_fdi_held.tick ∈ demo_tight2.data.ms_head) ∧
      (demo_fdi_held.tick ∈ demo_tight3.data.aw_head ↔
        demo_fdi_held.tick ∈ demo_tight2.data.aw_head) ∧
      demo_tight3.data.deadticket_counter =
        (demo_tight2.data.deadticket_counter + 1) % 2 ^ 32) ∧
    demo_tight3.data.deadticket_counter = 1 ∧ demo_tight3.data.ms_head = [] :=
  ⟨⟨by decide, by decide⟩, rfl,
    fdisp_make_canfail_enomem sample Always demo_tight2 demo_tight3 demo_fdi_held demo_fdi_held
      .FUSE_WRITE 1 none ⟨1, 0, 0⟩ ENOMEM (by decide) demo_tight2_reachable
      (fun _ => ⟨by decide, by decide⟩) (fun h => absurd h (by decide)) rfl (by decide),
    rfl, rfl⟩

theorem demo_tight2q_reachable : Reachable sample Always demo_tight2q :=
  .step demo_tight2 demo_tight2q demo_tight2_reachable
    (.insert_message demo_tight2 demo_tight2q 8192 (by decide) rfl) trivial

/-- C14 (counterexample): the ticket at 8192, held by the caller, has been put
on the pending-send queue by `fuse_insert_message` and not been read by the
daemon; the caller reuses its dispatcher for a request of 200 bytes and the
allocator refuses to grow the send buffer.  `fdisp_make_canfail` returns
`ENOMEM` and the ticket is destroyed and off the registry, but its address is
still on the pending-send queue. -/
theorem killed_ticket_stays_queued :
    Reachable sample Always demo_tight2q ∧ Held demo_tight2q 8192 ∧
    demo_tight2q.data.ms_head = [8192] ∧
    fdisp_make_canfail sample demo_tight2q demo_fdi_held .FUSE_WRITE 1 none ⟨1, 0, 0⟩ =
      .ret (ENOMEM, demo_fdi_held) demo_tight3q ∧
    demo_tight3q.tick 8192 = none ∧ 8192 ∉ demo_tight3q.data.alltickets_head ∧
    demo_tight3q.data.deadticket_counter = 1 ∧
    8192 ∈ demo_tight3q.data.ms_head :=
  ⟨demo_tight2q_reachable, ⟨by decide, by decide⟩, rfl, rfl, rfl, by decide, rfl, by decide⟩

theorem or_and_self_bits (x a : Nat) : (x ||| a) &&& a = a := by
  apply Nat.eq_of_testBit_eq
  intro i
  simp only [Nat.testBit_and, Nat.testBit_or]
  cases x.testBit i <;> cases a.testBit i <;> rfl

theorem fticket_set_answered_answered (K : Config) (t : fuse_ticket) (hbit : K.FT_ANSW ≠ 0) :
    fticket_answered K (fticket_set_answered K t) = true := by
  unfold fticket_answered fticket_set_answered
  simp only [or_and_self_bits]
  exact decide_eq_true hbit

/-- C20: for a live ticket, whatever the other threads, the alert panel and the
environment would do: if the ticket is already answered `fticket_wait_answer`
returns 0 and leaves the state as it is, the log of sleeps included, whatever
the session state; if the ticket is not answered and the session is dead it
returns `ENOTCONN`, the only change being `fticket_set_answered` on the ticket
(no sleep is logged, no answer of the environment is consumed), which leaves
the ticket answered when the bit `FT_ANSW` is non-zero. -/
theorem fticket_wait_answer_no_sleep (K : Config) (during : World → World) (cur : Identity)
    (alerts : List (Nat × Nat)) (w : World) (p : Nat) (t : fuse_ticket)
    (ht : w.tick p = some t) :
    (fticket_answered K t = true →
      fticket_wait_answer K during cur alerts w p = .ret 0 w) ∧
    (fticket_answered K t = false → fdata_dead_get K w.data ≠ 0 →
      fticket_wait_answer K during cur alerts w p =
        .ret ENOTCONN (w.setTick p (fticket_set_answered K t)) ∧
      (w.setTick p (fticket_set_answered K t)).tick p = some (fticket_set_answered K t) ∧
      (w.setTick p (fticket_set_answered K t)).trace = w.trace ∧
      (w.setTick p (fticket_set_answered K t)).sleeps = w.sleeps ∧
      (w.setTick p (fticket_set_answered K t)).data = w.data ∧
      (K.FT_ANSW ≠ 0 → fticket_answered K (fticket_set_answered K t) = true)) := by
  have htick : (w.setTick p (fticket_set_answered K t)).tick p =
      some (fticket_set_answered K t) := by
    rw [tick_setTick, if_pos rfl, ht]
    rfl
  constructor
  · intro ha
    unfold fticket_wait_answer
    simp only [ht, ha, if_true]
    unfold fticket_wait_answer_out
    simp only [ht, ha]
    simp
  · intro ha hd
    refine ⟨?_, htick, rfl, rfl, rfl, fticket_set_answered_answered K t⟩
    unfold fticket_wait_answer
    simp only [ht, ha]
    rw [if_neg (by simp), if_pos hd]
    unfold fticket_wait_answer_out
    simp only [htick]
    simp [ENOTCONN]

/-- Witness of `fticket_wait_answer_no_sleep`: the unanswered ticket of the
dead session `demo_dead`, and the answered ticket of `demo_answered`. -/
theorem fticket_wait_answer_no_sleep_witness :
    demo_dead.tick 8192 = some (demo_dead.tickD 8192) ∧
    fticket_answered sample (demo_dead.tickD 8192) = false ∧
    fdata_dead_get sample demo_dead.data ≠ 0 ∧
    fticket_wait_answer sample id ⟨1, 0, 0⟩ [] demo_dead 8192 =
      .ret ENOTCONN (demo_dead.setTick 8192 (fticket_set_answered sample (demo_dead.tickD 8192))) ∧
    demo_answered.tick 8192 = some (demo_answered.tickD 8192) ∧
    fticket_answered sample (demo_answered.tickD 8192) = true ∧
    fdata_dead_get sample demo_answered.data = 0 ∧
    fticket_wait_answer sample id ⟨1, 0, 0⟩ [] demo_answered 8192 = .ret 0 demo_answered :=
  ⟨rfl, rfl, by decide,
    ((fticket_wait_answer_no_sleep sample id ⟨1, 0, 0⟩ [] demo_dead 8192 (demo_dead.tickD 8192)
      rfl).2 rfl (by decide)).1,
    rfl, rfl, rfl,
    (fticket_wait_answer_no_sleep sample id ⟨1, 0, 0⟩ [] demo_answered 8192
      (demo_answered.tickD 8192) rfl).1 rfl⟩

theorem fuse_msleep_consumes (w : World) (c : Chan) (h : (fuse_msleep w c).1 ≠ 0) :
    (fuse_msleep w c).2.sleeps.length + 1 = w.sleeps.length := by
  unfold fuse_msleep at h ⊢
  rcases hs : w.sleeps with _ | ⟨e, rest⟩
  · simp [hs] at h
  · simp [hs, World.emit]

theorem fuse_msleep_sleeps_le (w : World) (c : Chan) :
    (fuse_msleep w c).2.sleeps.length ≤ w.sleeps.length := by
  unfold fuse_msleep
  rcases hs : w.sleeps with _ | ⟨e, rest⟩
  · simp [hs, World.emit]
  · simp [hs, World.emit]

theorem fticket_wait_answer_sleep_cases (K : Config) (during : World → World) (p : Nat)
    (w : World) (alerts : List (Nat × Nat)) :
    let w1 := others during (fuse_msleep w (.ticket p)).2
    let e := (fuse_msleep w (.ticket p)).1
    (e = EAGAIN ∧ w1.data.dataflags &&& K.FSESS_NO_ALERTS ≠ 0 ∧
      fticket_wait_answer_sleep K during p w alerts = .alreadydead
        { w1 with data := { w1.data with timeout_status := K.FUSE_DAEMON_TIMEOUT_DEAD } }) ∨
    (e = EAGAIN ∧ w1.data.dataflags &&& K.FSESS_NO_ALERTS = 0 ∧
      w1.data.timeout_status = K.FUSE_DAEMON_TIMEOUT_NONE ∧
      fticket_wait_answer_sleep K during p w alerts = .alert
        { w1 with data :=
          { w1.data with timeout_status := K.FUSE_DAEMON_TIMEOUT_PROCESSING } } alerts) ∨
    (e = EAGAIN ∧ w1.data.dataflags &&& K.FSESS_NO_ALERTS = 0 ∧
      w1.data.timeout_status ≠ K.FUSE_DAEMON_TIMEOUT_NONE ∧
      (w1.data.timeout_status = K.FUSE_DAEMON_TIMEOUT_PROCESSING ∨
        w1.data.timeout_status ≠ K.FUSE_DAEMON_TIMEOUT_DEAD) ∧
      fticket_wait_answer_sleep K during p w alerts = .again w1 alerts) ∨
    (e = EAGAIN ∧ w1.data.dataflags &&& K.FSESS_NO_ALERTS = 0 ∧
      w1.data.timeout_status ≠ K.FUSE_DAEMON_TIMEOUT_NONE ∧
      w1.data.timeout_status ≠ K.FUSE_DAEMON_TIMEOUT_PROCESSING ∧
      w1.data.timeout_status = K.FUSE_DAEMON_TIMEOUT_DEAD ∧
      fticket_wait_answer_sleep K during p w alerts = .alreadydead w1) ∨
    (e ≠ EAGAIN ∧ K.M_MACFUSE_ENABLE_INTERRUPT = true ∧ e = EINTR ∧
      fticket_wait_answer_sleep K during p w alerts = .interrupt w1 e) ∨
    (e ≠ EAGAIN ∧ ¬ (K.M_MACFUSE_ENABLE_INTERRUPT = true ∧ e = EINTR) ∧
      fticket_wait_answer_sleep K during p w alerts = .out w1 e) := by
  intro w1 e
  unfold fticket_wait_answer_sleep
  simp only []
  by_cases h1 : (fuse_msleep w (.ticket p)).1 = EAGAIN
  · rw [if_pos h1]
    by_cases h2 : (others during (fuse_msleep w (.ticket p)).2).data.dataflags &&&
        K.FSESS_NO_ALERTS ≠ 0
    · rw [if_pos h2]
      exact Or.inl ⟨h1, h2, rfl⟩
    · rw [if_neg h2]
      have h2' := not_not.1 h2
      by_cases h3 : (others during (fuse_msleep w (.ticket p)).2).data.timeout_status =
          K.FUSE_DAEMON_TIMEOUT_NONE
      · rw [if_pos h3]
        exact Or.inr (Or.inl ⟨h1, h2', h3, rfl⟩)
      · rw [if_neg h3]
        by_cases h4 : (others during (fuse_msleep w (.ticket p)).2).data.timeout_status =
            K.FUSE_DAEMON_TIMEOUT_PROCESSING
        · rw [if_pos h4]
          exact Or.inr (Or.inr (Or.inl ⟨h1, h2', h3, Or.inl h4, rfl⟩))
        · rw [if_neg h4]
          by_cases h5 : (others during (fuse_msleep w (.ticket p)).2).data.timeout_status =
              K.FUSE_DAEMON_TIMEOUT_DEAD
          · rw [if_pos h5]
            exact Or.inr (Or.inr (Or.inr (Or.inl ⟨h1, h2', h3, h4, h5, rfl⟩)))
          · rw [if_neg h5]
            exact Or.inr (Or.inr (Or.inl ⟨h1, h2', h3, Or.inr h5, rfl⟩))
  · rw [if_neg h1]
    by_cases h6 : K.M_MACFUSE_ENABLE_INTERRUPT = true ∧ (fuse_msleep w (.ticket p)).1 = EINTR
    · rw [if_pos h6]
      exact Or.inr (Or.inr (Or.inr (Or.inr (Or.inl ⟨h1, h6.1, h6.2, rfl⟩))))
    · rw [if_neg h6]
      exact Or.inr (Or.inr (Or.inr (Or.inr (Or.inr ⟨h1, h6, rfl⟩))))

theorem fticket_wait_answer_alert_cases (K : Config) (w : World) (alerts : List (Nat × Nat)) :
    (∃ v al, fticket_wait_answer_alert K w alerts = .again v al ∧
      v.data.timeout_status = K.FUSE_DAEMON_TIMEOUT_NONE ∧
      v.data.dataflags = w.data.dataflags ∧ v.heap = w.heap ∧ v.sleeps = w.sleeps ∧
      v.trace = w.trace) ∨
    (∃ v, fticket_wait_answer_alert K w alerts = .alreadydead v ∧
      v.data.timeout_status = K.FUSE_DAEMON_TIMEOUT_DEAD ∧
      v.data.dataflags = w.data.dataflags ∧ v.heap = w.heap ∧ v.sleeps = w.sleeps ∧
      v.trace = w.trace) := by
  obtain ⟨rf, al2, hrf⟩ : ∃ rf al2, fticket_wait_answer_alert K w alerts =
      (if rf = kKUNCOtherResponse then
        alert_label.alreadydead
          { w with data := { w.data with timeout_status := K.FUSE_DAEMON_TIMEOUT_DEAD } }
      else if rf = kKUNCDefaultResponse ∨ rf = kKUNCAlternateResponse ∨
          rf = kKUNCCancelResponse then
        alert_label.again
          { w with data :=
            { w.data with
              timeout_status := K.FUSE_DAEMON_TIMEOUT_NONE,
              daemon_timeout_p :=
                if rf = kKUNCAlternateResponse then 0 else w.data.daemon_timeout_p } }
          al2
      else
        alert_label.alreadydead
          { w with data := { w.data with timeout_status := K.FUSE_DAEMON_TIMEOUT_DEAD } }) :=
    ⟨_, _, rfl⟩
  rw [hrf]
  by_cases h1 : rf = kKUNCOtherResponse
  · rw [if_pos h1]
    exact Or.inr ⟨_, rfl, rfl, rfl, rfl, rfl, rfl⟩
  · rw [if_neg h1]
    by_cases h2 : rf = kKUNCDefaultResponse ∨ rf = kKUNCAlternateResponse ∨
        rf = kKUNCCancelResponse
    · rw [if_pos h2]
      exact Or.inl ⟨_, _, rfl, rfl, rfl, rfl, rfl, rfl⟩
    · rw [if_neg h2]
      exact Or.inr ⟨_, rfl, rfl, rfl, rfl, rfl, rfl⟩

theorem others_sleeps (during : World → World) (w : World) :
    (others during w).sleeps = w.sleeps := rfl

theorem fticket_wait_answer_sleep_fuel (K : Config) (during : World → World) (p : Nat)
    (w : World) (alerts : List (Nat × Nat)) :
    (∀ v al, fticket_wait_answer_sleep K during p w alerts = .again v al →
      v.sleeps.length < w.sleeps.length) ∧
    (∀ v al, fticket_wait_answer_sleep K during p w alerts = .alert v al →
      v.sleeps.length < w.sleeps.length) := by
  have hc : (fuse_msleep w (.ticket p)).1 = EAGAIN →
      (others during (fuse_msleep w (.ticket p)).2).sleeps.length < w.sleeps.length := by
    intro he
    have := fuse_msleep_consumes w (.ticket p) (by rw [he]; decide)
    rw [others_sleeps]
    omega
  rcases fticket_wait_answer_sleep_cases K during p w alerts with
    ⟨_, _, e⟩ | ⟨he, _, _, e⟩ | ⟨he, _, _, _, e⟩ | ⟨_, _, _, _, _, e⟩ | ⟨_, _, _, e⟩ | ⟨_, _, e⟩
  all_goals (rw [e]; constructor <;> intro v al h <;> cases h)
  · exact hc he
  · exact hc he

theorem fticket_wait_answer_again_fuel (K : Config) (during : World → World) (cur : Identity)
    (p : Nat) (f1 : Nat) :
    ∀ (f2 : Nat) (w : World) (alerts : List (Nat × Nat)),
      w.sleeps.length < f1 → w.sleeps.length < f2 →
      fticket_wait_answer_again K during cur p f1 w alerts =
        fticket_wait_answer_again K during cur p f2 w alerts := by
  induction f1 with
  | zero => intro f2 w alerts h1; omega
  | succ n ih =>
    intro f2 w alerts h1 h2
    rcases f2 with _ | m
    · omega
    · obtain ⟨hs1, hs2⟩ := fticket_wait_answer_sleep_fuel K during p w alerts
      unfold fticket_wait_answer_again
      rcases hl : fticket_wait_answer_sleep K during p w alerts with
        ⟨v, al⟩ | ⟨v, al⟩ | v | ⟨v, e⟩ | ⟨v, e⟩
      · have := hs1 v al hl
        simp only []
        exact ih m v al (by omega) (by omega)
      · have := hs2 v al hl
        simp only []
        rcases fticket_wait_answer_alert_cases K v al with
          ⟨v', al', e1, _, _, _, hsl, _⟩ | ⟨v', e1, _⟩
        · rw [e1]
          simp only []
          exact ih m v' al' (by rw [hsl]; omega) (by rw [hsl]; omega)
        · rw [e1]
      · rfl
      · rfl
      · rfl

theorem fticket_wait_answer_out_err (K : Config) (w : World) (p err : Nat) (t : fuse_ticket)
    (ht : w.tick p = some t) (he : err ≠ 0) :
    fticket_wait_answer_out K w p err = .ret err w := by
  unfold fticket_wait_answer_out
  simp only [ht]
  rw [if_neg (by simp [he])]

theorem fticket_wait_answer_alreadydead_spec (K : Config) (v : World) (p : Nat)
    (hbit : K.FSESS_DEAD ≠ 0) (hans : K.FT_ANSW ≠ 0) :
    (∀ err w', fticket_wait_answer_alreadydead K v p = .ret err w' →
      err = ENOTCONN ∧ (∃ t', w'.tick p = some t' ∧ fticket_answered K t' = true) ∧
      fdata_dead_get K w'.data ≠ 0 ∧ w'.data.timeout_status = v.data.timeout_status) ∧
    (∀ t, v.tick p = some t → ∃ w', fticket_wait_answer_alreadydead K v p = .ret ENOTCONN w') := by
  obtain ⟨w1, hw1, hdead, hheap, hst⟩ : ∃ w1,
      w1 = (if fdata_dead_get K v.data = 0 then fdata_set_dead K v else v) ∧
      fdata_dead_get K w1.data ≠ 0 ∧ w1.heap = v.heap ∧
      w1.data.timeout_status = v.data.timeout_status := by
    refine ⟨_, rfl, ?_, ?_, ?_⟩
    · by_cases hd : fdata_dead_get K v.data = 0
      · rw [if_pos hd]
        exact fdata_set_dead_dead K v hbit
      · rw [if_neg hd]
        exact hd
    · by_cases hd : fdata_dead_get K v.data = 0
      · rw [if_pos hd]
        obtain ⟨fl, tr, e⟩ := fdata_set_dead_world K v
        rw [e]
      · rw [if_neg hd]
    · by_cases hd : fdata_dead_get K v.data = 0
      · rw [if_pos hd]
        obtain ⟨fl, tr, e⟩ := fdata_set_dead_world K v
        rw [e]
      · rw [if_neg hd]
  have htk : ∀ q, w1.tick q = v.tick q := fun q => by
    simp only [World.tick, hheap]
  have key : ∀ t, v.tick p = some t →
      fticket_wait_answer_alreadydead K v p =
        .ret ENOTCONN (w1.setTick p (fticket_set_answered K t)) := by
    intro t ht
    unfold fticket_wait_answer_alreadydead
    simp only [← hw1, htk, ht]
    refine fticket_wait_answer_out_err K _ p ENOTCONN (fticket_set_answered K t) ?_ (by decide)
    rw [tick_setTick, if_pos rfl, htk, ht]
    rfl
  constructor
  · intro err w' h
    rcases ht : v.tick p with _ | t
    · unfold fticket_wait_answer_alreadydead at h
      simp only [← hw1, htk, ht] at h
      cases h
    · rw [key t ht] at h
      simp only [Outcome.ret.injEq] at h
      obtain ⟨rfl, rfl⟩ := h
      refine ⟨rfl, ⟨fticket_set_answered K t, ?_, fticket_set_answered_answered K t hans⟩,
        hdead, hst⟩
      rw [tick_setTick, if_pos rfl, htk, ht]
      rfl
  · intro t ht
    exact ⟨_, key t ht⟩

/-- C21 (as amended): with `FSESS_NO_ALERTS` clear, a first missed deadline
does not fail the ticket at once: when the sleep of `fticket_wait_answer` times
out while `timeout_status` is idle the status moves to processing, the session
flags and the tickets being left alone, and the alert step that follows moves
it to idle (the call sleeps again) or to dead; with `FSESS_NO_ALERTS` set a
timed-out sleep moves the status straight to dead. These are the only moves:
after a sleep the status is unchanged, or has moved along idle to processing,
or (no alerts) to dead; from the alert the status moves from processing to
idle or dead; a dead status stays dead. After a sleep that timed out the call
sleeps again or leaves through `alreadydead`, which returns `ENOTCONN` with
the ticket answered and the session dead. The loop never runs out of steps. -/
theorem timeout_escalation (K : Config) (during : World → World) (cur : Identity) (p : Nat)
    (hnd : K.FUSE_DAEMON_TIMEOUT_NONE ≠ K.FUSE_DAEMON_TIMEOUT_DEAD)
    (hbit : K.FSESS_DEAD ≠ 0) (hans : K.FT_ANSW ≠ 0) :
    (∀ w alerts, (fuse_msleep w (.ticket p)).1 = EAGAIN →
      (others during (fuse_msleep w (.ticket p)).2).data.dataflags &&& K.FSESS_NO_ALERTS = 0 →
      (others during (fuse_msleep w (.ticket p)).2).data.timeout_status =
        K.FUSE_DAEMON_TIMEOUT_NONE →
      ∃ v, fticket_wait_answer_sleep K during p w alerts = .alert v alerts ∧
        v.data.timeout_status = K.FUSE_DAEMON_TIMEOUT_PROCESSING ∧
        v.data.dataflags = (others during (fuse_msleep w (.ticket p)).2).data.dataflags ∧
        v.heap = (others during (fuse_msleep w (.ticket p)).2).heap ∧
        ((∃ v3 al3, fticket_wait_answer_alert K v alerts = .again v3 al3 ∧
            v3.data.timeout_status = K.FUSE_DAEMON_TIMEOUT_NONE ∧
            v3.data.dataflags = v.data.dataflags ∧ v3.heap = v.heap) ∨
          (∃ v3, fticket_wait_answer_alert K v alerts = .alreadydead v3 ∧
            v3.data.timeout_status = K.FUSE_DAEMON_TIMEOUT_DEAD))) ∧
    (∀ w alerts,
      (fticket_wait_answer_sleep K during p w alerts).world.data.timeout_status =
        (others during (fuse_msleep w (.ticket p)).2).data.timeout_status ∨
      timeout_edge K (others during (fuse_msleep w (.ticket p)).2).data.timeout_status
        (fticket_wait_answer_sleep K during p w alerts).world.data.timeout_status ∨
      ((others during (fuse_msleep w (.ticket p)).2).data.dataflags &&& K.FSESS_NO_ALERTS ≠ 0 ∧
        (fticket_wait_answer_sleep K during p w alerts).world.data.timeout_status =
          K.FUSE_DAEMON_TIMEOUT_DEAD)) ∧
    (∀ v al, v.data.timeout_status = K.FUSE_DAEMON_TIMEOUT_PROCESSING →
      timeout_edge K v.data.timeout_status
        (fticket_wait_answer_alert K v al).world.data.timeout_status) ∧
    (∀ w alerts,
      (others during (fuse_msleep w (.ticket p)).2).data.timeout_status =
        K.FUSE_DAEMON_TIMEOUT_DEAD →
      (fticket_wait_answer_sleep K during p w alerts).world.data.timeout_status =
        K.FUSE_DAEMON_TIMEOUT_DEAD) ∧
    (∀ fuel w alerts err w', (fuse_msleep w (.ticket p)).1 = EAGAIN →
      fticket_wait_answer_again K during cur p (fuel + 1) w alerts = .ret err w' →
      (∃ v al, fticket_wait_answer_again K during cur p fuel v al = .ret err w') ∨
      (err = ENOTCONN ∧ (∃ t', w'.tick p = some t' ∧ fticket_answered K t' = true) ∧
        fdata_dead_get K w'.data ≠ 0)) ∧
    (∀ fuel w alerts, w.sleeps.length < fuel →
      fticket_wait_answer_again K during cur p fuel w alerts =
        fticket_wait_answer_again K during cur p (w.sleeps.length + 1) w alerts) := by
  refine ⟨fun w alerts he hna hst => ?_, fun w alerts => ?_, fun v al hv => ?_,
    fun w alerts hst => ?_, fun fuel w alerts err w' he hr => ?_, fun fuel w alerts hf => ?_⟩
  · rcases fticket_wait_answer_sleep_cases K during p w alerts with
      ⟨_, h2, _⟩ | ⟨_, _, _, e⟩ | ⟨_, _, h3, _⟩ | ⟨_, _, h3, _⟩ | ⟨h1, _⟩ | ⟨h1, _⟩
    · exact absurd hna h2
    · refine ⟨_, e, rfl, rfl, rfl, ?_⟩
      rcases fticket_wait_answer_alert_cases K
          { others during (fuse_msleep w (.ticket p)).2 with
            data := { (others during (fuse_msleep w (.ticket p)).2).data with
              timeout_status := K.FUSE_DAEMON_TIMEOUT_PROCESSING } } alerts with
        ⟨v3, al3, e3, s3, f3, h3, _⟩ | ⟨v3, e3, s3, _⟩
      · exact Or.inl ⟨v3, al3, e3, s3, f3, h3⟩
      · exact Or.inr ⟨v3, e3, s3⟩
    · exact absurd hst h3
    · exact absurd hst h3
    · exact absurd he h1
    · exact absurd he h1
  · rcases fticket_wait_answer_sleep_cases K during p w alerts with
      ⟨_, h2, e⟩ | ⟨_, _, h3, e⟩ | ⟨_, _, _, _, e⟩ | ⟨_, _, _, _, h5, e⟩ | ⟨_, _, _, e⟩ | ⟨_, _, e⟩
    · rw [e]
      exact Or.inr (Or.inr ⟨h2, rfl⟩)
    · rw [e]
      exact Or.inr (Or.inl (Or.inl ⟨h3, rfl⟩))
    · rw [e]
      exact Or.inl rfl
    · rw [e]
      exact Or.inl rfl
    · rw [e]
      exact Or.inl rfl
    · rw [e]
      exact Or.inl rfl
  · rcases fticket_wait_answer_alert_cases K v al with
      ⟨v3, al3, e3, s3, _⟩ | ⟨v3, e3, s3, _⟩
    · rw [e3]
      exact Or.inr (Or.inl ⟨hv, s3⟩)
    · rw [e3]
      exact Or.inr (Or.inr ⟨hv, s3⟩)
  · rcases fticket_wait_answer_sleep_cases K during p w alerts with
      ⟨_, h2, e⟩ | ⟨_, _, h3, e⟩ | ⟨_, _, _, h4, e⟩ | ⟨_, _, _, _, h5, e⟩ | ⟨_, _, _, e⟩ |
      ⟨_, _, e⟩
    · rw [e]
      rfl
    · exact absurd (h3.symm.trans hst) hnd
    · rw [e]
      exact hst
    · rw [e]
      exact hst
    · rw [e]
      exact hst
    · rw [e]
      exact hst
  · unfold fticket_wait_answer_again at hr
    rcases fticket_wait_answer_sleep_cases K during p w alerts with
      ⟨_, _, e⟩ | ⟨_, _, _, e⟩ | ⟨_, _, _, _, e⟩ | ⟨_, _, _, _, _, e⟩ | ⟨h1, _⟩ | ⟨h1, _⟩
    · rw [e] at hr
      obtain ⟨a1, a2, a3, _⟩ := (fticket_wait_answer_alreadydead_spec K _ p hbit hans).1 err w' hr
      exact Or.inr ⟨a1, a2, a3⟩
    · rw [e] at hr
      simp only [] at hr
      rcases fticket_wait_answer_alert_cases K
          { others during (fuse_msleep w (.ticket p)).2 with
            data := { (others during (fuse_msleep w (.ticket p)).2).data with
              timeout_status := K.FUSE_DAEMON_TIMEOUT_PROCESSING } } alerts with
        ⟨v3, al3, e3, _⟩ | ⟨v3, e3, _⟩
      · rw [e3] at hr
        exact Or.inl ⟨v3, al3, hr⟩
      · rw [e3] at hr
        obtain ⟨a1, a2, a3, _⟩ :=
          (fticket_wait_answer_alreadydead_spec K _ p hbit hans).1 err w' hr
        exact Or.inr ⟨a1, a2, a3⟩
    · rw [e] at hr
      exact Or.inl ⟨_, _, hr⟩
    · rw [e] at hr
      obtain ⟨a1, a2, a3, _⟩ := (fticket_wait_answer_alreadydead_spec K _ p hbit hans).1 err w' hr
      exact Or.inr ⟨a1, a2, a3⟩
    · exact absurd he h1
    · exact absurd he h1
  · exact fticket_wait_answer_again_fuel K during cur p fuel _ w alerts hf (Nat.lt_succ_self _)

/-- Witness of `timeout_escalation`: the first sleep of `demo_timeout` times
out with the status idle; the status moves to processing, and with the answer
"keep trying" of the alert panel the call sleeps again and ends without the
session being dead. -/
theorem timeout_escalation_witness :
    sample.FUSE_DAEMON_TIMEOUT_NONE ≠ sample.FUSE_DAEMON_TIMEOUT_DEAD ∧
    (∃ v, fticket_wait_answer_sleep sample id 8192 demo_timeout [(0, 0)] = .alert v [(0, 0)] ∧
      v.data.timeout_status = sample.FUSE_DAEMON_TIMEOUT_PROCESSING ∧
      v.data.dataflags = demo_timeout.data.dataflags ∧
      v.heap = demo_timeout.heap ∧
      ((∃ v3 al3, fticket_wait_answer_alert sample v [(0, 0)] = .again v3 al3 ∧
          v3.data.timeout_status = sample.FUSE_DAEMON_TIMEOUT_NONE ∧
          v3.data.dataflags = v.data.dataflags ∧ v3.heap = v.heap) ∨
        (∃ v3, fticket_wait_answer_alert sample v [(0, 0)] = .alreadydead v3 ∧
          v3.data.timeout_status = sample.FUSE_DAEMON_TIMEOUT_DEAD))) ∧
    (∃ w', fticket_wait_answer sample id ⟨1, 0, 0⟩ [(0, 0)] demo_timeout 8192 = .ret ENXIO w' ∧
      fdata_dead_get sample w'.data = 0 ∧
      w'.data.timeout_status = sample.FUSE_DAEMON_TIMEOUT_NONE) ∧
    (∃ w', fticket_wait_answer sample id ⟨1, 0, 0⟩ [] demo_timeout 8192 = .ret ENOTCONN w' ∧
      fdata_dead_get sample w'.data ≠ 0 ∧
      w'.data.timeout_status = sample.FUSE_DAEMON_TIMEOUT_DEAD) :=
  ⟨by decide,
    (timeout_escalation sample id ⟨1, 0, 0⟩ 8192 (by decide) (by decide) (by decide)).1
      demo_timeout [(0, 0)] rfl rfl rfl,
    ⟨_, rfl, rfl, rfl⟩, ⟨_, rfl, by decide, rfl⟩⟩

/-- C21 counterexample: on `demo_noalerts` (`FSESS_NO_ALERTS` set, status
idle) the first sleep that times out takes the status straight from idle to
dead, without the processing state and without an alert, and the call returns
`ENOTCONN` on a session it has marked dead, after that one sleep. -/
theorem timeout_no_alerts_straight_to_dead :
    demo_noalerts.data.timeout_status = sample.FUSE_DAEMON_TIMEOUT_NONE ∧
    fdata_dead_get sample demo_noalerts.data = 0 ∧
    (∃ v, fticket_wait_answer_sleep sample id 8192 demo_noalerts [(0, 0)] = .alreadydead v ∧
      v.data.timeout_status = sample.FUSE_DAEMON_TIMEOUT_DEAD) ∧
    ∃ w', fticket_wait_answer sample id ⟨1, 0, 0⟩ [(0, 0)] demo_noalerts 8192 =
        .ret ENOTCONN w' ∧
      fdata_dead_get sample w'.data ≠ 0 ∧
      w'.data.timeout_status = sample.FUSE_DAEMON_TIMEOUT_DEAD ∧
      w'.trace = demo_noalerts.trace ++
        [.msleep (.ticket 8192), .wakeup_one .data, .wakeup .ticketer,
          .vfs_event_signal_dead] :=
  ⟨rfl, rfl, ⟨_, rfl, rfl⟩, _, rfl, by decide, rfl, rfl⟩



theorem fuse_body_audit_world {K : Config} {w w' : World} {p blen err : Nat}
    (h : fuse_body_audit K w p blen = .ret err w') : w' = w := by
  unfold fuse_body_audit at h
  split at h
  · cases h
  · split at h
    · simp only [Outcome.ret.injEq] at h
      exact h.2.symm
    · split at h
      · cases h
      · simp only [Outcome.ret.injEq] at h
        exact h.2.symm

theorem PullKeeps.pull_refl (K : Config) (w : World) (p : Nat) : PullKeeps K w w p :=
  ⟨rfl, rfl, rfl, fun t ht => ⟨t, ht, rfl, rfl, rfl, rfl, Or.inl rfl⟩⟩

theorem fticket_aw_pull_uio_keeps {K : Config} {w w' : World} {p : Nat} {u : uio}
    {r : Nat × uio} (h : fticket_aw_pull_uio K w p u = .ret r w') : PullKeeps K w w' p := by
  unfold fticket_aw_pull_uio at h
  split at h
  · cases h
  · rename_i t ht
    simp only [] at h
    split at h
    · split at h
      · split at h
        · cases h
        · cases h
        · rename_i err f w1 ha
          obtain ⟨b, rfl⟩ := fiov_adjust_canfail_ret ha
          split at h
          · simp only [Outcome.ret.injEq] at h
            rw [← h.2]
            refine ⟨rfl, rfl, rfl, fun t0 ht0 => ?_⟩
            rw [ht] at ht0
            cases ht0
            refine ⟨fticket_set_killl K { t with tk_aw_fiov := f }, ?_, rfl, rfl, rfl, rfl,
              Or.inr rfl⟩
            rw [tick_setTick_blocks, if_pos rfl, ht]
            rfl
          · simp only [Outcome.ret.injEq] at h
            rw [← h.2]
            refine ⟨rfl, rfl, rfl, fun t0 ht0 => ?_⟩
            rw [ht] at ht0
            cases ht0
            refine ⟨{ t with tk_aw_fiov :=
                { f with base := (uiomove f.base u.resid u).2.1 } }, ?_, rfl, rfl, rfl, rfl,
              Or.inl rfl⟩
            rw [tick_setTick_blocks, if_pos rfl, ht]
            rfl
      · simp only [Outcome.ret.injEq] at h
        rw [← h.2]
        refine ⟨rfl, rfl, rfl, fun t0 ht0 => ?_⟩
        rw [ht] at ht0
        cases ht0
        refine ⟨{ t with tk_aw_bufsize := u.resid }, ?_, rfl, rfl, rfl, rfl, Or.inl rfl⟩
        rw [tick_setTick, if_pos rfl, ht]
        rfl
    · simp only [Outcome.ret.injEq] at h
      rw [← h.2]
      exact PullKeeps.pull_refl K w p

theorem fticket_pull_keeps {K : Config} {w w' : World} {p : Nat} {u : uio}
    {r : Nat × uio} (h : fticket_pull K w p u = .ret r w') : PullKeeps K w w' p := by
  unfold fticket_pull at h
  split at h
  · cases h
  · split at h
    · simp only [Outcome.ret.injEq] at h
      rw [← h.2]
      exact PullKeeps.pull_refl K w p
    · split at h
      · cases h
      · cases h
      · rename_i err w1 hb
        have := fuse_body_audit_world hb
        subst this
        split at h
        · exact fticket_aw_pull_uio_keeps h
        · simp only [Outcome.ret.injEq] at h
          rw [← h.2]
          exact PullKeeps.pull_refl K w1 p

theorem or_and_distrib_bits (x k a : Nat) : (x ||| k) &&& a = (x &&& a) ||| (k &&& a) := by
  apply Nat.eq_of_testBit_eq
  intro i
  simp only [Nat.testBit_and, Nat.testBit_or]
  cases x.testBit i <;> cases k.testBit i <;> cases a.testBit i <;> rfl

theorem fticket_answered_of_flag (K : Config) (t t1 : fuse_ticket)
    (hbits : K.FT_KILLL &&& K.FT_ANSW = 0)
    (hf : t1.tk_flag = t.tk_flag ∨ t1.tk_flag = t.tk_flag ||| K.FT_KILLL) :
    fticket_answered K t1 = fticket_answered K t := by
  unfold fticket_answered
  rcases hf with hf | hf
  · rw [hf]
  · rw [hf, or_and_distrib_bits, hbits, Nat.or_zero]

theorem fuse_ticket_drop_trace {K : Config} {w w' : World} {p : Nat} {u : Unit}
    (h : fuse_ticket_drop K w p = .ret u w') : w'.trace = w.trace := by
  obtain ⟨t, _, ⟨_, rfl⟩ | ⟨_, ms, aw, b, _, _, rfl⟩⟩ := fuse_ticket_drop_ret h
  · rfl
  · rfl

/-- C23: for a live ticket (and flag bits `FT_KILLL`, `FT_ANSW` that do not
overlap), `fuse_standard_handler` run on a ticket that is already marked
answered leaves `tk_aw_errno` as it was up to the drop, issues no wake-up, and
ends with exactly the one `fuse_ticket_drop` of the ticket, returning the
status of the pull; run on an unanswered ticket it marks it answered, stores
the status of the pull in `tk_aw_errno`, wakes the waiter on the ticket and
leaves the registry and the free list alone. -/
theorem fuse_standard_handler_spec (K : Config) (w : World) (p : Nat) (u : uio)
    (t : fuse_ticket) (ht : w.tick p = some t) (hbits : K.FT_KILLL &&& K.FT_ANSW = 0) :
    (fticket_answered K t = true →
      (∀ r w', fuse_standard_handler K w p u = .ret r w' →
        ∃ w1 t1, fticket_pull K w p u = .ret r w1 ∧ w1.tick p = some t1 ∧
          t1.tk_aw_errno = t.tk_aw_errno ∧ w1.trace = w.trace ∧
          fuse_ticket_drop K w1 p = .ret () w' ∧ w'.trace = w.trace) ∧
      (∀ r w1 w2, fticket_pull K w p u = .ret r w1 → fuse_ticket_drop K w1 p = .ret () w2 →
        fuse_standard_handler K w p u = .ret r w2)) ∧
    (fticket_answered K t = false →
      ∀ r w1, fticket_pull K w p u = .ret r w1 →
        ∃ t1 w', w1.tick p = some t1 ∧
          fuse_standard_handler K w p u = .ret r w' ∧
          w'.tick p = some { fticket_set_answered K t1 with tk_aw_errno := (r.1 : Int) } ∧
          (K.FT_ANSW ≠ 0 → fticket_answered K (fticket_set_answered K t1) = true) ∧
          w'.trace = w.trace ++ [.wakeup (.ticket p)] ∧
          w'.data = w.data) := by
  constructor
  · intro ha
    constructor
    · intro r w' h
      unfold fuse_standard_handler at h
      split at h
      · cases h
      · cases h
      · rename_i err u1 w1 hp
        obtain ⟨k1, k2, _, k4⟩ := fticket_pull_keeps hp
        obtain ⟨t1, ht1, e1, _, _, _, hf⟩ := k4 t ht
        have ha1 : fticket_answered K t1 = true :=
          (fticket_answered_of_flag K t t1 hbits hf).trans ha
        simp only [ht1, ha1, if_true] at h
        split at h
        · cases h
        · cases h
        · rename_i v w2 hd
          simp only [Outcome.ret.injEq] at h
          obtain ⟨rfl, rfl⟩ := h
          exact ⟨w1, t1, hp, ht1, e1, k1, hd, (fuse_ticket_drop_trace hd).trans k1⟩
    · intro r w1 w2 hp hd
      obtain ⟨_, _, _, k4⟩ := fticket_pull_keeps hp
      obtain ⟨t1, ht1, _, _, _, _, hf⟩ := k4 t ht
      have ha1 : fticket_answered K t1 = true :=
        (fticket_answered_of_flag K t t1 hbits hf).trans ha
      unfold fuse_standard_handler
      simp only [hp, ht1, ha1, if_true, hd]
  · intro ha r w1 hp
    obtain ⟨k1, k2, _, k4⟩ := fticket_pull_keeps hp
    obtain ⟨t1, ht1, _, _, _, _, hf⟩ := k4 t ht
    have ha1 : fticket_answered K t1 = false :=
      (fticket_answered_of_flag K t t1 hbits hf).trans ha
    refine ⟨t1, (w1.setTick p { fticket_set_answered K t1 with
      tk_aw_errno := (r.1 : Int) }).emit (.wakeup (.ticket p)), ht1, ?_, ?_,
      fticket_set_answered_answered K t1, ?_, ?_⟩
    · unfold fuse_standard_handler
      simp only [hp, ht1, ha1]
      rfl
    · show (w1.setTick p { fticket_set_answered K t1 with tk_aw_errno := (r.1 : Int) }).tick p = _
      rw [tick_setTick, if_pos rfl, ht1]
      rfl
    · show w1.trace ++ [Event.wakeup (.ticket p)] = _
      rw [k1]
    · exact k2

/-- Witness of `fuse_standard_handler_spec`: the reply `demo_uio` to the
unanswered `FUSE_INIT` ticket of `demo_init`, and the same reply arriving when
the ticket is already marked answered. -/
theorem fuse_standard_handler_spec_witness :
    demo_init.tick 8192 = some (demo_init.tickD 8192) ∧
    fticket_answered sample (demo_init.tickD 8192) = false ∧
    fticket_pull sample demo_init 8192 demo_uio =
      .ret (0, { demo_uio with resid := 0, offset := 24, data := [] }) demo_pulled ∧
    (∃ t1 w', demo_pulled.tick 8192 = some t1 ∧
      fuse_standard_handler sample demo_init 8192 demo_uio =
        .ret (0, { demo_uio with resid := 0, offset := 24, data := [] }) w' ∧
      w'.tick 8192 = some { fticket_set_answered sample t1 with tk_aw_errno := ((0 : Nat) : Int) } ∧
      (sample.FT_ANSW ≠ 0 → fticket_answered sample (fticket_set_answered sample t1) = true) ∧
      w'.trace = demo_init.trace ++ [.wakeup (.ticket 8192)] ∧
      w'.data = demo_init.data) ∧
    fticket_answered sample (demo_init_answered.tickD 8192) = true ∧
    fuse_standard_handler sample demo_init_answered 8192 demo_uio =
      .ret (0, { demo_uio with resid := 0, offset := 24, data := [] })
        ((fuse_ticket_drop sample demo_pulled_answered 8192).after demo_pulled_answered) ∧
    ((fuse_ticket_drop sample demo_pulled_answered 8192).after
      demo_pulled_answered).data.freetickets_head = [8192] :=
  ⟨rfl, rfl, rfl,
    (fuse_standard_handler_spec sample demo_init 8192 demo_uio (demo_init.tickD 8192) rfl
      rfl).2 rfl (0, { demo_uio with resid := 0, offset := 24, data := [] }) demo_pulled rfl,
    rfl,
    ((fuse_standard_handler_spec sample demo_init_answered 8192 demo_uio
      (demo_init_answered.tickD 8192) rfl rfl).1 rfl).2
      (0, { demo_uio with resid := 0, offset := 24, data := [] }) demo_pulled_answered
      ((fuse_ticket_drop sample demo_pulled_answered 8192).after demo_pulled_answered) rfl rfl,
    rfl⟩



theorem fdisp_wait_answ_eq {K : Config} {during : World → World} {cur : Identity}
    {alerts : List (Nat × Nat)} {w w1 w2 w3 : World} {fdip : fuse_dispatcher} {err : Nat}
    (h1 : fuse_insert_callback K w fdip.tick fuse_standard_handler_addr = .ret () w1)
    (h2 : fuse_insert_message K w1 fdip.tick = .ret () w2)
    (h3 : fticket_wait_answer K during cur alerts w2 fdip.tick = .ret err w3) :
    fdisp_wait_answ K during cur alerts w fdip =
      fdisp_wait_answ_tail K w3 { fdip with answ_stat := 0 } err := by
  unfold fdisp_wait_answ
  simp only [h1, h2, h3]

/-- C22: when `fticket_wait_answer` returns 0 and the ticket has
`tk_aw_errno = 0`: if the reply header carries an error `e` other than 0,
`fdisp_wait_answ` ends with the `fuse_ticket_drop` of the ticket and returns
exactly `e`, with `answ_stat = e`; if the header error is 0 it returns 0 with
`answ` at the base of the reply buffer and `iosize` its length, the session
left as the wait left it (the ticket is not dropped). -/
theorem fdisp_wait_answ_reply (K : Config) (during : World → World) (cur : Identity)
    (alerts : List (Nat × Nat)) (w w1 w2 w3 : World) (fdip : fuse_dispatcher)
    (t : fuse_ticket)
    (h1 : fuse_insert_callback K w fdip.tick fuse_standard_handler_addr = .ret () w1)
    (h2 : fuse_insert_message K w1 fdip.tick = .ret () w2)
    (h3 : fticket_wait_answer K during cur alerts w2 fdip.tick = .ret 0 w3)
    (ht : w3.tick fdip.tick = some t) (herrno : t.tk_aw_errno = 0) :
    (t.tk_aw_ohead.error ≠ 0 →
      (∀ w4, fuse_ticket_drop K w3 fdip.tick = .ret () w4 →
        fdisp_wait_answ K during cur alerts w fdip =
          .ret (t.tk_aw_ohead.error, { fdip with answ_stat := t.tk_aw_ohead.error }) w4) ∧
      (∀ r w', fdisp_wait_answ K during cur alerts w fdip = .ret r w' →
        r = (t.tk_aw_ohead.error, { fdip with answ_stat := t.tk_aw_ohead.error }) ∧
        fuse_ticket_drop K w3 fdip.tick = .ret () w')) ∧
    (t.tk_aw_ohead.error = 0 →
      fdisp_wait_answ K during cur alerts w fdip =
        .ret (0, { fdip with answ_stat := 0, answ := 0, iosize := (fticket_resp t).len }) w3) := by
  have key := fdisp_wait_answ_eq h1 h2 h3
  unfold fdisp_wait_answ_tail at key
  simp only [ht, herrno] at key
  rw [if_neg (by simp), if_neg (by simp)] at key
  constructor
  · intro he
    rw [if_pos he] at key
    unfold fdisp_wait_answ_out at key
    constructor
    · intro w4 hd
      rw [key]
      simp only [hd]
    · intro r w' hr
      rw [key] at hr
      simp only [] at hr
      split at hr
      · cases hr
      · cases hr
      · rename_i u w4 hd
        simp only [Outcome.ret.injEq] at hr
        obtain ⟨rfl, rfl⟩ := hr
        exact ⟨rfl, hd⟩
  · intro he
    rw [if_neg (by simpa using he)] at key
    exact key

/-- Witness of `fdisp_wait_answ_reply`: the `FUSE_INIT` request of `demo_init`,
answered by the daemon with the header error 13, and with no error. -/
theorem fdisp_wait_answ_reply_witness :
    fticket_wait_answer sample (demo_daemon 13) ⟨1, 0, 0⟩ [] demo_wait2 8192 =
      .ret 0 (demo_wait3 13) ∧
    ((demo_wait3 13).tickD 8192).tk_aw_errno = 0 ∧
    ((demo_wait3 13).tickD 8192).tk_aw_ohead.error = 13 ∧
    fdisp_wait_answ sample (demo_daemon 13) ⟨1, 0, 0⟩ [] demo_init demo_fdi_init =
      .ret (13, { demo_fdi_init with answ_stat := 13 })
        ((fuse_ticket_drop sample (demo_wait3 13) 8192).after (demo_wait3 13)) ∧
    ((fuse_ticket_drop sample (demo_wait3 13) 8192).after
      (demo_wait3 13)).data.freetickets_head = [8192] ∧
    fdisp_wait_answ sample (demo_daemon 0) ⟨1, 0, 0⟩ [] demo_init demo_fdi_init =
      .ret (0, { demo_fdi_init with answ_stat := 0, answ := 0, iosize := 0 }) (demo_wait3 0) ∧
    (demo_wait3 0).data.freetickets_head = [] :=
  ⟨rfl, rfl, rfl,
    ((fdisp_wait_answ_reply sample (demo_daemon 13) ⟨1, 0, 0⟩ [] demo_init demo_wait1
      demo_wait2 (demo_wait3 13) demo_fdi_init ((demo_wait3 13).tickD 8192) rfl rfl rfl rfl
      rfl).1 (by decide)).1 _ rfl,
    rfl,
    (fdisp_wait_answ_reply sample (demo_daemon 0) ⟨1, 0, 0⟩ [] demo_init demo_wait1
      demo_wait2 (demo_wait3 0) demo_fdi_init ((demo_wait3 0).tickD 8192) rfl rfl rfl rfl
      rfl).2 rfl,
    rfl⟩

/-- C24: when `fticket_wait_answer` returns an error `err` other than 0 and the
ticket is still unanswered, `fdisp_wait_answ` (built without
`DONT_TRY_HARD_PREVENT_IO_IN_VAIN`) returns `err`, and changes nothing but the
ticket: the session data, the registry and the free list in it, are as the
wait left them, the ticket has `FT_ANSW` set and its `tk_age` unchanged, and
its `tk_aw_handler` is `NULL` if the ticket is on the awaiting-answer list and
unchanged if it is not. -/
theorem fdisp_wait_answ_interrupted (K : Config) (during : World → World) (cur : Identity)
    (alerts : List (Nat × Nat)) (w w1 w2 w3 : World) (fdip : fuse_dispatcher)
    (t : fuse_ticket) (err : Nat)
    (hopt : K.DONT_TRY_HARD_PREVENT_IO_IN_VAIN = false)
    (h1 : fuse_insert_callback K w fdip.tick fuse_standard_handler_addr = .ret () w1)
    (h2 : fuse_insert_message K w1 fdip.tick = .ret () w2)
    (h3 : fticket_wait_answer K during cur alerts w2 fdip.tick = .ret err w3)
    (herr : err ≠ 0)
    (ht : w3.tick fdip.tick = some t) (hun : fticket_answered K t = false) :
    ∃ w' t', fdisp_wait_answ K during cur alerts w fdip =
        .ret ((err : Int), { fdip with answ_stat := 0 }) w' ∧
      w'.tick fdip.tick = some t' ∧
      t'.tk_flag = t.tk_flag ||| K.FT_ANSW ∧
      (K.FT_ANSW ≠ 0 → fticket_answered K t' = true) ∧
      t'.tk_age = t.tk_age ∧
      t'.tk_aw_handler = (if fdip.tick ∈ w3.data.aw_head then 0 else t.tk_aw_handler) ∧
      w'.data = w3.data ∧
      (∀ q, q ≠ fdip.tick → w'.tick q = w3.tick q) ∧
      w'.trace = w3.trace := by
  have key := fdisp_wait_answ_eq h1 h2 h3
  unfold fdisp_wait_answ_tail at key
  simp only [ht, hun] at key
  rw [if_pos herr, if_neg (by simp)] at key
  have hans : ∀ t2 : fuse_ticket, t2.tk_flag = t.tk_flag ||| K.FT_ANSW →
      K.FT_ANSW ≠ 0 → fticket_answered K t2 = true := by
    intro t2 h2f hb
    unfold fticket_answered
    rw [h2f, or_and_self_bits]
    exact decide_eq_true hb
  by_cases hm : fdip.tick ∈ w3.data.aw_head
  · have hc : K.DONT_TRY_HARD_PREVENT_IO_IN_VAIN = false ∧ fdip.tick ∈ w3.data.aw_head ∧
        (fticket_set_answered K t).tk_age = t.tk_age := ⟨hopt, hm, rfl⟩
    rw [if_pos hc] at key
    refine ⟨_, { fticket_set_answered K t with tk_aw_handler := 0 }, key, ?_, rfl,
      hans _ rfl, rfl, by rw [if_pos hm], rfl, ?_, rfl⟩
    · rw [tick_setTick, if_pos rfl, ht]
      rfl
    · intro q hq
      rw [tick_setTick, if_neg hq]
  · have hc : ¬ (K.DONT_TRY_HARD_PREVENT_IO_IN_VAIN = false ∧ fdip.tick ∈ w3.data.aw_head ∧
        (fticket_set_answered K t).tk_age = t.tk_age) := fun h => hm h.2.1
    rw [if_neg hc] at key
    refine ⟨_, fticket_set_answered K t, key, ?_, rfl, hans _ rfl, rfl,
      by rw [if_neg hm]; rfl, rfl, ?_, rfl⟩
    · rw [tick_setTick, if_pos rfl, ht]
      rfl
    · intro q hq
      rw [tick_setTick, if_neg hq]

/-- Witness of `fdisp_wait_answ_interrupted`: the `FUSE_INIT` request of
`demo_init` is woken up without an answer (`ENXIO`), once with the ticket
still on the awaiting-answer list and once with the ticket taken off it. -/
theorem fdisp_wait_answ_interrupted_witness :
    fticket_wait_answer sample id ⟨1, 0, 0⟩ [] demo_wait2 8192 =
      .ret ENXIO ((fticket_wait_answer sample id ⟨1, 0, 0⟩ [] demo_wait2 8192).after
        demo_wait2) ∧
    (∃ w' t', fdisp_wait_answ sample id ⟨1, 0, 0⟩ [] demo_init demo_fdi_init =
        .ret (( ENXIO : Int), { demo_fdi_init with answ_stat := 0 }) w' ∧
      w'.tick 8192 = some t' ∧ fticket_answered sample t' = true ∧
      t'.tk_age = (demo_wait2.tickD 8192).tk_age ∧ t'.tk_aw_handler = 0 ∧
      w'.data.alltickets_head = [8192] ∧ w'.data.freetickets_head = [] ∧
      w'.data.aw_head = [8192]) ∧
    (∃ w' t', fdisp_wait_answ sample demo_unlisted ⟨1, 0, 0⟩ [] demo_init demo_fdi_init =
        .ret (( ENXIO : Int), { demo_fdi_init with answ_stat := 0 }) w' ∧
      w'.tick 8192 = some t' ∧ fticket_answered sample t' = true ∧
      t'.tk_aw_handler = fuse_standard_handler_addr ∧ w'.data.aw_head = []) := by
  refine ⟨rfl, ?_, ?_⟩
  · obtain ⟨w', t', e1, e2, e3, e4, e5, e6, e7, _⟩ :=
      fdisp_wait_answ_interrupted sample id ⟨1, 0, 0⟩ [] demo_init demo_wait1 demo_wait2
        ((fticket_wait_answer sample id ⟨1, 0, 0⟩ [] demo_wait2 8192).after demo_wait2)
        demo_fdi_init (demo_wait2.tickD 8192) ENXIO rfl rfl rfl rfl (by decide) rfl rfl
    refine ⟨w', t', e1, e2, e4 (by decide), e5, e6.trans rfl, ?_, ?_, ?_⟩
    · rw [e7]; rfl
    · rw [e7]; rfl
    · rw [e7]; rfl
  · obtain ⟨w', t', e1, e2, e3, e4, e5, e6, e7, _⟩ :=
      fdisp_wait_answ_interrupted sample demo_unlisted ⟨1, 0, 0⟩ [] demo_init demo_wait1
        demo_wait2
        ((fticket_wait_answer sample demo_unlisted ⟨1, 0, 0⟩ [] demo_wait2 8192).after demo_wait2)
        demo_fdi_init (demo_wait2.tickD 8192) ENXIO rfl rfl rfl rfl (by decide) rfl rfl
    refine ⟨w', t', e1, e2, e4 (by decide), e6.trans rfl, ?_⟩
    rw [e7]; rfl

/-! ## Lemmas and properties: directory reading -/

theorem GENERIC_DIRSIZ_small : ∀ n, n < 256 → GENERIC_DIRSIZ n = 8 + (n + 4) / 4 * 4 := by
  decide



theorem uiomove_read (cp : List Nat) (n : Nat) (u : uio) (hf : u.fault = 0)
    (hrw : u.rw = .UIO_READ) (hn : n ≤ u.resid) :
    uiomove cp n u = (0, cp, uio_moved u cp n) := by
  unfold uiomove uio_moved
  rw [if_neg (by simp [hf])]
  simp only [hrw, Nat.min_eq_left hn]

theorem GENERIC_DIRSIZ_bounds (n : Nat) (hn : n ≤ MAXNAMLEN) :
    n + 9 ≤ GENERIC_DIRSIZ n ∧ GENERIC_DIRSIZ n ≤ n + 12 ∧ GENERIC_DIRSIZ n % 4 = 0 ∧
      GENERIC_DIRSIZ n ≤ 264 := by
  have hn' : n < 256 := by unfold MAXNAMLEN at hn; omega
  rw [GENERIC_DIRSIZ_small n hn']
  omega

/-- One record emitted: for a well-formed record that lies in the reply and
fits the `uio`, an iteration that leads to a return goes on, one unit of fuel
less, with the record moved into the `uio`, the cursor past it and the offset
of the `uio` at the `off` field of the record. -/
theorem processdata_loop_step (K : Config) (fuel : Nat) (w : World) (u : uio) (buf : List Nat)
    (bufsize : Nat) (c : fuse_iov) (cou : Nat)
    (h1 : K.FUSE_NAME_OFFSET ≤ bufsize)
    (h2 : K.FUSE_DIRENT_SIZE (K.fuse_dirent_load buf).namelen ≤ bufsize)
    (h3 : 1 ≤ (K.fuse_dirent_load buf).namelen)
    (h4 : (K.fuse_dirent_load buf).namelen ≤ MAXNAMLEN)
    (h5 : GENERIC_DIRSIZ (K.fuse_dirent_load buf).namelen ≤ u.resid)
    (hf : u.fault = 0) (hrw : u.rw = .UIO_READ)
    (r : Int × uio × fuse_iov) (w' : World)
    (h : fuse_internal_readdir_processdata_loop K (fuel + 1) w u buf bufsize c cou = .ret r w') :
    ∃ w2 c2 cp,
      fuse_internal_readdir_processdata_loop K fuel w2
        { uio_moved u cp (GENERIC_DIRSIZ (K.fuse_dirent_load buf).namelen) with
          offset := (K.fuse_dirent_load buf).off }
        (buf.drop (K.FUSE_DIRENT_SIZE (K.fuse_dirent_load buf).namelen))
        (bufsize - K.FUSE_DIRENT_SIZE (K.fuse_dirent_load buf).namelen) c2 (cou + 1) =
        .ret r w' := by
  unfold fuse_internal_readdir_processdata_loop at h
  simp only [] at h
  rw [if_neg (by omega), if_neg (by omega), if_neg (by omega), if_neg (by omega),
    if_neg (by omega)] at h
  split at h
  · cases h
  · cases h
  · rename_i c1 w1 hr
    split at h
    · cases h
    · cases h
    · rename_i c2 w2 ha
      have hl := fiov_adjust_len ha
      split at h
      · rw [hl, uiomove_read _ _ u hf hrw h5] at h
        simp only [ne_eq, not_true_eq_false, if_false] at h
        exact ⟨w2, _, _, h⟩
      · cases h

theorem processdata_loop_emits (K : Config) (k : Nat) :
    ∀ (fuel : Nat) (w : World) (u : uio) (buf : List Nat) (bufsize : Nat) (c : fuse_iov)
      (cou : Nat),
      wire_wellformed K k buf bufsize → host_bytes K k buf ≤ u.resid →
      u.fault = 0 → u.rw = .UIO_READ →
      ∀ (r : Int × uio × fuse_iov) (w' : World),
        fuse_internal_readdir_processdata_loop K (fuel + k) w u buf bufsize c cou = .ret r w' →
        ∃ w2 u2 c2,
          fuse_internal_readdir_processdata_loop K fuel w2 u2 (wire_rest K k buf bufsize).1
            (wire_rest K k buf bufsize).2 c2 (cou + k) = .ret r w' ∧
          u2.resid = u.resid - host_bytes K k buf ∧
          u2.offset = last_off K k buf u.offset ∧
          u2.data.length = u.data.length + host_bytes K k buf ∧
          u2.fault = 0 ∧ u2.rw = .UIO_READ ∧ (k = 0 → u2 = u) := by
  induction k with
  | zero =>
    intro fuel w u buf bufsize c cou _ _ hf hrw r w' h
    exact ⟨w, u, c, h, rfl, rfl, rfl, hf, hrw, fun _ => rfl⟩
  | succ k ih =>
    intro fuel w u buf bufsize c cou hwf hroom hf hrw r w' h
    obtain ⟨g1, g2, g3, g4, g5⟩ := hwf
    simp only [host_bytes] at hroom
    have h' : fuse_internal_readdir_processdata_loop K ((fuel + k) + 1) w u buf bufsize c cou =
        .ret r w' := h
    obtain ⟨w2, c2, cp, hs⟩ := processdata_loop_step K (fuel + k) w u buf bufsize c cou g1 g2 g3
      g4 (by omega) hf hrw r w' h'
    obtain ⟨w3, u3, c3, e1, e2, e3, e4, e5, e6, _⟩ := ih fuel w2
      { uio_moved u cp (GENERIC_DIRSIZ (K.fuse_dirent_load buf).namelen) with
        offset := (K.fuse_dirent_load buf).off }
      (buf.drop (K.FUSE_DIRENT_SIZE (K.fuse_dirent_load buf).namelen))
      (bufsize - K.FUSE_DIRENT_SIZE (K.fuse_dirent_load buf).namelen) c2 (cou + 1) g5
      (by show host_bytes K k _ ≤ u.resid - _; omega) hf hrw r w' hs
    have e2' : u3.resid = u.resid - GENERIC_DIRSIZ (K.fuse_dirent_load buf).namelen -
        host_bytes K k (buf.drop (K.FUSE_DIRENT_SIZE (K.fuse_dirent_load buf).namelen)) := e2
    have e3' : u3.offset = last_off K k
        (buf.drop (K.FUSE_DIRENT_SIZE (K.fuse_dirent_load buf).namelen))
        (K.fuse_dirent_load buf).off := e3
    have e4' : u3.data.length = (u.data ++ (List.range
        (GENERIC_DIRSIZ (K.fuse_dirent_load buf).namelen)).map (fun i => cp.getD i 0)).length +
        host_bytes K k (buf.drop (K.FUSE_DIRENT_SIZE (K.fuse_dirent_load buf).namelen)) := e4
    refine ⟨w3, u3, c3, ?_, ?_, ?_, ?_, e5, e6, fun hk => by omega⟩
    · simp only [wire_rest]
      rw [show cou + (k + 1) = cou + 1 + k by omega]
      exact e1
    · rw [e2']
      simp only [host_bytes]
      omega
    · rw [e3']
      simp only [last_off]
    · rw [e4']
      simp only [host_bytes, List.length_append, List.length_map, List.length_range]
      omega

theorem bzero_length (b : List Nat) (n : Nat) : (bzero b n).length = b.length := by
  unfold bzero
  simp only [List.length_append, List.length_replicate, List.length_drop]
  omega

theorem poke_length (b : List Nat) (off : Nat) (bs : List Nat) :
    (poke b off bs).length = b.length := by
  unfold poke
  simp only [List.length_append, List.length_take, List.length_drop]
  omega

theorem uiomove_resid (cp : List Nat) (n : Nat) (u : uio) (h : (uiomove cp n u).1 = 0) :
    (uiomove cp n u).2.2.resid = u.resid - min n u.resid := by
  unfold uiomove at h ⊢
  by_cases hf : u.fault ≠ 0
  · rw [if_pos hf] at h
    exact absurd h hf
  · rw [if_neg hf]
    cases u.rw <;> rfl

theorem fiov_adjust_roomy (K : Config) (w : World) (c : fuse_iov) (n : Nat)
    (hr : cooked_roomy K c) (hn : n ≤ 264) :
    fiov_adjust K w c n = .ret { c with len := n } w := by
  have hso : ¬ fiov_slack_over K c n := by
    unfold fiov_slack_over
    rintro ⟨h1, h2⟩
    rcases hr.2.2 with h | h <;> omega
  have hre : ¬ fiov_reallocs K c n := by
    unfold fiov_reallocs
    push_neg
    exact ⟨by have := hr.2.1; omega, fun h => absurd h hso⟩
  rw [fiov_adjust_of_not_reallocs hre, if_neg hso]

theorem fiov_refresh_roomy (K : Config) (w : World) (c : fuse_iov) (hr : cooked_roomy K c) :
    fiov_refresh K w c = .ret { c with base := bzero c.base c.len, len := 0 } w := by
  unfold fiov_refresh
  exact fiov_adjust_roomy K w _ 0 ⟨by rw [bzero_length]; exact hr.1, hr.2.1, hr.2.2⟩ (by omega)

/-- The transcoding loop returns, in the state of the session it started in,
whenever the cooked buffer is roomy and the stores into it keep its length:
the remaining room of the `uio` bounds the number of iterations. -/
theorem processdata_loop_total (K : Config)
    (hstore : ∀ d b, (K.dirent_store d b).length = b.length) (fuel : Nat) :
    ∀ (w : World) (u : uio) (buf : List Nat) (bufsize : Nat) (c : fuse_iov) (cou : Nat),
      cooked_roomy K c → u.resid < fuel →
      ∃ r, fuse_internal_readdir_processdata_loop K fuel w u buf bufsize c cou = .ret r w ∧
        cooked_roomy K r.2.2 := by
  induction fuel with
  | zero => intro w u buf bufsize c cou _ h; omega
  | succ fuel ih =>
    intro w u buf bufsize c cou hr hfuel
    unfold fuse_internal_readdir_processdata_loop
    simp only []
    by_cases c1 : bufsize < K.FUSE_NAME_OFFSET
    · rw [if_pos c1]
      exact ⟨_, rfl, hr⟩
    rw [if_neg c1]
    by_cases c2 : bufsize < K.FUSE_DIRENT_SIZE (K.fuse_dirent_load buf).namelen
    · rw [if_pos c2]
      exact ⟨_, rfl, hr⟩
    rw [if_neg c2]
    by_cases c3 : (K.fuse_dirent_load buf).namelen = 0
    · rw [if_pos c3]
      exact ⟨_, rfl, hr⟩
    rw [if_neg c3]
    by_cases c4 : MAXNAMLEN < (K.fuse_dirent_load buf).namelen
    · rw [if_pos c4]
      exact ⟨_, rfl, hr⟩
    rw [if_neg c4]
    by_cases c5 : u.resid < GENERIC_DIRSIZ (K.fuse_dirent_load buf).namelen
    · rw [if_pos c5]
      exact ⟨_, rfl, hr⟩
    rw [if_neg c5]
    obtain ⟨b1, b2, b3, b4⟩ := GENERIC_DIRSIZ_bounds (K.fuse_dirent_load buf).namelen
      (by omega)
    have hr1 : cooked_roomy K { c with base := bzero c.base c.len, len := 0 } :=
      ⟨by rw [bzero_length]; exact hr.1, hr.2.1, hr.2.2⟩
    rw [fiov_refresh_roomy K w c hr]
    simp only []
    rw [fiov_adjust_roomy K w _ _ hr1 b4]
    simp only []
    have hlen : ∀ de name, (poke (K.dirent_store de (bzero c.base c.len))
        (sizeof_dirent - MAXNAMLEN - 1) name).length = c.allocated_size := by
      intro de name
      rw [poke_length, hstore, bzero_length, hr.1]
    rw [if_pos (by rw [hlen]; have := hr.2.1; omega)]
    split
    · exact ⟨_, rfl, by
        refine ⟨?_, hr.2.1, hr.2.2⟩
        show (List.set _ _ _).length = c.allocated_size
        rw [List.length_set, hlen]⟩
    · rename_i hz
      have hz' := not_not.1 hz
      have hres := uiomove_resid _ _ u hz'
      refine ih w _ _ _ _ _ ?_ ?_
      · refine ⟨?_, hr.2.1, hr.2.2⟩
        show (List.set _ _ _).length = c.allocated_size
        rw [List.length_set, hlen]
      · show (uiomove _ _ u).2.2.resid < fuel
        rw [hres]
        have : min (GENERIC_DIRSIZ (K.fuse_dirent_load buf).namelen) u.resid =
            GENERIC_DIRSIZ (K.fuse_dirent_load buf).namelen := Nat.min_eq_left (by omega)
        simp only [] at this ⊢
        omega

theorem host_bytes_ge (K : Config) (k : Nat) :
    ∀ (buf : List Nat) (bufsize : Nat), wire_wellformed K k buf bufsize →
      k ≤ host_bytes K k buf := by
  induction k with
  | zero => intro _ _ _; exact Nat.zero_le _
  | succ k ih =>
    intro buf bufsize h
    obtain ⟨_, _, _, g4, g5⟩ := h
    have := ih _ _ g5
    have := (GENERIC_DIRSIZ_bounds _ g4).1
    simp only [host_bytes]
    omega

theorem processdata_loop_truncated (K : Config) (fuel : Nat) (w : World) (u : uio)
    (buf : List Nat) (bufsize : Nat) (c : fuse_iov) (cou : Nat)
    (htr : bufsize < K.FUSE_NAME_OFFSET ∨
      bufsize < K.FUSE_DIRENT_SIZE (K.fuse_dirent_load buf).namelen) :
    fuse_internal_readdir_processdata_loop K (fuel + 1) w u buf bufsize c cou =
      .ret ((if bufsize < K.FUSE_NAME_OFFSET then -1 else if cou = 0 then -1 else 0), u, c) w := by
  unfold fuse_internal_readdir_processdata_loop
  simp only []
  by_cases c1 : bufsize < K.FUSE_NAME_OFFSET
  · rw [if_pos c1, if_pos c1]
  · rw [if_neg c1, if_neg c1]
    have c2 : bufsize < K.FUSE_DIRENT_SIZE (K.fuse_dirent_load buf).namelen := by
      rcases htr with h | h
      · exact absurd h c1
      · exact h
    rw [if_pos c2]
    simp only [Nat.add_eq_right]

/-- C25 (as amended): for a reply that holds `k` well-formed directory records
followed by a truncated one, and a readable `uio` with room for the `k` host
records, every return of `fuse_internal_readdir_processdata` has moved exactly
the bytes of the `k` host records into the `uio`, whose offset is the `off` of
the last of them, and reports no error: `-1` when nothing was moved or when
what is left is shorter than a record header, `0` otherwise. The call does
return when the cooked buffer is roomy. When even the first record does not
fit (`k = 0`) the status is `-1`, which `fuse_internal_readdir` returns as 0,
not as an error. -/
theorem readdir_truncated_reply (K : Config) (w : World) (u : uio) (buf : List Nat)
    (bufsize : Nat) (c : fuse_iov) (k : Nat)
    (hwf : wire_wellformed K k buf bufsize)
    (htr : (wire_rest K k buf bufsize).2 < K.FUSE_NAME_OFFSET ∨
      (wire_rest K k buf bufsize).2 <
        K.FUSE_DIRENT_SIZE (K.fuse_dirent_load (wire_rest K k buf bufsize).1).namelen)
    (hroom : host_bytes K k buf ≤ u.resid) (hf : u.fault = 0) (hrw : u.rw = .UIO_READ) :
    (∀ r w', fuse_internal_readdir_processdata K w u buf bufsize c = .ret r w' →
      r.1 = (if k = 0 ∨ (wire_rest K k buf bufsize).2 < K.FUSE_NAME_OFFSET then -1 else 0) ∧
      (k = 0 → r.2.1 = u) ∧
      r.2.1.resid = u.resid - host_bytes K k buf ∧
      r.2.1.data.length = u.data.length + host_bytes K k buf ∧
      r.2.1.offset = last_off K k buf u.offset) ∧
    ((∀ d b, (K.dirent_store d b).length = b.length) → cooked_roomy K c →
      ∃ r, fuse_internal_readdir_processdata K w u buf bufsize c = .ret r w) ∧
    (∀ (v v1 : World) (fdi : fuse_dispatcher) (u1 : uio) (c1 : fuse_iov),
      fuse_ticket_drop K v fdi.tick = .ret () v1 →
      fuse_internal_readdir_done K v fdi (-1) u1 c1 = .ret (0, u1, c1) v1) := by
  refine ⟨fun r w' h => ?_, fun hstore hr => ?_, fun v v1 fdi u1 c1 hd => ?_⟩
  · unfold fuse_internal_readdir_processdata at h
    by_cases c1 : bufsize < K.FUSE_NAME_OFFSET
    · rw [if_pos c1] at h
      have hk : k = 0 := by
        rcases k with _ | k
        · rfl
        · exact absurd hwf.1 (by omega)
      subst hk
      simp only [Outcome.ret.injEq] at h
      rw [← h.1]
      exact ⟨by simp, fun _ => rfl, by simp [host_bytes], by simp [host_bytes], rfl⟩
    · rw [if_neg c1] at h
      have hk := host_bytes_ge K k buf bufsize hwf
      obtain ⟨f, hfuel⟩ : ∃ f, u.resid + 1 = (f + 1) + k := ⟨u.resid - k, by omega⟩
      rw [hfuel] at h
      obtain ⟨w2, u2, c2, e1, e2, e3, e4, _, _, e7⟩ :=
        processdata_loop_emits K k (f + 1) w u buf bufsize c 0 hwf hroom hf hrw r w' h
      rw [processdata_loop_truncated K f w2 u2 _ _ c2 (0 + k) htr] at e1
      simp only [Outcome.ret.injEq] at e1
      rw [← e1.1]
      refine ⟨?_, fun h0 => e7 h0, e2, e4, e3⟩
      show (if (wire_rest K k buf bufsize).2 < K.FUSE_NAME_OFFSET then (-1 : Int)
        else if 0 + k = 0 then -1 else 0) = _
      by_cases c2 : (wire_rest K k buf bufsize).2 < K.FUSE_NAME_OFFSET
      · rw [if_pos c2, if_pos (Or.inr c2)]
      · rw [if_neg c2]
        by_cases c3 : k = 0
        · rw [if_pos (by omega), if_pos (Or.inl c3)]
        · rw [if_neg (by omega), if_neg (by
            rintro (h0 | h0)
            · exact c3 h0
            · exact c2 h0)]
  · unfold fuse_internal_readdir_processdata
    by_cases c1 : bufsize < K.FUSE_NAME_OFFSET
    · rw [if_pos c1]
      exact ⟨_, rfl⟩
    · rw [if_neg c1]
      obtain ⟨r, hr', _⟩ := processdata_loop_total K hstore (u.resid + 1) w u buf bufsize c 0 hr
        (Nat.lt_succ_self _)
      exact ⟨r, hr'⟩
  · unfold fuse_internal_readdir_done
    simp only [hd]
    rfl

/-- Witness of `readdir_truncated_reply`: the reply `demo_reply2` transcoded
into a `uio` of 4096 bytes. -/
theorem readdir_truncated_reply_witness :
    wire_wellformed sample 2 demo_reply2 94 ∧
    (wire_rest sample 2 demo_reply2 94).2 = 30 ∧
    host_bytes sample 2 demo_reply2 = 24 ∧
    (∃ r w', fuse_internal_readdir_processdata sample demo2 (demo_uio_read 4096) demo_reply2 94
        demo_cooked = .ret r w' ∧
      r.1 = 0 ∧ r.2.1.resid = 4096 - 24 ∧ r.2.1.data.length = 24 ∧ r.2.1.offset = 2) := by
  have hwf : wire_wellformed sample 2 demo_reply2 94 :=
    ⟨by decide, by decide, by decide, by decide, by decide, by decide, by decide, by decide,
      trivial⟩
  refine ⟨hwf, rfl, rfl, ?_⟩
  obtain ⟨h1, h2, _⟩ := readdir_truncated_reply sample demo2 (demo_uio_read 4096) demo_reply2 94
    demo_cooked 2 hwf (Or.inr (by decide)) (by decide) rfl rfl
  obtain ⟨r, hr⟩ := h2 (fun d b => poke_length b 0 _) ⟨rfl, by decide, Or.inr (by decide)⟩
  obtain ⟨e1, _, e3, e4, e5⟩ := h1 r demo2 hr
  exact ⟨r, demo2, hr, e1, e3, e4, e5⟩

/-- C25 counterexample: the daemon answers the `FUSE_READDIR` request of
`fuse_internal_readdir` with 10 bytes, less than the header of one record: the
transcoding reports `-1`, and `fuse_internal_readdir` returns 0 with nothing
moved; so it does when the reply is `demo_reply2` and the `uio` has room for 8
bytes, less than the first host record. -/
theorem readdir_first_record_unfit_is_success :
    fuse_internal_readdir_processdata sample demo2 (demo_uio_read 4096) (demo_reply2.take 10)
      10 demo_cooked = .ret (-1, demo_uio_read 4096, demo_cooked) demo2 ∧
    (∃ w', fuse_internal_readdir sample (demo_dir_daemon (demo_reply2.take 10)) ⟨1, 0, 0⟩ []
        5 1 none demo1 (demo_uio_read 4096) demo_cooked =
      .ret (0, demo_uio_read 4096, demo_cooked) w') ∧
    fuse_internal_readdir_processdata sample demo2 (demo_uio_read 8) demo_reply2 94
      demo_cooked = .ret (-1, demo_uio_read 8, demo_cooked) demo2 ∧
    (∃ w', fuse_internal_readdir sample (demo_dir_daemon demo_reply2) ⟨1, 0, 0⟩ []
        5 1 none demo1 (demo_uio_read 8) demo_cooked =
      .ret (0, demo_uio_read 8, demo_cooked) w') :=
  ⟨rfl, ⟨_, rfl⟩, rfl, ⟨_, rfl⟩⟩

theorem processdata_loop_bad_namelen (K : Config) (fuel : Nat) (w : World) (u : uio)
    (buf : List Nat) (bufsize : Nat) (c : fuse_iov) (cou : Nat)
    (h1 : K.FUSE_NAME_OFFSET ≤ bufsize)
    (h2 : K.FUSE_DIRENT_SIZE (K.fuse_dirent_load buf).namelen ≤ bufsize)
    (hbad : (K.fuse_dirent_load buf).namelen = 0 ∨ MAXNAMLEN < (K.fuse_dirent_load buf).namelen) :
    fuse_internal_readdir_processdata_loop K (fuel + 1) w u buf bufsize c cou =
      .ret ((if (K.fuse_dirent_load buf).namelen = 0 then (EINVAL : Int) else ( EIO : Int)),
        u, c) w := by
  unfold fuse_internal_readdir_processdata_loop
  simp only []
  rw [if_neg (by omega), if_neg (by omega)]
  by_cases c3 : (K.fuse_dirent_load buf).namelen = 0
  · rw [if_pos c3, if_pos c3]
  · rw [if_neg c3, if_neg c3]
    rcases hbad with h | h
    · exact absurd h c3
    · rw [if_pos h]

/-- C26: for a record of the protocol that lies in the reply with its name,
`fuse_internal_readdir_processdata` stops with `EINVAL` if its `namelen` is 0
and with `EIO` if its `namelen` exceeds `MAXNAMLEN`, at whatever point of the
reply the record is met: the iteration that meets it returns with the `uio`,
the cooked buffer and the session as it found them; and when `k` well-formed
records that fit the `uio` precede it, the bytes moved into the `uio` are
those of the `k` host records and its offset is the `off` of the last of
them. The call does return when the cooked buffer is roomy. -/
theorem readdir_bad_namelen (K : Config) (w : World) (u : uio) (buf : List Nat)
    (bufsize : Nat) (c : fuse_iov)
    (h1 : K.FUSE_NAME_OFFSET ≤ bufsize)
    (h2 : K.FUSE_DIRENT_SIZE (K.fuse_dirent_load buf).namelen ≤ bufsize)
    (hbad : (K.fuse_dirent_load buf).namelen = 0 ∨ MAXNAMLEN < (K.fuse_dirent_load buf).namelen) :
    (∀ fuel cou, fuse_internal_readdir_processdata_loop K (fuel + 1) w u buf bufsize c cou =
      .ret ((if (K.fuse_dirent_load buf).namelen = 0 then (EINVAL : Int) else ( EIO : Int)),
        u, c) w) ∧
    (∀ (k : Nat) (v : World) (u0 : uio) (buf0 : List Nat) (bufsize0 : Nat) (c0 : fuse_iov),
      wire_wellformed K k buf0 bufsize0 → wire_rest K k buf0 bufsize0 = (buf, bufsize) →
      host_bytes K k buf0 ≤ u0.resid → u0.fault = 0 → u0.rw = .UIO_READ →
      ∀ r w', fuse_internal_readdir_processdata K v u0 buf0 bufsize0 c0 = .ret r w' →
        r.1 = (if (K.fuse_dirent_load buf).namelen = 0 then (EINVAL : Int) else ( EIO : Int)) ∧
        (k = 0 → r.2.1 = u0) ∧
        r.2.1.resid = u0.resid - host_bytes K k buf0 ∧
        r.2.1.data.length = u0.data.length + host_bytes K k buf0 ∧
        r.2.1.offset = last_off K k buf0 u0.offset) ∧
    ((∀ d b, (K.dirent_store d b).length = b.length) →
      ∀ (v : World) (u0 : uio) (buf0 : List Nat) (bufsize0 : Nat) (c0 : fuse_iov),
        cooked_roomy K c0 →
        ∃ r, fuse_internal_readdir_processdata K v u0 buf0 bufsize0 c0 = .ret r v) := by
  refine ⟨fun fuel cou => processdata_loop_bad_namelen K fuel w u buf bufsize c cou h1 h2 hbad,
    fun k v u0 buf0 bufsize0 c0 hwf hrest hroom hf hrw r w' h => ?_,
    fun hstore v u0 buf0 bufsize0 c0 hr => ?_⟩
  swap
  · unfold fuse_internal_readdir_processdata
    by_cases c1 : bufsize0 < K.FUSE_NAME_OFFSET
    · rw [if_pos c1]
      exact ⟨_, rfl⟩
    · rw [if_neg c1]
      obtain ⟨r, hr', _⟩ := processdata_loop_total K hstore (u0.resid + 1) v u0 buf0 bufsize0
        c0 0 hr (Nat.lt_succ_self _)
      exact ⟨r, hr'⟩
  unfold fuse_internal_readdir_processdata at h
  have c1 : ¬ bufsize0 < K.FUSE_NAME_OFFSET := by
    rcases k with _ | k
    · simp only [wire_rest, Prod.mk.injEq] at hrest
      omega
    · have := hwf.1
      omega
  rw [if_neg c1] at h
  have hk := host_bytes_ge K k buf0 bufsize0 hwf
  obtain ⟨f, hfuel⟩ : ∃ f, u0.resid + 1 = (f + 1) + k := ⟨u0.resid - k, by omega⟩
  rw [hfuel] at h
  obtain ⟨w2, u2, c2, e1, e2, e3, e4, _, _, e7⟩ :=
    processdata_loop_emits K k (f + 1) v u0 buf0 bufsize0 c0 0 hwf hroom hf hrw r w' h
  rw [hrest] at e1
  rw [processdata_loop_bad_namelen K f w2 u2 buf bufsize c2 (0 + k) h1 h2 hbad] at e1
  simp only [Outcome.ret.injEq] at e1
  rw [← e1.1]
  exact ⟨rfl, e7, e2, e4, e3⟩

/-- Witness of `readdir_bad_namelen`: the third record of `demo_reply_bad`. -/
theorem readdir_bad_namelen_witness :
    wire_wellformed sample 2 demo_reply_bad 88 ∧
    wire_rest sample 2 demo_reply_bad 88 = (demo_reply_bad.drop 64, 24) ∧
    ∃ r w', fuse_internal_readdir_processdata sample demo2 (demo_uio_read 4096) demo_reply_bad
        88 demo_cooked = .ret r w' ∧
      r.1 = (EINVAL : Int) ∧ r.2.1.resid = 4096 - 24 ∧ r.2.1.data.length = 24 ∧
      r.2.1.offset = 2 := by
  have hwf : wire_wellformed sample 2 demo_reply_bad 88 :=
    ⟨by decide, by decide, by decide, by decide, by decide, by decide, by decide, by decide,
      trivial⟩
  obtain ⟨r, w', h⟩ : ∃ r w', fuse_internal_readdir_processdata sample demo2
      (demo_uio_read 4096) demo_reply_bad 88 demo_cooked = .ret r w' := ⟨_, _, rfl⟩
  obtain ⟨e1, _, e3, e4, e5⟩ := (readdir_bad_namelen sample demo2 (demo_uio_read 4096)
    (demo_reply_bad.drop 64) 24 demo_cooked (by decide) (by decide) (Or.inl (by decide))).2.1 2
    demo2 (demo_uio_read 4096) demo_reply_bad 88 demo_cooked hwf rfl (by decide) rfl rfl r w' h
  exact ⟨hwf, rfl, r, w', h, e1, e3, e4, e5⟩

theorem processdata_loop_full (K : Config) (fuel : Nat) (w : World) (u : uio)
    (buf : List Nat) (bufsize : Nat) (c : fuse_iov) (cou : Nat)
    (hwf : wire_wellformed K 1 buf bufsize)
    (hfull : u.resid < GENERIC_DIRSIZ (K.fuse_dirent_load buf).namelen) :
    fuse_internal_readdir_processdata_loop K (fuel + 1) w u buf bufsize c cou =
      .ret (-1, u, c) w := by
  obtain ⟨g1, g2, g3, g4, _⟩ := hwf
  unfold fuse_internal_readdir_processdata_loop
  simp only []
  rw [if_neg (by omega), if_neg (by omega), if_neg (by omega), if_neg (by omega),
    if_pos hfull]

theorem processdata_full (K : Config) (w : World) (u : uio) (buf : List Nat) (bufsize : Nat)
    (c : fuse_iov) (k : Nat)
    (hwf : wire_wellformed K k buf bufsize)
    (hnext : wire_wellformed K 1 (wire_rest K k buf bufsize).1 (wire_rest K k buf bufsize).2)
    (hroom : host_bytes K k buf ≤ u.resid)
    (hfull : u.resid - host_bytes K k buf <
      GENERIC_DIRSIZ (K.fuse_dirent_load (wire_rest K k buf bufsize).1).namelen)
    (hf : u.fault = 0) (hrw : u.rw = .UIO_READ)
    (r : Int × uio × fuse_iov) (w' : World)
    (h : fuse_internal_readdir_processdata K w u buf bufsize c = .ret r w') :
    r.1 = -1 ∧ (k = 0 → r.2.1 = u) ∧ r.2.1.resid = u.resid - host_bytes K k buf ∧
      r.2.1.data.length = u.data.length + host_bytes K k buf ∧
      r.2.1.offset = last_off K k buf u.offset := by
  unfold fuse_internal_readdir_processdata at h
  have c1 : ¬ bufsize < K.FUSE_NAME_OFFSET := by
    rcases k with _ | k
    · have := hnext.1
      simp only [wire_rest] at this
      omega
    · have := hwf.1
      omega
  rw [if_neg c1] at h
  have hk := host_bytes_ge K k buf bufsize hwf
  obtain ⟨f, hfuel⟩ : ∃ f, u.resid + 1 = (f + 1) + k := ⟨u.resid - k, by omega⟩
  rw [hfuel] at h
  obtain ⟨w2, u2, c2, e1, e2, e3, e4, _, _, e7⟩ :=
    processdata_loop_emits K k (f + 1) w u buf bufsize c 0 hwf hroom hf hrw r w' h
  rw [processdata_loop_full K f w2 u2 _ _ c2 (0 + k) hnext (by rw [e2]; exact hfull)] at e1
  simp only [Outcome.ret.injEq] at e1
  rw [← e1.1]
  exact ⟨rfl, e7, e2, e4, e3⟩

theorem readdir_loop_iter {K : Config} {during : World → World} {cur : Identity}
    {alerts : List (Nat × Nat)} {nid fh_id : Nat} {context : Option Identity} {fuel : Nat}
    {w w1 w3 w4 : World} {u u1 : uio} {fdi fdi1 fdi2 : fuse_dispatcher} {t t3 : fuse_ticket}
    {c c1 : fuse_iov} {e : Int}
    (hres : 0 < u.resid)
    (hmake : fdisp_make K w { fdi with iosize := K.sizeof_fuse_read_in } .FUSE_READDIR nid
      context cur = .ret fdi1 w1)
    (ht : w1.tick fdi1.tick = some t)
    (hwait : fdisp_wait_answ K during cur alerts
      (w1.setTick fdi1.tick (fuse_read_in_fill K t fdi1.indata fh_id u.offset
        (min u.resid w1.data.iosize))) fdi1 = .ret (0, fdi2) w3)
    (ht3 : w3.tick fdi2.tick = some t3)
    (hpd : fuse_internal_readdir_processdata K w3 u ((fticket_resp t3).base.drop fdi2.answ)
      fdi2.iosize c = .ret (e, u1, c1) w4)
    (he : e ≠ 0) :
    fuse_internal_readdir_loop K during cur alerts nid fh_id context (fuel + 1) w u fdi c =
      fuse_internal_readdir_done K w4 fdi2 e u1 c1 := by
  unfold fuse_internal_readdir_loop
  rw [if_pos hres]
  simp only [hmake, ht, hwait, ht3, hpd]
  rw [if_neg (by simp), if_pos he]

/-- C27: in an iteration of `fuse_internal_readdir` whose request the daemon
has answered without error with a reply that starts with `k` well-formed
records that fit the `uio` and a well-formed record whose host record,
padded, is larger than the room then left: every return of
`fuse_internal_readdir_processdata` reports `-1` with the bytes of the `k`
host records moved and nothing of the next one, the offset of the `uio` being
the `off` of the last of the `k` (its own when `k` is 0); and every return of
`fuse_internal_readdir` returns 0 with the `uio` in that state. It does return
when the cooked buffer is roomy and the drop of the ticket returns. -/
theorem readdir_output_full (K : Config) (during : World → World) (cur : Identity)
    (alerts : List (Nat × Nat)) (nid fh_id : Nat) (context : Option Identity) (fuel : Nat)
    (w w1 w3 : World) (u : uio) (fdi fdi1 fdi2 : fuse_dispatcher) (t t3 : fuse_ticket)
    (c : fuse_iov) (k : Nat)
    (hres : 0 < u.resid)
    (hmake : fdisp_make K w { fdi with iosize := K.sizeof_fuse_read_in } .FUSE_READDIR nid
      context cur = .ret fdi1 w1)
    (ht : w1.tick fdi1.tick = some t)
    (hwait : fdisp_wait_answ K during cur alerts
      (w1.setTick fdi1.tick (fuse_read_in_fill K t fdi1.indata fh_id u.offset
        (min u.resid w1.data.iosize))) fdi1 = .ret (0, fdi2) w3)
    (ht3 : w3.tick fdi2.tick = some t3)
    (hwf : wire_wellformed K k ((fticket_resp t3).base.drop fdi2.answ) fdi2.iosize)
    (hnext : wire_wellformed K 1
      (wire_rest K k ((fticket_resp t3).base.drop fdi2.answ) fdi2.iosize).1
      (wire_rest K k ((fticket_resp t3).base.drop fdi2.answ) fdi2.iosize).2)
    (hroom : host_bytes K k ((fticket_resp t3).base.drop fdi2.answ) ≤ u.resid)
    (hfull : u.resid - host_bytes K k ((fticket_resp t3).base.drop fdi2.answ) <
      GENERIC_DIRSIZ (K.fuse_dirent_load
        (wire_rest K k ((fticket_resp t3).base.drop fdi2.answ) fdi2.iosize).1).namelen)
    (hf : u.fault = 0) (hrw : u.rw = .UIO_READ) :
    (∀ r w', fuse_internal_readdir_processdata K w3 u ((fticket_resp t3).base.drop fdi2.answ)
        fdi2.iosize c = .ret r w' →
      r.1 = -1 ∧ (k = 0 → r.2.1 = u) ∧
      r.2.1.resid = u.resid - host_bytes K k ((fticket_resp t3).base.drop fdi2.answ) ∧
      r.2.1.data.length =
        u.data.length + host_bytes K k ((fticket_resp t3).base.drop fdi2.answ) ∧
      r.2.1.offset = last_off K k ((fticket_resp t3).base.drop fdi2.answ) u.offset) ∧
    (∀ r w', fuse_internal_readdir_loop K during cur alerts nid fh_id context (fuel + 1) w u
        fdi c = .ret r w' →
      r.1 = 0 ∧ (k = 0 → r.2.1 = u) ∧
      r.2.1.resid = u.resid - host_bytes K k ((fticket_resp t3).base.drop fdi2.answ) ∧
      r.2.1.data.length =
        u.data.length + host_bytes K k ((fticket_resp t3).base.drop fdi2.answ) ∧
      r.2.1.offset = last_off K k ((fticket_resp t3).base.drop fdi2.answ) u.offset) ∧
    ((∀ d b, (K.dirent_store d b).length = b.length) → cooked_roomy K c →
      ∀ w4, fuse_ticket_drop K w3 fdi2.tick = .ret () w4 →
        ∃ r, fuse_internal_readdir_loop K during cur alerts nid fh_id context (fuel + 1) w u
          fdi c = .ret r w4) := by
  have hpd := processdata_full K w3 u ((fticket_resp t3).base.drop fdi2.answ) fdi2.iosize c k
    hwf hnext hroom hfull hf hrw
  refine ⟨hpd, fun r w' h => ?_, fun hstore hr w4 hd => ?_⟩
  swap
  · have htot : ∃ r, fuse_internal_readdir_processdata K w3 u
        ((fticket_resp t3).base.drop fdi2.answ) fdi2.iosize c = .ret r w3 := by
      unfold fuse_internal_readdir_processdata
      by_cases c1 : fdi2.iosize < K.FUSE_NAME_OFFSET
      · rw [if_pos c1]
        exact ⟨_, rfl⟩
      · rw [if_neg c1]
        obtain ⟨r, hr', _⟩ := processdata_loop_total K hstore (u.resid + 1) w3 u
          ((fticket_resp t3).base.drop fdi2.answ) fdi2.iosize c 0 hr (Nat.lt_succ_self _)
        exact ⟨r, hr'⟩
    obtain ⟨⟨e, u1, c1⟩, hp⟩ := htot
    obtain ⟨e1, _⟩ := hpd _ _ hp
    simp only [] at e1
    subst e1
    rw [readdir_loop_iter hres hmake ht hwait ht3 hp (by decide)]
    unfold fuse_internal_readdir_done
    rw [hd]
    exact ⟨_, rfl⟩
  rcases hp : fuse_internal_readdir_processdata K w3 u ((fticket_resp t3).base.drop fdi2.answ)
      fdi2.iosize c with ⟨⟨e, u1, c1⟩, w4⟩ | ⟨m, w4⟩ | _
  · obtain ⟨e1, e2, e3, e4, e5⟩ := hpd _ _ hp
    simp only [] at e1 e2 e3 e4 e5
    subst e1
    rw [readdir_loop_iter hres hmake ht hwait ht3 hp (by decide)] at h
    unfold fuse_internal_readdir_done at h
    split at h
    · cases h
    · cases h
    · simp only [Outcome.ret.injEq] at h
      rw [← h.1]
      exact ⟨rfl, e2, e3, e4, e5⟩
  · unfold fuse_internal_readdir_loop at h
    rw [if_pos hres] at h
    simp only [hmake, ht, hwait, ht3, hp] at h
    cases h
  · unfold fuse_internal_readdir_loop at h
    rw [if_pos hres] at h
    simp only [hmake, ht, hwait, ht3, hp] at h
    cases h

/-- Witness of `readdir_output_full`: the reply `demo_reply2` to a read of at
most 20 bytes: the first host record, of 12 bytes, is moved, the second does
not fit the 8 bytes left, and the offset is the `off` of the first. -/
theorem readdir_output_full_witness :
    ∃ r w', fuse_internal_readdir sample (demo_dir_daemon demo_reply2) ⟨1, 0, 0⟩ [] 5 1 none
        demo1 (demo_uio_read 20) demo_cooked = .ret r w' ∧
      r.1 = 0 ∧ r.2.1.resid = 8 ∧ r.2.1.data.length = 12 ∧ r.2.1.offset = 1 := by
  obtain ⟨r, w', h⟩ : ∃ r w', fuse_internal_readdir_loop sample (demo_dir_daemon demo_reply2)
      ⟨1, 0, 0⟩ [] 5 1 none (20 + 1) demo1 (demo_uio_read 20) demo_rd_fdi0 demo_cooked =
        .ret r w' := ⟨_, _, rfl⟩
  obtain ⟨e1, _, e3, e4, e5⟩ := (readdir_output_full sample (demo_dir_daemon demo_reply2)
    ⟨1, 0, 0⟩ [] 5 1 none 20 demo1 demo_rd_w1 (demo_rd_w3 20) (demo_uio_read 20) demo_rd_fdi0
    demo_rd_fdi1 { demo_rd_fdi1 with answ_stat := 0, answ := 0, iosize := 94 }
    (demo_rd_w1.tickD 8192) ((demo_rd_w3 20).tickD 8192) demo_cooked 1 (by decide) rfl rfl rfl
    rfl ⟨by decide, by decide, by decide, by decide, trivial⟩
    ⟨by decide, by decide, by decide, by decide, trivial⟩ (by decide) (by decide) rfl rfl).2.1
    r w' h
  exact ⟨r, w', h, e1, e3, e4, e5⟩



/-! ## Lemmas and properties: the strategy routine -/

theorem u32_of_lt (n : Nat) (h : n < 2 ^ 32) : u32 (n : Int) = n := by
  unfold u32
  have : ((n : Int) % 2 ^ 32) = (n : Int) := Int.emod_eq_of_lt (by omega) (by exact_mod_cast h)
  rw [this]; rfl

theorem int32_of_lt (n : Nat) (h : n < 2 ^ 31) : int32 n = (n : Int) := by
  unfold int32
  have h1 : n % 2 ^ 32 = n := Nat.mod_eq_of_lt (by omega)
  rw [h1, if_pos h]

theorem strategy_read_begin (K : Config) (during : World → World) (cur : Identity)
    (alerts : List (Nat × Nat)) (vn : vnode) (fh_id fuel : Nat) (w : World)
    (fdi : fuse_dispatcher) (bp : buf) (biosize : Int) (hc : bp.b_bcount < 2 ^ 32)
    (hlt : bp.b_blkno * biosize < vn.filesize) (hmap : bp.map_status = 0) :
    fuse_internal_strategy_read K during cur alerts vn fh_id fuel w fdi bp biosize =
      fuse_internal_strategy_read_loop K during cur alerts vn fh_id fuel w
        (strategy_read_start vn fdi bp biosize) := by
  unfold fuse_internal_strategy_read strategy_read_start
  simp only [buf_setresid, buf_setcount, u32_of_lt _ hc]
  rw [if_neg (by simpa using hlt)]
  by_cases hs : bp.b_blkno * biosize + (bp.b_bcount : Int) > vn.filesize
  · simp only [if_pos hs]
    rw [if_neg (by simpa using hmap)]
    have h0 : 0 ≤ vn.filesize - bp.b_blkno * biosize := by omega
    have h1 : vn.filesize - bp.b_blkno * biosize < 2 ^ 32 := by
      have : (bp.b_bcount : Int) < 2 ^ 32 := by exact_mod_cast hc
      omega
    have : u32 (vn.filesize - bp.b_blkno * biosize) =
        (vn.filesize - bp.b_blkno * biosize).toNat := by
      unfold u32; rw [Int.emod_eq_of_lt h0 h1]
    rw [this]
  · simp only [if_neg hs]
    rw [if_neg (by simpa using hmap)]

theorem u32_int32 (n : Nat) : u32 (int32 n) = n % 2 ^ 32 := by
  unfold u32 int32
  have h : n % 2 ^ 32 < 2 ^ 32 := Nat.mod_lt _ (by norm_num)
  split
  · rw [Int.emod_eq_of_lt (by omega) (by exact_mod_cast h)]; rfl
  · have : (((n % 2 ^ 32 : Nat) : Int) - 2 ^ 32) % 2 ^ 32 = ((n % 2 ^ 32 : Nat) : Int) := by
      rw [Int.sub_emod, Int.emod_self, sub_zero, Int.emod_emod_of_dvd _ (dvd_refl _)]
      exact Int.emod_eq_of_lt (by omega) (by exact_mod_cast h)
    rw [this]; rfl

theorem strategy_read_eof (K : Config) (during : World → World) (cur : Identity)
    (alerts : List (Nat × Nat)) (vn : vnode) (fh_id fuel : Nat) (w : World)
    (fdi : fuse_dispatcher) (bp : buf) (biosize : Int) (hc : bp.b_bcount < 2 ^ 32)
    (hge : vn.filesize ≤ bp.b_blkno * biosize) :
    fuse_internal_strategy_read K during cur alerts vn fh_id fuel w fdi bp biosize =
      .ret (0, { bp with
                 b_resid := bp.b_bcount, done := true,
                 b_error := if bp.b_blkno * biosize = vn.filesize then bp.b_error
                            else EINVAL }) w := by
  unfold fuse_internal_strategy_read
  simp only [buf_setresid, buf_setcount, buf_seterror, buf_biodone, u32_of_lt _ hc]
  rw [if_pos (by simpa using hge)]
  by_cases he : bp.b_blkno * biosize = vn.filesize
  · simp [he]
  · simp [he]

/-- C28: a read of a file that has a valid read-only file handle, at or behind
the cached size, returns 0 with the session untouched, the residual the whole
count and the buffer done, in error when it starts behind the size.  A read
that starts before the cached size, its buffer mapped, enters the loop with the
count trimmed to what the file has from the start on, but with the residual,
which was set before the trimming, the count asked for; the first request asks
for that residual, capped by the largest transfer only: the trimming does not
reach the request. -/
theorem strategy_read_clipping (K : Config) (during : World → World) (cur : Identity)
    (alerts : List (Nat × Nat))
    (fh_get : World → vnode → fufh_type → Outcome (Int × vnode)) (vn : vnode)
    (fh_id fuel : Nat) (w : World) (fdi : fuse_dispatcher) (bp : buf) (biosize : Int)
    (hc : bp.b_bcount < 2 ^ 32) :
    (vn.v_type = .VREG ∨ vn.v_type = .VDIR → bp.b_flags &&& B_READ ≠ 0 →
      vn.fufh_rdonly.fufh_flags &&& FUFH_VALID ≠ 0 → bp.b_bcount ≠ 0 →
      vn.filesize ≤ bp.b_blkno * int32 w.data.blocksize →
      fuse_internal_strategy K during cur alerts fh_get fuel w vn bp =
        .ret (0, { bp with
                   b_resid := bp.b_bcount, done := true,
                   b_error := if bp.b_blkno * int32 w.data.blocksize = vn.filesize
                              then bp.b_error else EINVAL }, vn) w) ∧
    (bp.b_blkno * biosize < vn.filesize → bp.map_status = 0 →
      fuse_internal_strategy_read K during cur alerts vn fh_id fuel w fdi bp biosize =
        fuse_internal_strategy_read_loop K during cur alerts vn fh_id fuel w
          (strategy_read_start vn fdi bp biosize) ∧
      (strategy_read_start vn fdi bp biosize).bp.b_resid = bp.b_bcount ∧
      (vn.filesize < bp.b_blkno * biosize + bp.b_bcount →
        ((strategy_read_start vn fdi bp biosize).bp.b_bcount : Int) =
          vn.filesize - bp.b_blkno * biosize) ∧
      ∀ fdi1 w1 t,
        fdisp_make K w { fdi with iosize := K.sizeof_fuse_read_in }
          (if vn.v_type = .VDIR then .FUSE_READDIR else .FUSE_READ) vn.nodeid none cur =
          .ret fdi1 w1 →
        w1.tick fdi1.tick = some t →
        fuse_internal_strategy_read_step K during cur alerts vn fh_id w
            (strategy_read_start vn fdi bp biosize) =
          fuse_internal_strategy_read_reply (strategy_read_start vn fdi bp biosize)
            (fdisp_wait_answ K during cur alerts
              (w1.setTick fdi1.tick
                { fuse_read_in_fill K t fdi1.indata fh_id (u64 (bp.b_blkno * biosize))
                    (min bp.b_bcount (w.data.iosize % 2 ^ 32)) with
                  tk_aw_type := .FT_A_BUF, tk_aw_bufdata := 0 }) fdi1)) := by
  refine ⟨fun hv hr hfh h0 hge => ?_,
    fun hlt hmap => ⟨?_, rfl, fun hs => ?_, fun fdi1 w1 t hmake ht => ?_⟩⟩
  · unfold fuse_internal_strategy fuse_internal_strategy_fufh
    have hfh2 : (vn.fufh .FUFH_RDONLY).fufh_flags &&& FUFH_VALID ≠ 0 := hfh
    simp only [hv, not_true_eq_false, if_false, if_pos hr, if_pos hfh2, ne_eq, if_neg h0]
    rw [strategy_read_eof K during cur alerts vn _ fuel w _ bp _ hc hge]
  · exact strategy_read_begin K during cur alerts vn fh_id fuel w fdi bp biosize hc hlt hmap
  · unfold strategy_read_start
    simp only
    rw [if_pos (by omega)]
    exact Int.toNat_of_nonneg (by omega)
  · unfold fuse_internal_strategy_read_step fuse_internal_strategy_read_request
    have hs : (strategy_read_start vn fdi bp biosize).fdi = fdi := rfl
    simp only [hs, hmake, ht, u32_int32]
    have hm : min (strategy_read_start vn fdi bp biosize).bp.b_resid (w.data.iosize % 2 ^ 32)
        % 2 ^ 32 = min bp.b_bcount (w.data.iosize % 2 ^ 32) := by
      have : (strategy_read_start vn fdi bp biosize).bp.b_resid = bp.b_bcount := rfl
      rw [this]
      exact Nat.mod_eq_of_lt (lt_of_le_of_lt (Nat.min_le_left _ _) hc)
    rw [hm]
    rfl

/-- C28 witness: a read of 512 bytes at offset 512 of a file of 512 bytes
returns 0 at once; at the failing input, a file of 612 bytes, it enters the
loop with the count 100 and the residual 512. -/
theorem strategy_read_clipping_witness :
    fuse_internal_strategy sample (demo_read_daemon 512) ⟨1, 0, 0⟩ [] demo_fh_get 2 demo_st
        (demo_vn 512) (demo_bp B_READ 512 1) =
      .ret (0, { demo_bp B_READ 512 1 with b_resid := 512, done := true }, demo_vn 512)
        demo_st ∧
    (demo_bp B_READ 512 1).b_blkno * 512 < (demo_vn 612).filesize ∧
    (strategy_read_start (demo_vn 612) demo_rd_fdi0 (demo_bp B_READ 512 1) 512).bp.b_resid =
      512 ∧
    ((strategy_read_start (demo_vn 612) demo_rd_fdi0 (demo_bp B_READ 512 1) 512).bp.b_bcount :
      Int) = 100 :=
  ⟨(strategy_read_clipping sample (demo_read_daemon 512) ⟨1, 0, 0⟩ [] demo_fh_get (demo_vn 512)
      1 2 demo_st demo_rd_fdi0 (demo_bp B_READ 512 1) 512 (by decide)).1 (by decide)
      (by decide) (by decide) (by decide) (by decide),
   by decide,
   ((strategy_read_clipping sample (demo_read_daemon 512) ⟨1, 0, 0⟩ [] demo_fh_get (demo_vn 612)
      1 2 demo_st demo_rd_fdi0 (demo_bp B_READ 512 1) 512 (by decide)).2 (by decide) rfl).2.1,
   ((strategy_read_clipping sample (demo_read_daemon 512) ⟨1, 0, 0⟩ [] demo_fh_get (demo_vn 612)
      1 2 demo_st demo_rd_fdi0 (demo_bp B_READ 512 1) 512 (by decide)).2 (by decide) rfl).2.2.1
      (by decide)⟩

/-- The run of C28 at the failing input: blocks of 512 bytes, a file of 612
bytes and a read of the 512 bytes of block 1, of which the file has 100.  The
single request asks for 512 bytes, the daemon answers with 512 bytes, which the
device accepts, and the read returns 0 with nothing left to transfer. -/
theorem strategy_read_asks_unclipped_count :
    (∃ bp1 vn1 w1,
      fuse_internal_strategy sample (demo_read_daemon 512) ⟨1, 0, 0⟩ [] demo_fh_get 2 demo_st
          (demo_vn 612) (demo_bp B_READ 512 1) = .ret (0, bp1, vn1) w1 ∧
      bp1.b_bcount = 100 ∧ bp1.b_resid = 0 ∧ bp1.b_error = 0) ∧
    (∃ s1 w1,
      fuse_internal_strategy_read_step sample (demo_read_daemon 512) ⟨1, 0, 0⟩ []
          (demo_vn 612) 1 demo_st
          (strategy_read_start (demo_vn 612) demo_rd_fdi0 (demo_bp B_READ 512 1) 512) =
        .ret (.again s1) w1 ∧
      fticket_read_in_size sample (w1.tickD 8192) = 512 ∧
      (w1.tickD 8192).tk_aw_bufsize = 512 ∧ s1.bp.b_resid = 0) ∧
    (demo_vn 612).filesize - (demo_bp B_READ 512 1).b_blkno * int32 demo_st.data.blocksize =
      100 :=
  ⟨⟨_, _, _, rfl, rfl, rfl, rfl⟩, ⟨_, _, rfl, rfl, rfl, rfl⟩, by decide⟩

theorem int32_nonneg_of_lt (n : Nat) (h : n < 2 ^ 31) : ¬ int32 n < 0 := by
  rw [int32_of_lt n h]; omega

theorem strategy_read_reply_some (s : strategy_state) (fdi2 : fuse_dispatcher) (w2 : World)
    (t : fuse_ticket) (ht : w2.tick fdi2.tick = some t) (hn : t.tk_aw_bufsize < 2 ^ 31)
    (hle : t.tk_aw_bufsize ≤ s.bp.b_resid) (hres : s.bp.b_resid < 2 ^ 32)
    (hpos : 0 < t.tk_aw_bufsize) :
    fuse_internal_strategy_read_reply s (.ret (0, fdi2) w2) =
      .ret (.again
        { s with fdi := fdi2,
                 bp := { s.bp with b_resid := s.bp.b_resid - t.tk_aw_bufsize },
                 bufdat := s.bufdat + t.tk_aw_bufsize,
                 offset := s.offset + t.tk_aw_bufsize }) w2 := by
  unfold fuse_internal_strategy_read_reply
  simp only [ne_eq, not_true_eq_false, if_false, ht, int32_of_lt _ hn]
  rw [if_neg (by omega)]
  rw [if_neg (by omega)]
  have h1 : ((s.bp.b_resid : Int) - (t.tk_aw_bufsize : Int)) =
      ((s.bp.b_resid - t.tk_aw_bufsize : Nat) : Int) := by omega
  simp only [buf_setresid, h1, u32_of_lt _ (show s.bp.b_resid - t.tk_aw_bufsize < 2 ^ 32 by omega),
    Int.toNat_ofNat]

theorem strategy_read_reply_none (s : strategy_state) (fdi2 : fuse_dispatcher) (w2 : World)
    (t : fuse_ticket) (ht : w2.tick fdi2.tick = some t) (hres : s.bp.b_resid < 2 ^ 32)
    (hpos : 0 < s.bp.b_resid) (hz : t.tk_aw_bufsize = 0) :
    fuse_internal_strategy_read_reply s (.ret (0, fdi2) w2) =
      .ret (.leave 0
        { s with fdi := fdi2,
                 bp := { s.bp with
                         b_resid := 0,
                         b_datap := s.bp.b_datap.take s.bufdat ++
                           List.replicate (min s.bp.b_resid (s.bp.b_datap.length - s.bufdat)) 0 ++
                           s.bp.b_datap.drop (s.bufdat + s.bp.b_resid) } }) w2 := by
  unfold fuse_internal_strategy_read_reply
  simp only [ne_eq, not_true_eq_false, if_false, ht, hz]
  have h0 : int32 0 = 0 := by decide
  simp only [h0, lt_self_iff_false, if_false, sub_zero, buf_setresid, u32_of_lt _ hres,
    true_and, if_pos hpos, Int.toNat_zero, add_zero, bzero, List.length_drop, List.drop_drop,
    List.append_assoc]
  have hu : u32 0 = 0 := by decide
  rw [hu]

theorem strategy_leave_ret (K : Config) (w w3 : World) (err : Int) (s : strategy_state)
    (hd : fuse_ticket_drop K w s.fdi.tick = .ret () w3) (hm : s.bp.mapped = true)
    (he : err = 0) (htick : s.fdi.tick ≠ 0) :
    fuse_internal_strategy_leave K w err s =
      .ret (0, { s.bp with mapped := false, done := true }) w3 := by
  unfold fuse_internal_strategy_leave fuse_internal_strategy_out
  rw [if_pos htick, hd]
  subst he
  simp [hm, buf_unmap, buf_biodone]

/-- C29 (as amended): in an iteration of the read loop whose request has
been answered without error by `n` bytes, no more than the residual: when
`n` is positive the loop goes on with the destination pointer and the file
offset advanced by `n` and the residual reduced by `n`, however `n` compares
with the size asked for; when `n` is 0 the loop is left with the destination
zero-filled from the pointer on for the length of the residual, the residual
0, and the function returns 0 with the buffer done and its error untouched once
the ticket is dropped. -/
theorem strategy_read_reply_spec (K : Config) (during : World → World) (cur : Identity)
    (alerts : List (Nat × Nat)) (vn : vnode) (fh_id fuel : Nat) (w : World)
    (s : strategy_state) (fdi1 fdi2 : fuse_dispatcher) (w1 w2 : World) (t : fuse_ticket)
    (hpos : 0 < s.bp.b_resid) (hres : s.bp.b_resid < 2 ^ 32)
    (hreq : fuse_internal_strategy_read_request K cur vn fh_id w s
      (int32 (min s.bp.b_resid (w.data.iosize % 2 ^ 32))) = .ret fdi1 w1)
    (hwait : fdisp_wait_answ K during cur alerts w1 fdi1 = .ret (0, fdi2) w2)
    (ht : w2.tick fdi2.tick = some t) (hn : t.tk_aw_bufsize < 2 ^ 31)
    (hle : t.tk_aw_bufsize ≤ s.bp.b_resid) :
    (0 < t.tk_aw_bufsize →
      fuse_internal_strategy_read_loop K during cur alerts vn fh_id (fuel + 1) w s =
        fuse_internal_strategy_read_loop K during cur alerts vn fh_id fuel w2
          { s with fdi := fdi2,
                   bp := { s.bp with b_resid := s.bp.b_resid - t.tk_aw_bufsize },
                   bufdat := s.bufdat + t.tk_aw_bufsize,
                   offset := s.offset + t.tk_aw_bufsize }) ∧
    (t.tk_aw_bufsize = 0 →
      fuse_internal_strategy_read_loop K during cur alerts vn fh_id (fuel + 1) w s =
        fuse_internal_strategy_leave K w2 0
          { s with fdi := fdi2,
                   bp := { s.bp with
                           b_resid := 0,
                           b_datap := s.bp.b_datap.take s.bufdat ++
                             List.replicate
                               (min s.bp.b_resid (s.bp.b_datap.length - s.bufdat)) 0 ++
                             s.bp.b_datap.drop (s.bufdat + s.bp.b_resid) } } ∧
      ∀ w3, fuse_ticket_drop K w2 fdi2.tick = .ret () w3 → fdi2.tick ≠ 0 →
        s.bp.mapped = true →
        fuse_internal_strategy_read_loop K during cur alerts vn fh_id (fuel + 1) w s =
          .ret (0, { s.bp with
                     b_resid := 0, mapped := false, done := true,
                     b_datap := s.bp.b_datap.take s.bufdat ++
                       List.replicate
                         (min s.bp.b_resid (s.bp.b_datap.length - s.bufdat)) 0 ++
                       s.bp.b_datap.drop (s.bufdat + s.bp.b_resid) }) w3) := by
  have hstep : fuse_internal_strategy_read_step K during cur alerts vn fh_id w s =
      fuse_internal_strategy_read_reply s (.ret (0, fdi2) w2) := by
    unfold fuse_internal_strategy_read_step
    simp only [hreq, hwait]
  refine ⟨fun h0 => ?_, fun hz => ?_⟩
  · rw [fuse_internal_strategy_read_loop, if_pos hpos, hstep,
      strategy_read_reply_some s fdi2 w2 t ht hn hle hres h0]
  · have hl : fuse_internal_strategy_read_loop K during cur alerts vn fh_id (fuel + 1) w s =
        fuse_internal_strategy_leave K w2 0
          { s with fdi := fdi2,
                   bp := { s.bp with
                           b_resid := 0,
                           b_datap := s.bp.b_datap.take s.bufdat ++
                             List.replicate
                               (min s.bp.b_resid (s.bp.b_datap.length - s.bufdat)) 0 ++
                             s.bp.b_datap.drop (s.bufdat + s.bp.b_resid) } } := by
      rw [fuse_internal_strategy_read_loop, if_pos hpos, hstep,
        strategy_read_reply_none s fdi2 w2 t ht hres hpos hz]
    refine ⟨hl, fun w3 hd htick hm => ?_⟩
    rw [hl]
    exact strategy_leave_ret K w2 w3 0 _ hd hm rfl htick

/-- C29 witness: on a buffer of 100 bytes a reply of 40 bytes to a request
for 100 bytes leaves the loop going, with 60 bytes to transfer from the
position 40; a reply of no byte ends it with the buffer zero-filled. -/
theorem strategy_read_reply_spec_witness :
    ((demo_sr_w2 40).tickD 8192).tk_aw_bufsize = 40 ∧
    fuse_internal_strategy_read_loop sample (demo_read_daemon 40) ⟨1, 0, 0⟩ [] (demo_vn 1000)
        1 3 demo_st demo_sr_s0 =
      fuse_internal_strategy_read_loop sample (demo_read_daemon 40) ⟨1, 0, 0⟩ []
        (demo_vn 1000) 1 2 (demo_sr_w2 40)
        { demo_sr_s0 with
          fdi := { demo_sr_fdi1 with answ_stat := 0, answ := 0, iosize := 0 },
          bp := { demo_sr_s0.bp with b_resid := 60 }, bufdat := 40, offset := 40 } ∧
    ∃ w3,
      fuse_internal_strategy_read_loop sample (demo_read_daemon 0) ⟨1, 0, 0⟩ [] (demo_vn 1000)
          1 3 demo_st demo_sr_s0 =
        .ret (0, { demo_sr_s0.bp with
                   b_resid := 0, mapped := false, done := true,
                   b_datap := List.replicate 100 0 }) w3 :=
  ⟨rfl,
   (strategy_read_reply_spec sample (demo_read_daemon 40) ⟨1, 0, 0⟩ [] (demo_vn 1000) 1 2
      demo_st demo_sr_s0 demo_sr_fdi1
      { demo_sr_fdi1 with answ_stat := 0, answ := 0, iosize := 0 } demo_sr_w1 (demo_sr_w2 40)
      ((demo_sr_w2 40).tickD 8192) (by decide) (by decide) rfl rfl rfl (by decide)
      (by decide)).1 (by decide),
   ⟨_, ((strategy_read_reply_spec sample (demo_read_daemon 0) ⟨1, 0, 0⟩ [] (demo_vn 1000) 1 2
      demo_st demo_sr_s0 demo_sr_fdi1
      { demo_sr_fdi1 with answ_stat := 0, answ := 0, iosize := 0 } demo_sr_w1 (demo_sr_w2 0)
      ((demo_sr_w2 0).tickD 8192) (by decide) (by decide) rfl rfl rfl (by decide)
      (by decide)).2 rfl).2 _ rfl (by decide) rfl⟩⟩

/-- C29 counterexample: on a buffer of 100 bytes the daemon
answers the request for 100 bytes with 40 bytes.  The iteration does not end
the transfer: it goes back to the test of the loop with 60 bytes to transfer
from the position 40 and nothing zero-filled, and the whole read ends after
two more requests with no byte of the buffer zeroed. -/
theorem strategy_read_short_reply_continues :
    (∃ s1 w1,
      fuse_internal_strategy_read_step sample demo_short_daemon ⟨1, 0, 0⟩ [] (demo_vn 1000) 1
          demo_st demo_sr_s0 = .ret (.again s1) w1 ∧
      fticket_read_in_size sample (w1.tickD 8192) = 100 ∧
      (w1.tickD 8192).tk_aw_bufsize = 40 ∧
      s1.bp.b_resid = 60 ∧ s1.bufdat = 40 ∧ s1.offset = 40 ∧
      s1.bp.b_datap = List.replicate 100 7) ∧
    (∃ bp1 vn1 w1,
      fuse_internal_strategy sample demo_short_daemon ⟨1, 0, 0⟩ [] demo_fh_get 4 demo_st
          (demo_vn 1000) (demo_bp B_READ 100 0) = .ret (0, bp1, vn1) w1 ∧
      bp1.b_resid = 0 ∧ bp1.b_datap = List.replicate 100 7) :=
  ⟨⟨_, _, rfl, rfl, rfl, rfl, rfl, rfl, rfl⟩, ⟨_, _, _, rfl, rfl, rfl⟩⟩

theorem strategy_write_diff_unsigned (K : Config) (chunksize : Int) (size : Nat)
    (hu : K.write_out_size_unsigned = true) : ¬ strategy_write_diff K chunksize size < 0 := by
  unfold strategy_write_diff
  rw [if_pos hu]
  have := Int.emod_nonneg (chunksize - (size : Int)) (show (2 : Int) ^ 32 ≠ 0 by norm_num)
  omega

theorem strategy_write_diff_signed (K : Config) (chunksize : Int) (size : Nat)
    (hu : K.write_out_size_unsigned = false) (h : chunksize < size) :
    strategy_write_diff K chunksize size < 0 := by
  unfold strategy_write_diff
  rw [if_neg (by simp [hu])]
  omega

/-- C30: in an iteration of the write loop whose request has been
answered without error by a reply accepting `a` bytes: when the field of the
reply is unsigned, as the protocol has it, the difference tested is never
negative and the loop goes on, whatever `a` is, with the source pointer and the
file offset advanced by `a` and the bytes left and the residual reduced by
`a`, the residual without wrapping when `a` is at most the residual; were the
field signed, a reply accepting more than the chunk would leave the loop with
`EINVAL` and nothing advanced. -/
theorem strategy_write_reply_spec (K : Config) (during : World → World) (cur : Identity)
    (alerts : List (Nat × Nat)) (vn : vnode) (fh_id fuel : Nat) (w : World)
    (s : strategy_state) (fdi1 fdi2 : fuse_dispatcher) (w1 w2 : World) (t : fuse_ticket)
    (hleft : s.left ≠ 0)
    (hreq : fuse_internal_strategy_write_request K cur vn fh_id w s = .ret fdi1 w1)
    (hwait : fdisp_wait_answ K during cur alerts w1 fdi1 = .ret (0, fdi2) w2)
    (ht : w2.tick fdi2.tick = some t) :
    (K.write_out_size_unsigned = true →
      fuse_internal_strategy_write_loop K during cur alerts vn fh_id (fuel + 1) w s =
        fuse_internal_strategy_write_loop K during cur alerts vn fh_id fuel w2
          { fdi := fdi2,
            bp := buf_setresid s.bp
              ((s.bp.b_resid : Int) -
                (K.write_out_size ((fticket_resp t).base.drop fdi2.answ) : Int)),
            bufdat := s.bufdat + K.write_out_size ((fticket_resp t).base.drop fdi2.answ),
            offset := s.offset + K.write_out_size ((fticket_resp t).base.drop fdi2.answ),
            left := s.left - K.write_out_size ((fticket_resp t).base.drop fdi2.answ) }) ∧
    (K.write_out_size ((fticket_resp t).base.drop fdi2.answ) ≤ s.bp.b_resid →
      s.bp.b_resid < 2 ^ 32 →
      (buf_setresid s.bp
        ((s.bp.b_resid : Int) -
          (K.write_out_size ((fticket_resp t).base.drop fdi2.answ) : Int))).b_resid =
        s.bp.b_resid - K.write_out_size ((fticket_resp t).base.drop fdi2.answ)) ∧
    (K.write_out_size_unsigned = false →
      strategy_write_chunksize w1 s.left <
        K.write_out_size ((fticket_resp t).base.drop fdi2.answ) →
      fuse_internal_strategy_write_loop K during cur alerts vn fh_id (fuel + 1) w s =
        fuse_internal_strategy_leave K w2 EINVAL { s with fdi := fdi2 }) := by
  have hstep : fuse_internal_strategy_write_step K during cur alerts vn fh_id w s =
      fuse_internal_strategy_write_reply K s (strategy_write_chunksize w1 s.left)
        (.ret (0, fdi2) w2) := by
    unfold fuse_internal_strategy_write_step
    simp only [hreq, hwait]
  refine ⟨fun hu => ?_, fun hle hres => ?_, fun hu hgt => ?_⟩
  · rw [fuse_internal_strategy_write_loop, if_pos hleft, hstep]
    unfold fuse_internal_strategy_write_reply
    simp only [ne_eq, not_true_eq_false, if_false, ht]
    rw [if_neg (strategy_write_diff_unsigned K _ _ hu)]
  · simp only [buf_setresid]
    have h1 : ((s.bp.b_resid : Int) -
        (K.write_out_size ((fticket_resp t).base.drop fdi2.answ) : Int)) =
        ((s.bp.b_resid - K.write_out_size ((fticket_resp t).base.drop fdi2.answ) : Nat) :
          Int) := by omega
    rw [h1]
    exact u32_of_lt _ (by omega)
  · rw [fuse_internal_strategy_write_loop, if_pos hleft, hstep]
    unfold fuse_internal_strategy_write_reply
    simp only [ne_eq, not_true_eq_false, if_false, ht]
    rw [if_pos (strategy_write_diff_signed K _ _ hu hgt)]

/-- C30 witness, at the failing input: a write of 100 bytes, asked for in one
chunk of 100 bytes, that the daemon answers with 200 bytes accepted.  The loop
is not left: it goes on 200 bytes further, with -100 bytes left and the
residual wrapped; with a signed field the same reply leaves the loop with
`EINVAL`. -/
theorem strategy_write_reply_spec_witness :
    strategy_write_chunksize demo_sw_w1 demo_sw_s0.left = 100 ∧
    sample.write_out_size ((fticket_resp ((demo_sw_w2 200).tickD 8192)).base.drop 0) = 200 ∧
    fuse_internal_strategy_write_loop sample (demo_write_daemon 200) ⟨1, 0, 0⟩ []
        (demo_vn 1000) 2 2 demo_st demo_sw_s0 =
      fuse_internal_strategy_write_loop sample (demo_write_daemon 200) ⟨1, 0, 0⟩ []
        (demo_vn 1000) 2 1 (demo_sw_w2 200)
        { fdi := { demo_sw_fdi1 with answ_stat := 0, answ := 0, iosize := 8 },
          bp := { demo_sw_s0.bp with b_resid := 4294967196 },
          bufdat := 200, offset := 200, left := -100 } ∧
    fuse_internal_strategy_write_loop { sample with write_out_size_unsigned := false }
        (demo_write_daemon 200) ⟨1, 0, 0⟩ [] (demo_vn 1000) 2 2 demo_st demo_sw_s0 =
      fuse_internal_strategy_leave { sample with write_out_size_unsigned := false }
        (demo_sw_w2 200) EINVAL
        { demo_sw_s0 with fdi := { demo_sw_fdi1 with answ_stat := 0, answ := 0, iosize := 8 } } :=
  ⟨rfl, rfl,
   (strategy_write_reply_spec sample (demo_write_daemon 200) ⟨1, 0, 0⟩ [] (demo_vn 1000) 2 1
      demo_st demo_sw_s0 demo_sw_fdi1
      { demo_sw_fdi1 with answ_stat := 0, answ := 0, iosize := 8 } demo_sw_w1 (demo_sw_w2 200)
      ((demo_sw_w2 200).tickD 8192) (by decide) rfl rfl rfl).1 rfl,
   (strategy_write_reply_spec { sample with write_out_size_unsigned := false }
      (demo_write_daemon 200) ⟨1, 0, 0⟩ [] (demo_vn 1000) 2 1
      demo_st demo_sw_s0 demo_sw_fdi1
      { demo_sw_fdi1 with answ_stat := 0, answ := 0, iosize := 8 } demo_sw_w1 (demo_sw_w2 200)
      ((demo_sw_w2 200).tickD 8192) (by decide) rfl rfl rfl).2.2 rfl (by decide)⟩

/-! ## Properties: the cursor of the transcoding -/

theorem processdata_loop_emit_eq (K : Config)
    (hstore : ∀ d b, (K.dirent_store d b).length = b.length) (fuel : Nat) (w : World)
    (u : uio) (buf : List Nat) (bufsize : Nat) (c : fuse_iov) (cou : Nat)
    (h1 : K.FUSE_NAME_OFFSET ≤ bufsize)
    (h2 : K.FUSE_DIRENT_SIZE (K.fuse_dirent_load buf).namelen ≤ bufsize)
    (h3 : 1 ≤ (K.fuse_dirent_load buf).namelen)
    (h4 : (K.fuse_dirent_load buf).namelen ≤ MAXNAMLEN)
    (h5 : GENERIC_DIRSIZ (K.fuse_dirent_load buf).namelen ≤ u.resid)
    (hf : u.fault = 0) (hrw : u.rw = .UIO_READ) (hr : cooked_roomy K c) :
    ∃ c3 cp, cooked_roomy K c3 ∧
      fuse_internal_readdir_processdata_loop K (fuel + 1) w u buf bufsize c cou =
        fuse_internal_readdir_processdata_loop K fuel w
          { uio_moved u cp (GENERIC_DIRSIZ (K.fuse_dirent_load buf).namelen) with
            offset := (K.fuse_dirent_load buf).off }
          (buf.drop (K.FUSE_DIRENT_SIZE (K.fuse_dirent_load buf).namelen))
          (bufsize - K.FUSE_DIRENT_SIZE (K.fuse_dirent_load buf).namelen) c3 (cou + 1) := by
  obtain ⟨b1, b2, b3, b4⟩ := GENERIC_DIRSIZ_bounds (K.fuse_dirent_load buf).namelen h4
  have hr1 : cooked_roomy K { c with base := bzero c.base c.len, len := 0 } :=
    ⟨by rw [bzero_length]; exact hr.1, hr.2.1, hr.2.2⟩
  have hlen : ∀ de name, (poke (K.dirent_store de (bzero c.base c.len))
      (sizeof_dirent - MAXNAMLEN - 1) name).length = c.allocated_size := by
    intro de name
    rw [poke_length, hstore, bzero_length, hr.1]
  rw [fuse_internal_readdir_processdata_loop]
  simp only []
  rw [if_neg (by omega), if_neg (by omega), if_neg (by omega), if_neg (by omega),
    if_neg (by omega), fiov_refresh_roomy K w c hr]
  simp only []
  rw [fiov_adjust_roomy K w _ _ hr1 b4]
  simp only []
  rw [if_pos (by rw [hlen]; have := hr.2.1; omega), uiomove_read _ _ u hf hrw h5]
  simp only [ne_eq, not_true_eq_false, if_false]
  refine ⟨_, _, ?_, rfl⟩
  refine ⟨?_, hr.2.1, hr.2.2⟩
  show (List.set _ _ _).length = c.allocated_size
  rw [List.length_set, hlen]

/-- C33: an iteration of `fuse_internal_readdir_processdata` that meets a record
of the protocol lying in the reply, with a name of 1 to `MAXNAMLEN` bytes, the
host record of which fits a readable `uio`, emits it and goes on with the
cursor advanced by `FUSE_DIRENT_SIZE` of the record of the protocol, the
remaining length reduced by the same, the count of records one more, the room
of the `uio` reduced by the size `GENERIC_DIRSIZ` of the host record, and the
offset of the `uio` the `off` of the record of the protocol: so for every call
that returns, and as an equation when the cooked buffer is roomy. -/
theorem processdata_cursor (K : Config) (fuel : Nat) (w : World) (u : uio) (buf : List Nat)
    (bufsize : Nat) (c : fuse_iov) (cou : Nat)
    (h1 : K.FUSE_NAME_OFFSET ≤ bufsize)
    (h2 : K.FUSE_DIRENT_SIZE (K.fuse_dirent_load buf).namelen ≤ bufsize)
    (h3 : 1 ≤ (K.fuse_dirent_load buf).namelen)
    (h4 : (K.fuse_dirent_load buf).namelen ≤ MAXNAMLEN)
    (h5 : GENERIC_DIRSIZ (K.fuse_dirent_load buf).namelen ≤ u.resid)
    (hf : u.fault = 0) (hrw : u.rw = .UIO_READ) :
    (∀ r w', fuse_internal_readdir_processdata_loop K (fuel + 1) w u buf bufsize c cou =
        .ret r w' →
      ∃ w2 c2 cp,
        fuse_internal_readdir_processdata_loop K fuel w2
          { uio_moved u cp (GENERIC_DIRSIZ (K.fuse_dirent_load buf).namelen) with
            offset := (K.fuse_dirent_load buf).off }
          (buf.drop (K.FUSE_DIRENT_SIZE (K.fuse_dirent_load buf).namelen))
          (bufsize - K.FUSE_DIRENT_SIZE (K.fuse_dirent_load buf).namelen) c2 (cou + 1) =
          .ret r w') ∧
    ((∀ d b, (K.dirent_store d b).length = b.length) → cooked_roomy K c →
      ∃ c3 cp, cooked_roomy K c3 ∧
        fuse_internal_readdir_processdata_loop K (fuel + 1) w u buf bufsize c cou =
          fuse_internal_readdir_processdata_loop K fuel w
            { uio_moved u cp (GENERIC_DIRSIZ (K.fuse_dirent_load buf).namelen) with
              offset := (K.fuse_dirent_load buf).off }
            (buf.drop (K.FUSE_DIRENT_SIZE (K.fuse_dirent_load buf).namelen))
            (bufsize - K.FUSE_DIRENT_SIZE (K.fuse_dirent_load buf).namelen) c3 (cou + 1)) :=
  ⟨fun r w' h => processdata_loop_step K fuel w u buf bufsize c cou h1 h2 h3 h4 h5 hf hrw r w' h,
   fun hstore hr => processdata_loop_emit_eq K hstore fuel w u buf bufsize c cou h1 h2 h3 h4
     h5 hf hrw hr⟩

/-- C33 witness: the first record of `demo_reply2`, of 32 bytes, named "ab":
the cursor advances by 32 bytes, not by the 12 bytes of the host record, and
the offset of the `uio` becomes 1, the `off` of the record. -/
theorem processdata_cursor_witness :
    sample.FUSE_DIRENT_SIZE (sample.fuse_dirent_load demo_reply2).namelen = 32 ∧
    GENERIC_DIRSIZ (sample.fuse_dirent_load demo_reply2).namelen = 12 ∧
    (sample.fuse_dirent_load demo_reply2).off = 1 ∧
    ∃ c3 cp,
      fuse_internal_readdir_processdata_loop sample 5 demo2 (demo_uio_read 4096) demo_reply2
          94 demo_cooked 0 =
        fuse_internal_readdir_processdata_loop sample 4 demo2
          { uio_moved (demo_uio_read 4096) cp 12 with offset := 1 }
          (demo_reply2.drop 32) (94 - 32) c3 1 := by
  obtain ⟨c3, cp, _, h⟩ := (processdata_cursor sample 4 demo2 (demo_uio_read 4096) demo_reply2
    94 demo_cooked 0 (by decide) (by decide) (by decide) (by decide) (by decide) rfl rfl).2
    (fun d b => poke_length b 0 _) ⟨rfl, by decide, Or.inr (by decide)⟩
  exact ⟨rfl, rfl, rfl, c3, cp, h⟩

/-! ## Properties: termination of the directory reading -/

/-- C37: for a record of the protocol with a name of 1 to `MAXNAMLEN` bytes the
size `bytesavail` of the host record is a multiple of 4 and leaves room for the
header, the name and one more byte; the cooked buffer is adjusted to the length
`bytesavail`; but the terminating NUL goes to the index `bytesavail`, which is
not below that length, and when the allocation has no more than `bytesavail`
bytes the write is outside it: the iteration faults. -/
theorem processdata_nul_index (K : Config) (fuel : Nat) (w w1 w2 : World) (u : uio)
    (buf : List Nat) (bufsize : Nat) (c c1 c2 : fuse_iov) (cou : Nat)
    (h1 : K.FUSE_NAME_OFFSET ≤ bufsize)
    (h2 : K.FUSE_DIRENT_SIZE (K.fuse_dirent_load buf).namelen ≤ bufsize)
    (h3 : 1 ≤ (K.fuse_dirent_load buf).namelen)
    (h4 : (K.fuse_dirent_load buf).namelen ≤ MAXNAMLEN)
    (h5 : GENERIC_DIRSIZ (K.fuse_dirent_load buf).namelen ≤ u.resid)
    (hstore : ∀ d b, (K.dirent_store d b).length = b.length)
    (hr : fiov_refresh K w c = .ret c1 w1)
    (ha : fiov_adjust K w1 c1 (GENERIC_DIRSIZ (K.fuse_dirent_load buf).namelen) = .ret c2 w2) :
    GENERIC_DIRSIZ (K.fuse_dirent_load buf).namelen % 4 = 0 ∧
    (sizeof_dirent - MAXNAMLEN - 1) + (K.fuse_dirent_load buf).namelen + 1 ≤
      GENERIC_DIRSIZ (K.fuse_dirent_load buf).namelen ∧
    c2.len = GENERIC_DIRSIZ (K.fuse_dirent_load buf).namelen ∧
    ¬ GENERIC_DIRSIZ (K.fuse_dirent_load buf).namelen < c2.len ∧
    (c2.base.length ≤ GENERIC_DIRSIZ (K.fuse_dirent_load buf).namelen →
      fuse_internal_readdir_processdata_loop K (fuel + 1) w u buf bufsize c cou = .fault) := by
  obtain ⟨b1, b2, b3, b4⟩ := GENERIC_DIRSIZ_bounds (K.fuse_dirent_load buf).namelen h4
  have hl := fiov_adjust_len ha
  refine ⟨b3, ?_, hl, by omega, fun hex => ?_⟩
  · have : sizeof_dirent - MAXNAMLEN - 1 = 8 := by decide
    omega
  · rw [fuse_internal_readdir_processdata_loop]
    simp only []
    rw [if_neg (by omega), if_neg (by omega), if_neg (by omega), if_neg (by omega),
      if_neg (by omega)]
    simp only [hr, ha]
    rw [if_neg (by rw [poke_length, hstore]; omega)]

/-- C37 witness, at the failing input: a record with a name of 200 bytes is
cooked into a buffer whose allocation has 16 bytes; the buffer is reallocated
with the 212 bytes of the host record, the NUL goes to the index 212, and the
call faults. -/
theorem processdata_nul_index_witness :
    GENERIC_DIRSIZ (sample.fuse_dirent_load demo_reply_long).namelen = 212 ∧
    (∃ c2 w2, fiov_adjust sample demo2 demo_cooked16 212 = .ret c2 w2 ∧
      c2.allocated_size = 212 ∧ c2.base.length = 212 ∧ c2.len = 212) ∧
    fuse_internal_readdir_processdata_loop sample (4096 + 1) demo2 (demo_uio_read 4096)
      demo_reply_long 224 demo_cooked16 0 = .fault ∧
    fuse_internal_readdir_processdata sample demo2 (demo_uio_read 4096) demo_reply_long 224
      demo_cooked16 = .fault :=
  ⟨rfl, ⟨_, _, rfl, rfl, rfl, rfl⟩,
   (processdata_nul_index sample 4096 demo2 demo2 _ (demo_uio_read 4096) demo_reply_long 224
      demo_cooked16 demo_cooked16 _ 0 (by decide) (by decide) (by decide) (by decide)
      (by decide) (fun d b => poke_length b 0 _) rfl rfl).2.2.2.2 (by decide),
   rfl⟩

/-! ## Properties: a reply that fails validation -/

theorem fuse_standard_handler_unanswered (K : Config) (w w1 : World) (p : Nat) (u : uio)
    (t : fuse_ticket) (r : Nat × uio) (ht : w.tick p = some t)
    (hbits : K.FT_KILLL &&& K.FT_ANSW = 0) (ha : fticket_answered K t = false)
    (hp : fticket_pull K w p u = .ret r w1) :
    ∃ t1, w1.tick p = some t1 ∧
      fuse_standard_handler K w p u = .ret r
        ((w1.setTick p { fticket_set_answered K t1 with tk_aw_errno := (r.1 : Int) }).emit
          (.wakeup (.ticket p))) := by
  obtain ⟨_, _, _, k4⟩ := fticket_pull_keeps hp
  obtain ⟨t1, ht1, _, _, _, _, hf⟩ := k4 t ht
  have ha1 : fticket_answered K t1 = false :=
    (fticket_answered_of_flag K t t1 hbits hf).trans ha
  refine ⟨t1, ht1, ?_⟩
  unfold fuse_standard_handler
  simp only [hp, ht1, ha1]
  rfl

/-- C36 (as amended): a reply whose pull fails with a status other than 0 on an
unanswered ticket leaves the ticket answered with that status in
`tk_aw_errno`; and when the requester finds the ticket answered with a
`tk_aw_errno` other than 0, `fdisp_wait_answ` ends with the drop of the ticket
and `answ_stat = 0`, and returns `EIO` when its wait returned 0, but the
status of the wait when the wait was interrupted or timed out. -/
theorem fdisp_wait_answ_failed_reply (K : Config) (during : World → World) (cur : Identity)
    (alerts : List (Nat × Nat)) (w w1 w2 w3 : World) (fdip : fuse_dispatcher)
    (t : fuse_ticket) (err : Nat)
    (h1 : fuse_insert_callback K w fdip.tick fuse_standard_handler_addr = .ret () w1)
    (h2 : fuse_insert_message K w1 fdip.tick = .ret () w2)
    (h3 : fticket_wait_answer K during cur alerts w2 fdip.tick = .ret err w3)
    (ht : w3.tick fdip.tick = some t) (hans : fticket_answered K t = true)
    (herrno : t.tk_aw_errno ≠ 0) :
    (∀ w4, fuse_ticket_drop K w3 fdip.tick = .ret () w4 →
      fdisp_wait_answ K during cur alerts w fdip =
        .ret ((if err = 0 then ( EIO : Int) else (err : Int)), { fdip with answ_stat := 0 })
          w4) ∧
    (∀ r w', fdisp_wait_answ K during cur alerts w fdip = .ret r w' →
      r = ((if err = 0 then ( EIO : Int) else (err : Int)), { fdip with answ_stat := 0 }) ∧
      fuse_ticket_drop K w3 fdip.tick = .ret () w') ∧
    (∀ (v v1 : World) (p : Nat) (u : uio) (t0 : fuse_ticket) (r : Nat × uio),
      v.tick p = some t0 → K.FT_KILLL &&& K.FT_ANSW = 0 → K.FT_ANSW ≠ 0 →
      fticket_answered K t0 = false → fticket_pull K v p u = .ret r v1 → r.1 ≠ 0 →
      ∃ v' t1, fuse_standard_handler K v p u = .ret r v' ∧ v'.tick p = some t1 ∧
        fticket_answered K t1 = true ∧ t1.tk_aw_errno = (r.1 : Int) ∧ t1.tk_aw_errno ≠ 0) := by
  have key := fdisp_wait_answ_eq h1 h2 h3
  have hkey : fdisp_wait_answ K during cur alerts w fdip =
      fdisp_wait_answ_out K w3 { fdip with answ_stat := 0 }
        (if err = 0 then ( EIO : Int) else (err : Int)) := by
    rw [key]
    unfold fdisp_wait_answ_tail
    simp only [ht, hans, if_true]
    by_cases he : err = 0
    · rw [if_neg (by simpa using he), if_pos herrno, if_pos he]
    · rw [if_pos he, if_neg he]
  refine ⟨fun w4 hd => ?_, fun r w' h => ?_, fun v v1 p u t0 r ht0 hbits hb ha0 hp hr => ?_⟩
  · rw [hkey]
    unfold fdisp_wait_answ_out
    simp only [hd]
  · rw [hkey] at h
    unfold fdisp_wait_answ_out at h
    split at h
    · cases h
    · cases h
    · rename_i x w5 hd
      simp only [Outcome.ret.injEq] at h
      obtain ⟨rfl, rfl⟩ := h
      exact ⟨rfl, hd⟩
  · obtain ⟨t1, ht1, hh⟩ := fuse_standard_handler_unanswered K v v1 p u t0 r ht0 hbits ha0 hp
    refine ⟨_, { fticket_set_answered K t1 with tk_aw_errno := (r.1 : Int) }, hh, ?_, ?_, rfl,
      ?_⟩
    · show (v1.setTick p { fticket_set_answered K t1 with tk_aw_errno := (r.1 : Int) }).tick p
        = _
      rw [tick_setTick, if_pos rfl, ht1]
      rfl
    · exact fticket_set_answered_answered K t1 hb
    · show ((r.1 : Nat) : Int) ≠ 0
      exact_mod_cast hr

/-- C36 witness: the `FUSE_INIT` request of `demo_init` is answered with a body
of 10 bytes, which the audit rejects with `EINVAL`; the wait returns 0 and
`fdisp_wait_answ` returns `EIO`. -/
theorem fdisp_wait_answ_failed_reply_witness :
    (demo_bad3.tickD 8192).tk_aw_errno = (EINVAL : Int) ∧
    ∃ w4, fdisp_wait_answ sample demo_bad_reply ⟨1, 0, 0⟩ [] demo_init demo_fdi_init =
      .ret (( EIO : Int), { demo_fdi_init with answ_stat := 0 }) w4 :=
  ⟨rfl, _, (fdisp_wait_answ_failed_reply sample demo_bad_reply ⟨1, 0, 0⟩ [] demo_init demo_wait1
    demo_wait2 demo_bad3 demo_fdi_init (demo_bad3.tickD 8192) 0 rfl rfl rfl rfl rfl
    (by decide)).1 _ rfl⟩

/-- C36 counterexample: the same reply, rejected with `EINVAL`, is delivered
while the sleep of the requester is interrupted: `fdisp_wait_answ` returns
`EINTR`, not `EIO`, with `answ_stat = 0` and the ticket dropped to the free
list. -/
theorem failed_reply_interrupted_wait :
    (demo_bad3_eintr.tickD 8192).tk_aw_errno = (EINVAL : Int) ∧
    fticket_answered sample (demo_bad3_eintr.tickD 8192) = true ∧
    ∃ w', fdisp_wait_answ sample demo_bad_reply ⟨1, 0, 0⟩ [] demo_init_eintr demo_fdi_init =
        .ret ((EINTR : Int), { demo_fdi_init with answ_stat := 0 }) w' ∧
      (EINTR : Int) ≠ ( EIO : Int) ∧ 8192 ∈ w'.data.freetickets_head :=
  ⟨rfl, rfl, _, rfl, by decide, by decide⟩

/-! ## Properties: the count of the registry -/

theorem CountInv.count_keep {w w' : World} (h : CountInv w)
    (ha : w'.data.alltickets_head = w.data.alltickets_head)
    (hf : w'.data.freetickets_head = w.data.freetickets_head)
    (ht : w'.data.ticketer = w.data.ticketer)
    (hd : w'.data.deadticket_counter = w.data.deadticket_counter) : CountInv w' where
  count := by rw [ha, ht, hd]; exact h.count
  free_all := by rw [ha, hf]; exact h.free_all

theorem CountInv.count_remove {w : World} (h : CountInv w) (p : Nat)
    (hp : p ∈ w.data.alltickets_head) (hnf : p ∉ w.data.freetickets_head) :
    CountInv (fticket_destroy (fuse_remove_allticks w p) p) where
  count := by
    obtain ⟨dead, h1, h2⟩ := h.count
    refine ⟨dead + 1, ?_, ?_⟩
    · show (w.data.alltickets_head.erase p).length + (dead + 1) = w.data.ticketer
      rw [List.length_erase_of_mem hp]
      have : 0 < w.data.alltickets_head.length := List.length_pos_of_mem hp
      omega
    · show (w.data.deadticket_counter + 1) % 2 ^ 32 = (dead + 1) % 2 ^ 32
      rw [h2]
      omega
  free_all := by
    intro q hq
    have hq' : q ∈ w.data.freetickets_head := hq
    show q ∈ w.data.alltickets_head.erase p
    have hne : q ≠ p := fun e => hnf (e ▸ hq')
    exact (List.mem_erase_of_ne hne).2 (h.free_all q hq')

theorem fuse_ticket_fetch_countInv {K : Config} {w w' : World} {p : Nat}
    (h : CountInv w) (hb : w.data.ticketer < 2 ^ 64) (hfree : FreeInv K w)
    (hr : fuse_ticket_fetch K w = .ret p w')
    (hfresh : w.data.freeticket_counter = 0 → Fresh K w p)
    (hnw : w.data.ticketer ≤ w'.data.ticketer) :
    CountInv w' ∧ p ∈ w'.data.alltickets_head ∧ p ∉ w'.data.freetickets_head := by
  obtain ⟨hne, ⟨hc, _, t, b, fl, tr, sl, _, _, rfl⟩ | ⟨hc, rest, fl, tr, sl, hf, rfl⟩⟩ :=
    fuse_ticket_fetch_ret hr
  · have hnw' : w.data.ticketer ≤ (w.data.ticketer + 1) % 2 ^ 64 := hnw
    have hlt : (w.data.ticketer + 1) % 2 ^ 64 = w.data.ticketer + 1 := by omega
    have hpf : p ∉ w.data.freetickets_head := fun hp =>
      (hfresh hc).1 ((mem_live_iff w p).2 (hfree.free_live p hp))
    refine ⟨⟨?_, ?_⟩, ?_, hpf⟩
    · obtain ⟨dead, h1, h2⟩ := h.count
      refine ⟨dead, ?_, h2⟩
      show (w.data.alltickets_head ++ [p]).length + dead = (w.data.ticketer + 1) % 2 ^ 64
      rw [hlt, List.length_append]
      simp only [List.length_singleton]
      omega
    · intro q hq
      show q ∈ w.data.alltickets_head ++ [p]
      exact List.mem_append_left _ (h.free_all q hq)
    · show p ∈ w.data.alltickets_head ++ [p]
      simp
  · refine ⟨⟨h.count, ?_⟩, ?_, ?_⟩
    · intro q hq
      have hq' : q ∈ rest := hq
      exact h.free_all q (by rw [hf]; exact List.mem_cons_of_mem _ hq')
    · exact h.free_all p (by rw [hf]; exact List.mem_cons_self _ _)
    · have hn := hfree.nodup
      rw [hf] at hn
      exact (List.nodup_cons.1 hn).1

theorem fdisp_ticket_countInv {K : Config} {w w' : World} {fdip : fuse_dispatcher}
    {q : Nat} (h : CountInv w) (hb : w.data.ticketer < 2 ^ 64) (hfree : FreeInv K w)
    (hr : fdisp_ticket K w fdip = .ret q w')
    (hheld : fdip.tick ≠ 0 → Held w fdip.tick)
    (hfresh : fdip.tick = 0 → w.data.freeticket_counter = 0 → Fresh K w q)
    (hnw : w.data.ticketer ≤ w'.data.ticketer) :
    CountInv w' ∧ q ∈ w'.data.alltickets_head ∧ q ∉ w'.data.freetickets_head := by
  obtain ⟨_, ⟨hk, rfl, hrr⟩ | ⟨hk, hrr⟩⟩ := fdisp_ticket_ret hr
  · obtain ⟨t, ms, aw, b, _, _, _, rfl⟩ := fticket_refresh_ret hrr
    exact ⟨h.count_keep rfl rfl rfl rfl, (hheld hk).1, (hheld hk).2⟩
  · exact fuse_ticket_fetch_countInv h hb hfree hrr (hfresh hk) hnw

theorem fdisp_ticket_countInv_any {K : Config} {w w' : World} {fdip : fuse_dispatcher}
    {q : Nat} (h : CountInv w) (hb : w.data.ticketer < 2 ^ 64) (hfree : FreeInv K w)
    (hr : fdisp_ticket K w fdip = .ret q w')
    (hfresh : fdip.tick = 0 → w.data.freeticket_counter = 0 → Fresh K w q)
    (hnw : w.data.ticketer ≤ w'.data.ticketer) : CountInv w' := by
  obtain ⟨_, ⟨hk, rfl, hrr⟩ | ⟨hk, hrr⟩⟩ := fdisp_ticket_ret hr
  · obtain ⟨t, ms, aw, b, _, _, _, rfl⟩ := fticket_refresh_ret hrr
    exact h.count_keep rfl rfl rfl rfl
  · exact (fuse_ticket_fetch_countInv h hb hfree hrr (hfresh hk) hnw).1

theorem step_countInv {K : Config} {w w' : World} (h : CountInv w)
    (hb : w.data.ticketer < 2 ^ 64) (hfree : FreeInv K w) (hs : Step K w w')
    (hnw : w.data.ticketer ≤ w'.data.ticketer) : CountInv w' := by
  cases hs with
  | fetch _ p hr hfresh => exact (fuse_ticket_fetch_countInv h hb hfree hr hfresh hnw).1
  | drop _ p hheld hr =>
    obtain ⟨t, ht, ⟨_, rfl⟩ | ⟨_, ms, aw, b, _, _, rfl⟩⟩ := fuse_ticket_drop_ret hr
    · exact h.count_remove p hheld.1 hheld.2
    · refine ⟨h.count, fun q hq => ?_⟩
      have hq' : q ∈ w.data.freetickets_head ++ [p] := hq
      rcases List.mem_append.1 hq' with h1 | h1
      · exact h.free_all q h1
      · rw [List.mem_singleton.1 h1]
        exact hheld.1
  | kill _ p hheld hr =>
    obtain ⟨_, rfl⟩ := fuse_ticket_kill_ret hr
    exact h.count_remove p hheld.1 hheld.2
  | insert_callback _ p handler _ hr =>
    obtain ⟨t, _, rfl | rfl⟩ := fuse_insert_callback_ret hr
    · exact h
    · exact h.count_keep rfl rfl rfl rfl
  | insert_message _ p _ hr =>
    obtain ⟨t, _, _, rfl | rfl⟩ := fuse_insert_message_ret hr
    · exact h.count_keep rfl rfl rfl rfl
    · exact h.count_keep rfl rfl rfl rfl
  | insert_message_head _ p _ hr =>
    obtain ⟨t, _, _, rfl | rfl⟩ := fuse_insert_message_head_ret hr
    · exact h.count_keep rfl rfl rfl rfl
    · exact h.count_keep rfl rfl rfl rfl
  | set_dead =>
    obtain ⟨fl, tr, hd⟩ := fdata_set_dead_world K w
    rw [hd]
    exact h.count_keep rfl rfl rfl rfl
  | disp_make _ fdip fdip' op nid context cur hr hfresh =>
    obtain ⟨q, w1, t, t', b, hq, _, _, hk, rfl⟩ := fdisp_make_ret hr
    exact (fdisp_ticket_countInv_any h hb hfree hq (hk ▸ hfresh) hnw).count_keep rfl rfl rfl rfl
  | disp_make_canfail _ fdip fdip' op nid context cur err hr hheld hfresh =>
    obtain ⟨q, w1, t, t', b, hq, _, _, hk, rfl | rfl⟩ := fdisp_make_canfail_ret hr
    · obtain ⟨h1, _, _⟩ := fdisp_ticket_countInv h hb hfree hq hheld (hk ▸ hfresh) hnw
      exact h1.count_keep rfl rfl rfl rfl
    · obtain ⟨h1, h2, h3⟩ := fdisp_ticket_countInv h hb hfree hq hheld (hk ▸ hfresh) hnw
      have h1' : CountInv (({ w1 with blocks := b } : World).setTick q t') :=
        h1.count_keep rfl rfl rfl rfl
      exact h1'.count_remove q h2 h3

theorem reachable_countInv {K : Config} {w : World} (hb : K.word_bits ≤ 32)
    (h : Reachable K NoWrap w) : CountInv w := by
  induction h with
  | init w0 w pid h0 hr =>
    obtain ⟨_, hf, _, ht, _, _, ha, hd, _⟩ := fdata_alloc_ret hr
    refine ⟨⟨0, by rw [ha, ht]; rfl, by rw [hd]; rfl⟩, ?_⟩
    rw [hf]
    simp
  | step w w' hw hs hg ih =>
    exact step_countInv ih (reachable_uniqInv hw).bound (reachable_freeInv hb hw) hs hg

/-- C35 (as amended): in every state of a session reached from `fdata_alloc` by
calls that return (fetch, drop and kill of a ticket held, the insertions,
`fdisp_make` and `fdisp_make_canfail`), the 64-bit `ticketer` not wrapping
around: the length of the all-tickets registry plus `deadticket_counter` is
`ticketer`, as 32-bit values; while `ticketer` is below `2 ^ 32` the length of
the registry is exactly `ticketer - deadticket_counter`; and every ticket on
the free list is in the registry. -/
theorem registry_count (K : Config) (w : World) (hb : K.word_bits ≤ 32)
    (h : Reachable K NoWrap w) :
    (w.data.alltickets_head.length + w.data.deadticket_counter) % 2 ^ 32 =
      w.data.ticketer % 2 ^ 32 ∧
    (w.data.ticketer < 2 ^ 32 →
      w.data.deadticket_counter ≤ w.data.ticketer ∧
      w.data.alltickets_head.length = w.data.ticketer - w.data.deadticket_counter) ∧
    (∀ p ∈ w.data.freetickets_head, p ∈ w.data.alltickets_head) := by
  obtain ⟨⟨dead, h1, h2⟩, h3⟩ := reachable_countInv hb h
  refine ⟨?_, fun hlt => ?_, h3⟩
  · rw [h2, ← h1]
    omega
  · have hd : dead % 2 ^ 32 = dead := Nat.mod_eq_of_lt (by omega)
    rw [h2, hd]
    omega

theorem demo_kill2_reachable : Reachable sample NoWrap demo_kill2 :=
  .step demo2 demo_kill2
    (.step demo1 demo2 (.init demo0 demo1 77 rfl rfl)
      (.fetch demo1 demo2 8192 rfl (fun _ => ⟨by decide, by decide⟩))
      (by unfold NoWrap; decide))
    (.kill demo2 demo_kill2 8192 ⟨by decide, by decide⟩ rfl)
    (by unfold NoWrap; decide)

/-- C35 witness: the session after a fetch and the kill of the ticket fetched:
the registry is empty, `ticketer` and `deadticket_counter` are both 1. -/
theorem registry_count_witness :
    demo_kill2.data.ticketer = 1 ∧ demo_kill2.data.deadticket_counter = 1 ∧
    demo_kill2.data.alltickets_head.length =
      demo_kill2.data.ticketer - demo_kill2.data.deadticket_counter :=
  ⟨rfl, rfl, ((registry_count sample demo_kill2 (by decide) demo_kill2_reachable).2.1
    (by decide)).2⟩

/-! ## Properties: the callback of the handshake -/

theorem or_or_and_left_bits (x a b : Nat) : ((x ||| a) ||| b) &&& a = a := by
  apply Nat.eq_of_testBit_eq
  intro i
  simp only [Nat.testBit_and, Nat.testBit_or]
  cases x.testBit i <;> cases a.testBit i <;> cases b.testBit i <;> rfl

theorem fuse_ticket_drop_scalars {K : Config} {w w' : World} {p : Nat} {u : Unit}
    (h : fuse_ticket_drop K w p = .ret u w') :
    w'.data.dataflags = w.data.dataflags ∧ w'.data.max_write = w.data.max_write ∧
    w'.data.fuse_libabi_major = w.data.fuse_libabi_major ∧
    w'.data.fuse_libabi_minor = w.data.fuse_libabi_minor ∧
    w'.data.ticketer = w.data.ticketer ∧ w'.trace = w.trace := by
  obtain ⟨t, ht, ⟨_, rfl⟩ | ⟨_, ms, aw, b, _, _, rfl⟩⟩ := fuse_ticket_drop_ret h
  · exact ⟨rfl, rfl, rfl, rfl, rfl, rfl⟩
  · exact ⟨rfl, rfl, rfl, rfl, rfl, rfl⟩

theorem init_callback_out_ret {K : Config} {w w' : World} {p : Nat} {err : Int} {u : Unit}
    (h : fuse_internal_init_callback_out K w p err = .ret u w') :
    ∃ w1, fuse_ticket_drop K w p = .ret () w1 ∧
      w' = (({ (if err ≠ 0 then fdata_kick_set K w1 else w1) with
        data := { (if err ≠ 0 then fdata_kick_set K w1 else w1).data with
          dataflags := (if err ≠ 0 then fdata_kick_set K w1 else w1).data.dataflags |||
            K.FSESS_INITED } } : World).emit (.wakeup .ticketer)) := by
  unfold fuse_internal_init_callback_out at h
  split at h
  · cases h
  · cases h
  · rename_i x w1 hd
    simp only [Outcome.ret.injEq] at h
    exact ⟨w1, hd, h.2.symm⟩

theorem init_callback_out_post {K : Config} {w w' : World} {p : Nat} {err : Int} {u : Unit}
    (h : fuse_internal_init_callback_out K w p err = .ret u w') :
    w'.data.dataflags &&& K.FSESS_INITED = K.FSESS_INITED ∧
    w'.trace = w.trace ++ [.wakeup .ticketer] ∧
    (err ≠ 0 → w'.data.dataflags &&& K.FSESS_KICK = K.FSESS_KICK ∧
      w'.data.dataflags = (w.data.dataflags ||| K.FSESS_KICK) ||| K.FSESS_INITED) ∧
    (err = 0 → w'.data.dataflags = w.data.dataflags ||| K.FSESS_INITED) ∧
    w'.data.max_write = w.data.max_write ∧
    w'.data.fuse_libabi_major = w.data.fuse_libabi_major ∧
    w'.data.fuse_libabi_minor = w.data.fuse_libabi_minor ∧
    w'.data.ticketer = w.data.ticketer := by
  obtain ⟨w1, hd, rfl⟩ := init_callback_out_ret h
  obtain ⟨d1, d2, d3, d4, d5, d6⟩ := fuse_ticket_drop_scalars hd
  by_cases he : err ≠ 0
  · simp only [if_pos he]
    refine ⟨or_and_self_bits _ _, ?_, fun _ => ⟨?_, ?_⟩, fun h0 => absurd h0 he, d2, d3, d4, d5⟩
    · show w1.trace ++ _ = _
      rw [d6]
    · exact or_or_and_left_bits _ _ _
    · show (w1.data.dataflags ||| K.FSESS_KICK) ||| K.FSESS_INITED = _
      rw [d1]
  · simp only [if_neg he]
    refine ⟨or_and_self_bits _ _, ?_, fun h0 => absurd h0 he, fun _ => ?_, d2, d3, d4, d5⟩
    · show w1.trace ++ _ = _
      rw [d6]
    · show w1.data.dataflags ||| K.FSESS_INITED = _
      rw [d1]

theorem init_callback_ret {K : Config} {w w' : World} {p : Nat} {u : uio} {r : Nat × uio}
    (h : fuse_internal_init_callback K w p u = .ret r w') :
    ∃ err w1, fuse_internal_init_callback_status K w p u = .ret (err, r.2) w1 ∧
      fuse_internal_init_callback_out K w1 p err = .ret () w' ∧ r.1 = 0 := by
  unfold fuse_internal_init_callback at h
  split at h
  · cases h
  · cases h
  · rename_i err u1 w1 hs
    split at h
    · cases h
    · cases h
    · rename_i x w2 ho
      simp only [Outcome.ret.injEq] at h
      obtain ⟨rfl, rfl⟩ := h
      exact ⟨err, w1, hs, ho, rfl⟩

/-- C40: every return of `fuse_internal_init_callback` returns 0 with
`FSESS_INITED` set and the waiters at the bootstrap gate woken up last, and
with `FSESS_KICK` set when the status at its label `out` is not 0; the call
returns whenever that label is reached and the drop of the ticket returns.
The status is the header error of the reply when there is one, the status of
`fticket_pull` when it fails, `EPROTONOSUPPORT` when `major < 7`, `EINVAL` for
an ABI of 7.5 or later whose reply has not the size of `struct fuse_init_out`,
and 0 otherwise, with `max_write` taken from the reply for an ABI of 7.5 or
later and set to 4096 for an older one. -/
theorem init_callback_spec (K : Config) (w : World) (ftick : Nat) (u : uio) :
    (∀ r w', fuse_internal_init_callback K w ftick u = .ret r w' →
      r.1 = 0 ∧ w'.data.dataflags &&& K.FSESS_INITED = K.FSESS_INITED ∧
      ∃ err w1, fuse_internal_init_callback_status K w ftick u = .ret (err, r.2) w1 ∧
        w'.trace = w1.trace ++ [.wakeup .ticketer] ∧
        (err ≠ 0 → w'.data.dataflags &&& K.FSESS_KICK = K.FSESS_KICK) ∧
        (err = 0 → w'.data.dataflags = w1.data.dataflags ||| K.FSESS_INITED) ∧
        w'.data.max_write = w1.data.max_write ∧
        w'.data.fuse_libabi_major = w1.data.fuse_libabi_major ∧
        w'.data.fuse_libabi_minor = w1.data.fuse_libabi_minor) ∧
    (∀ err u1 w1 w2, fuse_internal_init_callback_status K w ftick u = .ret (err, u1) w1 →
      fuse_ticket_drop K w1 ftick = .ret () w2 →
      ∃ w', fuse_internal_init_callback K w ftick u = .ret (0, u1) w') ∧
    (∀ t, w.tick ftick = some t → t.tk_aw_ohead.error ≠ 0 →
      fuse_internal_init_callback_status K w ftick u = .ret (t.tk_aw_ohead.error, u) w) ∧
    (∀ t err u1 w1, w.tick ftick = some t → t.tk_aw_ohead.error = 0 →
      fticket_pull K w ftick u = .ret (err, u1) w1 → err ≠ 0 →
      fuse_internal_init_callback_status K w ftick u = .ret ((err : Int), u1) w1) ∧
    (∀ t u1 w1 t1, w.tick ftick = some t → t.tk_aw_ohead.error = 0 →
      fticket_pull K w ftick u = .ret (0, u1) w1 → w1.tick ftick = some t1 →
      (K.init_out_major (fticket_resp t1).base < 7 →
        fuse_internal_init_callback_status K w ftick u =
          .ret ((EPROTONOSUPPORT : Int), u1) w1) ∧
      (7 ≤ K.init_out_major (fticket_resp t1).base →
        (fuse_libabi_geq
            { w1.data with fuse_libabi_major := K.init_out_major (fticket_resp t1).base,
                           fuse_libabi_minor := K.init_out_minor (fticket_resp t1).base }
            7 5 = true →
          ((fticket_resp t1).len = K.sizeof_fuse_init_out →
            fuse_internal_init_callback_status K w ftick u =
              .ret (0, u1)
                { w1 with data := { w1.data with
                    fuse_libabi_major := K.init_out_major (fticket_resp t1).base,
                    fuse_libabi_minor := K.init_out_minor (fticket_resp t1).base,
                    max_write := K.init_out_max_write (fticket_resp t1).base } }) ∧
          ((fticket_resp t1).len ≠ K.sizeof_fuse_init_out →
            fuse_internal_init_callback_status K w ftick u =
              .ret ((EINVAL : Int), u1)
                { w1 with data := { w1.data with
                    fuse_libabi_major := K.init_out_major (fticket_resp t1).base,
                    fuse_libabi_minor := K.init_out_minor (fticket_resp t1).base } })) ∧
        (fuse_libabi_geq
            { w1.data with fuse_libabi_major := K.init_out_major (fticket_resp t1).base,
                           fuse_libabi_minor := K.init_out_minor (fticket_resp t1).base }
            7 5 = false →
          fuse_internal_init_callback_status K w ftick u =
            .ret (0, u1)
              { w1 with data := { w1.data with
                  fuse_libabi_major := K.init_out_major (fticket_resp t1).base,
                  fuse_libabi_minor := K.init_out_minor (fticket_resp t1).base,
                  max_write := 4096 } }))) := by
  refine ⟨fun r w' h => ?_, fun err u1 w1 w2 hs hd => ?_, fun t ht he => ?_,
    fun t err u1 w1 ht he hp hne => ?_, fun t u1 w1 t1 ht he hp ht1 => ⟨fun hm => ?_,
      fun hm => ⟨fun hg => ⟨fun hl => ?_, fun hl => ?_⟩, fun hg => ?_⟩⟩⟩
  · obtain ⟨err, w1, hs, ho, h0⟩ := init_callback_ret h
    obtain ⟨p1, p2, p3, p4, p5, p6, p7, _⟩ := init_callback_out_post ho
    exact ⟨h0, p1, err, w1, hs, p2, fun hne => (p3 hne).1, p4, p5, p6, p7⟩
  · unfold fuse_internal_init_callback fuse_internal_init_callback_out
    simp only [hs, hd]
    exact ⟨_, rfl⟩
  · unfold fuse_internal_init_callback_status
    simp only [ht]
    rw [if_pos he]
  · unfold fuse_internal_init_callback_status
    simp only [ht, hp]
    rw [if_neg (by simpa using he), if_pos hne]
  · unfold fuse_internal_init_callback_status
    simp only [ht, hp, ht1]
    rw [if_neg (by simpa using he), if_neg (by simp), if_pos hm]
  · unfold fuse_internal_init_callback_status
    simp only [ht, hp, ht1]
    rw [if_neg (by simpa using he), if_neg (by simp), if_neg (by omega), if_pos hg, if_pos hl]
  · unfold fuse_internal_init_callback_status
    simp only [ht, hp, ht1]
    rw [if_neg (by simpa using he), if_neg (by simp), if_neg (by omega), if_pos hg, if_neg hl]
  · unfold fuse_internal_init_callback_status
    simp only [ht, hp, ht1]
    rw [if_neg (by simpa using he), if_neg (by simp), if_neg (by omega),
      if_neg (by simp [hg])]

/-- C40 witness: the `FUSE_INIT` request of `demo_init` answered with the
version 7.8 and a `max_write` of 65536, and answered with the version 6.0. -/
theorem init_callback_spec_witness :
    (∃ r w', fuse_internal_init_callback sample demo_init 8192 (demo_init_reply 7 8 65536) =
        .ret r w' ∧ r.1 = 0 ∧
      w'.data.dataflags &&& sample.FSESS_INITED = sample.FSESS_INITED ∧
      w'.data.dataflags &&& sample.FSESS_KICK = 0 ∧
      w'.data.max_write = 65536 ∧ w'.data.fuse_libabi_major = 7 ∧
      w'.data.fuse_libabi_minor = 8) ∧
    (∃ r w', fuse_internal_init_callback sample demo_init 8192 (demo_init_reply 6 0 65536) =
        .ret r w' ∧
      w'.data.dataflags &&& sample.FSESS_INITED = sample.FSESS_INITED ∧
      w'.data.dataflags &&& sample.FSESS_KICK = sample.FSESS_KICK ∧
      w'.data.max_write = 0 ∧ w'.data.fuse_libabi_major = 0) := by
  constructor
  · obtain ⟨r, w', h⟩ : ∃ r w', fuse_internal_init_callback sample demo_init 8192
        (demo_init_reply 7 8 65536) = .ret r w' := ⟨_, _, rfl⟩
    obtain ⟨e1, e2, _⟩ := (init_callback_spec sample demo_init 8192
      (demo_init_reply 7 8 65536)).1 r w' h
    have hw : w' = (fuse_internal_init_callback sample demo_init 8192
        (demo_init_reply 7 8 65536)).after demo_init := by rw [h]; rfl
    refine ⟨r, w', h, e1, e2, ?_, ?_, ?_, ?_⟩ <;> rw [hw] <;> rfl
  · obtain ⟨r, w', h⟩ : ∃ r w', fuse_internal_init_callback sample demo_init 8192
        (demo_init_reply 6 0 65536) = .ret r w' := ⟨_, _, rfl⟩
    obtain ⟨_, e2, _⟩ := (init_callback_spec sample demo_init 8192
      (demo_init_reply 6 0 65536)).1 r w' h
    have hw : w' = (fuse_internal_init_callback sample demo_init 8192
        (demo_init_reply 6 0 65536)).after demo_init := by rw [h]; rfl
    refine ⟨r, w', h, e2, ?_, ?_, ?_⟩ <;> rw [hw] <;> rfl

/-! ## Properties: a handshake below the version floor -/

theorem fuse_ticket_fetch_no_sleep {K : Config} {w w' : World} {p : Nat}
    (hi : w.data.dataflags &&& K.FSESS_INITED ≠ 0)
    (hr : fuse_ticket_fetch K w = .ret p w') :
    ∃ new, w'.trace = w.trace ++ new ∧ Event.msleep Chan.ticketer ∉ new := by
  obtain ⟨w1, hg, hfl, htr, _⟩ := fuse_ticket_fetch_pre_gate hr
  obtain ⟨_, new, hn, hiff⟩ := fuse_ticket_fetch_gate_blocks hg
  refine ⟨new, by rw [hn, htr], fun hm => ?_⟩
  have := (hiff.1 hm).1
  rw [hfl] at this
  exact hi this

/-- C32 (as amended): when the reply to the handshake has no header error, is
pulled without error and carries `major < 7`, `fuse_internal_init_callback`
returns 0 with `FSESS_KICK` set and with the version and `max_write` of the
session as they were; but it also sets `FSESS_INITED`: a `fuse_ticket_fetch`
made afterwards passes the bootstrap gate without sleeping. -/
theorem init_callback_old_major (K : Config) (w w1 w2 : World) (ftick : Nat) (u u1 : uio)
    (t t1 : fuse_ticket) (ht : w.tick ftick = some t) (he : t.tk_aw_ohead.error = 0)
    (hp : fticket_pull K w ftick u = .ret (0, u1) w1) (ht1 : w1.tick ftick = some t1)
    (hm : K.init_out_major (fticket_resp t1).base < 7)
    (hd : fuse_ticket_drop K w1 ftick = .ret () w2) (hI : K.FSESS_INITED ≠ 0) :
    ∃ w', fuse_internal_init_callback K w ftick u = .ret (0, u1) w' ∧
      w'.data.dataflags = (w.data.dataflags ||| K.FSESS_KICK) ||| K.FSESS_INITED ∧
      w'.data.dataflags &&& K.FSESS_KICK = K.FSESS_KICK ∧
      w'.data.fuse_libabi_major = w.data.fuse_libabi_major ∧
      w'.data.fuse_libabi_minor = w.data.fuse_libabi_minor ∧
      w'.data.max_write = w.data.max_write ∧
      ∀ p v, fuse_ticket_fetch K w' = .ret p v →
        ∃ new, v.trace = w'.trace ++ new ∧ Event.msleep Chan.ticketer ∉ new := by
  have hs : fuse_internal_init_callback_status K w ftick u =
      .ret ((EPROTONOSUPPORT : Int), u1) w1 := by
    unfold fuse_internal_init_callback_status
    simp only [ht, hp, ht1]
    rw [if_neg (by simpa using he), if_neg (by simp), if_pos hm]
  have hdata : w1.data = w.data := (fticket_pull_keeps hp).2.1
  have ho : ∃ w', fuse_internal_init_callback_out K w1 ftick (EPROTONOSUPPORT : Int) =
      .ret () w' := by
    unfold fuse_internal_init_callback_out
    simp only [hd]
    exact ⟨_, rfl⟩
  obtain ⟨w', ho⟩ := ho
  obtain ⟨p1, _, p3, _, p5, p6, p7, _⟩ := init_callback_out_post ho
  obtain ⟨q1, q2⟩ := p3 (by decide)
  refine ⟨w', ?_, by rw [q2, hdata], q1, by rw [p6, hdata], by rw [p7, hdata],
    by rw [p5, hdata], fun p v hf => ?_⟩
  · unfold fuse_internal_init_callback
    simp only [hs, ho]
  · exact fuse_ticket_fetch_no_sleep (by rw [p1]; exact hI) hf

/-- C32 witness: the `FUSE_INIT` request of `demo_init_two` answered with the
version 6.0. -/
theorem init_callback_old_major_witness :
    ∃ w', fuse_internal_init_callback sample demo_init_two 8192 (demo_init_reply 6 0 65536) =
        .ret (0, { demo_init_reply 6 0 65536 with resid := 0, offset := 24, data := [] }) w' ∧
      w'.data.dataflags &&& sample.FSESS_KICK = sample.FSESS_KICK ∧
      w'.data.fuse_libabi_major = demo_init_two.data.fuse_libabi_major ∧
      w'.data.max_write = demo_init_two.data.max_write := by
  obtain ⟨w', h1, _, h3, h4, _, h6, _⟩ := init_callback_old_major sample demo_init_two
    ((fticket_pull sample demo_init_two 8192 (demo_init_reply 6 0 65536)).after demo_init_two)
    ((fuse_ticket_drop sample
      ((fticket_pull sample demo_init_two 8192 (demo_init_reply 6 0 65536)).after demo_init_two)
      8192).after demo_init_two)
    8192 (demo_init_reply 6 0 65536)
    { demo_init_reply 6 0 65536 with resid := 0, offset := 24, data := [] }
    (demo_init_two.tickD 8192)
    (((fticket_pull sample demo_init_two 8192 (demo_init_reply 6 0 65536)).after
      demo_init_two).tickD 8192)
    rfl rfl rfl rfl (by decide) rfl (by decide)
  exact ⟨w', h1, h3, h4, h6⟩

/-- C32 counterexample: after the callback of a handshake answered with the
version 6.0, on a session that has counted two tickets, the session is kicked
and a `fuse_ticket_fetch` returns a ticket without sleeping at the bootstrap
gate and without marking the session dead. -/
theorem kicked_session_admits_fetch :
    demo_kicked.data.dataflags &&& sample.FSESS_KICK = sample.FSESS_KICK ∧
    1 < demo_kicked.data.ticketer ∧
    ∃ w', fuse_ticket_fetch sample demo_kicked = .ret 8192 w' ∧
      w'.trace = demo_kicked.trace ∧ fdata_dead_get sample w'.data = 0 :=
  ⟨rfl, by decide, _, rfl, rfl, rfl⟩

/-! ## Properties: the request of a new entry -/

theorem fiov_adjust_blocks_tick {K : Config} {w w' : World} {n : Nat} {f f' : fuse_iov}
    (h : fiov_adjust K w f n = .ret f' w') (q : Nat) : w'.tick q = w.tick q := by
  obtain ⟨b, rfl⟩ := fiov_adjust_ret h
  rfl

theorem newentry_block_ret {K : Config} {w w' : World} {dnid : Nat} {name : List Nat}
    {op : fuse_opcode} {buf : List Nat} {fdip fdi : fuse_dispatcher}
    {context : Option Identity} {cur : Identity}
    (h : fuse_internal_newentry_makerequest_block K w dnid name op buf fdip context cur =
      .ret fdi w') :
    ∃ q w0 t ms wa,
      fdisp_ticket K w
        { fdip with iosize := (buf.length + name.length + 1) % 2 ^ K.word_bits } = .ret q w0 ∧
      w0.tick q = some t ∧
      fiov_adjust K w0 t.tk_ms_fiov
        ((K.sizeof_fuse_in_header + (buf.length + name.length + 1) % 2 ^ K.word_bits) %
          2 ^ K.word_bits) = .ret ms wa ∧
      fdi = { fdip with iosize := (buf.length + name.length + 1) % 2 ^ K.word_bits,
                        tick := q, finh := 0, indata := K.sizeof_fuse_in_header } ∧
      w'.tick q = some
        { fuse_setup_ihead K { t with tk_ms_fiov := ms } dnid op
            ((buf.length + name.length + 1) % 2 ^ K.word_bits) context cur with
          tk_ms_fiov :=
            { (fuse_setup_ihead K { t with tk_ms_fiov := ms } dnid op
                ((buf.length + name.length + 1) % 2 ^ K.word_bits) context
                cur).tk_ms_fiov with
              base := poke (fuse_setup_ihead K { t with tk_ms_fiov := ms } dnid op
                ((buf.length + name.length + 1) % 2 ^ K.word_bits) context
                cur).tk_ms_fiov.base K.sizeof_fuse_in_header (buf ++ name ++ [0]) } } := by
  unfold fuse_internal_newentry_makerequest_block at h
  simp only [] at h
  split at h
  · cases h
  · cases h
  · rename_i fdi0 w1 hm
    unfold fdisp_make at hm
    split at hm
    · cases hm
    · cases hm
    · rename_i q w0 hq
      split at hm
      · cases hm
      · rename_i t ht
        split at hm
        · cases hm
        · cases hm
        · rename_i ms wa ha
          simp only [Outcome.ret.injEq] at hm
          obtain ⟨rfl, rfl⟩ := hm
          have hwa : wa.tick q = some t := (fiov_adjust_blocks_tick ha q).trans ht
          have htk : (wa.setTick q (fuse_setup_ihead K { t with tk_ms_fiov := ms } dnid op
              ((buf.length + name.length + 1) % 2 ^ K.word_bits) context cur)).tick q =
              some (fuse_setup_ihead K { t with tk_ms_fiov := ms } dnid op
              ((buf.length + name.length + 1) % 2 ^ K.word_bits) context cur) := by
            rw [tick_setTick, if_pos rfl, hwa]; rfl
          simp only [htk] at h
          split at h
          · simp only [Outcome.ret.injEq] at h
            obtain ⟨rfl, rfl⟩ := h
            refine ⟨q, w0, t, ms, wa, hq, ht, ha, rfl, ?_⟩
            rw [setTick_setTick, tick_setTick, if_pos rfl, hwa]
            rfl
          · cases h

theorem fuse_setup_ihead_base (K : Config) (t : fuse_ticket) (nid : Nat) (op : fuse_opcode)
    (n : Nat) (context : Option Identity) (cur : Identity) :
    ∃ h : fuse_in_header, h.len = (K.sizeof_fuse_in_header + n) % 2 ^ 32 ∧
      h.unique = t.tk_unique ∧ h.nodeid = nid ∧ h.opcode = op ∧
      ∀ t' : fuse_ticket, t'.tk_unique = t.tk_unique →
        (fuse_setup_ihead K t' nid op n context cur).tk_ms_fiov.base =
          K.ihead_store h t'.tk_ms_fiov.base :=
  by
  cases context with
  | none =>
    exact ⟨{ len := (K.sizeof_fuse_in_header + n) % 2 ^ 32, unique := t.tk_unique,
             nodeid := nid, opcode := op, pid := cur.pid, uid := cur.uid, gid := cur.gid },
      rfl, rfl, rfl, rfl, fun t' e => by unfold fuse_setup_ihead; simp only [e]⟩
  | some c =>
    exact ⟨{ len := (K.sizeof_fuse_in_header + n) % 2 ^ 32, unique := t.tk_unique,
             nodeid := nid, opcode := op, pid := c.pid, uid := c.uid, gid := c.gid },
      rfl, rfl, rfl, rfl, fun t' e => by unfold fuse_setup_ihead; simp only [e]⟩

/-- C34 (as amended): when the two runs of the block of
`fuse_internal_newentry_makerequest` return, the second run leaves the
dispatcher as the first left it (the same ticket, the same `iosize`) and the
ticket with the same `tk_unique` and the same length of the send buffer; after
each run the send buffer is the same header (length, unique, node, opcode and
identity) stored over what the buffer held, with the fixed body, the name and a
NUL after it; and `tk_age` is one more.  The bytes that neither the header
fields nor the body cover are whatever the buffer held. -/
theorem newentry_makerequest_twice (K : Config) (w w1 w2 : World) (dnid : Nat)
    (name : List Nat) (op : fuse_opcode) (buf : List Nat) (fdip fdi1 fdi2 : fuse_dispatcher)
    (context : Option Identity) (cur : Identity) (t1 t2 : fuse_ticket)
    (h1 : fuse_internal_newentry_makerequest_block K w dnid name op buf fdip context cur =
      .ret fdi1 w1)
    (h2 : fuse_internal_newentry_makerequest_block K w1 dnid name op buf fdi1 context cur =
      .ret fdi2 w2)
    (ht1 : w1.tick fdi1.tick = some t1) (ht2 : w2.tick fdi2.tick = some t2) :
    fuse_internal_newentry_makerequest K w dnid name op buf fdip context cur = .ret fdi2 w2 ∧
    fdi2 = fdi1 ∧
    fdi1.iosize = (buf.length + name.length + 1) % 2 ^ K.word_bits ∧
    t2.tk_unique = t1.tk_unique ∧
    t2.tk_ms_fiov.len = t1.tk_ms_fiov.len ∧
    t2.tk_age = (t1.tk_age + 1) % 2 ^ 32 ∧
    ∃ (h : fuse_in_header) (b1 b2 : List Nat),
      h.len = (K.sizeof_fuse_in_header + fdi1.iosize) % 2 ^ 32 ∧
      h.unique = t1.tk_unique ∧ h.nodeid = dnid ∧ h.opcode = op ∧
      t1.tk_ms_fiov.base = poke (K.ihead_store h b1) fdi1.indata (buf ++ name ++ [0]) ∧
      t2.tk_ms_fiov.base = poke (K.ihead_store h b2) fdi1.indata (buf ++ name ++ [0]) := by
  obtain ⟨q, w0, ta, msa, wa, hqa, hta, haa, hfa, hwa⟩ := newentry_block_ret h1
  obtain ⟨q', w0', tb, msb, wb, hqb, htb, hab, hfb, hwb⟩ := newentry_block_ret h2
  have hq1 : fdi1.tick = q := by rw [hfa]
  obtain ⟨hq0, ⟨hk, hqq, hrr⟩ | ⟨hk, _⟩⟩ := fdisp_ticket_ret hqb
  swap
  · obtain ⟨hqne, _⟩ := fdisp_ticket_ret hqa
    exact absurd (show fdi1.tick = 0 from hk) (by rw [hq1]; exact hqne)
  have hqq' : q = q' := (hqq.trans hq1).symm
  subst hqq'
  have hf2 : fdi2 = fdi1 := by rw [hfb, hfa]
  rw [hq1] at ht1
  rw [hf2, hq1] at ht2
  rw [hwa] at ht1
  rw [hwb] at ht2
  have hrr' : fticket_refresh K w1 q = .ret () w0' := by rw [← hq1]; exact hrr
  obtain ⟨tr, ms, aw, b, htr, _, _, hw0'⟩ := fticket_refresh_ret hrr'
  have hi1 : fdi1.iosize = (buf.length + name.length + 1) % 2 ^ K.word_bits := by rw [hfa]
  have hin : fdi1.indata = K.sizeof_fuse_in_header := by rw [hfa]
  have htr' : w1.tick q = some tr := htr
  rw [hwa] at htr'
  have htb' : tb = refreshed tr ms aw := by
    rw [hw0', tick_setTick_blocks, if_pos rfl, htr] at htb
    simpa using htb.symm
  simp only [Option.some.injEq] at ht1 ht2 htr'
  have hub : tb.tk_unique = ta.tk_unique := by
    rw [htb', ← htr']
    rfl
  obtain ⟨h, hl, hu, hn, ho, hb⟩ := fuse_setup_ihead_base K { ta with tk_ms_fiov := msa } dnid
    op ((buf.length + name.length + 1) % 2 ^ K.word_bits) context cur
  refine ⟨?_, hf2, hi1, ?_, ?_, ?_, h, msa.base, msb.base, ?_, ?_, hn, ho, ?_, ?_⟩
  · unfold fuse_internal_newentry_makerequest
    simp only [h1, h2]
  · rw [← ht1, ← ht2]
    exact hub
  · rw [← ht1, ← ht2]
    show msb.len = msa.len
    rw [fiov_adjust_len hab, fiov_adjust_len haa]
  · rw [← ht1, ← ht2, htb', ← htr']
    rfl
  · rw [hi1]
    exact hl
  · rw [← ht1]
    exact hu
  · rw [← ht1, hin]
    show poke (fuse_setup_ihead K { ta with tk_ms_fiov := msa } dnid op _ context
      cur).tk_ms_fiov.base _ _ = _
    rw [hb { ta with tk_ms_fiov := msa } rfl]
  · rw [← ht2, hin]
    show poke (fuse_setup_ihead K { tb with tk_ms_fiov := msb } dnid op _ context
      cur).tk_ms_fiov.base _ _ = _
    rw [hb { tb with tk_ms_fiov := msb } hub]

theorem newentry_makerequest_twice_witness :
    fuse_internal_newentry_makerequest sample demo_dirty 1 (List.replicate 200 97)
        .FUSE_MKDIR [1, 2, 3, 4, 5, 6, 7, 8] (demo_fdi 0) none ⟨1, 0, 0⟩ =
      .ret demo_ne_fdi1 demo_ne_w2 ∧
    demo_ne_fdi1.iosize = 209 ∧
    (demo_ne_w2.tickD demo_ne_fdi1.tick).tk_ms_fiov.len = 249 ∧
    (demo_ne_w1.tickD demo_ne_fdi1.tick).tk_ms_fiov.len = 249 ∧
    (demo_ne_w1.tickD demo_ne_fdi1.tick).tk_age = 0 ∧
    (demo_ne_w2.tickD demo_ne_fdi1.tick).tk_age = 1 :=
  have h := newentry_makerequest_twice sample demo_dirty demo_ne_w1 demo_ne_w2 1
    (List.replicate 200 97) .FUSE_MKDIR [1, 2, 3, 4, 5, 6, 7, 8] (demo_fdi 0) demo_ne_fdi1
    demo_ne_fdi1 none ⟨1, 0, 0⟩ (demo_ne_w1.tickD demo_ne_fdi1.tick)
    (demo_ne_w2.tickD demo_ne_fdi1.tick) rfl rfl rfl rfl
  ⟨h.1, rfl, rfl, rfl, rfl, h.2.2.2.2.2.1⟩

/-- C34 (counterexample): on `demo_dirty`, where the allocator hands out a
block of bytes 170, the 200-byte name makes the block reallocate the send
buffer.  After one run of the block byte 36 of the send buffer, which no header
field and no part of the body covers, is 170; after
`fuse_internal_newentry_makerequest` it is 0: the two send buffers, of the same
length 249, differ in more than `tk_age`. -/
theorem newentry_single_run_dirty_padding :
    fuse_internal_newentry_makerequest_block sample demo_dirty 1 (List.replicate 200 97)
        .FUSE_MKDIR [1, 2, 3, 4, 5, 6, 7, 8] (demo_fdi 0) none ⟨1, 0, 0⟩ =
      .ret demo_ne_fdi1 demo_ne_w1 ∧
    fuse_internal_newentry_makerequest sample demo_dirty 1 (List.replicate 200 97)
        .FUSE_MKDIR [1, 2, 3, 4, 5, 6, 7, 8] (demo_fdi 0) none ⟨1, 0, 0⟩ =
      .ret demo_ne_fdi1 demo_ne_w2 ∧
    (demo_ne_w1.tickD demo_ne_fdi1.tick).tk_ms_fiov.len = 249 ∧
    (demo_ne_w2.tickD demo_ne_fdi1.tick).tk_ms_fiov.len = 249 ∧
    (demo_ne_w1.tickD demo_ne_fdi1.tick).tk_ms_fiov.base.get? 36 = some 170 ∧
    (demo_ne_w2.tickD demo_ne_fdi1.tick).tk_ms_fiov.base.get? 36 = some 0 ∧
    (demo_ne_w1.tickD demo_ne_fdi1.tick).tk_ms_fiov.base ≠
      (demo_ne_w2.tickD demo_ne_fdi1.tick).tk_ms_fiov.base :=
  ⟨rfl, rfl, rfl, rfl, rfl, rfl, by decide⟩

/-! ## Properties: the reply to a request of a new entry -/

theorem fuse_ticket_drop_ms {K : Config} {w w' : World} {p : Nat} {u : Unit}
    (h : fuse_ticket_drop K w p = .ret u w') :
    w'.data.ms_head = w.data.ms_head ∧ w'.data.alltickets_head.length ≤
      w.data.alltickets_head.length := by
  obtain ⟨t, ht, ⟨_, rfl⟩ | ⟨_, ms, aw, b, _, _, rfl⟩⟩ := fuse_ticket_drop_ret h
  · exact ⟨rfl, List.length_erase_le _ _⟩
  · exact ⟨rfl, le_refl _⟩

theorem fuse_insert_message_enqueues {K : Config} {w w' : World} {p : Nat} {u : Unit}
    (h : fuse_insert_message K w p = .ret u w') (hd : fdata_dead_get K w'.data = 0) :
    w'.data.ms_head = w.data.ms_head ++ [p] := by
  unfold fuse_insert_message at h
  split at h
  · cases h
  · split at h
    · cases h
    · simp only at h
      split at h
      · rename_i hdead
        simp only [Outcome.ret.injEq, true_and] at h
        subst h
        exact absurd hd hdead
      · simp only [Outcome.ret.injEq, true_and] at h
        subst h
        rfl

theorem fdisp_make_ret_full {K : Config} {w w' : World} {fdip fdi : fuse_dispatcher}
    {op : fuse_opcode} {nid : Nat} {context : Option Identity} {cur : Identity}
    (h : fdisp_make K w fdip op nid context cur = .ret fdi w') :
    ∃ q w0 t ms wa, fdisp_ticket K w fdip = .ret q w0 ∧ w0.tick q = some t ∧
      fiov_adjust K w0 t.tk_ms_fiov
        ((K.sizeof_fuse_in_header + fdip.iosize) % 2 ^ K.word_bits) = .ret ms wa ∧
      fdi = { fdip with tick := q, finh := 0, indata := K.sizeof_fuse_in_header } ∧
      w' = wa.setTick q
        (fuse_setup_ihead K { t with tk_ms_fiov := ms } nid op fdip.iosize context cur) := by
  unfold fdisp_make at h
  split at h
  · cases h
  · cases h
  · rename_i q w0 hq
    split at h
    · cases h
    · rename_i t ht
      split at h
      · cases h
      · cases h
      · rename_i ms wa ha
        simp only [Outcome.ret.injEq] at h
        exact ⟨q, w0, t, ms, wa, hq, ht, ha, h.1.symm, h.2.symm⟩

theorem forget_send_ret {K : Config} {w w' : World} {context : Option Identity}
    {cur : Identity} {nodeid nlookup : Nat} {fdip fdi : fuse_dispatcher}
    (h : fuse_internal_forget_send K w context cur nodeid nlookup fdip = .ret fdi w') :
    fdi.tick ≠ 0 ∧
    (fdata_dead_get K w'.data = 0 → w'.data.ms_head = w.data.ms_head ++ [fdi.tick]) ∧
    ∃ (t : fuse_ticket) (hd : fuse_in_header) (b : List Nat),
      w'.tick fdi.tick = some t ∧ hd.opcode = .FUSE_FORGET ∧ hd.nodeid = nodeid ∧
      hd.unique = t.tk_unique ∧
      t.tk_ms_fiov.base = (K.ihead_store hd b).take K.sizeof_fuse_in_header ++
        K.forget_in_store nlookup ((K.ihead_store hd b).drop K.sizeof_fuse_in_header) := by
  unfold fuse_internal_forget_send at h
  split at h
  · cases h
  · cases h
  · rename_i fdi0 w1 hm
    obtain ⟨q, w0, t, ms, wa, hq, ht, ha, hf, hw1⟩ := fdisp_make_ret_full hm
    have hqf : fdi0.tick = q := by rw [hf]
    have hwa : wa.tick q = some t := (fiov_adjust_blocks_tick ha q).trans ht
    have hw1q : w1.tick q = some (fuse_setup_ihead K { t with tk_ms_fiov := ms } nodeid
        .FUSE_FORGET (fdisp_init fdip K.sizeof_fuse_forget_in).iosize context cur) := by
      rw [hw1, tick_setTick, if_pos rfl, hwa]
      rfl
    rw [hqf] at h
    simp only [hw1q] at h
    split at h
    · cases h
    · cases h
    · rename_i u w2 hi
      simp only [Outcome.ret.injEq] at h
      obtain ⟨rfl, rfl⟩ := h
      obtain ⟨b, hb⟩ := fiov_adjust_ret ha
      have hms0 : w1.data.ms_head = w.data.ms_head := by
        rw [hw1, hb]
        exact (fdisp_ticket_data hq).2.1
      obtain ⟨hd, _, hu, hn, ho, hbase⟩ := fuse_setup_ihead_base K { t with tk_ms_fiov := ms }
        nodeid .FUSE_FORGET (fdisp_init fdip K.sizeof_fuse_forget_in).iosize context cur
      refine ⟨by rw [hqf]; exact (fdisp_ticket_ret hq).1, ?_, ?_⟩
      · intro hdead
        rw [fuse_insert_message_enqueues hi hdead, hqf]
        exact congrArg (· ++ [q]) hms0
      · obtain ⟨t3, ht3, _, hor⟩ := fuse_insert_message_ret hi
        rw [tick_setTick, if_pos rfl, hw1q] at ht3
        simp only [Option.map_some', Option.some.injEq] at ht3
        refine ⟨{ t3 with tk_flag := t3.tk_flag ||| K.FT_DIRTY }, hd, ms.base, ?_, ho, hn, ?_, ?_⟩
        · rw [hqf]
          rcases hor with e | e
          · rw [e, tick_setTick, if_pos rfl, tick_setTick, if_pos rfl, hw1q]
            rfl
          · rw [e]
            show ((w1.setTick q _).setTick q _).tick q = _
            rw [tick_setTick, if_pos rfl, tick_setTick, if_pos rfl, hw1q]
            rfl
        · rw [hu, ← ht3]
          rfl
        · rw [← ht3, hf]
          show (fuse_setup_ihead K { t with tk_ms_fiov := ms } nodeid .FUSE_FORGET _ context
            cur).tk_ms_fiov.base.take _ ++ K.forget_in_store nlookup
            ((fuse_setup_ihead K { t with tk_ms_fiov := ms } nodeid .FUSE_FORGET _ context
            cur).tk_ms_fiov.base.drop _) = _
          rw [hbase { t with tk_ms_fiov := ms } rfl]

/-- C31 (as amended): in `fuse_internal_newentry_core`, when the reply is
successful but `fuse_internal_checkentry` rejects the returned descriptor, the
ticket is dropped, the validation error is returned to the caller and no host
node is created (the result does not depend on `fuse_vget_i`); no
`FUSE_FORGET` is enqueued: the pending-send queue is as `fdisp_wait_answ` left
it, no ticket is fetched and no event is logged.  A `FUSE_FORGET` for the
returned node id, with `nlookup` 1, is enqueued when the descriptor passes and
`fuse_vget_i` fails: then its error is returned and the new ticket is at the
end of the pending-send queue of a session that is not dead. -/
theorem newentry_core_checkentry_rejects (K : Config) (during : World → World)
    (cur : Identity) (alerts : List (Nat × Nat)) (checkentry : List Nat → vtype → Int)
    (w w1 : World) (vtyp : vtype) (fdip fdi1 : fuse_dispatcher) (context : Option Identity)
    (t : fuse_ticket)
    (hw : fdisp_wait_answ K during cur alerts w fdip = .ret (0, fdi1) w1)
    (ht : w1.tick fdi1.tick = some t) :
    (checkentry ((fticket_resp t).base.drop fdi1.answ) vtyp ≠ 0 →
      (∀ vget : World → Nat → Outcome Int,
        fuse_internal_newentry_core K during cur alerts checkentry vget w vtyp fdip context =
          fuse_internal_newentry_core_out K w1 fdi1
            (checkentry ((fticket_resp t).base.drop fdi1.answ) vtyp)) ∧
      (∀ w2, fuse_ticket_drop K w1 fdi1.tick = .ret () w2 →
        (∀ vget : World → Nat → Outcome Int,
          fuse_internal_newentry_core K during cur alerts checkentry vget w vtyp fdip
            context =
            .ret (checkentry ((fticket_resp t).base.drop fdi1.answ) vtyp, fdi1) w2) ∧
        w2.data.ms_head = w1.data.ms_head ∧ w2.data.ticketer = w1.data.ticketer ∧
        w2.trace = w1.trace)) ∧
    (checkentry ((fticket_resp t).base.drop fdi1.answ) vtyp = 0 →
      ∀ (vget : World → Nat → Outcome Int) (err2 : Int) (w2 : World) (t2 : fuse_ticket),
        vget w1 (K.entry_out_nodeid ((fticket_resp t).base.drop fdi1.answ)) = .ret err2 w2 →
        err2 ≠ 0 → w2.tick fdi1.tick = some t2 →
        ∀ r w3,
          fuse_internal_newentry_core K during cur alerts checkentry vget w vtyp fdip
            context = .ret r w3 →
          r.1 = err2 ∧ r.2.tick ≠ 0 ∧
          (fdata_dead_get K w3.data = 0 → w3.data.ms_head = w2.data.ms_head ++ [r.2.tick]) ∧
          ∃ (t3 : fuse_ticket) (hd : fuse_in_header) (b : List Nat),
            w3.tick r.2.tick = some t3 ∧ hd.opcode = .FUSE_FORGET ∧
            hd.nodeid = K.entry_out_nodeid ((fticket_resp t2).base.drop fdi1.answ) ∧
            hd.unique = t3.tk_unique ∧
            t3.tk_ms_fiov.base = (K.ihead_store hd b).take K.sizeof_fuse_in_header ++
              K.forget_in_store 1 ((K.ihead_store hd b).drop K.sizeof_fuse_in_header)) := by
  have hcore : ∀ vget : World → Nat → Outcome Int,
      fuse_internal_newentry_core K during cur alerts checkentry vget w vtyp fdip context =
        if checkentry ((fticket_resp t).base.drop fdi1.answ) vtyp ≠ 0 then
          fuse_internal_newentry_core_out K w1 fdi1
            (checkentry ((fticket_resp t).base.drop fdi1.answ) vtyp)
        else
          match vget w1 (K.entry_out_nodeid ((fticket_resp t).base.drop fdi1.answ)) with
          | .panic m w2 => .panic m w2
          | .fault => .fault
          | .ret err2 w2 =>
            if err2 ≠ 0 then
              match w2.tick fdi1.tick with
              | none => .fault
              | some t2 =>
                match fuse_internal_forget_send K w2 context cur
                    (K.entry_out_nodeid ((fticket_resp t2).base.drop fdi1.answ)) 1 fdi1 with
                | .panic m w3 => .panic m w3
                | .fault => .fault
                | .ret fdi2 w3 => .ret (err2, fdi2) w3
            else
              fuse_internal_newentry_core_out K w2 fdi1 err2 := by
    intro vget
    unfold fuse_internal_newentry_core
    simp only [hw, ht, ne_eq, not_true_eq_false, if_false]
  refine ⟨fun he => ⟨fun vget => ?_, fun w2 hd => ⟨fun vget => ?_, ?_⟩⟩, fun h0 => ?_⟩
  · rw [hcore, if_pos he]
  · rw [hcore, if_pos he]
    unfold fuse_internal_newentry_core_out
    simp only [hd]
  · exact ⟨(fuse_ticket_drop_ms hd).1, (fuse_ticket_drop_scalars hd).2.2.2.2.1,
      (fuse_ticket_drop_scalars hd).2.2.2.2.2⟩
  · intro vget err2 w2 t2 hv he2 ht2 r w3 hr
    rw [hcore, if_neg (by rw [h0]; exact fun h => h rfl)] at hr
    simp only [hv, if_pos he2, ht2] at hr
    split at hr
    · cases hr
    · cases hr
    · rename_i fdi2 w3' hf
      simp only [Outcome.ret.injEq] at hr
      obtain ⟨rfl, rfl⟩ := hr
      obtain ⟨h1, h2, h3⟩ := forget_send_ret hf
      exact ⟨rfl, h1, h2, h3⟩

theorem newentry_core_checkentry_rejects_witness :
    fuse_internal_newentry_core sample demo_entry_daemon ⟨1, 0, 0⟩ []
        (fun _ _ => (EINVAL : Int)) (fun w _ => .ret 0 w) demo_ne_w2 .VDIR demo_ne_fdi1 none =
      .ret ((EINVAL : Int), { demo_ne_fdi1 with iosize := 144 }) demo_ne_rejected ∧
    demo_ne_rejected.data.ms_head = demo_ne_w3.data.ms_head ∧
    demo_ne_rejected.data.ticketer = demo_ne_w3.data.ticketer ∧
    demo_ne_rejected.trace = demo_ne_w3.trace ∧
    demo_ne_vget_failed.data.ms_head = demo_ne_w3.data.ms_head ++ [12288] :=
  have h := (newentry_core_checkentry_rejects sample demo_entry_daemon ⟨1, 0, 0⟩ []
    (fun _ _ => (EINVAL : Int)) demo_ne_w2 demo_ne_w3 .VDIR demo_ne_fdi1
    { demo_ne_fdi1 with iosize := 144 } none (demo_ne_w3.tickD 8192) rfl rfl).1 (by decide)
  have g := (newentry_core_checkentry_rejects sample demo_entry_daemon ⟨1, 0, 0⟩ []
    (fun _ _ => 0) demo_ne_w2 demo_ne_w3 .VDIR demo_ne_fdi1
    { demo_ne_fdi1 with iosize := 144 } none (demo_ne_w3.tickD 8192) rfl rfl).2 rfl
    (fun w _ => .ret 5 w) 5 demo_ne_w3 (demo_ne_w3.tickD 8192) rfl (by decide) rfl
    (5, { demo_ne_fdi1 with iosize := 8, tick := 12288 }) demo_ne_vget_failed rfl
  ⟨(h.2 demo_ne_rejected rfl).1 _, (h.2 demo_ne_rejected rfl).2.1,
    (h.2 demo_ne_rejected rfl).2.2.1, (h.2 demo_ne_rejected rfl).2.2.2, g.2.2.1 rfl⟩

/-- C31 (counterexample): the `FUSE_MKDIR` request of `demo_ne_fdi1` is
answered with a descriptor of node 9 that `fuse_internal_checkentry` rejects
with `EINVAL`.  `fuse_internal_newentry_core` returns `EINVAL`, and no
`FUSE_FORGET` is enqueued: the pending-send queue is empty, the one ticket of
the session is back on the free list and no other ticket was fetched.  When
instead `fuse_vget_i` fails, the ticket 12288 of the `FUSE_FORGET` is on the
queue. -/
theorem checkentry_rejection_sends_no_forget :
    fuse_internal_newentry_core sample demo_entry_daemon ⟨1, 0, 0⟩ []
        (fun _ _ => (EINVAL : Int)) (fun w _ => .ret 0 w) demo_ne_w2 .VDIR demo_ne_fdi1 none =
      .ret ((EINVAL : Int), { demo_ne_fdi1 with iosize := 144 }) demo_ne_rejected ∧
    sample.entry_out_nodeid ((fticket_resp (demo_ne_w3.tickD 8192)).base.drop 0) = 9 ∧
    demo_ne_rejected.data.ms_head = [] ∧
    demo_ne_rejected.data.alltickets_head = [8192] ∧
    demo_ne_rejected.data.freetickets_head = [8192] ∧
    demo_ne_rejected.data.ticketer = 1 ∧
    demo_ne_vget_failed.data.ms_head = [12288] :=
  ⟨rfl, rfl, rfl, rfl, rfl, rfl, rfl⟩

/-! ## Properties: the run of the write loop -/

theorem fticket_alloc_blocks {K : Config} {w w' : World} {p : Nat} {b1 b2 : List Nat}
    {bs : List (Option (List Nat))} (hbk : w.blocks = some b1 :: some b2 :: bs)
    (h : fticket_alloc K w = .ret p w') : w'.blocks = bs := by
  unfold fticket_alloc FUSE_OSMalloc at h
  rcases hmm : w.mallocs with _ | ⟨a, rest⟩
  · simp [hmm] at h
  · simp only [hmm] at h
    split at h
    · simp at h
    · simp only [fiov_init, FUSE_OSMalloc_buf, hbk, Outcome.ret.injEq] at h
      rw [← h.2]

theorem fuse_ticket_fetch_alloc_shape {K : Config} {w : World} {a : Nat} {ms : List Nat}
    {b1 b2 : List Nat} {bs : List (Option (List Nat))}
    (hc : w.data.freeticket_counter = 0) (hm : w.mallocs = a :: ms) (ha : a ≠ 0)
    (hbk : w.blocks = some b1 :: some b2 :: bs) :
    ∃ t fl tr sl, fuse_ticket_fetch K w = .ret a
      { w with
        data := { w.data with
          ticketer := (w.data.ticketer + 1) % 2 ^ 64,
          alltickets_head := w.data.alltickets_head ++ [a],
          dataflags := fl },
        heap := (a, t) :: w.heap, mallocs := ms, blocks := bs, trace := tr, sleeps := sl } := by
  have halloc : ∃ w1, fticket_alloc K w = .ret a w1 := by
    unfold fticket_alloc
    simp [FUSE_OSMalloc, hm, ha, fiov_init, FUSE_OSMalloc_buf, hbk]
  obtain ⟨w1, hw1⟩ := halloc
  have hb1 := fticket_alloc_blocks hbk hw1
  obtain ⟨_, _, t, b, _, _, e1⟩ := fticket_alloc_ret hw1
  have hbb : b = bs := by rw [e1] at hb1; exact hb1
  subst hbb
  obtain ⟨w', hg⟩ := fuse_ticket_fetch_gate_total K (fuse_push_allticks w1 a) a
  obtain ⟨_, fl, tr, sl, e2⟩ := fuse_ticket_fetch_gate_ret hg
  refine ⟨t, fl, tr, sl, ?_⟩
  unfold fuse_ticket_fetch
  rw [if_pos hc]
  simp only [hw1]
  rw [if_neg ha, hg, e2, e1, hm]
  rfl

theorem roundInv_round {N n : Nat} {w : World} (hi : RoundInv N n w) (hn : n < N)
    (h32 : n < 2 ^ 32) (hr : Reachable sample NoWrap w) :
    ∃ w', Reachable sample NoWrap w' ∧ RoundInv N (n + 1) w' := by
  have hmal : w.mallocs = 8192 :: List.replicate (N - (n + 1)) 8192 := by
    rw [hi.mallocs]
    have e : N - n = (N - (n + 1)) + 1 := by omega
    rw [e, List.replicate_succ]
  have hblk : w.blocks = some [] :: some [] :: List.replicate (2 * (N - (n + 1))) (some []) := by
    rw [hi.blocks]
    have e : 2 * (N - n) = 2 * (N - (n + 1)) + 1 + 1 := by omega
    rw [e, List.replicate_succ, List.replicate_succ]
  obtain ⟨t, fl, tr, sl, hf⟩ :=
    fuse_ticket_fetch_alloc_shape (K := sample) hi.freecount hmal (by decide) hblk
  have hfresh : Fresh sample w 8192 := by
    refine ⟨?_, by decide⟩
    unfold World.live
    rw [hi.heap]
    simp
  have hstep1 := Step.fetch w _ 8192 hf (fun _ => hfresh)
  have hg1 : NoWrap w
      { w with
        data := { w.data with
          ticketer := (w.data.ticketer + 1) % 2 ^ 64,
          alltickets_head := w.data.alltickets_head ++ [8192],
          dataflags := fl },
        heap := (8192, t) :: w.heap, mallocs := List.replicate (N - (n + 1)) 8192,
        blocks := List.replicate (2 * (N - (n + 1))) (some []), trace := tr, sleeps := sl } := by
    show w.data.ticketer ≤ (w.data.ticketer + 1) % 2 ^ 64
    rw [hi.ticketer, Nat.mod_eq_of_lt (by omega)]
    omega
  have hr1 := Reachable.step _ _ hr hstep1 hg1
  have hheld : Held
      { w with
        data := { w.data with
          ticketer := (w.data.ticketer + 1) % 2 ^ 64,
          alltickets_head := w.data.alltickets_head ++ [8192],
          dataflags := fl },
        heap := (8192, t) :: w.heap, mallocs := List.replicate (N - (n + 1)) 8192,
        blocks := List.replicate (2 * (N - (n + 1))) (some []), trace := tr, sleeps := sl }
      8192 := by
    refine ⟨?_, ?_⟩
    · show 8192 ∈ w.data.alltickets_head ++ [8192]
      simp
    · show 8192 ∉ w.data.freetickets_head
      rw [hi.free]
      simp
  have hkill : fuse_ticket_kill
      { w with
        data := { w.data with
          ticketer := (w.data.ticketer + 1) % 2 ^ 64,
          alltickets_head := w.data.alltickets_head ++ [8192],
          dataflags := fl },
        heap := (8192, t) :: w.heap, mallocs := List.replicate (N - (n + 1)) 8192,
        blocks := List.replicate (2 * (N - (n + 1))) (some []), trace := tr, sleeps := sl }
      8192 = .ret () (fticket_destroy (fuse_remove_allticks
      { w with
        data := { w.data with
          ticketer := (w.data.ticketer + 1) % 2 ^ 64,
          alltickets_head := w.data.alltickets_head ++ [8192],
          dataflags := fl },
        heap := (8192, t) :: w.heap, mallocs := List.replicate (N - (n + 1)) 8192,
        blocks := List.replicate (2 * (N - (n + 1))) (some []), trace := tr, sleeps := sl }
      8192) 8192) := by
    unfold fuse_ticket_kill World.tick
    simp [List.lookup]
  refine ⟨_, Reachable.step _ _ hr1 (Step.kill _ _ 8192 hheld hkill) ?_, ?_⟩
  · show (w.data.ticketer + 1) % 2 ^ 64 ≤ (w.data.ticketer + 1) % 2 ^ 64
    exact le_refl _
  · refine ⟨?_, ?_, ?_, ?_, ?_, ?_, rfl, rfl⟩
    · show ((8192, t) :: w.heap).filter (fun e => e.1 ≠ 8192) = []
      rw [hi.heap]
      simp
    · show (w.data.alltickets_head ++ [8192]).erase 8192 = []
      rw [hi.all]
      simp
    · exact hi.free
    · exact hi.freecount
    · show (w.data.ticketer + 1) % 2 ^ 64 = n + 1
      rw [hi.ticketer, Nat.mod_eq_of_lt (by omega)]
    · show (w.data.deadticket_counter + 1) % 2 ^ 32 = (n + 1) % 2 ^ 32
      rw [hi.dead]
      omega

theorem roundInv_reach (N : Nat) (hN : N ≤ 2 ^ 32) :
    ∀ n, n ≤ N → ∃ w, Reachable sample NoWrap w ∧ RoundInv N n w := by
  intro n
  induction n with
  | zero =>
    intro _
    refine ⟨_, Reachable.init (demo_rounds0 N) _ 77 rfl rfl, ?_⟩
    exact ⟨rfl, rfl, rfl, rfl, rfl, rfl, rfl, rfl⟩
  | succ n ih =>
    intro hn
    obtain ⟨w, hr, hi⟩ := ih (by omega)
    exact roundInv_round hi (by omega) (by omega) hr

/-- C35 (counterexample): after `2 ^ 32` rounds of a `fuse_ticket_fetch` and the
`fuse_ticket_kill` of the ticket fetched, each by the caller that holds it, on
the session `fdata_alloc` creates, the registry is empty, `ticketer` is
`2 ^ 32` and the 32-bit `deadticket_counter` has wrapped around to 0: the
length of the registry, 0, is not `ticketer - deadticket_counter`. -/
theorem registry_count_wraps :
    ∃ w, Reachable sample NoWrap w ∧ w.data.ticketer = 2 ^ 32 ∧
      w.data.deadticket_counter = 0 ∧ w.data.alltickets_head = [] ∧
      w.data.alltickets_head.length ≠ w.data.ticketer - w.data.deadticket_counter := by
  obtain ⟨w, hr, hi⟩ := roundInv_reach (2 ^ 32) (le_refl _) (2 ^ 32) (le_refl _)
  have hd : w.data.deadticket_counter = 0 := by
    rw [hi.dead]
    norm_num
  refine ⟨w, hr, hi.ticketer, hd, hi.all, ?_⟩
  rw [hi.all, hi.ticketer, hd]
  norm_num

/-! ## Properties: the end of the write loop -/

end Fuse
